import Mathlib

/-!
# DB8500 PRCMU driver (`arch/arm/mach-ux500/prcmu-db8500.c`)

A shallow embedding of the clock/PLL rate engine, the mailbox-1 reference
counted requests, the wakeup configurator, the communication-timeout
controller, the request operations of mailboxes 0 to 5 and the interrupt
dispatch, followed by the properties established about them.

Conventions.
* `u8`, `u32`, `unsigned int`, `unsigned long` and `long` values are natural
  numbers below `2 ^ 32` (the target is 32-bit ARM); `u64` values are below
  `2 ^ 64`.  Every C operation that can wrap is followed by `u32` or `u64`.
  A `long` is carried as its 32-bit pattern.
* A division whose divisor is zero has no result (`none`).
* Busy-wait loops on a hardware bit are modelled by their exit condition.
* Arguments are values of their C types; a call that ends in `BUG()`,
  `BUG_ON` or `panic` halts (`Outcome.halted`).
-/

namespace Prcmu

/-! ## Machine words -/

/-- Truncation to a 32-bit word (`u32`, `unsigned long` on the target). -/
def u32 (x : Nat) : Nat := x % 4294967296

/-- Truncation to a 64-bit word (`u64`, `unsigned long long`). -/
def u64 (x : Nat) : Nat := x % 18446744073709551616

/-- Bitwise complement of a 32-bit mask, the C expression `~m` at type `u32`. -/
def not32 (m : Nat) : Nat := 4294967295 ^^^ m

/-- Unsigned division, undefined for a zero divisor (`/` and `do_div`). -/
def udiv (a b : Nat) : Option Nat := if b = 0 then none else some (a / b)

/-- Errno value `EINVAL`. -/
def EINVAL : Int := 22

/-- Errno value `EIO`. -/
def EIO_errno : Int := 5

/-! ## Register layout -/

/-- Modelled from the spec: the header `prcmu-regs-db8500.h` is not among the
sources.  The divider field of a clock-management register is five bits wide
(dividers are clamped to `[1,31]`). -/
def PRCM_CLK_MGT_CLKPLLDIV_MASK : Nat := 0x1f

/-- Modelled from the spec: selector value of `PRCM_*_MGT` for PLL SOC0
(`prcmu-regs-db8500.h` is not among the sources). -/
def PRCM_CLK_MGT_CLKPLLSW_SOC0 : Nat := 0x20

/-- Modelled from the spec: selector value of `PRCM_*_MGT` for PLL SOC1
(`prcmu-regs-db8500.h` is not among the sources). -/
def PRCM_CLK_MGT_CLKPLLSW_SOC1 : Nat := 0x40

/-- Modelled from the spec: selector value of `PRCM_*_MGT` for PLL DDR
(`prcmu-regs-db8500.h` is not among the sources). -/
def PRCM_CLK_MGT_CLKPLLSW_DDR : Nat := 0x80

/-- Modelled from the spec: the PLL-switch selector field of `PRCM_*_MGT`
(`prcmu-regs-db8500.h` is not among the sources). -/
def PRCM_CLK_MGT_CLKPLLSW_MASK : Nat := 0xe0

/-- Modelled from the spec: the clock-enable bit of `PRCM_*_MGT`
(`prcmu-regs-db8500.h` is not among the sources). -/
def PRCM_CLK_MGT_CLKEN : Nat := 0x100

/-- Modelled from the spec: the bit of `PRCM_*_MGT` selecting the 38.4 MHz
root (`prcmu-regs-db8500.h` is not among the sources). -/
def PRCM_CLK_MGT_CLK38 : Nat := 0x200

/-- Modelled from the spec: the half-divider bit for the 38.4 MHz root
(`prcmu-regs-db8500.h` is not among the sources). -/
def PRCM_CLK_MGT_CLK38DIV : Nat := 0x800

/-- Modelled from the spec: the divide-by-2.5 enable bit of `PRCM_SGACLK_MGT`
(`prcmu-regs-db8500.h` is not among the sources). -/
def PRCM_SGACLK_MGT_SGACLKDIV_BY_2_5_EN : Nat := 0x1000

/-- Modelled from the spec: position of the multiplier field of a PLL
frequency register (`prcmu-regs-db8500.h` is not among the sources). -/
def PRCM_PLL_FREQ_D_SHIFT : Nat := 0

/-- Modelled from the spec: the multiplier field (feedback divider, up to
255) of a PLL frequency register. -/
def PRCM_PLL_FREQ_D_MASK : Nat := 0xff

/-- Modelled from the spec: position of the divide-by-N field of a PLL
frequency register (`prcmu-regs-db8500.h` is not among the sources). -/
def PRCM_PLL_FREQ_N_SHIFT : Nat := 8

/-- Modelled from the spec: the divide-by-N field of a PLL frequency
register. -/
def PRCM_PLL_FREQ_N_MASK : Nat := 0x3f00

/-- Modelled from the spec: position of the divide-by-R field of a PLL
frequency register (`prcmu-regs-db8500.h` is not among the sources). -/
def PRCM_PLL_FREQ_R_SHIFT : Nat := 16

/-- Modelled from the spec: the divide-by-R field (output divider, up to 7)
of a PLL frequency register. -/
def PRCM_PLL_FREQ_R_MASK : Nat := 0x70000

/-- Modelled from the spec: the divide-by-2 flag of a PLL frequency register
(`prcmu-regs-db8500.h` is not among the sources). -/
def PRCM_PLL_FREQ_SELDIV2 : Nat := 0x1000000

/-- Modelled from the spec: the second divide-by-2 flag of a PLL frequency
register (`prcmu-regs-db8500.h` is not among the sources). -/
def PRCM_PLL_FREQ_DIV2EN : Nat := 0x2000000

/-- Modelled from the spec: the single-bit hardware semaphore in `PRCM_SEM`
(`prcmu-regs-db8500.h` is not among the sources). -/
def PRCM_SEM_PRCM_SEM : Nat := 0x1

/-- Modelled from the spec: selector codes of `PRCM_DSI_PLLOUT_SEL`
(`prcmu-regs-db8500.h` is not among the sources). -/
def PRCM_DSI_PLLOUT_SEL_OFF : Nat := 0

/-- Modelled from the spec: selector code for the undivided DSI PLL output. -/
def PRCM_DSI_PLLOUT_SEL_PHI : Nat := 1

/-- Modelled from the spec: selector code for the DSI PLL output divided by 2. -/
def PRCM_DSI_PLLOUT_SEL_PHI_2 : Nat := 2

/-- Modelled from the spec: selector code for the DSI PLL output divided by 4. -/
def PRCM_DSI_PLLOUT_SEL_PHI_4 : Nat := 3

/-- Branch kinds of `struct clk_mgt` (the anonymous enum of the source). -/
def PLL_RAW : Nat := 0

/-- Branch kind: the PLL output is always divided by two. -/
def PLL_FIX : Nat := 1

/-- Branch kind: the PLL output is divided by the clock's own divider. -/
def PLL_DIV : Nat := 2

/-- Root oscillator rate in Hz. -/
def ROOT_CLOCK_RATE : Nat := 38400000

/-- Lower bound of the PLL VCO range. -/
def MIN_PLL_VCO_RATE : Nat := 600000000

/-- Upper bound of the PLL VCO range. -/
def MAX_PLL_VCO_RATE : Nat := 1680640000

/-! ## Clock identifiers -/

/-- Modelled from the spec: `enum prcmu_clock` of `mach/prcmu.h` is not among
the sources.  The regulated clocks are numbered in the order of the `clk_mgt`
table; `PRCMU_SGACLK` is the first. -/
def PRCMU_SGACLK : Nat := 0

/-- Modelled from the spec: id of the HDMI clock, entry 17 of `clk_mgt`. -/
def PRCMU_HDMICLK : Nat := 17

/-- Modelled from the spec: id of the TV clock, entry 25 of `clk_mgt`. -/
def PRCMU_TVCLK : Nat := 25

/-- Modelled from the spec: number of regulated clocks, the length of the
`clk_mgt` table. -/
def PRCMU_NUM_REG_CLOCKS : Nat := 29

/-- Modelled from the spec: id of the system clock (`mach/prcmu.h` is not
among the sources; the ids after the regulated clocks are consecutive). -/
def PRCMU_SYSCLK : Nat := 29

/-- Modelled from the spec: id of the timer clock. -/
def PRCMU_TIMCLK : Nat := 30

/-- Modelled from the spec: id of PLL SOC0. -/
def PRCMU_PLLSOC0 : Nat := 31

/-- Modelled from the spec: id of PLL SOC1. -/
def PRCMU_PLLSOC1 : Nat := 32

/-- Modelled from the spec: id of PLL DDR. -/
def PRCMU_PLLDDR : Nat := 33

/-- Modelled from the spec: id of the DSI PLL. -/
def PRCMU_PLLDSI : Nat := 34

/-- Modelled from the spec: id of DSI clock 0. -/
def PRCMU_DSI0CLK : Nat := 35

/-- Modelled from the spec: id of DSI clock 1. -/
def PRCMU_DSI1CLK : Nat := 36

/-- Modelled from the spec: id of DSI escape clock 0. -/
def PRCMU_DSI0ESCCLK : Nat := 37

/-- Modelled from the spec: id of DSI escape clock 1. -/
def PRCMU_DSI1ESCCLK : Nat := 38

/-- Modelled from the spec: id of DSI escape clock 2. -/
def PRCMU_DSI2ESCCLK : Nat := 39

/-! ## Registers and clock descriptors -/

/-- The registers of the PRCMU window read or written by the rate engine.
`CLK_MGT clock` is the management register at `clk_mgt[clock].offset`. -/
inductive Reg where
  | CLK_MGT (clock : Nat)
  | ACLK_MGT
  | PLLSOC0_FREQ
  | PLLSOC1_FREQ
  | PLLDDR_FREQ
  | PLLDSI_FREQ
  | DSI_PLLOUT_SEL
  | DSITVCLK_DIV
  | SEM
  deriving DecidableEq

/-- The constant columns `branch` and `clk38div` of the `clk_mgt` table. -/
def clk_mgt_table : List (Nat × Bool) :=
  [ (PLL_DIV, false),  -- SGACLK
    (PLL_FIX, true),   -- UARTCLK
    (PLL_FIX, true),   -- MSP02CLK
    (PLL_FIX, true),   -- MSP1CLK
    (PLL_FIX, true),   -- I2CCLK
    (PLL_DIV, true),   -- SDMMCCLK
    (PLL_FIX, true),   -- SLIMCLK
    (PLL_DIV, true),   -- PER1CLK
    (PLL_DIV, true),   -- PER2CLK
    (PLL_DIV, true),   -- PER3CLK
    (PLL_DIV, true),   -- PER5CLK
    (PLL_DIV, true),   -- PER6CLK
    (PLL_DIV, true),   -- PER7CLK
    (PLL_FIX, true),   -- LCDCLK
    (PLL_DIV, true),   -- BMLCLK
    (PLL_DIV, true),   -- HSITXCLK
    (PLL_DIV, true),   -- HSIRXCLK
    (PLL_FIX, false),  -- HDMICLK
    (PLL_DIV, true),   -- APEATCLK
    (PLL_DIV, true),   -- APETRACECLK
    (PLL_DIV, true),   -- MCDECLK
    (PLL_FIX, true),   -- IPI2CCLK
    (PLL_FIX, false),  -- DSIALTCLK
    (PLL_DIV, true),   -- DMACLK
    (PLL_DIV, true),   -- B2R2CLK
    (PLL_FIX, false),  -- TVCLK
    (PLL_FIX, true),   -- SSPCLK
    (PLL_FIX, true),   -- RNGCLK
    (PLL_FIX, false) ] -- UICCCLK

/-- The field `clk_mgt[clock].branch`. -/
def clk_mgt_branch (clock : Nat) : Nat := (clk_mgt_table.getD clock (PLL_RAW, false)).1

/-- The field `clk_mgt[clock].clk38div`. -/
def clk_mgt_clk38div (clock : Nat) : Bool := (clk_mgt_table.getD clock (PLL_RAW, false)).2

/-- Modelled from the spec: the field `dsiescclk[n].div_mask`, whose value
`PRCM_DSITVCLK_DIV_DSIn_ESC_CLK_DIV_MASK` comes from `prcmu-regs-db8500.h`,
not among the sources: an eight-bit divider per escape clock. -/
def dsiescclk_div_mask (n : Nat) : Nat := 0xff <<< (8 * n)

/-- Modelled from the spec: the field `dsiescclk[n].div_shift`
(`prcmu-regs-db8500.h` is not among the sources). -/
def dsiescclk_div_shift (n : Nat) : Nat := 8 * n

/-- Modelled from the spec: the field `dsiclk[n].divsel_mask`, whose value
`PRCM_DSI_PLLOUT_SEL_DSIn_PLLOUT_DIVSEL_MASK` comes from
`prcmu-regs-db8500.h`, not among the sources. -/
def dsiclk_divsel_mask (n : Nat) : Nat := 0x7 <<< (8 * n)

/-- Modelled from the spec: the field `dsiclk[n].divsel_shift`
(`prcmu-regs-db8500.h` is not among the sources). -/
def dsiclk_divsel_shift (n : Nat) : Nat := 8 * n

/-- State of the clock tree seen by the rate engine: the register window, the
remembered selector `clk_mgt[clock].pllsw` and `dsiclk[n].divsel`. -/
structure ClkState where
  regs : Reg → Nat
  pllsw : Nat → Nat
  divsel : Nat → Nat

/-- The operation `readl(_PRCMU_BASE + reg)`. -/
def readl (s : ClkState) (reg : Reg) : Nat := u32 (s.regs reg)

/-- The operation `writel(value, _PRCMU_BASE + reg)`. -/
def writel (s : ClkState) (value : Nat) (reg : Reg) : ClkState :=
  { s with regs := fun r => if r = reg then u32 value else s.regs r }

/-! ## Rate queries -/

/-- The divisor `div` accumulated by `pll_rate` from the register value `val`. -/
def pll_div (val : Nat) (reg_offset : Reg) (branch : Nat) : Nat :=
  let dn := (val &&& PRCM_PLL_FREQ_N_MASK) >>> PRCM_PLL_FREQ_N_SHIFT
  let div1 := if dn > 1 then u32 (1 * dn) else 1
  let dr := (val &&& PRCM_PLL_FREQ_R_MASK) >>> PRCM_PLL_FREQ_R_SHIFT
  let div2 := if dr > 1 then u32 (div1 * dr) else div1
  let div3 := if val &&& PRCM_PLL_FREQ_SELDIV2 ≠ 0 then u32 (div2 * 2) else div2
  if branch = PLL_FIX ∨ (branch = PLL_DIV ∧ val &&& PRCM_PLL_FREQ_DIV2EN ≠ 0 ∧
      (reg_offset = Reg.PLLSOC0_FREQ ∨ reg_offset = Reg.PLLDDR_FREQ)) then
    u32 (div3 * 2)
  else div3

/-- The function `pll_rate`: the 64-bit product of the source rate and the
multiplier field, divided by `pll_div` and truncated to `unsigned long`. -/
def pll_rate (s : ClkState) (reg_offset : Reg) (src_rate : Nat) (branch : Nat) : Nat :=
  let val := readl s reg_offset
  let rate := u64 (src_rate * ((val &&& PRCM_PLL_FREQ_D_MASK) >>> PRCM_PLL_FREQ_D_SHIFT))
  u32 (rate / pll_div val reg_offset branch)

/-- The expression `r = rate * 10; do_div(r, 25)` shared by `clock_rate`,
`round_clock_rate` and `set_clock_rate`: the product is formed in
`unsigned long` and only then widened to `u64`. -/
def div_by_2_5 (rate : Nat) : Nat := u64 (u32 (rate * 10)) / 25

/-- The function `clock_rate`. -/
def clock_rate (s : ClkState) (clock : Nat) : Nat :=
  let rate := ROOT_CLOCK_RATE
  let val := readl s (Reg.CLK_MGT clock)
  if val &&& PRCM_CLK_MGT_CLK38 ≠ 0 then
    if clk_mgt_clk38div clock = true ∧ val &&& PRCM_CLK_MGT_CLK38DIV ≠ 0 then rate / 2
    else rate
  else
    let val := val ||| s.pllsw clock
    let pllsw := val &&& PRCM_CLK_MGT_CLKPLLSW_MASK
    let src : Option Nat :=
      if pllsw = PRCM_CLK_MGT_CLKPLLSW_SOC0 then
        some (pll_rate s Reg.PLLSOC0_FREQ rate (clk_mgt_branch clock))
      else if pllsw = PRCM_CLK_MGT_CLKPLLSW_SOC1 then
        some (pll_rate s Reg.PLLSOC1_FREQ rate (clk_mgt_branch clock))
      else if pllsw = PRCM_CLK_MGT_CLKPLLSW_DDR then
        some (pll_rate s Reg.PLLDDR_FREQ rate (clk_mgt_branch clock))
      else none
    match src with
    | none => 0
    | some rate =>
      if clock = PRCMU_SGACLK ∧ val &&& PRCM_SGACLK_MGT_SGACLKDIV_BY_2_5_EN ≠ 0 then
        u32 (div_by_2_5 rate)
      else
        let val := val &&& PRCM_CLK_MGT_CLKPLLDIV_MASK
        if val ≠ 0 then rate / val else 0

/-- The function `dsiclk_rate`; the fall-through `switch` yields the divisor
4, 2 or 1. -/
def dsiclk_rate (s : ClkState) (n : Nat) : Nat :=
  let divsel := readl s Reg.DSI_PLLOUT_SEL
  let divsel := (divsel &&& dsiclk_divsel_mask n) >>> dsiclk_divsel_shift n
  let divsel := if divsel = PRCM_DSI_PLLOUT_SEL_OFF then s.divsel n else divsel
  if divsel = PRCM_DSI_PLLOUT_SEL_PHI_4 then
    pll_rate s Reg.PLLDSI_FREQ (clock_rate s PRCMU_HDMICLK) PLL_RAW / 4
  else if divsel = PRCM_DSI_PLLOUT_SEL_PHI_2 then
    pll_rate s Reg.PLLDSI_FREQ (clock_rate s PRCMU_HDMICLK) PLL_RAW / 2
  else if divsel = PRCM_DSI_PLLOUT_SEL_PHI then
    pll_rate s Reg.PLLDSI_FREQ (clock_rate s PRCMU_HDMICLK) PLL_RAW / 1
  else 0

/-- The function `dsiescclk_rate`. -/
def dsiescclk_rate (s : ClkState) (n : Nat) : Nat :=
  let div := readl s Reg.DSITVCLK_DIV
  let div := (div &&& dsiescclk_div_mask n) >>> dsiescclk_div_shift n
  clock_rate s PRCMU_TVCLK / max 1 div

/-- The function `prcmu_clock_rate`. -/
def prcmu_clock_rate (s : ClkState) (clock : Nat) : Nat :=
  if clock < PRCMU_NUM_REG_CLOCKS then clock_rate s clock
  else if clock = PRCMU_TIMCLK then ROOT_CLOCK_RATE / 16
  else if clock = PRCMU_SYSCLK then ROOT_CLOCK_RATE
  else if clock = PRCMU_PLLSOC0 then pll_rate s Reg.PLLSOC0_FREQ ROOT_CLOCK_RATE PLL_RAW
  else if clock = PRCMU_PLLSOC1 then pll_rate s Reg.PLLSOC1_FREQ ROOT_CLOCK_RATE PLL_RAW
  else if clock = PRCMU_PLLDDR then pll_rate s Reg.PLLDDR_FREQ ROOT_CLOCK_RATE PLL_RAW
  else if clock = PRCMU_PLLDSI then
    pll_rate s Reg.PLLDSI_FREQ (clock_rate s PRCMU_HDMICLK) PLL_RAW
  else if clock = PRCMU_DSI0CLK ∨ clock = PRCMU_DSI1CLK then
    dsiclk_rate s (clock - PRCMU_DSI0CLK)
  else if PRCMU_DSI0ESCCLK ≤ clock ∧ clock ≤ PRCMU_DSI2ESCCLK then
    dsiescclk_rate s (clock - PRCMU_DSI0ESCCLK)
  else 0

/-! ## Rate rounding -/

/-- The function `clock_source_rate`. -/
def clock_source_rate (s : ClkState) (clk_mgt_val : Nat) (branch : Nat) : Nat :=
  if clk_mgt_val &&& PRCM_CLK_MGT_CLK38 ≠ 0 then ROOT_CLOCK_RATE
  else
    let clk_mgt_val := clk_mgt_val &&& PRCM_CLK_MGT_CLKPLLSW_MASK
    if clk_mgt_val = PRCM_CLK_MGT_CLKPLLSW_SOC0 then
      pll_rate s Reg.PLLSOC0_FREQ ROOT_CLOCK_RATE branch
    else if clk_mgt_val = PRCM_CLK_MGT_CLKPLLSW_SOC1 then
      pll_rate s Reg.PLLSOC1_FREQ ROOT_CLOCK_RATE branch
    else if clk_mgt_val = PRCM_CLK_MGT_CLKPLLSW_DDR then
      pll_rate s Reg.PLLDDR_FREQ ROOT_CLOCK_RATE branch
    else 0

/-- The function `clock_divider`; the first division has no guard on `rate`. -/
def clock_divider (src_rate rate : Nat) : Option Nat :=
  (udiv src_rate rate).bind fun div =>
    if div = 0 then some 1
    else if rate < src_rate / div then some (u32 (div + 1))
    else some div

/-- The function `round_clock_rate`; the result is the bit pattern of the
returned `long`. -/
def round_clock_rate (s : ClkState) (clock rate : Nat) : Option Nat :=
  let val := readl s (Reg.CLK_MGT clock)
  let src_rate := clock_source_rate s (val ||| s.pllsw clock) (clk_mgt_branch clock)
  (clock_divider src_rate rate).bind fun div =>
    if val &&& PRCM_CLK_MGT_CLK38 ≠ 0 then
      let div := if clk_mgt_clk38div clock = true then (if div > 2 then 2 else div) else 1
      udiv src_rate (min div 31)
    else if clock = PRCMU_SGACLK ∧ div = 3 ∧ div_by_2_5 src_rate ≤ rate then
      some (u32 (div_by_2_5 src_rate))
    else udiv src_rate (min div 31)

/-- Body of the `for (r = 7; (rem > 0) && (r > 0); r--)` loop of
`round_plldsi_rate`, as a recursion on `r`; the state is `rem` and
`rounded_rate`. -/
def round_plldsi_loop (src_rate rate : Nat) : Nat → Nat → Nat → Option Nat
  | 0, _, rounded_rate => some rounded_rate
  | r + 1, rem, rounded_rate =>
    if rem > 0 then
      (udiv (u64 (u32 ((r + 1) * rate))) src_rate).bind fun d0 =>
        let d1 := if d0 < 6 then 6 else if d0 > 255 then 255 else d0
        let d2 := u64 (d1 * src_rate)
        if u64 (2 * d2) < u64 ((r + 1) * MIN_PLL_VCO_RATE) ∨
            u64 ((r + 1) * MAX_PLL_VCO_RATE) < u64 (2 * d2) then
          round_plldsi_loop src_rate rate r rem rounded_rate
        else
          let d3 := d2 / (r + 1)
          if rate < d3 then
            some (if rounded_rate = 0 then u32 d3 else rounded_rate)
          else if u64 (rate - d3) < rem then
            round_plldsi_loop src_rate rate r (u32 (rate - d3)) (u32 d3)
          else round_plldsi_loop src_rate rate r rem rounded_rate
    else some rounded_rate

/-- The function `round_plldsi_rate`. -/
def round_plldsi_rate (s : ClkState) (rate : Nat) : Option Nat :=
  round_plldsi_loop (clock_rate s PRCMU_HDMICLK) rate 7 rate 0

/-- The function `round_dsiclk_rate`. -/
def round_dsiclk_rate (s : ClkState) (rate : Nat) : Option Nat :=
  let src_rate := pll_rate s Reg.PLLDSI_FREQ (clock_rate s PRCMU_HDMICLK) PLL_RAW
  (clock_divider src_rate rate).bind fun div =>
    udiv src_rate (if div > 2 then 4 else div)

/-- The function `round_dsiescclk_rate`. -/
def round_dsiescclk_rate (s : ClkState) (rate : Nat) : Option Nat :=
  let src_rate := clock_rate s PRCMU_TVCLK
  (clock_divider src_rate rate).bind fun div =>
    udiv src_rate (min div 255)

/-- The function `prcmu_round_clock_rate`. -/
def prcmu_round_clock_rate (s : ClkState) (clock rate : Nat) : Option Nat :=
  if clock < PRCMU_NUM_REG_CLOCKS then round_clock_rate s clock rate
  else if clock = PRCMU_PLLDSI then round_plldsi_rate s rate
  else if clock = PRCMU_DSI0CLK ∨ clock = PRCMU_DSI1CLK then round_dsiclk_rate s rate
  else if PRCMU_DSI0ESCCLK ≤ clock ∧ clock ≤ PRCMU_DSI2ESCCLK then
    round_dsiescclk_rate s rate
  else some (prcmu_clock_rate s clock)

/-! ## Rate programming -/

/-- The loop `while ((readl(PRCM_SEM) & PRCM_SEM_PRCM_SEM) != 0) cpu_relax();`
taken at its exit: the read that returns the bit clear leaves the hardware
semaphore held. -/
def grab_hw_semaphore (s : ClkState) : ClkState := writel s PRCM_SEM_PRCM_SEM Reg.SEM

/-- The function `set_clock_rate`. -/
def set_clock_rate (s : ClkState) (clock rate : Nat) : Option ClkState :=
  let s := grab_hw_semaphore s
  let val := readl s (Reg.CLK_MGT clock)
  let src_rate := clock_source_rate s (val ||| s.pllsw clock) (clk_mgt_branch clock)
  (clock_divider src_rate rate).bind fun div =>
    let val :=
      if val &&& PRCM_CLK_MGT_CLK38 ≠ 0 then
        if clk_mgt_clk38div clock = true then
          if div > 1 then val ||| PRCM_CLK_MGT_CLK38DIV
          else val &&& not32 PRCM_CLK_MGT_CLK38DIV
        else val
      else if clock = PRCMU_SGACLK then
        let val := val &&& not32 (PRCM_CLK_MGT_CLKPLLDIV_MASK |||
          PRCM_SGACLK_MGT_SGACLKDIV_BY_2_5_EN)
        if div = 3 ∧ div_by_2_5 src_rate ≤ rate then
          (val ||| PRCM_SGACLK_MGT_SGACLKDIV_BY_2_5_EN) ||| min 0 31
        else val ||| min div 31
      else (val &&& not32 PRCM_CLK_MGT_CLKPLLDIV_MASK) ||| min div 31
    some (writel (writel s val (Reg.CLK_MGT clock)) 0 Reg.SEM)

/-- The value `((u32)d << PRCM_PLL_FREQ_D_SHIFT) | (r << PRCM_PLL_FREQ_R_SHIFT)`
assigned to `pll_freq` in `set_plldsi_rate`. -/
def plldsi_freq_bits (d r : Nat) : Nat :=
  u32 (u32 d <<< PRCM_PLL_FREQ_D_SHIFT) ||| u32 (r <<< PRCM_PLL_FREQ_R_SHIFT)

/-- Body of the `for (r = 7; (rem > 0) && (r > 0); r--)` loop of
`set_plldsi_rate`, as a recursion on `r`; the state is `rem` and `pll_freq`. -/
def set_plldsi_loop (src_rate rate : Nat) : Nat → Nat → Nat → Option Nat
  | 0, _, pll_freq => some pll_freq
  | r + 1, rem, pll_freq =>
    if rem > 0 then
      (udiv (u64 (u32 ((r + 1) * rate))) src_rate).bind fun d0 =>
        let d := if d0 < 6 then 6 else if d0 > 255 then 255 else d0
        let hwrate := u64 (d * src_rate)
        if u64 (2 * hwrate) < u64 ((r + 1) * MIN_PLL_VCO_RATE) ∨
            u64 ((r + 1) * MAX_PLL_VCO_RATE) < u64 (2 * hwrate) then
          set_plldsi_loop src_rate rate r rem pll_freq
        else
          let hwrate := hwrate / (r + 1)
          if rate < hwrate then
            some (if pll_freq = 0 then plldsi_freq_bits d (r + 1) else pll_freq)
          else if u64 (rate - hwrate) < rem then
            set_plldsi_loop src_rate rate r (u32 (rate - hwrate)) (plldsi_freq_bits d (r + 1))
          else set_plldsi_loop src_rate rate r rem pll_freq
    else some pll_freq

/-- The function `set_plldsi_rate`: the new state and the returned `int`. -/
def set_plldsi_rate (s : ClkState) (rate : Nat) : Option (ClkState × Int) :=
  (set_plldsi_loop (clock_rate s PRCMU_HDMICLK) rate 7 rate 0).bind fun pll_freq =>
    if pll_freq = 0 then some (s, -EINVAL)
    else
      let pll_freq := pll_freq ||| u32 (1 <<< PRCM_PLL_FREQ_N_SHIFT)
      some (writel s pll_freq Reg.PLLDSI_FREQ, 0)

/-- The function `set_dsiclk_rate`. -/
def set_dsiclk_rate (s : ClkState) (n rate : Nat) : Option ClkState :=
  (clock_divider (pll_rate s Reg.PLLDSI_FREQ (clock_rate s PRCMU_HDMICLK) PLL_RAW) rate).bind
    fun div =>
      let sel := if div = 1 then PRCM_DSI_PLLOUT_SEL_PHI
        else if div = 2 then PRCM_DSI_PLLOUT_SEL_PHI_2
        else PRCM_DSI_PLLOUT_SEL_PHI_4
      let s : ClkState := { s with divsel := fun k => if k = n then sel else s.divsel k }
      let val := readl s Reg.DSI_PLLOUT_SEL
      let val := val &&& not32 (dsiclk_divsel_mask n)
      let val := val ||| u32 (s.divsel n <<< dsiclk_divsel_shift n)
      some (writel s val Reg.DSI_PLLOUT_SEL)

/-- The function `set_dsiescclk_rate`. -/
def set_dsiescclk_rate (s : ClkState) (n rate : Nat) : Option ClkState :=
  (clock_divider (clock_rate s PRCMU_TVCLK) rate).bind fun div =>
    let val := readl s Reg.DSITVCLK_DIV
    let val := val &&& not32 (dsiescclk_div_mask n)
    let val := val ||| u32 (min div 255 <<< dsiescclk_div_shift n)
    some (writel s val Reg.DSITVCLK_DIV)

/-- The function `prcmu_set_clock_rate`: the new state and the returned `int`. -/
def prcmu_set_clock_rate (s : ClkState) (clock rate : Nat) : Option (ClkState × Int) :=
  if clock < PRCMU_NUM_REG_CLOCKS then (set_clock_rate s clock rate).map fun t => (t, 0)
  else if clock = PRCMU_PLLDSI then set_plldsi_rate s rate
  else if clock = PRCMU_DSI0CLK ∨ clock = PRCMU_DSI1CLK then
    (set_dsiclk_rate s (clock - PRCMU_DSI0CLK) rate).map fun t => (t, 0)
  else if PRCMU_DSI0ESCCLK ≤ clock ∧ clock ≤ PRCMU_DSI2ESCCLK then
    (set_dsiescclk_rate s (clock - PRCMU_DSI0ESCCLK) rate).map fun t => (t, 0)
  else some (s, 0)

/-- The function `request_clock`. -/
def request_clock (s : ClkState) (clock : Nat) (enable : Bool) : ClkState × Int :=
  let s := grab_hw_semaphore s
  let val := readl s (Reg.CLK_MGT clock)
  let s1 : ClkState :=
    if enable then s
    else { s with pllsw := fun c =>
      if c = clock then val &&& PRCM_CLK_MGT_CLKPLLSW_MASK else s.pllsw c }
  let val :=
    if enable then val ||| (PRCM_CLK_MGT_CLKEN ||| s.pllsw clock)
    else val &&& not32 (PRCM_CLK_MGT_CLKEN ||| PRCM_CLK_MGT_CLKPLLSW_MASK)
  (writel (writel s1 val (Reg.CLK_MGT clock)) 0 Reg.SEM, 0)

/-- The selector remembered in `clk_mgt[clock].pllsw` has no bit outside the
selector field: true of the initial table (all zero) and kept by
`request_clock`, the only writer of the field. -/
def pllsw_ok (s : ClkState) (clock : Nat) : Prop :=
  s.pllsw clock &&& PRCM_CLK_MGT_CLKPLLSW_MASK = s.pllsw clock

instance (s : ClkState) (clock : Nat) : Decidable (pllsw_ok s clock) := by
  unfold pllsw_ok; infer_instance

/-! ## Example register states -/

/-- A state in which every clock-management register selects PLL SOC0
(value `0x120`: enabled, selector SOC0, divider 0), `PRCM_PLLSOC0_FREQ` holds
`d` as multiplier with N = `n`, R = 1, and every other register is zero. -/
def soc0_state (d n : Nat) : ClkState where
  regs := fun r =>
    match r with
    | Reg.CLK_MGT _ => 0x120
    | Reg.PLLSOC0_FREQ => d ||| (n <<< 8) ||| (1 <<< 16)
    | _ => 0
  pllsw := fun _ => 0
  divsel := fun _ => PRCM_DSI_PLLOUT_SEL_PHI

/-- A state in which `PRCM_HDMICLK_MGT` selects the 38.4 MHz root (value
`0x300`) and all other registers are zero, so the HDMI clock runs at
38.4 MHz. -/
def hdmi38_state : ClkState where
  regs := fun r =>
    match r with
    | Reg.CLK_MGT 17 => 0x300
    | _ => 0
  pllsw := fun _ => 0
  divsel := fun _ => PRCM_DSI_PLLOUT_SEL_PHI

/-- The VCO constraint checked by the DSI PLL search for multiplier `d` and
output divider `r` on source rate `src_rate`:
`r * MIN_PLL_VCO_RATE <= 2 * d * src_rate <= r * MAX_PLL_VCO_RATE`. -/
def vco_ok (src_rate d r : Nat) : Prop :=
  r * MIN_PLL_VCO_RATE ≤ 2 * (d * src_rate) ∧ 2 * (d * src_rate) ≤ r * MAX_PLL_VCO_RATE

instance (src_rate d r : Nat) : Decidable (vco_ok src_rate d r) := by
  unfold vco_ok; infer_instance

/-- Relation between the variable `rounded_rate` of `round_plldsi_rate` and
the variable `pll_freq` of `set_plldsi_rate` when the two searches are run
side by side: both are still zero, or `pll_freq` holds a multiplier `d` in
`[6,255]` and a divider `r` in `[1,7]` and `rounded_rate` is the non-zero
rate `d * src_rate / r`. -/
def plldsi_related (src_rate rounded_rate pll_freq : Nat) : Prop :=
  (rounded_rate = 0 ∧ pll_freq = 0) ∨
    ∃ d r, 6 ≤ d ∧ d ≤ 255 ∧ 1 ≤ r ∧ r ≤ 7 ∧ pll_freq = plldsi_freq_bits d r ∧
      rounded_rate = u32 (u64 (d * src_rate) / r) ∧ rounded_rate ≠ 0

/-- Absolute error of the rate `x` against the target `rate`. -/
def rate_error (x rate : Nat) : Nat := if x ≤ rate then rate - x else x - rate

/-! ## Shared memory and mailboxes -/

/-- The macro `BIT(n)` (also `MBOX_BIT`). -/
def BIT (n : Nat) : Nat := 1 <<< n

/-- Offset `_PRCM_MBOX_HEADER` of the header block in the TCDM. -/
def PRCM_MBOX_HEADER : Nat := 0xFE8

/-- Request header byte of mailbox 0. -/
def PRCM_MBOX_HEADER_REQ_MB0 : Nat := PRCM_MBOX_HEADER + 0x0

/-- Request header byte of mailbox 1. -/
def PRCM_MBOX_HEADER_REQ_MB1 : Nat := PRCM_MBOX_HEADER + 0x1

/-- Request region of mailbox 0. -/
def PRCM_REQ_MB0 : Nat := 0xFDC

/-- Request region of mailbox 1. -/
def PRCM_REQ_MB1 : Nat := 0xFD0

/-- Acknowledgment region of mailbox 1. -/
def PRCM_ACK_MB1 : Nat := 0xE04

/-- Mailbox 0 header: configure wakeups for the execute state. -/
def MB0H_CONFIG_WAKEUPS_EXE : Nat := 1

/-- Mailbox 0 header: configure wakeups for the sleep state. -/
def MB0H_CONFIG_WAKEUPS_SLEEP : Nat := 4

/-- Mailbox 0 request word: DBB wakeups. -/
def PRCM_REQ_MB0_WAKEUP_8500 : Nat := PRCM_REQ_MB0 + 0x4

/-- Mailbox 0 request word: ABB events. -/
def PRCM_REQ_MB0_WAKEUP_4500 : Nat := PRCM_REQ_MB0 + 0x8

/-- Mailbox 1 header: request the APE OPP 100 voltage. -/
def MB1H_REQUEST_APE_OPP_100_VOLT : Nat := 0x3

/-- Mailbox 1 header: release the APE OPP 100 voltage. -/
def MB1H_RELEASE_APE_OPP_100_VOLT : Nat := 0x4

/-- Mailbox 1 header: switch a PLL on or off. -/
def MB1H_PLL_ON_OFF : Nat := 0x6

/-- Mailbox 1 request byte for `MB1H_PLL_ON_OFF`. -/
def PRCM_REQ_MB1_PLL_ON_OFF : Nat := PRCM_REQ_MB1 + 0x4

/-- Payload: PLL SOC1 off. -/
def PLL_SOC1_OFF : Nat := 0x4

/-- Payload: PLL SOC1 on. -/
def PLL_SOC1_ON : Nat := 0x8

/-- Mailbox 1 acknowledgment byte: current ARM OPP. -/
def PRCM_ACK_MB1_CURRENT_ARM_OPP : Nat := PRCM_ACK_MB1 + 0x0

/-- Mailbox 1 acknowledgment byte: current APE OPP. -/
def PRCM_ACK_MB1_CURRENT_APE_OPP : Nat := PRCM_ACK_MB1 + 0x1

/-- Mailbox 1 acknowledgment byte: APE voltage status. -/
def PRCM_ACK_MB1_APE_VOLTAGE_STATUS : Nat := PRCM_ACK_MB1 + 0x2

/-- Wakeup bit of the AC wake acknowledgment. -/
def WAKEUP_BIT_AC_WAKE_ACK : Nat := BIT 11

/-- Wakeup bit of the AC sleep acknowledgment. -/
def WAKEUP_BIT_AC_SLEEP_ACK : Nat := BIT 15

/-- The table `prcmu_wakeup_bit`: RTC, RTT0, RTT1, HSI0, HSI1, USB, ABB,
ABB_FIFO, ARM. -/
def prcmu_wakeup_bit : List Nat :=
  [BIT 0, BIT 1, BIT 2, BIT 3, BIT 4, BIT 6, BIT 7, BIT 8, BIT 17]

/-- Modelled from the spec: `NUM_PRCMU_WAKEUP_INDICES` of `mach/prcmu.h`, not
among the sources: the length of the `prcmu_wakeup_bit` table. -/
def NUM_PRCMU_WAKEUP_INDICES : Nat := 9

/-- The macro `VALID_WAKEUPS`. -/
def VALID_WAKEUPS : Nat := BIT NUM_PRCMU_WAKEUP_INDICES - 1

/-- What the driver does to the mailbox hardware, in program order. -/
inductive Event where
  /-- The loop `while (readl(PRCM_MBOX_CPU_VAL) & MBOX_BIT(n)) cpu_relax();`
  has ended: the pending bit of mailbox `n` has read clear. -/
  | poll_clear (n : Nat)
  /-- The call `writeb(val, tcdm_base + addr)`. -/
  | writeb (val addr : Nat)
  /-- The call `writel(val, tcdm_base + addr)`. -/
  | writel (val addr : Nat)
  /-- The call `writel(MBOX_BIT(n), PRCM_MBOX_CPU_SET)`. -/
  | set_pending (n : Nat)
  /-- The call `wait_for_completion(&mbN_transfer.work)`. -/
  | wait (n : Nat)
  /-- The call `writew(val, tcdm_base + addr)`. -/
  | writew (val addr : Nat)
  /-- The call `wait_for_completion_timeout` on the completion of mailbox `n`
  (`mbN_transfer.work`, for mailbox 3 `sysclk_work`) with `timeout` jiffies. -/
  | wait_timeout (n timeout : Nat)
  /-- The call `wait_for_completion_timeout(&mb0_transfer.ac_wake_work, timeout)`. -/
  | wait_ac_wake (timeout : Nat)
  /-- The call `writel(val, _PRCMU_BASE + PRCM_HOSTACCESS_REQ)`. -/
  | writel_hostaccess (val : Nat)
  deriving DecidableEq

/-- What the interrupt side of the driver does besides mailbox accesses, in
program order. -/
inductive IrqEvent where
  /-- The call `writel(val, _PRCMU_BASE + PRCM_ARM_IT1_CLR)`. -/
  | it1_clr (val : Nat)
  /-- The call `complete(&mbN_transfer.work)`. -/
  | complete (n : Nat)
  /-- The call `complete(&mb0_transfer.ac_wake_work)`. -/
  | complete_ac_wake
  /-- The call `complete(&mb3_transfer.sysclk_work)`. -/
  | complete_sysclk
  /-- The call `generic_handle_irq(IRQ_PRCMU_BASE + n)`. -/
  | handle_irq (n : Nat)
  /-- The call `print_unknown_header_warning(n, header)`. -/
  | unknown_header (n header : Nat)
  deriving DecidableEq

/-- The record `mb1_transfer.ack`. -/
structure Mb1Ack where
  header : Nat
  arm_opp : Nat
  ape_opp : Nat
  ape_voltage_status : Nat
  deriving DecidableEq

/-- State of the mailbox side of the driver: the shared memory (bytes at
offsets from `tcdm_base`), the pending bits `PRCM_MBOX_CPU_VAL`, the log of
hardware accesses, the persistent request data of mailbox 0, the cached
values of `config_wakeups`, the acknowledgment record of mailbox 1 and the
request counter of `prcmu_request_ape_opp_100_voltage`; further the register
`PRCM_ARM_IT1_VAL`, the log of the interrupt side, `mb2_transfer.ack.status`,
`mb5_transfer.ack`, `mb2_transfer.auto_pm_enabled`, the register
`PRCM_HOSTACCESS_REQ`, `ac_wake_req_state` and `mb1_transfer.ape_opp`. -/
structure Drv where
  tcdm : Nat → Nat
  mbox_cpu_val : Nat
  log : List Event
  dbb_irqs : Nat
  dbb_wakeups : Nat
  abb_events : Nat
  last_dbb_events : Nat
  last_abb_events : Nat
  mb1_ack : Mb1Ack
  arm_it1_val : Nat := 0
  irq_log : List IrqEvent := []
  mb2_ack_status : Nat := 0
  mb5_ack_status : Nat := 0
  mb5_ack_value : Nat := 0
  auto_pm_enabled : Bool := false
  hostaccess_req : Nat := 0
  ac_wake_req_state : Nat := 0
  ape_opp : Nat := 1
  requests : Nat

/-- The busy-wait on the pending bit of mailbox `n`, taken at its exit: the
firmware has consumed the previous request and the bit reads clear. -/
def mbox_poll_clear (d : Drv) (n : Nat) : Drv :=
  { d with mbox_cpu_val := d.mbox_cpu_val &&& not32 (BIT n),
           log := d.log ++ [Event.poll_clear n] }

/-- The call `writeb(val, tcdm_base + addr)`. -/
def tcdm_writeb (d : Drv) (val addr : Nat) : Drv :=
  { d with tcdm := fun a => if a = addr then val % 256 else d.tcdm a,
           log := d.log ++ [Event.writeb val addr] }

/-- The call `writel(val, tcdm_base + addr)`, little endian. -/
def tcdm_writel (d : Drv) (val addr : Nat) : Drv :=
  { d with tcdm := fun a =>
             if addr ≤ a ∧ a < addr + 4 then (u32 val >>> (8 * (a - addr))) % 256 else d.tcdm a,
           log := d.log ++ [Event.writel val addr] }

/-- The call `writel(MBOX_BIT(n), PRCM_MBOX_CPU_SET)`. -/
def mbox_set_pending (d : Drv) (n : Nat) : Drv :=
  { d with mbox_cpu_val := d.mbox_cpu_val ||| BIT n,
           log := d.log ++ [Event.set_pending n] }

/-- The call `readb(tcdm_base + addr)`. -/
def tcdm_readb (d : Drv) (addr : Nat) : Nat := d.tcdm addr % 256

/-- The function `read_mailbox_1`, run by the interrupt handler when the
firmware has posted its acknowledgment; it returns `false`. -/
def read_mailbox_1 (d : Drv) : Drv × Bool :=
  let ack : Mb1Ack :=
    { header := tcdm_readb d PRCM_MBOX_HEADER_REQ_MB1,
      arm_opp := tcdm_readb d PRCM_ACK_MB1_CURRENT_ARM_OPP,
      ape_opp := tcdm_readb d PRCM_ACK_MB1_CURRENT_APE_OPP,
      ape_voltage_status := tcdm_readb d PRCM_ACK_MB1_APE_VOLTAGE_STATUS }
  let irqs := d.irq_log ++ [IrqEvent.it1_clr (BIT 1), IrqEvent.complete 1]
  ({ d with mb1_ack := ack, irq_log := irqs }, false)

/-- The call `wait_for_completion(&mb1_transfer.work)`: the firmware leaves
the bytes of `fw` in the shared memory and raises the interrupt, whose
handler `read_mailbox_1` copies them and completes the wait. -/
def mb1_wait (d : Drv) (fw : Mb1Ack) : Drv :=
  let d := { d with log := d.log ++ [Event.wait 1] }
  let mem : Nat → Nat := fun a =>
    if a = PRCM_MBOX_HEADER_REQ_MB1 then fw.header % 256
    else if a = PRCM_ACK_MB1_CURRENT_ARM_OPP then fw.arm_opp % 256
    else if a = PRCM_ACK_MB1_CURRENT_APE_OPP then fw.ape_opp % 256
    else if a = PRCM_ACK_MB1_APE_VOLTAGE_STATUS then fw.ape_voltage_status % 256
    else d.tcdm a
  (read_mailbox_1 { d with tcdm := mem }).1

/-- The function `prcmu_request_ape_opp_100_voltage`; `fw` is the reply of
the firmware, used only if a message is sent. -/
def prcmu_request_ape_opp_100_voltage (d : Drv) (enable : Bool) (fw : Mb1Ack) : Drv × Int :=
  let send (d : Drv) (header : Nat) : Drv × Int :=
    let d := mbox_poll_clear d 1
    let d := tcdm_writeb d header PRCM_MBOX_HEADER_REQ_MB1
    let d := mbox_set_pending d 1
    let d := mb1_wait d fw
    (d, if d.mb1_ack.header ≠ header ∨ d.mb1_ack.ape_voltage_status &&& BIT 0 ≠ 0
        then -EIO_errno else 0)
  if enable then
    -- `if (0 != requests++) goto unlock_and_return;`
    if 0 ≠ d.requests then ({ d with requests := u32 (d.requests + 1) }, 0)
    else send { d with requests := u32 (d.requests + 1) } MB1H_REQUEST_APE_OPP_100_VOLT
  else
    if d.requests = 0 then (d, -EIO_errno)
    -- `else if (1 != requests--) goto unlock_and_return;`
    else if 1 ≠ d.requests then ({ d with requests := u32 (d.requests - 1) }, 0)
    else send { d with requests := u32 (d.requests - 1) } MB1H_RELEASE_APE_OPP_100_VOLT

/-- A sequence of calls of `prcmu_request_ape_opp_100_voltage`, each with its
argument and the reply the firmware would give; the result is the final state
and, for each call, the value returned and the counter after it. -/
def boost_calls (d : Drv) : List (Bool × Mb1Ack) → Drv × List (Int × Nat)
  | [] => (d, [])
  | (enable, fw) :: rest =>
    let r := prcmu_request_ape_opp_100_voltage d enable fw
    let q := boost_calls r.1 rest
    (q.1, (r.2, r.1.requests) :: q.2)

/-- The function `request_pll`. -/
def request_pll (d : Drv) (clock : Nat) (enable : Bool) (fw : Mb1Ack) : Drv × Int :=
  if clock = PRCMU_PLLSOC1 then
    let clock := if enable then PLL_SOC1_ON else PLL_SOC1_OFF
    let d := mbox_poll_clear d 1
    let d := tcdm_writeb d MB1H_PLL_ON_OFF PRCM_MBOX_HEADER_REQ_MB1
    let d := tcdm_writeb d clock PRCM_REQ_MB1_PLL_ON_OFF
    let d := mbox_set_pending d 1
    let d := mb1_wait d fw
    (d, if d.mb1_ack.header ≠ MB1H_PLL_ON_OFF then -EIO_errno else 0)
  else (d, -EINVAL)

/-- A sequence of calls `request_pll(PRCMU_PLLSOC1, enable)`, each with the
reply the firmware would give. -/
def request_pll_calls (d : Drv) : List (Bool × Mb1Ack) → Drv
  | [] => d
  | (enable, fw) :: rest => request_pll_calls (request_pll d PRCMU_PLLSOC1 enable fw).1 rest

/-- The header bytes written to the request header of mailbox 1, in order:
one per message sent on that mailbox. -/
def mb1_headers_sent (log : List Event) : List Nat :=
  log.filterMap fun e =>
    match e with
    | Event.writeb val addr => if addr = PRCM_MBOX_HEADER_REQ_MB1 then some val else none
    | _ => none

/-- The function `config_wakeups`. -/
def config_wakeups (d : Drv) : Drv :=
  let dbb_events := d.dbb_irqs ||| d.dbb_wakeups
  let dbb_events := dbb_events ||| (WAKEUP_BIT_AC_WAKE_ACK ||| WAKEUP_BIT_AC_SLEEP_ACK)
  let abb_events := d.abb_events
  if dbb_events = d.last_dbb_events ∧ abb_events = d.last_abb_events then d
  else
    let step (d : Drv) (header : Nat) : Drv :=
      let d := mbox_poll_clear d 0
      let d := tcdm_writel d dbb_events PRCM_REQ_MB0_WAKEUP_8500
      let d := tcdm_writel d abb_events PRCM_REQ_MB0_WAKEUP_4500
      let d := tcdm_writeb d header PRCM_MBOX_HEADER_REQ_MB0
      mbox_set_pending d 0
    let d := step d MB0H_CONFIG_WAKEUPS_EXE
    let d := step d MB0H_CONFIG_WAKEUPS_SLEEP
    { d with last_dbb_events := dbb_events, last_abb_events := abb_events }

/-- The loop of `prcmu_enable_wakeups` collecting the hardware bits of the
indices `i < n` set in `wakeups`. -/
def wakeup_bits (wakeups : Nat) : Nat → Nat
  | 0 => 0
  | i + 1 =>
    let bits := wakeup_bits wakeups i
    if wakeups &&& BIT i ≠ 0 then bits ||| prcmu_wakeup_bit.getD i 0 else bits

/-- The function `prcmu_enable_wakeups`; `BUG_ON` has no result. -/
def prcmu_enable_wakeups (d : Drv) (wakeups : Nat) : Option Drv :=
  if wakeups ≠ wakeups &&& VALID_WAKEUPS then none
  else
    let bits := wakeup_bits wakeups NUM_PRCMU_WAKEUP_INDICES
    some (config_wakeups { d with dbb_wakeups := bits })

/-- The function `prcmu_config_abb_event_readout`. -/
def prcmu_config_abb_event_readout (d : Drv) (abb_events : Nat) : Drv :=
  config_wakeups { d with abb_events := abb_events }

/-! ## Communication timeout -/

/-- The record `prcmu_comm`: the current timeout, the value to restore and
the delayed work `rst_work`, which is either idle or pending with its delay. -/
structure Comm where
  tout : Nat
  rst_tout : Nat
  rst_work : Option Nat

/-- The function `prcmu_comm_tout`. -/
def prcmu_comm_tout (c : Comm) : Nat := c.tout

/-- The function `prcmu_set_comm_timeout`; `msecs_to_jiffies` is the kernel
conversion. -/
def prcmu_set_comm_timeout (msecs_to_jiffies : Nat → Nat) (c : Comm) (timeout_mS : Nat) : Comm :=
  -- `cancel_delayed_work_sync(&prcmu_comm.rst_work);`
  let c := { c with rst_work := none }
  { c with tout := msecs_to_jiffies timeout_mS }

/-- The function `prcmu_temp_set_comm_timeout`. -/
def prcmu_temp_set_comm_timeout (msecs_to_jiffies : Nat → Nat) (c : Comm)
    (timeout_mS validfor_mS : Nat) : Comm :=
  -- `wq_active = cancel_delayed_work_sync(&prcmu_comm.rst_work);`
  let wq_active := c.rst_work.isSome
  let c := { c with rst_work := none }
  let c := if !wq_active then { c with rst_tout := c.tout } else c
  let c := { c with tout := msecs_to_jiffies timeout_mS }
  -- `schedule_delayed_work(&prcmu_comm.rst_work, msecs_to_jiffies(validfor_mS));`
  { c with rst_work := some (msecs_to_jiffies validfor_mS) }

/-- The function `restore_comm_tout_work`. -/
def restore_comm_tout_work (c : Comm) : Comm := { c with tout := c.rst_tout }

/-- The work queue running the delayed work: possible only while it is
pending; the work stops being pending and `restore_comm_tout_work` runs. -/
def run_rst_work (c : Comm) : Option Comm :=
  match c.rst_work with
  | none => none
  | some _ => some (restore_comm_tout_work { c with rst_work := none })

/-- A sequence of calls of `prcmu_temp_set_comm_timeout`, none of whose
restorations has run yet. -/
def temp_set_calls (msecs_to_jiffies : Nat → Nat) (c : Comm) : List (Nat × Nat) → Comm
  | [] => c
  | (t, v) :: rest =>
    temp_set_calls msecs_to_jiffies (prcmu_temp_set_comm_timeout msecs_to_jiffies c t v) rest

/-- The only change of `prcmu_comm` that happens without a call of one of the
two set operations: the delayed work runs. -/
def comm_async_step (c c2 : Comm) : Prop := run_rst_work c = some c2

/-! ## Example driver states -/

/-- The mailbox state at start-up: memory, pending bits, log, request data
and the request counter all zero. -/
def drv_init : Drv where
  tcdm := fun _ => 0
  mbox_cpu_val := 0
  log := []
  dbb_irqs := 0
  dbb_wakeups := 0
  abb_events := 0
  last_dbb_events := 0
  last_abb_events := 0
  mb1_ack := { header := 0, arm_opp := 0, ape_opp := 0, ape_voltage_status := 0 }
  requests := 0

/-- A firmware reply that echoes `header` and reports no voltage error. -/
def fw_ok (header : Nat) : Mb1Ack :=
  { header := header, arm_opp := 0, ape_opp := 0, ape_voltage_status := 0 }

/-! ## Mailbox layout -/

/-- Request header byte of mailbox 2. -/
def PRCM_MBOX_HEADER_REQ_MB2 : Nat := PRCM_MBOX_HEADER + 0x2

/-- Request header byte of mailbox 3. -/
def PRCM_MBOX_HEADER_REQ_MB3 : Nat := PRCM_MBOX_HEADER + 0x3

/-- Request header byte of mailbox 4. -/
def PRCM_MBOX_HEADER_REQ_MB4 : Nat := PRCM_MBOX_HEADER + 0x4

/-- Request header byte of mailbox 5. -/
def PRCM_MBOX_HEADER_REQ_MB5 : Nat := PRCM_MBOX_HEADER + 0x5

/-- Acknowledgment header byte of mailbox 0. -/
def PRCM_MBOX_HEADER_ACK_MB0 : Nat := PRCM_MBOX_HEADER + 0x8

/-- Request region of mailbox 2 (16 bytes). -/
def PRCM_REQ_MB2 : Nat := 0xFC0

/-- Request region of mailbox 3 (372 bytes). -/
def PRCM_REQ_MB3 : Nat := 0xE4C

/-- Request region of mailbox 4 (4 bytes). -/
def PRCM_REQ_MB4 : Nat := 0xE48

/-- Request region of mailbox 5 (4 bytes). -/
def PRCM_REQ_MB5 : Nat := 0xE44

/-- Acknowledgment region of mailbox 0 (52 bytes). -/
def PRCM_ACK_MB0 : Nat := 0xE08

/-- Acknowledgment region of mailbox 2 (4 bytes). -/
def PRCM_ACK_MB2 : Nat := 0xE00

/-- Acknowledgment region of mailbox 5 (4 bytes). -/
def PRCM_ACK_MB5 : Nat := 0xDF4

/-- Mailbox 0 header: power state transition. -/
def MB0H_POWER_STATE_TRANS : Nat := 0

/-- Mailbox 0 header: the wakeup event has been read. -/
def MB0H_READ_WAKEUP_ACK : Nat := 3

/-- Mailbox 0 acknowledgment header: wakeup in the execute state. -/
def MB0H_WAKEUP_EXE : Nat := 2

/-- Mailbox 0 acknowledgment header: wakeup in the sleep state. -/
def MB0H_WAKEUP_SLEEP : Nat := 5

/-- Mailbox 0 request byte: power state. -/
def PRCM_REQ_MB0_AP_POWER_STATE : Nat := PRCM_REQ_MB0 + 0x0

/-- Mailbox 0 request byte: PLL state. -/
def PRCM_REQ_MB0_AP_PLL_STATE : Nat := PRCM_REQ_MB0 + 0x1

/-- Mailbox 0 request byte: ULP clock state. -/
def PRCM_REQ_MB0_ULP_CLOCK_STATE : Nat := PRCM_REQ_MB0 + 0x2

/-- Mailbox 0 request byte: do not wait for interrupt. -/
def PRCM_REQ_MB0_DO_NOT_WFI : Nat := PRCM_REQ_MB0 + 0x3

/-- Mailbox 0 acknowledgment byte: the read pointer. -/
def PRCM_ACK_MB0_READ_POINTER : Nat := PRCM_ACK_MB0 + 0x1

/-- Mailbox 0 acknowledgment word: DBB events, buffer 0. -/
def PRCM_ACK_MB0_WAKEUP_0_8500 : Nat := PRCM_ACK_MB0 + 0x4

/-- Mailbox 0 acknowledgment word: DBB events, buffer 1. -/
def PRCM_ACK_MB0_WAKEUP_1_8500 : Nat := PRCM_ACK_MB0 + 0x1C

/-- Mailbox 1 header: set the ARM and APE operating points. -/
def MB1H_ARM_APE_OPP : Nat := 0x0

/-- Mailbox 1 header: reset the modem. -/
def MB1H_RESET_MODEM : Nat := 0x2

/-- Mailbox 1 header: release the USB wakeup state. -/
def MB1H_RELEASE_USB_WAKEUP : Nat := 0x5

/-- Mailbox 1 request byte: ARM operating point. -/
def PRCM_REQ_MB1_ARM_OPP : Nat := PRCM_REQ_MB1 + 0x0

/-- Mailbox 1 request byte: APE operating point. -/
def PRCM_REQ_MB1_APE_OPP : Nat := PRCM_REQ_MB1 + 0x1

/-- Mailbox 2 header: set the state of the power domains. -/
def MB2H_DPS : Nat := 0x0

/-- Mailbox 2 request word: autonomous power management in ApSleep. -/
def PRCM_REQ_MB2_AUTO_PM_SLEEP : Nat := PRCM_REQ_MB2 + 0x8

/-- Mailbox 2 request word: autonomous power management in ApIdle. -/
def PRCM_REQ_MB2_AUTO_PM_IDLE : Nat := PRCM_REQ_MB2 + 0xC

/-- Mailbox 2 acknowledgment byte: status of the power domain request. -/
def PRCM_ACK_MB2_DPS_STATUS : Nat := PRCM_ACK_MB2 + 0x0

/-- Status value of a successful power domain request. -/
def HWACC_PWR_ST_OK : Nat := 0xFE

/-- Mailbox 3 header: system clock request. -/
def MB3H_SYSCLK : Nat := 0xE

/-- Mailbox 3 request byte: system clock management. -/
def PRCM_REQ_MB3_SYSCLK_MGT : Nat := PRCM_REQ_MB3 + 0x16C

/-- Mailbox 4 header: memory state. -/
def MB4H_MEM_ST : Nat := 0x1

/-- Mailbox 4 header: hotdog threshold. -/
def MB4H_HOTDOG : Nat := 0x12

/-- Mailbox 4 header: hotmon thresholds. -/
def MB4H_HOTMON : Nat := 0x13

/-- Mailbox 4 header: temperature sensing period. -/
def MB4H_HOT_PERIOD : Nat := 0x14

/-- Mailbox 4 header: configure the A9 watchdog. -/
def MB4H_A9WDOG_CONF : Nat := 0x16

/-- Mailbox 4 header: enable the A9 watchdog. -/
def MB4H_A9WDOG_EN : Nat := 0x17

/-- Mailbox 4 header: disable the A9 watchdog. -/
def MB4H_A9WDOG_DIS : Nat := 0x18

/-- Mailbox 4 header: load the A9 watchdog. -/
def MB4H_A9WDOG_LOAD : Nat := 0x19

/-- Mailbox 4 header: kick the A9 watchdog. -/
def MB4H_A9WDOG_KICK : Nat := 0x20

/-- Mailbox 4 request byte: DDR state in ApSleep and ApIdle. -/
def PRCM_REQ_MB4_DDR_ST_AP_SLEEP_IDLE : Nat := PRCM_REQ_MB4 + 0x0

/-- Mailbox 4 request byte: DDR state in ApDeepIdle. -/
def PRCM_REQ_MB4_DDR_ST_AP_DEEP_IDLE : Nat := PRCM_REQ_MB4 + 0x1

/-- Mailbox 4 request byte: ESRAM0 state. -/
def PRCM_REQ_MB4_ESRAM0_ST : Nat := PRCM_REQ_MB4 + 0x3

/-- Mailbox 4 request byte: hotdog threshold. -/
def PRCM_REQ_MB4_HOTDOG_THRESHOLD : Nat := PRCM_REQ_MB4 + 0x0

/-- Mailbox 4 request byte: low hotmon threshold. -/
def PRCM_REQ_MB4_HOTMON_LOW : Nat := PRCM_REQ_MB4 + 0x0

/-- Mailbox 4 request byte: high hotmon threshold. -/
def PRCM_REQ_MB4_HOTMON_HIGH : Nat := PRCM_REQ_MB4 + 0x1

/-- Mailbox 4 request byte: hotmon configuration. -/
def PRCM_REQ_MB4_HOTMON_CONFIG : Nat := PRCM_REQ_MB4 + 0x2

/-- Mailbox 4 request half word: temperature sensing period. -/
def PRCM_REQ_MB4_HOT_PERIOD : Nat := PRCM_REQ_MB4 + 0x0

/-- Hotmon configuration bit: low threshold. -/
def HOTMON_CONFIG_LOW : Nat := BIT 0

/-- Hotmon configuration bit: high threshold. -/
def HOTMON_CONFIG_HIGH : Nat := BIT 1

/-- Mailbox 4 request byte 0 of a watchdog command. -/
def PRCM_REQ_MB4_A9WDOG_0 : Nat := PRCM_REQ_MB4 + 0x0

/-- Mailbox 4 request byte 1 of a watchdog command. -/
def PRCM_REQ_MB4_A9WDOG_1 : Nat := PRCM_REQ_MB4 + 0x1

/-- Mailbox 4 request byte 2 of a watchdog command. -/
def PRCM_REQ_MB4_A9WDOG_2 : Nat := PRCM_REQ_MB4 + 0x2

/-- Mailbox 4 request byte 3 of a watchdog command. -/
def PRCM_REQ_MB4_A9WDOG_3 : Nat := PRCM_REQ_MB4 + 0x3

/-- Watchdog flag: switch off automatically in sleep. -/
def A9WDOG_AUTO_OFF_EN : Nat := BIT 7

/-- Watchdog flag: do not switch off automatically in sleep. -/
def A9WDOG_AUTO_OFF_DIS : Nat := 0

/-- Mask of the watchdog id. -/
def A9WDOG_ID_MASK : Nat := 0xf

/-- Mailbox 5 request byte: slave address and operation. -/
def PRCM_REQ_MB5_I2C_SLAVE_OP : Nat := PRCM_REQ_MB5 + 0x0

/-- Mailbox 5 request byte: hardware bits. -/
def PRCM_REQ_MB5_I2C_HW_BITS : Nat := PRCM_REQ_MB5 + 0x1

/-- Mailbox 5 request byte: register address. -/
def PRCM_REQ_MB5_I2C_REG : Nat := PRCM_REQ_MB5 + 0x2

/-- Mailbox 5 request byte: value. -/
def PRCM_REQ_MB5_I2C_VAL : Nat := PRCM_REQ_MB5 + 0x3

/-- The macro `PRCMU_I2C_WRITE(slave)`. -/
def PRCMU_I2C_WRITE (slave : Nat) : Nat := (slave <<< 1) ||| BIT 6

/-- The macro `PRCMU_I2C_READ(slave)`. -/
def PRCMU_I2C_READ (slave : Nat) : Nat := (slave <<< 1) ||| BIT 0 ||| BIT 6

/-- Hardware bit: send a stop condition. -/
def PRCMU_I2C_STOP_EN : Nat := BIT 3

/-- Mailbox 5 acknowledgment byte: status. -/
def PRCM_ACK_MB5_I2C_STATUS : Nat := PRCM_ACK_MB5 + 0x1

/-- Mailbox 5 acknowledgment byte: value read. -/
def PRCM_ACK_MB5_I2C_VAL : Nat := PRCM_ACK_MB5 + 0x3

/-- Status of a successful write. -/
def I2C_WR_OK : Nat := 0x1

/-- Status of a successful read. -/
def I2C_RD_OK : Nat := 0x2

/-- Number of mailboxes. -/
def NUM_MB : Nat := 8

/-- The macro `MBOX_BIT`. -/
@[reducible] def MBOX_BIT (n : Nat) : Nat := BIT n

/-- The macro `ALL_MBOX_BITS`. -/
def ALL_MBOX_BITS : Nat := MBOX_BIT NUM_MB - 1

/-- Wakeup bit: the system clock is running. -/
def WAKEUP_BIT_SYSCLK_OK : Nat := BIT 9

/-- Modelled from the spec: `enum arm_opp` of `mach/prcmu.h` is not among the
sources; operating point 2 is the 100 % point and the legal requests run from
`ARM_NO_CHANGE` up to `ARM_EXTCLK`. -/
def ARM_NO_CHANGE : Nat := 0x01

/-- Modelled from the spec: the last member of `enum arm_opp` (`mach/prcmu.h`
is not among the sources). -/
def ARM_EXTCLK : Nat := 0x07

/-- Modelled from the spec: `enum ape_opp` of `mach/prcmu.h` is not among the
sources: the request that leaves the APE operating point alone. -/
def APE_NO_CHANGE : Nat := 0x01

/-- Modelled from the spec: the 100 % APE operating point (`mach/prcmu.h` is
not among the sources). -/
def APE_100_OPP : Nat := 0x02

/-- Modelled from the spec: the 50 % APE operating point (`mach/prcmu.h` is
not among the sources). -/
def APE_50_OPP : Nat := 0x03

/-- Modelled from the spec: the reduced APE operating point in which certain
bus clocks are divided by a further factor of two; it is never sent to the
firmware (`mach/prcmu.h` is not among the sources). -/
def APE_50_PARTLY_25_OPP : Nat := 0xFF

/-- Modelled from the spec: number of power domains, `NUM_EPOD_ID` of
`mach/prcmu.h` (not among the sources); the domains are numbered in the order
of their request bytes `PRCM_REQ_MB2_SVA_MMDSP` .. `PRCM_REQ_MB2_ESRAM34`. -/
def NUM_EPOD_ID : Nat := 8

/-- Modelled from the spec: power domain of the SVA MMDSP (request byte 0). -/
def EPOD_ID_SVAMMDSP : Nat := 0

/-- Modelled from the spec: power domain of the SVA pipe (request byte 1). -/
def EPOD_ID_SVAPIPE : Nat := 1

/-- Modelled from the spec: power domain of the SIA MMDSP (request byte 2). -/
def EPOD_ID_SIAMMDSP : Nat := 2

/-- Modelled from the spec: power domain of ESRAM banks 1 and 2 (request
byte 6). -/
def EPOD_ID_ESRAM12 : Nat := 6

/-- Modelled from the spec: power domain of ESRAM banks 3 and 4 (request
byte 7). -/
def EPOD_ID_ESRAM34 : Nat := 7

/-- Modelled from the spec: power domain state "no change" (`mach/prcmu.h` is
not among the sources). -/
def EPOD_STATE_NO_CHANGE : Nat := 0x00

/-- Modelled from the spec: power domain state "off". -/
def EPOD_STATE_OFF : Nat := 0x01

/-- Modelled from the spec: power domain state "off with RAM retention". -/
def EPOD_STATE_RAMRET : Nat := 0x02

/-- Modelled from the spec: power domain state "on, clock off". -/
def EPOD_STATE_ON_CLK_OFF : Nat := 0x03

/-- Modelled from the spec: power domain state "on", the largest legal state. -/
def EPOD_STATE_ON : Nat := 0x04

/-- Modelled from the spec: `PRCMU_AUTO_PM_ON` of `mach/prcmu.h` (not among
the sources). -/
def PRCMU_AUTO_PM_ON : Nat := 1

/-- Modelled from the spec: the power states accepted by
`prcmu_set_power_state` run from `PRCMU_AP_SLEEP` to `PRCMU_AP_DEEP_IDLE`
(`mach/prcmu.h` is not among the sources). -/
def PRCMU_AP_SLEEP : Nat := 0x01

/-- Modelled from the spec: the last power state accepted by
`prcmu_set_power_state`. -/
def PRCMU_AP_DEEP_IDLE : Nat := 0x07

/-- Modelled from the spec: ESRAM0 deep sleep state "off" (`mach/prcmu.h` is
not among the sources). -/
def ESRAM0_DEEP_SLEEP_STATE_OFF : Nat := 1

/-- Modelled from the spec: ESRAM0 deep sleep state "retention". -/
def ESRAM0_DEEP_SLEEP_STATE_RET : Nat := 2

/-- Modelled from the spec: DDR power state "on" (`mach/prcmu.h` is not among
the sources). -/
def DDR_PWR_STATE_ON : Nat := 0x01

/-- Modelled from the spec: DDR power state "off, high latency". -/
def DDR_PWR_STATE_OFFHIGHLAT : Nat := 0x03

/-- Modelled from the spec: the bit `PRCM_HOSTACCESS_REQ_HOSTACCESS_REQ`
(`prcmu-regs-db8500.h` is not among the sources). -/
def PRCM_HOSTACCESS_REQ_HOSTACCESS_REQ : Nat := 0x1

/-- Modelled from the spec: the bit `PRCM_HOSTACCESS_REQ_WAKE_REQ`
(`prcmu-regs-db8500.h` is not among the sources). -/
def PRCM_HOSTACCESS_REQ_WAKE_REQ : Nat := 0x10000

/-! ## Interrupt side -/

/-- The call `readl(tcdm_base + addr)`, little endian. -/
def tcdm_readl (d : Drv) (addr : Nat) : Nat :=
  tcdm_readb d addr + 256 * tcdm_readb d (addr + 1) + 65536 * tcdm_readb d (addr + 2)
    + 16777216 * tcdm_readb d (addr + 3)

/-- One action of the interrupt side appended to its log. -/
def irq_event (d : Drv) (e : IrqEvent) : Drv := { d with irq_log := d.irq_log ++ [e] }

/-- The loop `for (n = 0; n < NUM_PRCMU_WAKEUPS; n++)` of `read_mailbox_0`,
from index `n` on: `entries` are `prcmu_irq_bit[n]`, `prcmu_irq_bit[n + 1]`,
and so on up to the end of the table. -/
def handle_wakeups (ev : Nat) : List Nat → Nat → Drv → Drv
  | [], _, d => d
  | bit :: entries, n, d =>
    handle_wakeups ev entries (n + 1)
      (if ev &&& bit ≠ 0 then irq_event d (IrqEvent.handle_irq n) else d)

/-- The function `read_mailbox_0`.  The table `prcmu_irq_bit` is a parameter:
its indices `IRQ_PRCMU_* - IRQ_PRCMU_BASE` come from `mach/irqs.h`, which is
not among the sources; `NUM_PRCMU_WAKEUPS` is its length. -/
def read_mailbox_0 (prcmu_irq_bit : List Nat) (d : Drv) : Drv × Bool :=
  let header := tcdm_readb d PRCM_MBOX_HEADER_ACK_MB0
  let dr : Drv × Bool :=
    if header = MB0H_WAKEUP_EXE ∨ header = MB0H_WAKEUP_SLEEP then
      let ev :=
        if tcdm_readb d PRCM_ACK_MB0_READ_POINTER &&& 1 ≠ 0 then
          tcdm_readl d PRCM_ACK_MB0_WAKEUP_1_8500
        else tcdm_readl d PRCM_ACK_MB0_WAKEUP_0_8500
      let d :=
        if ev &&& (WAKEUP_BIT_AC_WAKE_ACK ||| WAKEUP_BIT_AC_SLEEP_ACK) ≠ 0 then
          irq_event d IrqEvent.complete_ac_wake
        else d
      let d := if ev &&& WAKEUP_BIT_SYSCLK_OK ≠ 0 then irq_event d IrqEvent.complete_sysclk else d
      let ev := ev &&& d.dbb_irqs
      (handle_wakeups ev prcmu_irq_bit 0 d, true)
    else (irq_event d (IrqEvent.unknown_header 0 header), false)
  let d := irq_event dr.1 (IrqEvent.it1_clr (MBOX_BIT 0))
  if dr.2 then
    -- Do not send the ack if MB0 is busy
    if u32 d.mbox_cpu_val &&& MBOX_BIT 0 = 0 then
      let d := tcdm_writeb d MB0H_READ_WAKEUP_ACK PRCM_MBOX_HEADER_REQ_MB0
      let d := mbox_set_pending d 0
      (d, false)
    else (d, true)
  else (d, false)

/-- The function `read_mailbox_2`. -/
def read_mailbox_2 (d : Drv) : Drv × Bool :=
  let d := { d with mb2_ack_status := tcdm_readb d PRCM_ACK_MB2_DPS_STATUS }
  let d := irq_event d (IrqEvent.it1_clr (MBOX_BIT 2))
  (irq_event d (IrqEvent.complete 2), false)

/-- The function `read_mailbox_3`. -/
def read_mailbox_3 (d : Drv) : Drv × Bool :=
  (irq_event d (IrqEvent.it1_clr (MBOX_BIT 3)), false)

/-- The function `read_mailbox_4`. -/
def read_mailbox_4 (d : Drv) : Drv × Bool :=
  let header := tcdm_readb d PRCM_MBOX_HEADER_REQ_MB4
  let known := header = MB4H_MEM_ST ∨ header = MB4H_HOTDOG ∨ header = MB4H_HOTMON ∨
    header = MB4H_HOT_PERIOD ∨ header = MB4H_A9WDOG_CONF ∨ header = MB4H_A9WDOG_EN ∨
    header = MB4H_A9WDOG_DIS ∨ header = MB4H_A9WDOG_LOAD ∨ header = MB4H_A9WDOG_KICK
  let do_complete : Bool := decide known
  let d := if do_complete then d else irq_event d (IrqEvent.unknown_header 4 header)
  let d := irq_event d (IrqEvent.it1_clr (MBOX_BIT 4))
  let d := if do_complete then irq_event d (IrqEvent.complete 4) else d
  (d, false)

/-- The function `read_mailbox_5`. -/
def read_mailbox_5 (d : Drv) : Drv × Bool :=
  let d := { d with mb5_ack_status := tcdm_readb d PRCM_ACK_MB5_I2C_STATUS }
  let d := { d with mb5_ack_value := tcdm_readb d PRCM_ACK_MB5_I2C_VAL }
  let d := irq_event d (IrqEvent.it1_clr (MBOX_BIT 5))
  (irq_event d (IrqEvent.complete 5), false)

/-- The function `read_mailbox_6`. -/
def read_mailbox_6 (d : Drv) : Drv × Bool :=
  (irq_event d (IrqEvent.it1_clr (MBOX_BIT 6)), false)

/-- The function `read_mailbox_7`. -/
def read_mailbox_7 (d : Drv) : Drv × Bool :=
  (irq_event d (IrqEvent.it1_clr (MBOX_BIT 7)), false)

/-- The table `read_mailbox[NUM_MB]`. -/
def read_mailbox (prcmu_irq_bit : List Nat) : List (Drv → Drv × Bool) :=
  [read_mailbox_0 prcmu_irq_bit, read_mailbox_1, read_mailbox_2, read_mailbox_3,
   read_mailbox_4, read_mailbox_5, read_mailbox_6, read_mailbox_7]

/-- The type `irqreturn_t` with the three values the handler returns. -/
inductive irqreturn_t where
  | IRQ_NONE
  | IRQ_HANDLED
  | IRQ_WAKE_THREAD
  deriving DecidableEq

/-- The loop `for (n = 0; bits; n++)` of `prcmu_irq_handler`, with the
handler table as a parameter.  `fuel` bounds the number of times the body
runs; `calls` records, in order, the indices `n` at which `read_mailbox[n]`
was called.  There is no result if the fuel runs out or if the table is
indexed outside its bounds. -/
def irq_loop (table : List (Drv → Drv × Bool)) :
    Nat → Nat → Nat → irqreturn_t → List Nat → Drv → Option (Drv × irqreturn_t × List Nat)
  | 0, bits, _, r, calls, d => if bits = 0 then some (d, r, calls) else none
  | fuel + 1, bits, n, r, calls, d =>
    if bits = 0 then some (d, r, calls)
    else if bits &&& MBOX_BIT n ≠ 0 then
      match table[n]? with
      | none => none
      | some handler =>
        let res := handler d
        irq_loop table fuel (u32 (bits - MBOX_BIT n)) ((n + 1) % 256)
          (if res.2 then irqreturn_t.IRQ_WAKE_THREAD else r) (calls ++ [n]) res.1
    else irq_loop table fuel bits ((n + 1) % 256) r calls d

/-- The function `prcmu_irq_handler`; the result carries the state, the
value returned and the indices of the handlers called. -/
def prcmu_irq_handler (table : List (Drv → Drv × Bool)) (fuel : Nat) (d : Drv) :
    Option (Drv × irqreturn_t × List Nat) :=
  let bits := u32 d.arm_it1_val &&& ALL_MBOX_BITS
  if bits = 0 then some (d, irqreturn_t.IRQ_NONE, [])
  else irq_loop table fuel bits 0 irqreturn_t.IRQ_HANDLED [] d

/-- The set bits of an eight-bit vector in ascending order. -/
def set_bits_ascending (bits : Nat) : List Nat :=
  (List.range 8).filter fun n => bits.testBit n

/-- Calling the handlers of `table` at the indices `ns`, one after the other:
the state reached and the values they returned. -/
def call_handlers (table : List (Drv → Drv × Bool)) : List Nat → Drv → Option (Drv × List Bool)
  | [], d => some (d, [])
  | n :: ns, d =>
    match table[n]? with
    | none => none
    | some handler =>
      match call_handlers table ns (handler d).1 with
      | none => none
      | some (d2, rs) => some (d2, (handler d).2 :: rs)

/-! ## Mailbox operations -/

/-- How a call ends: it returns `a` to its caller, or it halts the system
(`BUG()`, `BUG_ON` or `panic`) in the state `d` reached so far. -/
inductive Outcome (α : Type) where
  | returned (a : α)
  | halted (d : Drv)

/-- The call `writew(val, tcdm_base + addr)`, little endian. -/
def tcdm_writew (d : Drv) (val addr : Nat) : Drv :=
  { d with tcdm := fun a =>
             if addr ≤ a ∧ a < addr + 2 then ((val % 65536) >>> (8 * (a - addr))) % 256
             else d.tcdm a,
           log := d.log ++ [Event.writew val addr] }

/-- The function `prcmu_set_power_state`. -/
def prcmu_set_power_state (d : Drv) (state : Nat) (keep_ulp_clk keep_ap_pll : Bool) :
    Outcome (Drv × Int) :=
  if state < PRCMU_AP_SLEEP ∨ PRCMU_AP_DEEP_IDLE < state then Outcome.halted d
  else
    let d := mbox_poll_clear d 0
    let d := tcdm_writeb d MB0H_POWER_STATE_TRANS PRCM_MBOX_HEADER_REQ_MB0
    let d := tcdm_writeb d state PRCM_REQ_MB0_AP_POWER_STATE
    let d := tcdm_writeb d (if keep_ap_pll then 1 else 0) PRCM_REQ_MB0_AP_PLL_STATE
    let d := tcdm_writeb d (if keep_ulp_clk then 1 else 0) PRCM_REQ_MB0_ULP_CLOCK_STATE
    let d := tcdm_writeb d 0 PRCM_REQ_MB0_DO_NOT_WFI
    let d := mbox_set_pending d 0
    Outcome.returned (d, 0)

/-- The function `prcmu_mask_work`. -/
def prcmu_mask_work (d : Drv) : Drv := config_wakeups d

/-- The function `ack_dbb_wakeup`. -/
def ack_dbb_wakeup (d : Drv) : Drv :=
  let d := mbox_poll_clear d 0
  let d := tcdm_writeb d MB0H_READ_WAKEUP_ACK PRCM_MBOX_HEADER_REQ_MB0
  mbox_set_pending d 0

/-- The function `prcmu_irq_thread_fn` (its scheduling calls left out). -/
def prcmu_irq_thread_fn (d : Drv) : Drv × irqreturn_t :=
  (ack_dbb_wakeup d, irqreturn_t.IRQ_HANDLED)

/-- The function `prcmu_set_arm_opp`; `fw` is the reply of the firmware, used
only if a message is sent. -/
def prcmu_set_arm_opp (d : Drv) (opp : Nat) (fw : Mb1Ack) : Drv × Int :=
  if opp < ARM_NO_CHANGE ∨ opp > ARM_EXTCLK then (d, -EINVAL)
  else
    let d := mbox_poll_clear d 1
    let d := tcdm_writeb d MB1H_ARM_APE_OPP PRCM_MBOX_HEADER_REQ_MB1
    let d := tcdm_writeb d opp PRCM_REQ_MB1_ARM_OPP
    let d := tcdm_writeb d APE_NO_CHANGE PRCM_REQ_MB1_APE_OPP
    let d := mbox_set_pending d 1
    let d := mb1_wait d fw
    (d, if d.mb1_ack.header ≠ MB1H_ARM_APE_OPP ∨ d.mb1_ack.arm_opp ≠ opp
        then -EIO_errno else 0)

/-- The function `prcmu_get_arm_opp`. -/
def prcmu_get_arm_opp (d : Drv) : Nat := tcdm_readb d PRCM_ACK_MB1_CURRENT_ARM_OPP

/-- Modelled from the spec: the member `PRCMU_DMACLK` of `enum prcmu_clock`
(`mach/prcmu.h` is not among the sources), numbered by the position of DMACLK
in the `clk_mgt` table. -/
def PRCMU_DMACLK : Nat := 23

/-- The body of the loop of `request_even_slower_clocks` for one register;
no result stands for `goto unlock_and_return`. -/
def slower_clock_step (s : ClkState) (enable : Bool) (reg : Reg) : Option ClkState :=
  let val := readl s reg
  let div := val &&& PRCM_CLK_MGT_CLKPLLDIV_MASK
  if enable then
    if div ≤ 1 ∨ div > 15 then none
    else
      let div := u32 (div <<< 1)
      some (writel s ((val &&& not32 PRCM_CLK_MGT_CLKPLLDIV_MASK) |||
        (div &&& PRCM_CLK_MGT_CLKPLLDIV_MASK)) reg)
  else
    if div ≤ 2 then none
    else
      let div := div >>> 1
      some (writel s ((val &&& not32 PRCM_CLK_MGT_CLKPLLDIV_MASK) |||
        (div &&& PRCM_CLK_MGT_CLKPLLDIV_MASK)) reg)

/-- The loop of `request_even_slower_clocks` over the registers still to do. -/
def slower_clocks_loop (enable : Bool) : List Reg → ClkState → ClkState
  | [], s => s
  | reg :: rest, s =>
    match slower_clock_step s enable reg with
    | none => s
    | some s1 => slower_clocks_loop enable rest s1

/-- The function `request_even_slower_clocks`, with
`clock_reg = { PRCM_ACLK_MGT, PRCM_DMACLK_MGT }`. -/
def request_even_slower_clocks (s : ClkState) (enable : Bool) : ClkState :=
  let s := grab_hw_semaphore s
  let s := slower_clocks_loop enable [Reg.ACLK_MGT, Reg.CLK_MGT PRCMU_DMACLK] s
  writel s 0 Reg.SEM

/-- The function `prcmu_set_ape_opp`; `fw` is the reply of the firmware, used
only if a message is sent. -/
def prcmu_set_ape_opp (d : Drv) (s : ClkState) (opp : Nat) (fw : Mb1Ack) :
    (Drv × ClkState) × Int :=
  if opp = d.ape_opp then ((d, s), 0)
  else
    let s := if d.ape_opp = APE_50_PARTLY_25_OPP then request_even_slower_clocks s false else s
    let dr : Drv × Int :=
      if opp ≠ APE_100_OPP ∧ d.ape_opp ≠ APE_100_OPP then (d, 0)
      else
        let d := mbox_poll_clear d 1
        let prcmu_opp_req := if opp = APE_50_PARTLY_25_OPP then APE_50_OPP else opp
        let d := tcdm_writeb d MB1H_ARM_APE_OPP PRCM_MBOX_HEADER_REQ_MB1
        let d := tcdm_writeb d ARM_NO_CHANGE PRCM_REQ_MB1_ARM_OPP
        let d := tcdm_writeb d prcmu_opp_req PRCM_REQ_MB1_APE_OPP
        let d := mbox_set_pending d 1
        let d := mb1_wait d fw
        (d, if d.mb1_ack.header ≠ MB1H_ARM_APE_OPP ∨ d.mb1_ack.ape_opp ≠ prcmu_opp_req
            then -EIO_errno else 0)
    let d := dr.1
    let r := dr.2
    let s :=
      if (r = 0 ∧ opp = APE_50_PARTLY_25_OPP) ∨ (r ≠ 0 ∧ d.ape_opp = APE_50_PARTLY_25_OPP) then
        request_even_slower_clocks s true
      else s
    let d := if r = 0 then { d with ape_opp := opp } else d
    ((d, s), r)

/-- The function `prcmu_release_usb_wakeup_state`. -/
def prcmu_release_usb_wakeup_state (d : Drv) (fw : Mb1Ack) : Drv × Int :=
  let d := mbox_poll_clear d 1
  let d := tcdm_writeb d MB1H_RELEASE_USB_WAKEUP PRCM_MBOX_HEADER_REQ_MB1
  let d := mbox_set_pending d 1
  let d := mb1_wait d fw
  (d, if d.mb1_ack.header ≠ MB1H_RELEASE_USB_WAKEUP ∨ d.mb1_ack.ape_voltage_status &&& BIT 0 ≠ 0
      then -EIO_errno else 0)

/-- The function `prcmu_modem_reset`. -/
def prcmu_modem_reset (d : Drv) (fw : Mb1Ack) : Drv :=
  let d := mbox_poll_clear d 1
  let d := tcdm_writeb d MB1H_RESET_MODEM PRCM_MBOX_HEADER_REQ_MB1
  let d := mbox_set_pending d 1
  mb1_wait d fw

/-- The call `wait_for_completion_timeout(&mb2_transfer.work, prcmu_comm_tout())`
and its result: with `fw = none` the firmware does not answer within the
timeout (the call returns 0); with `fw = some status` it leaves `status` in
the acknowledgment byte and raises the interrupt, whose handler
`read_mailbox_2` completes the wait. -/
def mb2_wait (c : Comm) (d : Drv) (fw : Option Nat) : Drv × Bool :=
  let d := { d with log := d.log ++ [Event.wait_timeout 2 (prcmu_comm_tout c)] }
  match fw with
  | none => (d, false)
  | some status =>
    let mem : Nat → Nat := fun a => if a = PRCM_ACK_MB2_DPS_STATUS then status % 256 else d.tcdm a
    ((read_mailbox_2 { d with tcdm := mem }).1, true)

/-- The loop `for (i = 0; i < NUM_EPOD_ID; i++)` of `prcmu_set_epod`, run for
the indices below `i`. -/
def epod_fill (d : Drv) : Nat → Drv
  | 0 => d
  | i + 1 => tcdm_writeb (epod_fill d i) EPOD_STATE_NO_CHANGE (PRCM_REQ_MB2 + i)

/-- The function `prcmu_set_epod`. -/
def prcmu_set_epod (c : Comm) (d : Drv) (epod_id epod_state : Nat) (fw : Option Nat) :
    Outcome (Drv × Int) :=
  if epod_id ≥ NUM_EPOD_ID then Outcome.halted d
  else
    let ram_retention : Bool :=
      decide (epod_id = EPOD_ID_SVAMMDSP ∨ epod_id = EPOD_ID_SIAMMDSP ∨
        epod_id = EPOD_ID_ESRAM12 ∨ epod_id = EPOD_ID_ESRAM34)
    if epod_state > EPOD_STATE_ON then Outcome.halted d
    else if epod_state = EPOD_STATE_RAMRET ∧ ram_retention = false then Outcome.halted d
    else
      let d := mbox_poll_clear d 2
      let d := epod_fill d NUM_EPOD_ID
      let d := tcdm_writeb d epod_state (PRCM_REQ_MB2 + epod_id)
      let d := tcdm_writeb d MB2H_DPS PRCM_MBOX_HEADER_REQ_MB2
      let d := mbox_set_pending d 2
      let w := mb2_wait c d fw
      if w.2 = false then Outcome.halted w.1
      else
        Outcome.returned (w.1, if w.1.mb2_ack_status ≠ HWACC_PWR_ST_OK then -EIO_errno else 0)

/-- The record `struct prcmu_auto_pm_config` (declared in `mach/prcmu.h`, its
six fields are the ones `prcmu_configure_auto_pm` reads). -/
structure prcmu_auto_pm_config where
  sia_auto_pm_enable : Nat
  sia_power_on : Nat
  sia_policy : Nat
  sva_auto_pm_enable : Nat
  sva_power_on : Nat
  sva_policy : Nat

/-- The configuration word `sleep_cfg` / `idle_cfg` built by
`prcmu_configure_auto_pm`. -/
def auto_pm_cfg (p : prcmu_auto_pm_config) : Nat :=
  let cfg := p.sva_auto_pm_enable &&& 0xF
  let cfg := u32 (u32 (cfg <<< 4) ||| (p.sia_auto_pm_enable &&& 0xF))
  let cfg := u32 (u32 (cfg <<< 8) ||| (p.sva_power_on &&& 0xFF))
  let cfg := u32 (u32 (cfg <<< 8) ||| (p.sia_power_on &&& 0xFF))
  let cfg := u32 (u32 (cfg <<< 4) ||| (p.sva_policy &&& 0xF))
  u32 (u32 (cfg <<< 4) ||| (p.sia_policy &&& 0xF))

/-- The function `prcmu_configure_auto_pm`; a `NULL` argument is `none`. -/
def prcmu_configure_auto_pm (d : Drv) (sleep idle : Option prcmu_auto_pm_config) :
    Outcome Drv :=
  match sleep, idle with
  | some sleep, some idle =>
    let sleep_cfg := auto_pm_cfg sleep
    let idle_cfg := auto_pm_cfg idle
    let d := tcdm_writel d sleep_cfg PRCM_REQ_MB2_AUTO_PM_SLEEP
    let d := tcdm_writel d idle_cfg PRCM_REQ_MB2_AUTO_PM_IDLE
    let enabled : Bool :=
      decide (sleep.sva_auto_pm_enable = PRCMU_AUTO_PM_ON ∨
        sleep.sia_auto_pm_enable = PRCMU_AUTO_PM_ON ∨
        idle.sva_auto_pm_enable = PRCMU_AUTO_PM_ON ∨
        idle.sia_auto_pm_enable = PRCMU_AUTO_PM_ON)
    Outcome.returned { d with auto_pm_enabled := enabled }
  | _, _ => Outcome.halted d

/-- The function `request_sysclk`; `fw` tells whether the firmware completes
`sysclk_work` within the timeout (it does so through a wakeup event of
mailbox 0, see `read_mailbox_0`). -/
def request_sysclk (c : Comm) (d : Drv) (enable : Bool) (fw : Bool) : Outcome (Drv × Int) :=
  let d := mbox_poll_clear d 3
  let d := tcdm_writeb d (if enable then 1 else 0) PRCM_REQ_MB3_SYSCLK_MGT
  let d := tcdm_writeb d MB3H_SYSCLK PRCM_MBOX_HEADER_REQ_MB3
  let d := mbox_set_pending d 3
  if enable then
    let d := { d with log := d.log ++ [Event.wait_timeout 3 (prcmu_comm_tout c)] }
    if fw = false then Outcome.halted d else Outcome.returned (d, 0)
  else Outcome.returned (d, 0)

/-- The call `wait_for_completion(&mb4_transfer.work)`: the firmware raises
the interrupt, whose handler `read_mailbox_4` completes the wait. -/
def mb4_wait (d : Drv) : Drv :=
  let d := { d with log := d.log ++ [Event.wait 4] }
  (read_mailbox_4 d).1

/-- The function `prcmu_config_esram0_deep_sleep`. -/
def prcmu_config_esram0_deep_sleep (d : Drv) (state : Nat) : Drv × Int :=
  if state > ESRAM0_DEEP_SLEEP_STATE_RET ∨ state < ESRAM0_DEEP_SLEEP_STATE_OFF then (d, -EINVAL)
  else
    let d := mbox_poll_clear d 4
    let d := tcdm_writeb d MB4H_MEM_ST PRCM_MBOX_HEADER_REQ_MB4
    let d := tcdm_writeb d ((DDR_PWR_STATE_OFFHIGHLAT <<< 4) ||| DDR_PWR_STATE_ON)
      PRCM_REQ_MB4_DDR_ST_AP_SLEEP_IDLE
    let d := tcdm_writeb d DDR_PWR_STATE_ON PRCM_REQ_MB4_DDR_ST_AP_DEEP_IDLE
    let d := tcdm_writeb d state PRCM_REQ_MB4_ESRAM0_ST
    let d := mbox_set_pending d 4
    (mb4_wait d, 0)

/-- The function `prcmu_config_hotdog`. -/
def prcmu_config_hotdog (d : Drv) (threshold : Nat) : Drv × Int :=
  let d := mbox_poll_clear d 4
  let d := tcdm_writeb d threshold PRCM_REQ_MB4_HOTDOG_THRESHOLD
  let d := tcdm_writeb d MB4H_HOTDOG PRCM_MBOX_HEADER_REQ_MB4
  let d := mbox_set_pending d 4
  (mb4_wait d, 0)

/-- The function `prcmu_config_hotmon`. -/
def prcmu_config_hotmon (d : Drv) (low high : Nat) : Drv × Int :=
  let d := mbox_poll_clear d 4
  let d := tcdm_writeb d low PRCM_REQ_MB4_HOTMON_LOW
  let d := tcdm_writeb d high PRCM_REQ_MB4_HOTMON_HIGH
  let d := tcdm_writeb d (HOTMON_CONFIG_LOW ||| HOTMON_CONFIG_HIGH) PRCM_REQ_MB4_HOTMON_CONFIG
  let d := tcdm_writeb d MB4H_HOTMON PRCM_MBOX_HEADER_REQ_MB4
  let d := mbox_set_pending d 4
  (mb4_wait d, 0)

/-- The function `config_hot_period`. -/
def config_hot_period (d : Drv) (val : Nat) : Drv × Int :=
  let d := mbox_poll_clear d 4
  let d := tcdm_writew d val PRCM_REQ_MB4_HOT_PERIOD
  let d := tcdm_writeb d MB4H_HOT_PERIOD PRCM_MBOX_HEADER_REQ_MB4
  let d := mbox_set_pending d 4
  (mb4_wait d, 0)

/-- The function `prcmu_start_temp_sense`. -/
def prcmu_start_temp_sense (d : Drv) (cycles32k : Nat) : Drv × Int :=
  if cycles32k = 0xFFFF then (d, -EINVAL) else config_hot_period d cycles32k

/-- The function `prcmu_stop_temp_sense`. -/
def prcmu_stop_temp_sense (d : Drv) : Drv × Int := config_hot_period d 0xFFFF

/-- The function `prcmu_a9wdog`. -/
def prcmu_a9wdog (d : Drv) (cmd d0 d1 d2 d3 : Nat) : Drv × Int :=
  let d := mbox_poll_clear d 4
  let d := tcdm_writeb d d0 PRCM_REQ_MB4_A9WDOG_0
  let d := tcdm_writeb d d1 PRCM_REQ_MB4_A9WDOG_1
  let d := tcdm_writeb d d2 PRCM_REQ_MB4_A9WDOG_2
  let d := tcdm_writeb d d3 PRCM_REQ_MB4_A9WDOG_3
  let d := tcdm_writeb d cmd PRCM_MBOX_HEADER_REQ_MB4
  let d := mbox_set_pending d 4
  (mb4_wait d, 0)

/-- The function `prcmu_config_a9wdog`. -/
def prcmu_config_a9wdog (d : Drv) (num : Nat) (sleep_auto_off : Bool) : Outcome (Drv × Int) :=
  if num = 0 ∨ num > 0xf then Outcome.halted d
  else
    Outcome.returned (prcmu_a9wdog d MB4H_A9WDOG_CONF num 0 0
      (if sleep_auto_off then A9WDOG_AUTO_OFF_EN else A9WDOG_AUTO_OFF_DIS))

/-- The function `prcmu_enable_a9wdog`. -/
def prcmu_enable_a9wdog (d : Drv) (id : Nat) : Drv × Int :=
  prcmu_a9wdog d MB4H_A9WDOG_EN id 0 0 0

/-- The function `prcmu_disable_a9wdog`. -/
def prcmu_disable_a9wdog (d : Drv) (id : Nat) : Drv × Int :=
  prcmu_a9wdog d MB4H_A9WDOG_DIS id 0 0 0

/-- The function `prcmu_kick_a9wdog`. -/
def prcmu_kick_a9wdog (d : Drv) (id : Nat) : Drv × Int :=
  prcmu_a9wdog d MB4H_A9WDOG_KICK id 0 0 0

/-- The function `prcmu_load_a9wdog`; the casts `(u8)` are `% 256`. -/
def prcmu_load_a9wdog (d : Drv) (id timeout : Nat) : Drv × Int :=
  prcmu_a9wdog d MB4H_A9WDOG_LOAD
    ((id &&& A9WDOG_ID_MASK) ||| ((u32 (timeout <<< 4) &&& 0xf0) % 256))
    (((timeout >>> 4) &&& 0xff) % 256)
    (((timeout >>> 12) &&& 0xff) % 256)
    (((timeout >>> 20) &&& 0xff) % 256)

/-- The call `wait_for_completion_timeout(&mb5_transfer.work, prcmu_comm_tout())`
and its result: with `fw = none` the firmware does not answer within the
timeout; with `fw = some (status, value)` it leaves the two bytes in the
acknowledgment region and raises the interrupt, whose handler
`read_mailbox_5` completes the wait. -/
def mb5_wait (c : Comm) (d : Drv) (fw : Option (Nat × Nat)) : Drv × Bool :=
  let d := { d with log := d.log ++ [Event.wait_timeout 5 (prcmu_comm_tout c)] }
  match fw with
  | none => (d, false)
  | some ack =>
    let mem : Nat → Nat := fun a =>
      if a = PRCM_ACK_MB5_I2C_STATUS then ack.1 % 256
      else if a = PRCM_ACK_MB5_I2C_VAL then ack.2 % 256
      else d.tcdm a
    ((read_mailbox_5 { d with tcdm := mem }).1, true)

/-- The function `prcmu_abb_read`; the third component of the result is the
byte stored through `value`, if any. -/
def prcmu_abb_read (c : Comm) (d : Drv) (slave reg size : Nat) (fw : Option (Nat × Nat)) :
    Outcome (Drv × Int × Option Nat) :=
  if size ≠ 1 then Outcome.returned (d, -EINVAL, none)
  else
    let d := mbox_poll_clear d 5
    let d := tcdm_writeb d (PRCMU_I2C_READ slave) PRCM_REQ_MB5_I2C_SLAVE_OP
    let d := tcdm_writeb d PRCMU_I2C_STOP_EN PRCM_REQ_MB5_I2C_HW_BITS
    let d := tcdm_writeb d reg PRCM_REQ_MB5_I2C_REG
    let d := tcdm_writeb d 0 PRCM_REQ_MB5_I2C_VAL
    let d := mbox_set_pending d 5
    let w := mb5_wait c d fw
    if w.2 = false then Outcome.halted w.1
    else
      let r : Int := if w.1.mb5_ack_status = I2C_RD_OK then 0 else -EIO_errno
      Outcome.returned (w.1, r, if r = 0 then some w.1.mb5_ack_value else none)

/-- The function `prcmu_abb_write`; `value` is the byte `*value`. -/
def prcmu_abb_write (c : Comm) (d : Drv) (slave reg value size : Nat)
    (fw : Option (Nat × Nat)) : Outcome (Drv × Int) :=
  if size ≠ 1 then Outcome.returned (d, -EINVAL)
  else
    let d := mbox_poll_clear d 5
    let d := tcdm_writeb d (PRCMU_I2C_WRITE slave) PRCM_REQ_MB5_I2C_SLAVE_OP
    let d := tcdm_writeb d PRCMU_I2C_STOP_EN PRCM_REQ_MB5_I2C_HW_BITS
    let d := tcdm_writeb d reg PRCM_REQ_MB5_I2C_REG
    let d := tcdm_writeb d value PRCM_REQ_MB5_I2C_VAL
    let d := mbox_set_pending d 5
    let w := mb5_wait c d fw
    if w.2 = false then Outcome.halted w.1
    else Outcome.returned (w.1, if w.1.mb5_ack_status = I2C_WR_OK then 0 else -EIO_errno)

/-- The call `writel(val, _PRCMU_BASE + PRCM_HOSTACCESS_REQ)`. -/
def write_hostaccess (d : Drv) (val : Nat) : Drv :=
  { d with hostaccess_req := u32 val, log := d.log ++ [Event.writel_hostaccess val] }

/-- The function `prcmu_ac_wake_req`; `fw` tells whether `ac_wake_work` is
completed within the timeout. -/
def prcmu_ac_wake_req (msecs_to_jiffies : Nat → Nat) (d : Drv) (fw : Bool) : Outcome Drv :=
  let val := u32 d.hostaccess_req
  if val &&& PRCM_HOSTACCESS_REQ_HOSTACCESS_REQ ≠ 0 then Outcome.returned d
  else
    let d := { d with ac_wake_req_state := 1 }
    let val := val ||| PRCM_HOSTACCESS_REQ_WAKE_REQ
    let d := write_hostaccess d val
    let val := val ||| PRCM_HOSTACCESS_REQ_HOSTACCESS_REQ
    let d := write_hostaccess d val
    let d := { d with log := d.log ++ [Event.wait_ac_wake (msecs_to_jiffies 5000)] }
    if fw = false then Outcome.halted d else Outcome.returned d

/-- The function `prcmu_ac_sleep_req`; `fw` tells whether `ac_wake_work` is
completed within the timeout. -/
def prcmu_ac_sleep_req (msecs_to_jiffies : Nat → Nat) (d : Drv) (fw : Bool) : Outcome Drv :=
  let val := u32 d.hostaccess_req
  if val &&& PRCM_HOSTACCESS_REQ_HOSTACCESS_REQ = 0 then Outcome.returned d
  else
    let val := val &&& not32 (PRCM_HOSTACCESS_REQ_HOSTACCESS_REQ ||| PRCM_HOSTACCESS_REQ_WAKE_REQ)
    let d := write_hostaccess d val
    let d := { d with log := d.log ++ [Event.wait_ac_wake (msecs_to_jiffies 5000)] }
    if fw = false then Outcome.halted d
    else Outcome.returned { d with ac_wake_req_state := 0 }

/-! ## The operations as a whole -/

/-- The state in which a call ends, whether it returns or halts. -/
def Outcome.final {α : Type} (state : α → Drv) : Outcome α → Drv
  | Outcome.returned a => state a
  | Outcome.halted d => d

/-- The operations of the driver that access a mailbox or wait for the
firmware, with their arguments and, where the firmware answers, its answer. -/
inductive Op where
  | set_power_state (state : Nat) (keep_ulp_clk keep_ap_pll : Bool)
  | enable_wakeups (wakeups : Nat)
  | config_abb_event_readout (abb_events : Nat)
  | mask_work
  | irq_thread_fn
  | set_arm_opp (opp : Nat) (fw : Mb1Ack)
  | set_ape_opp (s : ClkState) (opp : Nat) (fw : Mb1Ack)
  | request_ape_opp_100_voltage (enable : Bool) (fw : Mb1Ack)
  | release_usb_wakeup_state (fw : Mb1Ack)
  | request_pll (clock : Nat) (enable : Bool) (fw : Mb1Ack)
  | modem_reset (fw : Mb1Ack)
  | set_epod (epod_id epod_state : Nat) (fw : Option Nat)
  | configure_auto_pm (sleep idle : Option prcmu_auto_pm_config)
  | request_sysclk (enable : Bool) (fw : Bool)
  | config_esram0_deep_sleep (state : Nat)
  | config_hotdog (threshold : Nat)
  | config_hotmon (low high : Nat)
  | start_temp_sense (cycles32k : Nat)
  | stop_temp_sense
  | config_a9wdog (num : Nat) (sleep_auto_off : Bool)
  | enable_a9wdog (id : Nat)
  | disable_a9wdog (id : Nat)
  | kick_a9wdog (id : Nat)
  | load_a9wdog (id timeout : Nat)
  | abb_read (slave reg size : Nat) (fw : Option (Nat × Nat))
  | abb_write (slave reg value size : Nat) (fw : Option (Nat × Nat))
  | ac_wake_req (fw : Bool)
  | ac_sleep_req (fw : Bool)

/-- The state of the mailbox side after the operation `op` has run from `d`
(the state reached when it returned or halted). -/
def run_op (msecs_to_jiffies : Nat → Nat) (c : Comm) (d : Drv) : Op → Drv
  | Op.set_power_state state keep_ulp_clk keep_ap_pll =>
    (prcmu_set_power_state d state keep_ulp_clk keep_ap_pll).final fun a => a.1
  | Op.enable_wakeups wakeups => (prcmu_enable_wakeups d wakeups).getD d
  | Op.config_abb_event_readout abb_events => prcmu_config_abb_event_readout d abb_events
  | Op.mask_work => prcmu_mask_work d
  | Op.irq_thread_fn => (prcmu_irq_thread_fn d).1
  | Op.set_arm_opp opp fw => (prcmu_set_arm_opp d opp fw).1
  | Op.set_ape_opp s opp fw => (prcmu_set_ape_opp d s opp fw).1.1
  | Op.request_ape_opp_100_voltage enable fw => (prcmu_request_ape_opp_100_voltage d enable fw).1
  | Op.release_usb_wakeup_state fw => (prcmu_release_usb_wakeup_state d fw).1
  | Op.request_pll clock enable fw => (request_pll d clock enable fw).1
  | Op.modem_reset fw => prcmu_modem_reset d fw
  | Op.set_epod epod_id epod_state fw => (prcmu_set_epod c d epod_id epod_state fw).final fun a => a.1
  | Op.configure_auto_pm sleep idle => (prcmu_configure_auto_pm d sleep idle).final fun a => a
  | Op.request_sysclk enable fw => (request_sysclk c d enable fw).final fun a => a.1
  | Op.config_esram0_deep_sleep state => (prcmu_config_esram0_deep_sleep d state).1
  | Op.config_hotdog threshold => (prcmu_config_hotdog d threshold).1
  | Op.config_hotmon low high => (prcmu_config_hotmon d low high).1
  | Op.start_temp_sense cycles32k => (prcmu_start_temp_sense d cycles32k).1
  | Op.stop_temp_sense => (prcmu_stop_temp_sense d).1
  | Op.config_a9wdog num sleep_auto_off => (prcmu_config_a9wdog d num sleep_auto_off).final fun a => a.1
  | Op.enable_a9wdog id => (prcmu_enable_a9wdog d id).1
  | Op.disable_a9wdog id => (prcmu_disable_a9wdog d id).1
  | Op.kick_a9wdog id => (prcmu_kick_a9wdog d id).1
  | Op.load_a9wdog id timeout => (prcmu_load_a9wdog d id timeout).1
  | Op.abb_read slave reg size fw => (prcmu_abb_read c d slave reg size fw).final fun a => a.1
  | Op.abb_write slave reg value size fw =>
    (prcmu_abb_write c d slave reg value size fw).final fun a => a.1
  | Op.ac_wake_req fw => (prcmu_ac_wake_req msecs_to_jiffies d fw).final fun a => a
  | Op.ac_sleep_req fw => (prcmu_ac_sleep_req msecs_to_jiffies d fw).final fun a => a

/-- The channel to whose request mailbox the byte at `addr` belongs, if any:
the request header bytes of channels 0 to 5 and the request regions
`PRCM_REQ_MB0` .. `PRCM_REQ_MB5` with the sizes noted at their definitions
(12, 12, 16, 372, 4 and 4 bytes). -/
def request_of (addr : Nat) : Option Nat :=
  if PRCM_MBOX_HEADER ≤ addr ∧ addr < PRCM_MBOX_HEADER + 6 then some (addr - PRCM_MBOX_HEADER)
  else if PRCM_REQ_MB0 ≤ addr ∧ addr < PRCM_REQ_MB0 + 12 then some 0
  else if PRCM_REQ_MB1 ≤ addr ∧ addr < PRCM_REQ_MB1 + 12 then some 1
  else if PRCM_REQ_MB2 ≤ addr ∧ addr < PRCM_REQ_MB2 + 16 then some 2
  else if PRCM_REQ_MB3 ≤ addr ∧ addr < PRCM_REQ_MB3 + 372 then some 3
  else if PRCM_REQ_MB4 ≤ addr ∧ addr < PRCM_REQ_MB4 + 4 then some 4
  else if PRCM_REQ_MB5 ≤ addr ∧ addr < PRCM_REQ_MB5 + 4 then some 5
  else none

/-- The addresses of the bytes of shared memory that an event writes. -/
def written_bytes : Event → List Nat
  | Event.writeb _ addr => [addr]
  | Event.writew _ addr => [addr, addr + 1]
  | Event.writel _ addr => [addr, addr + 1, addr + 2, addr + 3]
  | _ => []

/-- The event writes shared memory. -/
def is_tcdm_write : Event → Bool
  | Event.writeb _ _ => true
  | Event.writew _ _ => true
  | Event.writel _ _ => true
  | _ => false

/-- The event is a wait for the firmware. -/
def is_wait : Event → Bool
  | Event.wait _ => true
  | Event.wait_timeout _ _ => true
  | Event.wait_ac_wake _ => true
  | _ => false

/-- No byte written by the event belongs to the request mailbox of a channel
whose bit is set in `pending`. -/
def writes_free (pending : Nat) (e : Event) : Bool :=
  (written_bytes e).all fun addr =>
    match request_of addr with
    | none => true
    | some n => !pending.testBit n

/-- No event of the list writes into the request mailbox of a channel whose
pending bit is set as far as the driver has seen: `pending` holds the bits of
`PRCM_MBOX_CPU_VAL` before the first event; a poll loop that has ended has
read the bit clear, and setting the bit makes it read set. -/
def no_busy_write (pending : Nat) : List Event → Bool
  | [] => true
  | Event.poll_clear n :: rest => no_busy_write (pending &&& not32 (BIT n)) rest
  | Event.set_pending n :: rest => no_busy_write (pending ||| BIT n) rest
  | e :: rest => writes_free pending e && no_busy_write pending rest

/-- Every byte written by the event belongs to the request mailbox of channel
`n`, and the event does write shared memory. -/
def writes_into (n : Nat) (e : Event) : Bool :=
  is_tcdm_write e && (written_bytes e).all fun addr => request_of addr == some n

/-- The shape of a sequence of requests: each request begins with the pending
bit of its channel read clear, continues with writes that all go to the
request mailbox of that channel, and ends by setting the pending bit of that
channel; outside a request there are only waits and writes to
`PRCM_HOSTACCESS_REQ`.  `cur` is the channel of the request under way. -/
def request_shape : Option Nat → List Event → Bool
  | cur, [] => cur.isNone
  | none, Event.poll_clear n :: rest => request_shape (some n) rest
  | none, Event.wait _ :: rest => request_shape none rest
  | none, Event.wait_timeout _ _ :: rest => request_shape none rest
  | none, Event.wait_ac_wake _ :: rest => request_shape none rest
  | none, Event.writel_hostaccess _ :: rest => request_shape none rest
  | none, _ :: _ => false
  | some n, Event.set_pending m :: rest => decide (m = n) && request_shape none rest
  | some n, e :: rest => writes_into n e && request_shape (some n) rest

/-- The wait an operation performs when it waits for the firmware: none for
the operations of mailbox 0, which expect no reply. -/
def expected_wait (msecs_to_jiffies : Nat → Nat) (c : Comm) : Op → Option Event
  | Op.set_arm_opp _ _ => some (Event.wait 1)
  | Op.set_ape_opp _ _ _ => some (Event.wait 1)
  | Op.request_ape_opp_100_voltage _ _ => some (Event.wait 1)
  | Op.release_usb_wakeup_state _ => some (Event.wait 1)
  | Op.request_pll _ _ _ => some (Event.wait 1)
  | Op.modem_reset _ => some (Event.wait 1)
  | Op.set_epod _ _ _ => some (Event.wait_timeout 2 (prcmu_comm_tout c))
  | Op.request_sysclk _ _ => some (Event.wait_timeout 3 (prcmu_comm_tout c))
  | Op.config_esram0_deep_sleep _ => some (Event.wait 4)
  | Op.config_hotdog _ => some (Event.wait 4)
  | Op.config_hotmon _ _ => some (Event.wait 4)
  | Op.start_temp_sense _ => some (Event.wait 4)
  | Op.stop_temp_sense => some (Event.wait 4)
  | Op.config_a9wdog _ _ => some (Event.wait 4)
  | Op.enable_a9wdog _ => some (Event.wait 4)
  | Op.disable_a9wdog _ => some (Event.wait 4)
  | Op.kick_a9wdog _ => some (Event.wait 4)
  | Op.load_a9wdog _ _ => some (Event.wait 4)
  | Op.abb_read _ _ _ _ => some (Event.wait_timeout 5 (prcmu_comm_tout c))
  | Op.abb_write _ _ _ _ _ => some (Event.wait_timeout 5 (prcmu_comm_tout c))
  | Op.ac_wake_req _ => some (Event.wait_ac_wake (msecs_to_jiffies 5000))
  | Op.ac_sleep_req _ => some (Event.wait_ac_wake (msecs_to_jiffies 5000))
  | _ => none

/-- The union of `prcmu_wakeup_bit[i]` over the bits `i` set in `mask`, in the
words of the specification. -/
def wakeup_union (mask : Nat) : Nat :=
  ((List.range NUM_PRCMU_WAKEUP_INDICES).filter fun i => mask.testBit i).foldl
    (fun acc i => acc ||| prcmu_wakeup_bit.getD i 0) 0

/-- The divisor of `pll_rate` in the words of the specification:
`max(N, 1) x max(R, 1)`, times 2 if `SELDIV2` is set, times 2 if the branch is
`PLL_FIX`, or is `PLL_DIV` with `DIV2EN` set and the register is
`PRCM_PLLSOC0_FREQ` or `PRCM_PLLDDR_FREQ`. -/
def pll_div_spec (val : Nat) (reg_offset : Reg) (branch : Nat) : Nat :=
  max ((val &&& PRCM_PLL_FREQ_N_MASK) >>> PRCM_PLL_FREQ_N_SHIFT) 1 *
    max ((val &&& PRCM_PLL_FREQ_R_MASK) >>> PRCM_PLL_FREQ_R_SHIFT) 1 *
    (if val &&& PRCM_PLL_FREQ_SELDIV2 ≠ 0 then 2 else 1) *
    (if branch = PLL_FIX ∨ (branch = PLL_DIV ∧ val &&& PRCM_PLL_FREQ_DIV2EN ≠ 0 ∧
        (reg_offset = Reg.PLLSOC0_FREQ ∨ reg_offset = Reg.PLLDDR_FREQ)) then 2 else 1)

/-- The arguments that `prcmu_set_epod` checks with `BUG_ON`: the domain is
out of range, the state is out of range, or RAM retention is asked of a
domain that has none. -/
def epod_args_invalid (epod_id epod_state : Nat) : Prop :=
  epod_id ≥ NUM_EPOD_ID ∨ epod_state > EPOD_STATE_ON ∨
    (epod_state = EPOD_STATE_RAMRET ∧ ¬ (epod_id = EPOD_ID_SVAMMDSP ∨ epod_id = EPOD_ID_SIAMMDSP ∨
      epod_id = EPOD_ID_ESRAM12 ∨ epod_id = EPOD_ID_ESRAM34))

instance (epod_id epod_state : Nat) : Decidable (epod_args_invalid epod_id epod_state) := by
  unfold epod_args_invalid; infer_instance

/-- The control flow of the loop of `prcmu_irq_handler` alone: the indices at
which the body calls a handler, for the same fuel, bit vector and start
index as `irq_loop`. -/
def loop_calls : Nat → Nat → Nat → Option (List Nat)
  | 0, bits, _ => if bits = 0 then some [] else none
  | fuel + 1, bits, n =>
    if bits = 0 then some []
    else if bits &&& MBOX_BIT n ≠ 0 then
      (loop_calls fuel (u32 (bits - MBOX_BIT n)) ((n + 1) % 256)).map fun ns => n :: ns
    else loop_calls fuel bits ((n + 1) % 256)

/-- The logical interrupts raised for the event word `ev` under the enable
field `irqs`, in the words of the specification: every index `n` below
`NUM_PRCMU_WAKEUPS` whose entry `prcmu_irq_bit[n]` meets both words, in
ascending order. -/
def raised_irqs (prcmu_irq_bit : List Nat) (ev irqs : Nat) : List Nat :=
  (List.range prcmu_irq_bit.length).filter fun n => ev &&& irqs &&& prcmu_irq_bit.getD n 0 ≠ 0

/-- Several actions of the interrupt side appended to its log. -/
def irq_append (d : Drv) (es : List IrqEvent) : Drv := { d with irq_log := d.irq_log ++ es }

/-- The DBB event word of a wakeup message in the words of the specification:
taken from buffer 1 (`PRCM_ACK_MB0_WAKEUP_1_8500`) when bit 0 of the
read-pointer byte is set and from buffer 0 (`PRCM_ACK_MB0_WAKEUP_0_8500`)
otherwise. -/
def dbb_event_word (d : Drv) : Nat :=
  if (tcdm_readb d PRCM_ACK_MB0_READ_POINTER).testBit 0 = true then
    tcdm_readl d PRCM_ACK_MB0_WAKEUP_1_8500
  else tcdm_readl d PRCM_ACK_MB0_WAKEUP_0_8500

/-- The events logged between the state `d` and a later state `d2`. -/
def events_since (d d2 : Drv) : List Event := d2.log.drop d.log.length

/-- What holds of the events an operation adds to the log: the log is only
extended; unless the operation is `prcmu_configure_auto_pm`, the events have
the shape of a sequence of requests; and every wait among them is the one
listed for the operation in `expected_wait`. -/
def op_events_ok (msecs_to_jiffies : Nat → Nat) (c : Comm) (d : Drv) (op : Op) : Prop :=
  (run_op msecs_to_jiffies c d op).log =
      d.log ++ events_since d (run_op msecs_to_jiffies c d op) ∧
    ((∀ sleep idle, op ≠ Op.configure_auto_pm sleep idle) →
      request_shape none (events_since d (run_op msecs_to_jiffies c d op)) = true) ∧
    ∀ e ∈ events_since d (run_op msecs_to_jiffies c d op), is_wait e = true →
      expected_wait msecs_to_jiffies c op = some e

/-! ## Example states of the interrupt side -/

/-- A state in which the firmware has posted a wakeup message of the execute
state: the acknowledgment header is `MB0H_WAKEUP_EXE`, the read pointer is 1,
the event word of buffer 1 is `0x801` (RTC and AC wake acknowledgment), the
event word of buffer 0 is zero, and the RTC interrupt is enabled in
`dbb_irqs`. -/
def wakeup_state : Drv :=
  let mem : Nat → Nat := fun a =>
    if a = PRCM_MBOX_HEADER_ACK_MB0 then MB0H_WAKEUP_EXE
    else if a = PRCM_ACK_MB0_READ_POINTER then 1
    else if a = PRCM_ACK_MB0_WAKEUP_1_8500 then 0x01
    else if a = PRCM_ACK_MB0_WAKEUP_1_8500 + 1 then 0x08
    else 0
  { drv_init with tcdm := mem, dbb_irqs := BIT 0 }

/-- A state in which the pending bit of mailbox 2 reads set: a request of
`prcmu_set_epod` has been submitted and the firmware has not consumed it yet. -/
def busy2_state : Drv := { drv_init with mbox_cpu_val := MBOX_BIT 2 }

/-- An autonomous power management configuration with both `auto_pm_enable`
fields on. -/
def auto_pm_on : prcmu_auto_pm_config :=
  { sia_auto_pm_enable := PRCMU_AUTO_PM_ON, sia_power_on := 0, sia_policy := 0,
    sva_auto_pm_enable := PRCMU_AUTO_PM_ON, sva_power_on := 0, sva_policy := 0 }

/-- A communication timeout record with a timeout of 200 jiffies and no
restore pending. -/
def comm_200 : Comm := { tout := 200, rst_tout := 200, rst_work := none }

/-- The conversion `msecs_to_jiffies` for `HZ = 100`. -/
def jiffies_hz100 (ms : Nat) : Nat := (ms + 9) / 10

/-! ## Programmable clock outputs -/

/-- Modelled from the spec: position of the divider field of CLKOUT0 in
`PRCM_CLKOCR` (`prcmu-regs-db8500.h` is not among the sources). -/
def PRCM_CLKOCR_CLKODIV0_SHIFT : Nat := 0

/-- Modelled from the spec: the divider field of CLKOUT0, six bits wide
(`div` ranges over `[0,63]`; `prcmu-regs-db8500.h` is not among the sources). -/
def PRCM_CLKOCR_CLKODIV0_MASK : Nat := 0x3f

/-- Modelled from the spec: position of the source field of CLKOUT0
(`prcmu-regs-db8500.h` is not among the sources). -/
def PRCM_CLKOCR_CLKOSEL0_SHIFT : Nat := 6

/-- Modelled from the spec: the source field of CLKOUT0, three bits wide
(sources up to `PRCMU_CLKSRC_CLK009`; `prcmu-regs-db8500.h` is not among the
sources). -/
def PRCM_CLKOCR_CLKOSEL0_MASK : Nat := 0x1c0

/-- Modelled from the spec: position of the divider field of CLKOUT1
(`prcmu-regs-db8500.h` is not among the sources). -/
def PRCM_CLKOCR_CLKODIV1_SHIFT : Nat := 16

/-- Modelled from the spec: the divider field of CLKOUT1, six bits wide
(`prcmu-regs-db8500.h` is not among the sources). -/
def PRCM_CLKOCR_CLKODIV1_MASK : Nat := 0x3f0000

/-- Modelled from the spec: position of the source field of CLKOUT1
(`prcmu-regs-db8500.h` is not among the sources). -/
def PRCM_CLKOCR_CLKOSEL1_SHIFT : Nat := 22

/-- Modelled from the spec: the source field of CLKOUT1, three bits wide
(`prcmu-regs-db8500.h` is not among the sources). -/
def PRCM_CLKOCR_CLKOSEL1_MASK : Nat := 0x1c00000

/-- Modelled from the spec: the source type bit of CLKOUT1
(`prcmu-regs-db8500.h` is not among the sources). -/
def PRCM_CLKOCR_CLK1TYPE : Nat := 0x10000000

/-- Modelled from the spec: the last clock source that CLKOUT0 accepts
(`mach/prcmu.h` is not among the sources). -/
def PRCMU_CLKSRC_CLK009 : Nat := 0x07

/-- The errno value `EBUSY`. -/
def EBUSY : Int := 16

/-- A value of type `int` after an addition: two's complement on 32 bits. -/
def s32 (x : Int) : Int := (x + 2147483648) % 4294967296 - 2147483648

/-- State seen by `prcmu_config_clkout`: the register `PRCM_CLKOCR` and the
array `static int requests[2]`. -/
structure ClkoutState where
  clkocr : Nat
  requests : Nat → Int

/-- The function `prcmu_config_clkout`; no result stands for a `BUG_ON`. -/
def prcmu_config_clkout (s : ClkoutState) (clkout source div : Nat) :
    Option (ClkoutState × Int) :=
  if clkout > 1 ∨ div > 63 ∨ (clkout = 0 ∧ source > PRCMU_CLKSRC_CLK009) then none
  else if div = 0 ∧ s.requests clkout = 0 then some (s, -EINVAL)
  else
    let div_mask := if clkout = 0 then PRCM_CLKOCR_CLKODIV0_MASK else PRCM_CLKOCR_CLKODIV1_MASK
    let mask :=
      if clkout = 0 then PRCM_CLKOCR_CLKODIV0_MASK ||| PRCM_CLKOCR_CLKOSEL0_MASK
      else PRCM_CLKOCR_CLKODIV1_MASK ||| PRCM_CLKOCR_CLKOSEL1_MASK ||| PRCM_CLKOCR_CLK1TYPE
    let bits :=
      if clkout = 0 then
        u32 ((source <<< PRCM_CLKOCR_CLKOSEL0_SHIFT) ||| (div <<< PRCM_CLKOCR_CLKODIV0_SHIFT))
      else
        u32 ((source <<< PRCM_CLKOCR_CLKOSEL1_SHIFT) ||| (div <<< PRCM_CLKOCR_CLKODIV1_SHIFT))
    let bits := bits &&& mask
    let val := u32 s.clkocr
    let done : ClkoutState × Int :=
      ({ clkocr := u32 (bits ||| (val &&& not32 mask)),
         requests := fun k =>
           if k = clkout then s32 (s.requests k + (if div ≠ 0 then 1 else -1))
           else s.requests k }, 0)
    if val &&& div_mask ≠ 0 then
      if div ≠ 0 then
        if val &&& mask ≠ bits then some (s, -EBUSY) else some done
      else
        if (val &&& mask) &&& not32 div_mask ≠ bits then some (s, -EINVAL) else some done
    else some done

/-- A sequence of calls of `prcmu_config_clkout` on the output `clkout`, each
given by its `source` and `div`; the result is the final state and the values
returned. -/
def clkout_calls (clkout : Nat) : ClkoutState → List (Nat × Nat) → Option (ClkoutState × List Int)
  | s, [] => some (s, [])
  | s, (source, div) :: rest =>
    (prcmu_config_clkout s clkout source div).bind fun r =>
      (clkout_calls clkout r.1 rest).map fun q => (q.1, r.2 :: q.2)

/-- The divider field of the output `clkout` in a value of `PRCM_CLKOCR`. -/
def clkout_div_field (clkout val : Nat) : Nat :=
  u32 val &&& (if clkout = 0 then PRCM_CLKOCR_CLKODIV0_MASK else PRCM_CLKOCR_CLKODIV1_MASK)

/-- The local variable `div_mask` of `prcmu_config_clkout` for the output
`clkout`. -/
def clkout_div_mask (clkout : Nat) : Nat :=
  if clkout = 0 then PRCM_CLKOCR_CLKODIV0_MASK else PRCM_CLKOCR_CLKODIV1_MASK

/-- The local variable `mask` of `prcmu_config_clkout` for the output
`clkout`: the divider field and the source field, with the type bit for
CLKOUT1. -/
def clkout_mask (clkout : Nat) : Nat :=
  if clkout = 0 then PRCM_CLKOCR_CLKODIV0_MASK ||| PRCM_CLKOCR_CLKOSEL0_MASK
  else PRCM_CLKOCR_CLKODIV1_MASK ||| PRCM_CLKOCR_CLKOSEL1_MASK ||| PRCM_CLKOCR_CLK1TYPE

/-- The local variable `bits` of `prcmu_config_clkout` after `bits &= mask`:
the requested source and divider at their places in `PRCM_CLKOCR`. -/
def clkout_bits (clkout source div : Nat) : Nat :=
  (if clkout = 0 then
      u32 ((source <<< PRCM_CLKOCR_CLKOSEL0_SHIFT) ||| (div <<< PRCM_CLKOCR_CLKODIV0_SHIFT))
    else
      u32 ((source <<< PRCM_CLKOCR_CLKOSEL1_SHIFT) ||| (div <<< PRCM_CLKOCR_CLKODIV1_SHIFT))) &&&
    clkout_mask clkout

/-- Both outputs unconfigured: `PRCM_CLKOCR` is zero and no request is
counted. -/
def clkout_init : ClkoutState := { clkocr := 0, requests := fun _ => 0 }

/-! ## Sequences of operating point requests -/

/-- The calls of `request_even_slower_clocks` made by one call of
`prcmu_set_ape_opp`, in order, each given by its argument: the call under
"Exit APE_50_PARTLY_25_OPP", made when the recorded operating point `cur` is
`APE_50_PARTLY_25_OPP`, and the call after `skip_message`, whose condition
reads the result `r`.  No call is made when `opp` is the recorded operating
point. -/
def even_slower_requests (cur opp : Nat) (r : Int) : List Bool :=
  if opp = cur then []
  else
    (if cur = APE_50_PARTLY_25_OPP then [false] else []) ++
      (if (r = 0 ∧ opp = APE_50_PARTLY_25_OPP) ∨ (r ≠ 0 ∧ cur = APE_50_PARTLY_25_OPP)
        then [true] else [])

/-- A sequence of calls of `prcmu_set_ape_opp`, each with its argument and the
reply the firmware would give; the result is the final state and the calls of
`request_even_slower_clocks` made on the way. -/
def ape_opp_calls : Drv × ClkState → List (Nat × Mb1Ack) → (Drv × ClkState) × List Bool
  | ds, [] => (ds, [])
  | ds, (opp, fw) :: rest =>
    let r := prcmu_set_ape_opp ds.1 ds.2 opp fw
    let q := ape_opp_calls r.1 rest
    (q.1, even_slower_requests ds.1.ape_opp opp r.2 ++ q.2)

/-- The arguments of successive calls of `request_even_slower_clocks`
alternate: `true` comes only while the extra division is not `active`, `false`
only while it is. -/
def alternates : Bool → List Bool → Bool
  | _, [] => true
  | active, enable :: rest => (enable != active) && alternates enable rest

/-- The register value `val` with its divider field replaced by `div`. -/
def with_divider (val div : Nat) : Nat :=
  (val &&& not32 PRCM_CLK_MGT_CLKPLLDIV_MASK) ||| div

/-- The test of `request_even_slower_clocks` that ends the loop at the
register value `val`: the divider is outside `[2,15]` on enable, or at most 2
on disable. -/
def divider_rejected (enable : Bool) (val : Nat) : Prop :=
  if enable then
    val &&& PRCM_CLK_MGT_CLKPLLDIV_MASK ≤ 1 ∨ val &&& PRCM_CLK_MGT_CLKPLLDIV_MASK > 15
  else val &&& PRCM_CLK_MGT_CLKPLLDIV_MASK ≤ 2

instance (enable : Bool) (val : Nat) : Decidable (divider_rejected enable val) := by
  unfold divider_rejected; infer_instance

/-- The register value `val` with its divider doubled (enable) or halved,
rounding down (disable). -/
def divider_scaled (enable : Bool) (val : Nat) : Nat :=
  with_divider val
    (if enable then 2 * (val &&& PRCM_CLK_MGT_CLKPLLDIV_MASK)
     else (val &&& PRCM_CLK_MGT_CLKPLLDIV_MASK) / 2)

/-! ## Further example states -/

/-- A state in which `PRCM_SGACLK_MGT` holds `0x1120` (enabled, PLL SOC0,
divide-by-2.5 enabled, divider field 0) and `PRCM_PLLSOC0_FREQ` holds
`0x1067D` (D = 125, N = 6, R = 1): the PLL branch of SGACLK runs at 800 MHz. -/
def sga_2_5_state : ClkState where
  regs := fun r =>
    match r with
    | Reg.CLK_MGT 0 => 0x1120
    | Reg.PLLSOC0_FREQ => 0x1067D
    | _ => 0
  pllsw := fun _ => 0
  divsel := fun _ => PRCM_DSI_PLLOUT_SEL_PHI

/-- A state in which `PRCM_ACLK_MGT` holds `a`, `PRCM_DMACLK_MGT` holds `b`
and every other register is zero. -/
def slow_clock_state (a b : Nat) : ClkState where
  regs := fun r =>
    match r with
    | Reg.ACLK_MGT => a
    | Reg.CLK_MGT 23 => b
    | _ => 0
  pllsw := fun _ => 0
  divsel := fun _ => PRCM_DSI_PLLOUT_SEL_PHI

/-- The rate `floor(P * 10 / 25)` of the divide-by-2.5 mode, in the words of
the specification: the product is exact. -/
def div_by_2_5_spec (P : Nat) : Nat := P * 10 / 25

/-- An acknowledgment whose header is not the header of any request of
mailbox 1. -/
def fw_bad : Mb1Ack :=
  { header := 0xEE, arm_opp := 0, ape_opp := 0, ape_voltage_status := 0 }

/-! ## Properties -/

theorem or_and_self_left (a b : Nat) : (a ||| b) &&& a = a := by
  apply Nat.eq_of_testBit_eq
  intro i
  simp only [Nat.testBit_and, Nat.testBit_or]
  cases a.testBit i <;> cases b.testBit i <;> rfl

theorem or_and_self_right (a b : Nat) : (a ||| b) &&& b = b := by
  apply Nat.eq_of_testBit_eq
  intro i
  simp only [Nat.testBit_and, Nat.testBit_or]
  cases a.testBit i <;> cases b.testBit i <;> rfl

theorem or_eq_zero_iff (a b : Nat) : a ||| b = 0 ↔ a = 0 ∧ b = 0 := by
  constructor
  · intro h
    have h1 := or_and_self_left a b
    have h2 := or_and_self_right a b
    rw [h] at h1 h2
    simp at h1 h2
    exact ⟨h1.symm, h2.symm⟩
  · rintro ⟨rfl, rfl⟩
    rfl

theorem u32_lt (x : Nat) : u32 x < 4294967296 := Nat.mod_lt _ (by decide)

theorem u32_of_lt {x : Nat} (h : x < 4294967296) : u32 x = x := Nat.mod_eq_of_lt h

theorem u64_of_lt {x : Nat} (h : x < 18446744073709551616) : u64 x = x := Nat.mod_eq_of_lt h

theorem readl_lt (s : ClkState) (r : Reg) : readl s r < 4294967296 := u32_lt _

theorem readl_writel (s : ClkState) (v : Nat) (r q : Reg) :
    readl (writel s v q) r = if r = q then u32 v else readl s r := by
  unfold readl writel
  by_cases h : r = q <;> simp [h, u32]

theorem pll_rate_writel (s : ClkState) (v : Nat) (r q : Reg) (x b : Nat) (h : r ≠ q) :
    pll_rate (writel s v q) r x b = pll_rate s r x b := by
  unfold pll_rate
  rw [readl_writel, if_neg h]

theorem clock_divider_some (src rate : Nat) (hs : src < 4294967296) (h : 0 < rate) :
    ∃ div, clock_divider src rate = some div ∧ 1 ≤ div := by
  unfold clock_divider udiv
  rw [if_neg (by omega)]
  simp only [Option.some_bind]
  by_cases h0 : src / rate = 0
  · exact ⟨1, by simp [h0], le_refl _⟩
  · by_cases h1 : rate < src / (src / rate)
    · refine ⟨u32 (src / rate + 1), by simp [h0, h1], ?_⟩
      have h2 : 2 ≤ src / (src / rate) := by omega
      have h3 : 0 < src / rate := Nat.pos_of_ne_zero h0
      have h4 : 2 * (src / rate) ≤ src := by
        have := (Nat.le_div_iff_mul_le h3).mp h2
        omega
      rw [u32_of_lt (by omega)]
      omega
    · exact ⟨src / rate, by simp [h0, h1], Nat.pos_of_ne_zero h0⟩

theorem pll_rate_lt (s : ClkState) (r : Reg) (x b : Nat) : pll_rate s r x b < 4294967296 :=
  u32_lt _

theorem clock_source_rate_lt (s : ClkState) (v b : Nat) :
    clock_source_rate s v b < 4294967296 := by
  unfold clock_source_rate
  dsimp only
  split_ifs <;> first | exact pll_rate_lt _ _ _ _ | decide

theorem and_and_const (v a b c : Nat) (h : a &&& b = c) : (v &&& a) &&& b = v &&& c := by
  rw [Nat.and_assoc, h]

theorem small_and_31 (m : Nat) (h : m ≤ 31) : m &&& 31 = m := by
  have : ∀ k, k < 32 → k &&& 31 = k := by decide
  exact this m (by omega)

theorem small_and_const (m c : Nat) (h : m ≤ 31) (hc : 31 &&& c = 0) : m &&& c = 0 := by
  rw [← small_and_31 m h, Nat.and_assoc, hc, Nat.and_zero]

theorem sub_mask_and (p c : Nat) (hp : p &&& 224 = p) (hc : 224 &&& c = 0) : p &&& c = 0 := by
  rw [← hp, Nat.and_assoc, hc, Nat.and_zero]

theorem clock_rate_after_write (s : ClkState) (clock w : Nat) (hw : w < 4294967296) :
    clock_rate (writel (writel (grab_hw_semaphore s) w (Reg.CLK_MGT clock)) 0 Reg.SEM) clock =
      if w &&& PRCM_CLK_MGT_CLK38 ≠ 0 then
        if clk_mgt_clk38div clock = true ∧ w &&& PRCM_CLK_MGT_CLK38DIV ≠ 0 then
          ROOT_CLOCK_RATE / 2
        else ROOT_CLOCK_RATE
      else
        match (if (w ||| s.pllsw clock) &&& PRCM_CLK_MGT_CLKPLLSW_MASK =
              PRCM_CLK_MGT_CLKPLLSW_SOC0 then
            some (pll_rate s Reg.PLLSOC0_FREQ ROOT_CLOCK_RATE (clk_mgt_branch clock))
          else if (w ||| s.pllsw clock) &&& PRCM_CLK_MGT_CLKPLLSW_MASK =
              PRCM_CLK_MGT_CLKPLLSW_SOC1 then
            some (pll_rate s Reg.PLLSOC1_FREQ ROOT_CLOCK_RATE (clk_mgt_branch clock))
          else if (w ||| s.pllsw clock) &&& PRCM_CLK_MGT_CLKPLLSW_MASK =
              PRCM_CLK_MGT_CLKPLLSW_DDR then
            some (pll_rate s Reg.PLLDDR_FREQ ROOT_CLOCK_RATE (clk_mgt_branch clock))
          else none : Option Nat) with
        | none => 0
        | some rate =>
          if clock = PRCMU_SGACLK ∧
              (w ||| s.pllsw clock) &&& PRCM_SGACLK_MGT_SGACLKDIV_BY_2_5_EN ≠ 0 then
            u32 (div_by_2_5 rate)
          else if (w ||| s.pllsw clock) &&& PRCM_CLK_MGT_CLKPLLDIV_MASK ≠ 0 then
            rate / ((w ||| s.pllsw clock) &&& PRCM_CLK_MGT_CLKPLLDIV_MASK)
          else 0 := by
  unfold clock_rate grab_hw_semaphore
  simp only [readl_writel, reduceCtorEq, if_false, if_true, u32_of_lt hw,
    pll_rate_writel _ _ _ _ _ _ (show Reg.PLLSOC0_FREQ ≠ Reg.SEM by simp),
    pll_rate_writel _ _ _ _ _ _ (show Reg.PLLSOC1_FREQ ≠ Reg.SEM by simp),
    pll_rate_writel _ _ _ _ _ _ (show Reg.PLLDDR_FREQ ≠ Reg.SEM by simp),
    pll_rate_writel _ _ _ _ _ _ (show Reg.PLLSOC0_FREQ ≠ Reg.CLK_MGT clock by simp),
    pll_rate_writel _ _ _ _ _ _ (show Reg.PLLSOC1_FREQ ≠ Reg.CLK_MGT clock by simp),
    pll_rate_writel _ _ _ _ _ _ (show Reg.PLLDDR_FREQ ≠ Reg.CLK_MGT clock by simp)]
  rfl

theorem or_and_of_sub (v p c : Nat) (hp : p &&& 224 = p) (hc : 224 &&& c = 0) :
    (v ||| p) &&& c = v &&& c := by
  rw [Nat.and_distrib_right, sub_mask_and p c hp hc, Nat.or_zero]

theorem and_ne_zero_of_or (v p c : Nat) (h : v &&& c ≠ 0) : (v ||| p) &&& c ≠ 0 := by
  rw [Nat.and_distrib_right]
  intro h0
  exact h ((or_eq_zero_iff _ _).mp h0).1

theorem clock_source_rate_clk38 (s : ClkState) (v b : Nat) (h : v &&& PRCM_CLK_MGT_CLK38 ≠ 0) :
    clock_source_rate s v b = ROOT_CLOCK_RATE := by
  unfold clock_source_rate
  rw [if_pos h]

theorem clock_source_rate_pll (s : ClkState) (x b : Nat) (h : x &&& PRCM_CLK_MGT_CLK38 = 0) :
    clock_source_rate s x b =
      (if x &&& PRCM_CLK_MGT_CLKPLLSW_MASK = PRCM_CLK_MGT_CLKPLLSW_SOC0 then
            some (pll_rate s Reg.PLLSOC0_FREQ ROOT_CLOCK_RATE b)
          else if x &&& PRCM_CLK_MGT_CLKPLLSW_MASK = PRCM_CLK_MGT_CLKPLLSW_SOC1 then
            some (pll_rate s Reg.PLLSOC1_FREQ ROOT_CLOCK_RATE b)
          else if x &&& PRCM_CLK_MGT_CLKPLLSW_MASK = PRCM_CLK_MGT_CLKPLLSW_DDR then
            some (pll_rate s Reg.PLLDDR_FREQ ROOT_CLOCK_RATE b)
          else none : Option Nat).getD 0 := by
  unfold clock_source_rate
  rw [if_neg (by simp [h])]
  dsimp only
  split_ifs <;> rfl

theorem clock_divider_zero (rate div : Nat) (hrate : 0 < rate)
    (h : clock_divider 0 rate = some div) : div = 1 := by
  unfold clock_divider udiv at h
  rw [if_neg (by omega)] at h
  simp at h
  exact h.symm

/-- After `set_clock_rate` the clock reads back the rate that `round_clock_rate`
announced on the state before. -/
theorem round_clock_rate_predicts_set (s : ClkState) (clock rate : Nat)
    (hrate : 0 < rate) (hsw : pllsw_ok s clock) :
    ∃ t, set_clock_rate s clock rate = some t ∧
      round_clock_rate s clock rate = some (clock_rate t clock) := by
  unfold set_clock_rate round_clock_rate
  have hgv : readl (grab_hw_semaphore s) (Reg.CLK_MGT clock) = readl s (Reg.CLK_MGT clock) := by
    unfold grab_hw_semaphore; rw [readl_writel, if_neg (by simp)]
  have hgs : ∀ v b, clock_source_rate (grab_hw_semaphore s) v b = clock_source_rate s v b := by
    intro v b
    unfold clock_source_rate grab_hw_semaphore
    simp only [pll_rate_writel _ _ _ _ _ _ (show Reg.PLLSOC0_FREQ ≠ Reg.SEM by simp),
      pll_rate_writel _ _ _ _ _ _ (show Reg.PLLSOC1_FREQ ≠ Reg.SEM by simp),
      pll_rate_writel _ _ _ _ _ _ (show Reg.PLLDDR_FREQ ≠ Reg.SEM by simp)]
  have hgp : (grab_hw_semaphore s).pllsw = s.pllsw := rfl
  dsimp only
  rw [hgv, hgs, hgp]
  have hpm : s.pllsw clock &&& 224 = s.pllsw clock := hsw
  generalize hv : readl s (Reg.CLK_MGT clock) = v
  have hvlt : v < 4294967296 := hv ▸ readl_lt _ _
  obtain ⟨div, hdiv, hdiv1⟩ := clock_divider_some
    (clock_source_rate s (v ||| s.pllsw clock) (clk_mgt_branch clock)) rate
    (clock_source_rate_lt _ _ _) hrate
  rw [hdiv]
  simp only [Option.some_bind]
  by_cases h38 : v &&& PRCM_CLK_MGT_CLK38 ≠ 0
  · -- the clock runs from the 38.4 MHz root
    rw [if_pos h38, if_pos h38, clock_source_rate_clk38 _ _ _ (and_ne_zero_of_or _ _ _ h38)]
    by_cases hc : clk_mgt_clk38div clock = true
    · rw [if_pos hc, if_pos hc]
      by_cases hd : div > 1
      · rw [if_pos hd]
        refine ⟨_, rfl, ?_⟩
        rw [clock_rate_after_write _ _ _ (Nat.or_lt_two_pow (n := 32) hvlt (by decide))]
        have e1 : (v ||| PRCM_CLK_MGT_CLK38DIV) &&& PRCM_CLK_MGT_CLK38 ≠ 0 :=
          and_ne_zero_of_or _ _ _ h38
        have e2 : (v ||| PRCM_CLK_MGT_CLK38DIV) &&& PRCM_CLK_MGT_CLK38DIV ≠ 0 := by
          rw [or_and_self_right]; decide
        have e3 : (if div > 2 then 2 else div) ⊓ 31 = 2 := by
          split_ifs <;> omega
        simp only [e3, e1, e2, hc, ne_eq, not_false_eq_true, and_self, if_true]
        rfl
      · rw [if_neg hd]
        refine ⟨_, rfl, ?_⟩
        rw [clock_rate_after_write _ _ _ (lt_of_le_of_lt Nat.and_le_left hvlt)]
        have e1 : (v &&& not32 PRCM_CLK_MGT_CLK38DIV) &&& PRCM_CLK_MGT_CLK38 =
            v &&& PRCM_CLK_MGT_CLK38 := and_and_const _ _ _ _ (by decide)
        have e2 : (v &&& not32 PRCM_CLK_MGT_CLK38DIV) &&& PRCM_CLK_MGT_CLK38DIV = 0 := by
          rw [and_and_const _ _ _ 0 (by decide), Nat.and_zero]
        have e3 : (if div > 2 then 2 else div) ⊓ 31 = 1 := by
          split_ifs <;> omega
        simp only [e3, e1, e2, h38, hc, ne_eq, not_false_eq_true, not_true_eq_false, and_false,
          if_true, if_false]
        rfl
    · rw [if_neg hc, if_neg hc]
      refine ⟨_, rfl, ?_⟩
      rw [clock_rate_after_write _ _ _ hvlt]
      simp only [h38, hc, ne_eq, not_false_eq_true, Bool.false_eq_true, false_and, if_true,
        if_false]
      rfl
  · -- the clock runs from a PLL
    have h38z : v &&& PRCM_CLK_MGT_CLK38 = 0 := by simpa using h38
    have hP38 : s.pllsw clock &&& PRCM_CLK_MGT_CLK38 = 0 := sub_mask_and _ _ hpm (by decide)
    have hP25 : s.pllsw clock &&& PRCM_SGACLK_MGT_SGACLKDIV_BY_2_5_EN = 0 :=
      sub_mask_and _ _ hpm (by decide)
    have hPdiv : s.pllsw clock &&& PRCM_CLK_MGT_CLKPLLDIV_MASK = 0 :=
      sub_mask_and _ _ hpm (by decide)
    have hx38 : (v ||| s.pllsw clock) &&& PRCM_CLK_MGT_CLK38 = 0 := by
      rw [Nat.and_distrib_right, h38z, hP38]; rfl
    have hm1 : 1 ≤ div ⊓ 31 := by omega
    have hm31 : div ⊓ 31 ≤ 31 := by omega
    have hmdiv : div ⊓ 31 &&& PRCM_CLK_MGT_CLKPLLDIV_MASK = div ⊓ 31 := small_and_31 _ hm31
    have hmsw : div ⊓ 31 &&& PRCM_CLK_MGT_CLKPLLSW_MASK = 0 :=
      small_and_const _ _ hm31 (by decide)
    have hm38 : div ⊓ 31 &&& PRCM_CLK_MGT_CLK38 = 0 := small_and_const _ _ hm31 (by decide)
    have hm25 : div ⊓ 31 &&& PRCM_SGACLK_MGT_SGACLKDIV_BY_2_5_EN = 0 :=
      small_and_const _ _ hm31 (by decide)
    rw [if_neg h38, if_neg h38]
    rw [clock_source_rate_pll _ _ _ hx38] at hdiv ⊢
    -- the value written keeps the selector, so the register read back selects the same PLL
    have key : ∀ e K : Nat, e &&& PRCM_CLK_MGT_CLKPLLSW_MASK = 0 → e &&& PRCM_CLK_MGT_CLK38 = 0 →
        not32 K &&& PRCM_CLK_MGT_CLKPLLSW_MASK = PRCM_CLK_MGT_CLKPLLSW_MASK →
        not32 K &&& PRCM_CLK_MGT_CLK38 = PRCM_CLK_MGT_CLK38 →
        (((v &&& not32 K) ||| e) ||| s.pllsw clock) &&& PRCM_CLK_MGT_CLKPLLSW_MASK =
            (v ||| s.pllsw clock) &&& PRCM_CLK_MGT_CLKPLLSW_MASK ∧
          ((v &&& not32 K) ||| e) &&& PRCM_CLK_MGT_CLK38 = 0 := by
      intro e K he1 he2 hK1 hK2
      constructor
      · simp only [Nat.and_distrib_right, and_and_const _ _ _ _ hK1, he1, Nat.or_zero]
      · simp only [Nat.and_distrib_right, and_and_const _ _ _ _ hK2, he2, Nat.or_zero, h38z]
    generalize hso : (if (v ||| s.pllsw clock) &&& PRCM_CLK_MGT_CLKPLLSW_MASK =
              PRCM_CLK_MGT_CLKPLLSW_SOC0 then
            some (pll_rate s Reg.PLLSOC0_FREQ ROOT_CLOCK_RATE (clk_mgt_branch clock))
          else if (v ||| s.pllsw clock) &&& PRCM_CLK_MGT_CLKPLLSW_MASK =
              PRCM_CLK_MGT_CLKPLLSW_SOC1 then
            some (pll_rate s Reg.PLLSOC1_FREQ ROOT_CLOCK_RATE (clk_mgt_branch clock))
          else if (v ||| s.pllsw clock) &&& PRCM_CLK_MGT_CLKPLLSW_MASK =
              PRCM_CLK_MGT_CLKPLLSW_DDR then
            some (pll_rate s Reg.PLLDDR_FREQ ROOT_CLOCK_RATE (clk_mgt_branch clock))
          else none : Option Nat) = o at hdiv ⊢
    by_cases hsga : clock = PRCMU_SGACLK
    · rw [if_pos hsga]
      by_cases h25 : div = 3 ∧ div_by_2_5 (o.getD 0) ≤ rate
      · rw [if_pos h25, if_pos ⟨hsga, h25⟩]
        refine ⟨_, rfl, ?_⟩
        have hw : ((v &&& not32 (PRCM_CLK_MGT_CLKPLLDIV_MASK |||
              PRCM_SGACLK_MGT_SGACLKDIV_BY_2_5_EN)) |||
              PRCM_SGACLK_MGT_SGACLKDIV_BY_2_5_EN) ||| 0 ⊓ 31 =
            (v &&& not32 (PRCM_CLK_MGT_CLKPLLDIV_MASK ||| PRCM_SGACLK_MGT_SGACLKDIV_BY_2_5_EN)) |||
              PRCM_SGACLK_MGT_SGACLKDIV_BY_2_5_EN := by
          rw [Nat.zero_min, Nat.or_zero]
        have hwlt : (v &&& not32 (PRCM_CLK_MGT_CLKPLLDIV_MASK |||
              PRCM_SGACLK_MGT_SGACLKDIV_BY_2_5_EN)) |||
              PRCM_SGACLK_MGT_SGACLKDIV_BY_2_5_EN < 4294967296 :=
          Nat.or_lt_two_pow (n := 32) (lt_of_le_of_lt Nat.and_le_left hvlt) (by decide)
        obtain ⟨k1, k2⟩ := key PRCM_SGACLK_MGT_SGACLKDIV_BY_2_5_EN
          (PRCM_CLK_MGT_CLKPLLDIV_MASK ||| PRCM_SGACLK_MGT_SGACLKDIV_BY_2_5_EN)
          (by decide) (by decide) (by decide) (by decide)
        have k3 : (((v &&& not32 (PRCM_CLK_MGT_CLKPLLDIV_MASK |||
              PRCM_SGACLK_MGT_SGACLKDIV_BY_2_5_EN)) |||
              PRCM_SGACLK_MGT_SGACLKDIV_BY_2_5_EN) ||| s.pllsw clock) &&&
            PRCM_SGACLK_MGT_SGACLKDIV_BY_2_5_EN ≠ 0 := by
          apply and_ne_zero_of_or
          rw [or_and_self_right]
          decide
        rw [hw, clock_rate_after_write _ _ _ hwlt, k1, k2, hso]
        cases o with
        | none =>
          have := clock_divider_zero rate div hrate hdiv
          omega
        | some r =>
          simp only [ne_eq, not_true_eq_false, if_false, Option.getD]
          rw [if_pos ⟨hsga, k3⟩]
      · rw [if_neg h25, if_neg (fun h => h25 h.2)]
        refine ⟨_, rfl, ?_⟩
        have hwlt : (v &&& not32 (PRCM_CLK_MGT_CLKPLLDIV_MASK |||
              PRCM_SGACLK_MGT_SGACLKDIV_BY_2_5_EN)) ||| div ⊓ 31 < 4294967296 :=
          Nat.or_lt_two_pow (n := 32) (lt_of_le_of_lt Nat.and_le_left hvlt) (by omega)
        obtain ⟨k1, k2⟩ := key (div ⊓ 31)
          (PRCM_CLK_MGT_CLKPLLDIV_MASK ||| PRCM_SGACLK_MGT_SGACLKDIV_BY_2_5_EN)
          hmsw hm38 (by decide) (by decide)
        have k3 : (((v &&& not32 (PRCM_CLK_MGT_CLKPLLDIV_MASK |||
              PRCM_SGACLK_MGT_SGACLKDIV_BY_2_5_EN)) ||| div ⊓ 31) ||| s.pllsw clock) &&&
            PRCM_SGACLK_MGT_SGACLKDIV_BY_2_5_EN = 0 := by
          simp only [Nat.and_distrib_right, and_and_const _ _ _ 0 (show
            not32 (PRCM_CLK_MGT_CLKPLLDIV_MASK ||| PRCM_SGACLK_MGT_SGACLKDIV_BY_2_5_EN) &&&
              PRCM_SGACLK_MGT_SGACLKDIV_BY_2_5_EN = 0 by decide),
            hm25, hP25, Nat.and_zero, Nat.or_zero]
        have k4 : (((v &&& not32 (PRCM_CLK_MGT_CLKPLLDIV_MASK |||
              PRCM_SGACLK_MGT_SGACLKDIV_BY_2_5_EN)) ||| div ⊓ 31) ||| s.pllsw clock) &&&
            PRCM_CLK_MGT_CLKPLLDIV_MASK = div ⊓ 31 := by
          simp only [Nat.and_distrib_right, and_and_const _ _ _ 0 (show
            not32 (PRCM_CLK_MGT_CLKPLLDIV_MASK ||| PRCM_SGACLK_MGT_SGACLKDIV_BY_2_5_EN) &&&
              PRCM_CLK_MGT_CLKPLLDIV_MASK = 0 by decide),
            hmdiv, hPdiv, Nat.and_zero, Nat.or_zero, Nat.zero_or]
        rw [clock_rate_after_write _ _ _ hwlt, k1, k2, k3, k4, hso]
        have hm0 : div ⊓ 31 ≠ 0 := by omega
        cases o with
        | none => simp [udiv, hm0]
        | some r => simp [udiv, hm0]
    · rw [if_neg hsga, if_neg (fun h => hsga h.1)]
      refine ⟨_, rfl, ?_⟩
      have hwlt : (v &&& not32 PRCM_CLK_MGT_CLKPLLDIV_MASK) ||| div ⊓ 31 < 4294967296 :=
        Nat.or_lt_two_pow (n := 32) (lt_of_le_of_lt Nat.and_le_left hvlt) (by omega)
      obtain ⟨k1, k2⟩ := key (div ⊓ 31) PRCM_CLK_MGT_CLKPLLDIV_MASK hmsw hm38
        (by decide) (by decide)
      have k3 : (((v &&& not32 PRCM_CLK_MGT_CLKPLLDIV_MASK) ||| div ⊓ 31) ||| s.pllsw clock) &&&
          PRCM_CLK_MGT_CLKPLLDIV_MASK = div ⊓ 31 := by
        simp only [Nat.and_distrib_right, and_and_const _ _ _ 0 (show
          not32 PRCM_CLK_MGT_CLKPLLDIV_MASK &&& PRCM_CLK_MGT_CLKPLLDIV_MASK = 0 by decide),
          hmdiv, hPdiv, Nat.and_zero, Nat.or_zero, Nat.zero_or]
      rw [clock_rate_after_write _ _ _ hwlt, k1, k2, k3, hso]
      simp only [ne_eq, not_true_eq_false, if_false, hsga, false_and]
      have hm0 : div ⊓ 31 ≠ 0 := by omega
      cases o with
      | none => simp [udiv, hm0]
      | some r => simp [udiv, hm0]

theorem pllsw_ok_request_clock (s : ClkState) (clock c : Nat) (enable : Bool)
    (h : pllsw_ok s c) : pllsw_ok (request_clock s clock enable).1 c := by
  unfold pllsw_ok at h ⊢
  unfold request_clock
  cases enable
  · by_cases hc : c = clock
    · simp only [writel, grab_hw_semaphore, Bool.false_eq_true, if_false, hc, if_true]
      rw [Nat.and_assoc, Nat.and_self]
    · simp only [writel, grab_hw_semaphore, Bool.false_eq_true, if_false, hc]
      exact h
  · exact h

theorem pllsw_set_clock_rate (s t : ClkState) (clock rate : Nat)
    (h : set_clock_rate s clock rate = some t) : t.pllsw = s.pllsw := by
  unfold set_clock_rate at h
  simp only [Option.bind_eq_some] at h
  obtain ⟨div, -, h⟩ := h
  injection h with h
  rw [← h]
  rfl

/-- C1 (failing input): with `PRCM_SGACLK_MGT` selecting PLL SOC0 and
`PRCM_PLLSOC0_FREQ` programmed for 800 MHz (D = 125, N = 6), the product
`src_rate * 10` wraps in `unsigned long`: `prcmu_round_clock_rate` answers
148201308 Hz for a target of 320 MHz, and after `prcmu_set_clock_rate` with
that value `prcmu_clock_rate` returns 133333333 Hz, not the rounded value. -/
theorem round_trip_breaks_on_wrap :
    clock_source_rate (soc0_state 125 6) 0x120 PLL_DIV = 800000000 ∧
    prcmu_round_clock_rate (soc0_state 125 6) PRCMU_SGACLK 320000000 = some 148201308 ∧
    (prcmu_set_clock_rate (soc0_state 125 6) PRCMU_SGACLK 148201308).map
      (fun r => (prcmu_clock_rate r.1 PRCMU_SGACLK, r.2)) = some (133333333, 0) := by
  decide

/-- C2: for a regulated clock and a target rate above zero,
`prcmu_set_clock_rate` succeeds and `prcmu_clock_rate` afterwards returns the
value that `prcmu_round_clock_rate` computed on the state before the call. -/
theorem round_predicts_set (s : ClkState) (clock rate : Nat)
    (hclock : clock < PRCMU_NUM_REG_CLOCKS) (hrate : 0 < rate) (hsw : pllsw_ok s clock) :
    ∃ t, prcmu_set_clock_rate s clock rate = some (t, 0) ∧
      prcmu_round_clock_rate s clock rate = some (prcmu_clock_rate t clock) := by
  obtain ⟨t, h1, h2⟩ := round_clock_rate_predicts_set s clock rate hrate hsw
  refine ⟨t, ?_, ?_⟩
  · unfold prcmu_set_clock_rate
    rw [if_pos hclock, h1]
    rfl
  · unfold prcmu_round_clock_rate prcmu_clock_rate
    rw [if_pos hclock, if_pos hclock, h2]

/-- C2 at a concrete state: SGACLK on PLL SOC0 at 800 MHz, target 320 MHz. -/
theorem round_predicts_set_witness :
    PRCMU_SGACLK < PRCMU_NUM_REG_CLOCKS ∧ 0 < 320000000 ∧
      pllsw_ok (soc0_state 125 6) PRCMU_SGACLK ∧
      ∃ t, prcmu_set_clock_rate (soc0_state 125 6) PRCMU_SGACLK 320000000 = some (t, 0) ∧
        prcmu_round_clock_rate (soc0_state 125 6) PRCMU_SGACLK 320000000 =
          some (prcmu_clock_rate t PRCMU_SGACLK) :=
  ⟨by decide, by decide, by decide,
    round_predicts_set (soc0_state 125 6) PRCMU_SGACLK 320000000 (by decide) (by decide)
      (by decide)⟩

theorem clock_divider_eq (src rate : Nat) (hs : src < 4294967296) (h : 0 < rate) :
    clock_divider src rate = some (if src / rate = 0 then 1
      else if rate < src / (src / rate) then src / rate + 1 else src / rate) := by
  unfold clock_divider udiv
  rw [if_neg (by omega)]
  simp only [Option.some_bind]
  by_cases h0 : src / rate = 0
  · simp [h0]
  · by_cases h1 : rate < src / (src / rate)
    · have h2 : 2 ≤ src / (src / rate) := by omega
      have h3 : 0 < src / rate := Nat.pos_of_ne_zero h0
      have h4 : 2 * (src / rate) ≤ src := by
        have := (Nat.le_div_iff_mul_le h3).mp h2
        omega
      simp only [h0, h1, if_true, if_false]
      rw [u32_of_lt (by omega)]
    · simp only [h0, h1, if_false]

/-- The divider found for a rate that is itself a quotient `src / m` gives
that quotient back. -/
theorem clock_divider_of_quotient (src m : Nat) (hs : src < 4294967296) (hm : 1 ≤ m)
    (hq : 0 < src / m) :
    clock_divider src (src / m) = some (src / (src / m)) ∧ m ≤ src / (src / m) ∧
      src / (src / (src / m)) = src / m := by
  have h1 : m ≤ src / (src / m) :=
    (Nat.le_div_iff_mul_le hq).mpr (Nat.mul_div_le src m)
  have hqpos : 0 < src / (src / m) := by omega
  have h2 : src / m ≤ src / (src / (src / m)) :=
    (Nat.le_div_iff_mul_le hqpos).mpr (Nat.mul_div_le src _)
  have h3 : src / (src / (src / m)) ≤ src / m := Nat.div_le_div_left h1 (by omega)
  refine ⟨?_, h1, le_antisymm h3 h2⟩
  rw [clock_divider_eq src _ hs hq, if_neg (by omega), if_neg (by omega)]

theorem div_min_31 (src m q : Nat) (hm1 : 1 ≤ m) (hm : m ≤ 31)
    (h : src / q = src / m) : src / (q ⊓ 31) = src / m := by
  rcases Nat.le_total q 31 with h1 | h1
  · rw [Nat.min_eq_left h1, h]
  · rw [Nat.min_eq_right h1]
    have a1 : src / 31 ≤ src / m := Nat.div_le_div_left hm (by omega)
    have a2 : src / q ≤ src / 31 := Nat.div_le_div_left h1 (by decide)
    omega

theorem div_by_2_5_no_wrap (src : Nat) (h : src * 10 < 4294967296) :
    div_by_2_5 src = src * 10 / 25 ∧ u32 (div_by_2_5 src) = src * 10 / 25 := by
  unfold div_by_2_5
  rw [u32_of_lt h, u64_of_lt (by omega)]
  exact ⟨rfl, u32_of_lt (by omega)⟩

/-- The rounding of `round_clock_rate`, as a function of the source rate
alone, is idempotent when `src * 10` does not wrap: `P` stands for "runs
from the 38.4 MHz root", `Q` for `clk38div`, `S` for "is SGACLK". -/
theorem round_idempotent (src rate r1 : Nat) (P Q S : Prop) [Decidable P] [Decidable Q]
    [Decidable S] (hs : src < 4294967296) (hP : P → src = ROOT_CLOCK_RATE)
    (hnw : ¬P → S → src * 10 < 4294967296) (hrate : 0 < rate)
    (h : ((clock_divider src rate).bind fun div =>
      if P then udiv src ((if Q then (if div > 2 then 2 else div) else 1) ⊓ 31)
      else if S ∧ div = 3 ∧ div_by_2_5 src ≤ rate then some (u32 (div_by_2_5 src))
      else udiv src (div ⊓ 31)) = some r1) (hr1 : r1 ≠ 0) :
    ((clock_divider src r1).bind fun div =>
      if P then udiv src ((if Q then (if div > 2 then 2 else div) else 1) ⊓ 31)
      else if S ∧ div = 3 ∧ div_by_2_5 src ≤ r1 then some (u32 (div_by_2_5 src))
      else udiv src (div ⊓ 31)) = some r1 := by
  obtain ⟨div, hdiv, hdiv1⟩ := clock_divider_some src rate hs hrate
  rw [hdiv] at h
  simp only [Option.some_bind] at h
  have hr1pos : 0 < r1 := Nat.pos_of_ne_zero hr1
  by_cases hp : P
  · -- 38.4 MHz root: the result is 38.4 MHz or 19.2 MHz
    have hsrc := hP hp
    subst hsrc
    rw [if_pos hp] at h
    simp only [if_pos hp]
    by_cases hq : Q
    · simp only [if_pos hq] at h ⊢
      by_cases hd : div > 2
      · rw [if_pos hd] at h
        have : r1 = 19200000 := by
          have h2 : udiv ROOT_CLOCK_RATE (2 ⊓ 31) = some 19200000 := by decide
          rw [h2] at h; injection h with h; exact h.symm
        subst this
        decide
      · rw [if_neg hd] at h
        have hcases : div = 1 ∨ div = 2 := by omega
        rcases hcases with rfl | rfl
        · have : r1 = 38400000 := by
            have h2 : udiv ROOT_CLOCK_RATE (1 ⊓ 31) = some 38400000 := by decide
            rw [h2] at h; injection h with h; exact h.symm
          subst this
          decide
        · have : r1 = 19200000 := by
            have h2 : udiv ROOT_CLOCK_RATE (2 ⊓ 31) = some 19200000 := by decide
            rw [h2] at h; injection h with h; exact h.symm
          subst this
          decide
    · simp only [if_neg hq] at h ⊢
      have : r1 = 38400000 := by
        have h2 : udiv ROOT_CLOCK_RATE (1 ⊓ 31) = some 38400000 := by decide
        rw [h2] at h; injection h with h; exact h.symm
      subst this
      obtain ⟨d2, hd2, _⟩ := clock_divider_some ROOT_CLOCK_RATE 38400000 (by decide) (by decide)
      rw [hd2]
      simp only [Option.some_bind]
      decide
  · rw [if_neg hp] at h
    simp only [if_neg hp]
    have hm1 : 1 ≤ div ⊓ 31 := by omega
    have hm31 : div ⊓ 31 ≤ 31 := by omega
    by_cases h25 : S ∧ div = 3 ∧ div_by_2_5 src ≤ rate
    · -- the divide-by-2.5 rate was returned
      rw [if_pos h25] at h
      obtain ⟨hS, hd3, hle⟩ := h25
      obtain ⟨e1, e2⟩ := div_by_2_5_no_wrap src (hnw hp hS)
      rw [e2] at h
      injection h with h
      rw [e1] at hle
      -- what `clock_divider src rate = 3` says about `rate`
      rw [clock_divider_eq src rate hs hrate] at hdiv
      injection hdiv with hdiv
      have hq0 := Nat.div_mul_le_self src rate
      have hq1 := Nat.lt_mul_div_succ src hrate
      have hfacts : (3 * rate ≤ src ∧ src < 4 * rate ∧ src / 3 ≤ rate) ∨
          (2 * rate ≤ src ∧ src < 3 * rate ∧ rate < src / 2) := by
        by_cases a0 : src / rate = 0
        · rw [if_pos a0] at hdiv; omega
        · rw [if_neg a0] at hdiv
          by_cases a1 : rate < src / (src / rate)
          · rw [if_pos a1] at hdiv
            have a2 : src / rate = 2 := by omega
            rw [a2] at a1 hq0 hq1
            exact Or.inr ⟨by omega, by omega, a1⟩
          · rw [if_neg a1] at hdiv
            have a2 : src / rate = 3 := by omega
            rw [a2] at a1 hq0 hq1
            exact Or.inl ⟨by omega, by omega, by omega⟩
      have hcd : clock_divider src r1 = some 3 := by
        rcases Nat.lt_or_ge src 6 with hsmall | hbig
        · have h3 : src = 3 := by
            clear hq0 hq1 hdiv
            interval_cases src <;> omega
          subst h3
          have hr : r1 = 1 := by omega
          subst hr
          decide
        · rw [clock_divider_eq src r1 hs hr1pos]
          by_cases b0 : src < 3 * r1
          · have b1 : src / r1 = 2 := Nat.div_eq_of_lt_le (by omega) (by omega)
            rw [b1, if_neg (by omega), if_pos (by omega)]
          · have b1 : src / r1 = 3 := Nat.div_eq_of_lt_le (by omega) (by omega)
            rw [b1, if_neg (by omega), if_neg (by omega)]
      rw [hcd]
      simp only [Option.some_bind]
      rw [if_pos ⟨hS, trivial, by rw [e1]; omega⟩, e2, h]
    · -- a plain quotient was returned
      rw [if_neg h25] at h
      have hr : r1 = src / (div ⊓ 31) := by
        unfold udiv at h
        rw [if_neg (by omega)] at h
        injection h with h; exact h.symm
      have hqpos : 0 < src / (div ⊓ 31) := by omega
      obtain ⟨c1, c2, c3⟩ := clock_divider_of_quotient src (div ⊓ 31) hs hm1 hqpos
      rw [hr, c1]
      simp only [Option.some_bind]
      have hfin : udiv src (src / (src / (div ⊓ 31)) ⊓ 31) = some (src / (div ⊓ 31)) := by
        unfold udiv
        rw [if_neg (by omega), div_min_31 src (div ⊓ 31) _ hm1 hm31 c3]
      by_cases hS2 : S ∧ src / (src / (div ⊓ 31)) = 3 ∧ div_by_2_5 src ≤ src / (div ⊓ 31)
      · rw [if_pos hS2]
        obtain ⟨hS, hq3, hle⟩ := hS2
        obtain ⟨e1, e2⟩ := div_by_2_5_no_wrap src (hnw hp hS)
        rw [e1] at hle
        rw [hq3] at c3
        rw [e2]
        congr 1
        omega
      · rw [if_neg hS2]
        exact hfin

/-- The round trip of C1 holds in every state in which the product
`src_rate * 10` does not wrap in `unsigned long`: the wrap is the only cause
of the failure shown by `round_trip_breaks_on_wrap`. -/
theorem round_trip_without_wrap (s : ClkState) (clock rate r1 : Nat)
    (hclock : clock < PRCMU_NUM_REG_CLOCKS) (hrate : 0 < rate) (hsw : pllsw_ok s clock)
    (hnw : clock_source_rate s (readl s (Reg.CLK_MGT clock) ||| s.pllsw clock)
      (clk_mgt_branch clock) * 10 < 4294967296)
    (h : prcmu_round_clock_rate s clock rate = some r1) (hr1 : r1 ≠ 0) :
    ∃ t, prcmu_set_clock_rate s clock r1 = some (t, 0) ∧ prcmu_clock_rate t clock = r1 := by
  have hround : round_clock_rate s clock rate = some r1 := by
    unfold prcmu_round_clock_rate at h
    rw [if_pos hclock] at h
    exact h
  have hidem : round_clock_rate s clock r1 = some r1 := by
    unfold round_clock_rate at hround ⊢
    exact round_idempotent _ rate r1 _ _ _ (clock_source_rate_lt _ _ _)
      (fun hp => clock_source_rate_clk38 _ _ _ (and_ne_zero_of_or _ _ _ hp))
      (fun _ _ => hnw) hrate hround hr1
  obtain ⟨t, h1, h2⟩ := round_clock_rate_predicts_set s clock r1 (Nat.pos_of_ne_zero hr1) hsw
  refine ⟨t, ?_, ?_⟩
  · unfold prcmu_set_clock_rate
    rw [if_pos hclock, h1]
    rfl
  · unfold prcmu_clock_rate
    rw [if_pos hclock]
    rw [hidem] at h2
    injection h2 with h2
    exact h2.symm

set_option maxRecDepth 100000 in
theorem plldsi_fields : ∀ d, d < 256 → ∀ k, k < 8 → 1 ≤ k →
    (plldsi_freq_bits d k ||| u32 (1 <<< PRCM_PLL_FREQ_N_SHIFT)) < 4294967296 ∧
    ((plldsi_freq_bits d k ||| u32 (1 <<< PRCM_PLL_FREQ_N_SHIFT)) &&& PRCM_PLL_FREQ_D_MASK) >>>
      PRCM_PLL_FREQ_D_SHIFT = d ∧
    pll_div (plldsi_freq_bits d k ||| u32 (1 <<< PRCM_PLL_FREQ_N_SHIFT)) Reg.PLLDSI_FREQ PLL_RAW
      = k := by
  decide

set_option maxRecDepth 100000 in
theorem plldsi_freq_bits_ne_zero : ∀ d, d < 256 → ∀ k, k < 8 → 6 ≤ d →
    plldsi_freq_bits d k ≠ 0 := by
  decide

theorem clock_rate_lt (s : ClkState) (clock : Nat) : clock_rate s clock < 4294967296 := by
  unfold clock_rate
  dsimp only
  split_ifs <;> (try dsimp only) <;> first
    | decide
    | exact u32_lt _
    | exact lt_of_le_of_lt (Nat.div_le_self _ _) (pll_rate_lt _ _ _ _)

theorem clock_rate_writel_plldsi (s : ClkState) (v clock : Nat) :
    clock_rate (writel s v Reg.PLLDSI_FREQ) clock = clock_rate s clock := by
  unfold clock_rate
  simp only [readl_writel, reduceCtorEq, if_false,
    pll_rate_writel _ _ _ _ _ _ (show Reg.PLLSOC0_FREQ ≠ Reg.PLLDSI_FREQ by simp),
    pll_rate_writel _ _ _ _ _ _ (show Reg.PLLSOC1_FREQ ≠ Reg.PLLDSI_FREQ by simp),
    pll_rate_writel _ _ _ _ _ _ (show Reg.PLLDDR_FREQ ≠ Reg.PLLDSI_FREQ by simp)]
  rfl

theorem plldsi_loops_agree (src rate : Nat) (hsrc : src ≠ 0) (hs32 : src < 4294967296) :
    ∀ r rem rounded pll, r ≤ 7 → plldsi_related src rounded pll →
      ∃ rounded2 pll2, round_plldsi_loop src rate r rem rounded = some rounded2 ∧
        set_plldsi_loop src rate r rem pll = some pll2 ∧ plldsi_related src rounded2 pll2 := by
  intro r
  induction r with
  | zero =>
    intro rem rounded pll _ hrel
    exact ⟨rounded, pll, rfl, rfl, hrel⟩
  | succ r ih =>
    intro rem rounded pll hr hrel
    simp only [round_plldsi_loop, set_plldsi_loop]
    by_cases hrem : rem > 0
    · simp only [hrem, if_true, udiv, hsrc, if_false, Option.some_bind]
      generalize hd1 : (if u64 (u32 ((r + 1) * rate)) / src < 6 then 6
        else if u64 (u32 ((r + 1) * rate)) / src > 255 then 255
        else u64 (u32 ((r + 1) * rate)) / src) = d1
      have hd6 : 6 ≤ d1 := by rw [← hd1]; split_ifs <;> omega
      have hd255 : d1 ≤ 255 := by rw [← hd1]; split_ifs <;> omega
      have hprod : d1 * src < 1099511627776 := by
        calc d1 * src ≤ 255 * src := Nat.mul_le_mul_right _ hd255
          _ < 1099511627776 := by omega
      have e1 : u64 (d1 * src) = d1 * src := u64_of_lt (by omega)
      have e2 : u64 (2 * (d1 * src)) = 2 * (d1 * src) := u64_of_lt (by omega)
      have e3 : u64 ((r + 1) * MIN_PLL_VCO_RATE) = (r + 1) * MIN_PLL_VCO_RATE :=
        u64_of_lt (by unfold MIN_PLL_VCO_RATE; omega)
      have e4 : u64 ((r + 1) * MAX_PLL_VCO_RATE) = (r + 1) * MAX_PLL_VCO_RATE :=
        u64_of_lt (by unfold MAX_PLL_VCO_RATE; omega)
      simp only [e1, e2, e3, e4]
      by_cases hvco : 2 * (d1 * src) < (r + 1) * MIN_PLL_VCO_RATE ∨
          (r + 1) * MAX_PLL_VCO_RATE < 2 * (d1 * src)
      · rw [if_pos hvco, if_pos hvco]
        exact ih rem rounded pll (by omega) hrel
      · rw [if_neg hvco, if_neg hvco]
        have hlo : (r + 1) * 300000000 ≤ d1 * src := by
          unfold MIN_PLL_VCO_RATE at hvco; omega
        have hhi : d1 * src ≤ (r + 1) * 840320000 := by
          unfold MAX_PLL_VCO_RATE at hvco; omega
        have hq1 : 300000000 ≤ d1 * src / (r + 1) :=
          (Nat.le_div_iff_mul_le (by omega)).mpr (by omega)
        have hq2 : d1 * src / (r + 1) ≤ 840320000 := by
          apply Nat.div_le_of_le_mul
          omega
        have hq3 : u32 (d1 * src / (r + 1)) = d1 * src / (r + 1) := u32_of_lt (by omega)
        have hnew : plldsi_related src (u32 (d1 * src / (r + 1)))
            (plldsi_freq_bits d1 (r + 1)) := by
          refine Or.inr ⟨d1, r + 1, hd6, hd255, by omega, hr, rfl, ?_, ?_⟩
          · rw [e1]
          · rw [hq3]; omega
        by_cases hlt : rate < d1 * src / (r + 1)
        · rw [if_pos hlt, if_pos hlt]
          rcases hrel with ⟨h1, h2⟩ | ⟨d, k, hd, hd2, hk, hk2, hp, hrd, hne⟩
          · refine ⟨_, _, rfl, rfl, ?_⟩
            rw [if_pos h1, if_pos h2]
            exact hnew
          · refine ⟨_, _, rfl, rfl, ?_⟩
            have hpne : pll ≠ 0 := by
              rw [hp]
              exact plldsi_freq_bits_ne_zero d (by omega) k (by omega) hd
            rw [if_neg hne, if_neg hpne]
            exact Or.inr ⟨d, k, hd, hd2, hk, hk2, hp, hrd, hne⟩
        · rw [if_neg hlt, if_neg hlt]
          by_cases hbetter : u64 (rate - d1 * src / (r + 1)) < rem
          · rw [if_pos hbetter, if_pos hbetter]
            exact ih _ _ _ (by omega) hnew
          · rw [if_neg hbetter, if_neg hbetter]
            exact ih rem rounded pll (by omega) hrel
    · simp only [hrem, if_false]
      exact ⟨rounded, pll, rfl, rfl, hrel⟩

set_option maxRecDepth 100000 in
theorem plldsi_fields_sum : ∀ d, d < 256 → ∀ k, k < 8 →
    plldsi_freq_bits d k ||| u32 (1 <<< PRCM_PLL_FREQ_N_SHIFT) = d + 256 * 1 + 65536 * k := by
  decide

theorem prcmu_round_plldsi (s : ClkState) (rate : Nat) :
    prcmu_round_clock_rate s PRCMU_PLLDSI rate = round_plldsi_rate s rate := by
  unfold prcmu_round_clock_rate
  rw [if_neg (by decide), if_pos rfl]

theorem prcmu_set_plldsi (s : ClkState) (rate : Nat) :
    prcmu_set_clock_rate s PRCMU_PLLDSI rate = set_plldsi_rate s rate := by
  unfold prcmu_set_clock_rate
  rw [if_neg (by decide), if_pos rfl]

theorem prcmu_clock_rate_plldsi (s : ClkState) :
    prcmu_clock_rate s PRCMU_PLLDSI =
      pll_rate s Reg.PLLDSI_FREQ (clock_rate s PRCMU_HDMICLK) PLL_RAW := by
  unfold prcmu_clock_rate
  rw [if_neg (by decide), if_neg (by decide), if_neg (by decide), if_neg (by decide),
    if_neg (by decide), if_neg (by decide), if_pos rfl]

/-- C3: for a non-zero HDMI clock rate, `set_plldsi_rate` returns `-EINVAL`
exactly when `round_plldsi_rate` returns 0 (and then writes nothing);
otherwise it returns 0 and writes to `PRCM_PLLDSI_FREQ` a multiplier `d` in
`[6,255]`, N = 1 and a divider `r` in `[1,7]`, after which
`prcmu_clock_rate(PRCMU_PLLDSI)` equals the value of `round_plldsi_rate`. -/
theorem plldsi_round_and_set_agree (s : ClkState) (rate : Nat)
    (hsrc : prcmu_clock_rate s PRCMU_HDMICLK ≠ 0) :
    ∃ rounded t ret, prcmu_round_clock_rate s PRCMU_PLLDSI rate = some rounded ∧
      prcmu_set_clock_rate s PRCMU_PLLDSI rate = some (t, ret) ∧
      (ret = -EINVAL ↔ rounded = 0) ∧
      (rounded = 0 → t = s) ∧
      (rounded ≠ 0 → ret = 0 ∧ ∃ d r, 6 ≤ d ∧ d ≤ 255 ∧ 1 ≤ r ∧ r ≤ 7 ∧
        t = writel s (d + 256 * 1 + 65536 * r) Reg.PLLDSI_FREQ ∧
        prcmu_clock_rate t PRCMU_PLLDSI = rounded) := by
  have hsrc2 : clock_rate s PRCMU_HDMICLK ≠ 0 := by
    have : prcmu_clock_rate s PRCMU_HDMICLK = clock_rate s PRCMU_HDMICLK := by
      unfold prcmu_clock_rate; rw [if_pos (by decide)]
    rw [← this]; exact hsrc
  obtain ⟨rounded, pll, hround, hset, hrel⟩ := plldsi_loops_agree
    (clock_rate s PRCMU_HDMICLK) rate hsrc2 (clock_rate_lt _ _) 7 rate 0 0 (le_refl _)
    (Or.inl ⟨rfl, rfl⟩)
  rw [prcmu_round_plldsi, prcmu_set_plldsi]
  unfold round_plldsi_rate set_plldsi_rate
  rw [hround, hset]
  simp only [Option.some_bind]
  rcases hrel with ⟨h1, h2⟩ | ⟨d, k, hd, hd2, hk, hk2, hp, hrd, hne⟩
  · refine ⟨rounded, s, -EINVAL, rfl, ?_, ?_, ?_, ?_⟩
    · rw [if_pos h2]
    · simp [h1]
    · intro _; rfl
    · intro h; exact absurd h1 h
  · have hpne : pll ≠ 0 := by
      rw [hp]; exact plldsi_freq_bits_ne_zero d (by omega) k (by omega) hd
    obtain ⟨f1, f2, f3⟩ := plldsi_fields d (by omega) k (by omega) hk
    have f4 := plldsi_fields_sum d (by omega) k (by omega)
    refine ⟨rounded, writel s (pll ||| u32 (1 <<< PRCM_PLL_FREQ_N_SHIFT)) Reg.PLLDSI_FREQ, 0,
      rfl, ?_, ?_, ?_, ?_⟩
    · rw [if_neg hpne]
    · constructor
      · intro h; exact absurd h (by decide)
      · intro h; exact absurd h hne
    · intro h; exact absurd h hne
    · intro _
      refine ⟨rfl, d, k, hd, hd2, hk, hk2, ?_, ?_⟩
      · rw [hp, f4]
      · rw [prcmu_clock_rate_plldsi, clock_rate_writel_plldsi]
        unfold pll_rate
        rw [readl_writel, if_pos rfl, hp, u32_of_lt f1]
        dsimp only
        rw [f2, f3, hrd, Nat.mul_comm]

/-- C3 at a concrete state: HDMI clock on the 38.4 MHz root, target 420 MHz. -/
theorem plldsi_round_and_set_agree_witness :
    prcmu_clock_rate hdmi38_state PRCMU_HDMICLK ≠ 0 ∧
    ∃ rounded t ret, prcmu_round_clock_rate hdmi38_state PRCMU_PLLDSI 420000000 = some rounded ∧
      prcmu_set_clock_rate hdmi38_state PRCMU_PLLDSI 420000000 = some (t, ret) ∧
      (ret = -EINVAL ↔ rounded = 0) ∧
      (rounded = 0 → t = hdmi38_state) ∧
      (rounded ≠ 0 → ret = 0 ∧ ∃ d r, 6 ≤ d ∧ d ≤ 255 ∧ 1 ≤ r ∧ r ≤ 7 ∧
        t = writel hdmi38_state (d + 256 * 1 + 65536 * r) Reg.PLLDSI_FREQ ∧
        prcmu_clock_rate t PRCMU_PLLDSI = rounded) :=
  ⟨by decide, plldsi_round_and_set_agree hdmi38_state 420000000 (by decide)⟩

/-- C4 (counterexample): at 38.4 MHz and a target of 420 MHz the search
selects 416914285 Hz (error 3085715 Hz), while the pair D = 77, R = 7 meets
the VCO constraint and gives 422400000 Hz (error 2400000 Hz). -/
theorem plldsi_420_not_closest :
    prcmu_clock_rate hdmi38_state PRCMU_HDMICLK = 38400000 ∧
    prcmu_round_clock_rate hdmi38_state PRCMU_PLLDSI 420000000 = some 416914285 ∧
    (6 ≤ 77 ∧ 77 ≤ 255 ∧ 1 ≤ 7 ∧ 7 ≤ 7) ∧ vco_ok 38400000 77 7 ∧
    rate_error (77 * 38400000 / 7) 420000000 < rate_error 416914285 420000000 := by
  decide

theorem set_plldsi_420 :
    prcmu_set_clock_rate hdmi38_state PRCMU_PLLDSI 420000000 =
      some (writel hdmi38_state (76 + 256 * 1 + 65536 * 7) Reg.PLLDSI_FREQ, 0) := by
  have h1 : clock_rate hdmi38_state PRCMU_HDMICLK = 38400000 := by decide
  have h2 : set_plldsi_loop 38400000 420000000 7 420000000 0 = some 458828 := by decide
  rw [prcmu_set_plldsi]
  unfold set_plldsi_rate
  rw [h1, h2]
  rfl

/-- C4 (amended): at 38.4 MHz and a target of 420 MHz, `round_plldsi_rate`
returns 416914285 Hz and `set_plldsi_rate` programs D = 76, N = 1, R = 7; the
pair meets the VCO constraint, and no pair with D in `[6,255]` and R in
`[1,7]` that meets the VCO constraint has an output rate above 416914285 Hz
and not above the target. -/
theorem plldsi_420_closest_below :
    prcmu_clock_rate hdmi38_state PRCMU_HDMICLK = 38400000 ∧
    prcmu_round_clock_rate hdmi38_state PRCMU_PLLDSI 420000000 = some 416914285 ∧
    prcmu_set_clock_rate hdmi38_state PRCMU_PLLDSI 420000000 =
      some (writel hdmi38_state (76 + 256 * 1 + 65536 * 7) Reg.PLLDSI_FREQ, 0) ∧
    vco_ok 38400000 76 7 ∧ 76 * 38400000 / 7 = 416914285 ∧
    ∀ d r, 6 ≤ d → d ≤ 255 → 1 ≤ r → r ≤ 7 → vco_ok 38400000 d r →
      d * 38400000 / r ≤ 420000000 → d * 38400000 / r ≤ 416914285 := by
  refine ⟨by decide, by decide, set_plldsi_420, by decide, by decide, ?_⟩
  intro d r _ _ hr1 hr7 _ h
  have key : ∀ q, d * 38400000 / r ≤ 420000000 → (d ≤ q → d * 38400000 / r ≤ 416914285) →
      (q + 1 ≤ d → 420000000 < d * 38400000 / r) → d * 38400000 / r ≤ 416914285 := by
    intro q h1 h2 h3
    rcases Nat.lt_or_ge d (q + 1) with hd | hd
    · exact h2 (by omega)
    · exact absurd (h3 hd) (by omega)
  interval_cases r
  · exact key 10 h (by intro; omega) (by intro; omega)
  · exact key 21 h (by intro; omega) (by intro; omega)
  · exact key 32 h (by intro; omega) (by intro; omega)
  · exact key 43 h (by intro; omega) (by intro; omega)
  · exact key 54 h (by intro; omega) (by intro; omega)
  · exact key 65 h (by intro; omega) (by intro; omega)
  · exact key 76 h (by intro; omega) (by intro; omega)

/-- C4 (amended) at the pair D = 65, R = 6. -/
theorem plldsi_420_closest_below_witness :
    (6 ≤ 65 ∧ 65 ≤ 255 ∧ 1 ≤ 6 ∧ 6 ≤ 7) ∧ vco_ok 38400000 65 6 ∧
    65 * 38400000 / 6 ≤ 420000000 ∧ 65 * 38400000 / 6 ≤ 416914285 :=
  ⟨by decide, by decide, by decide,
    plldsi_420_closest_below.2.2.2.2.2 65 6 (by decide) (by decide) (by decide) (by decide)
      (by decide) (by decide)⟩

theorem boost_enable_counted (d : Drv) (fw : Mb1Ack) (h : d.requests ≠ 0) :
    prcmu_request_ape_opp_100_voltage d true fw =
      ({ d with requests := u32 (d.requests + 1) }, 0) := by
  unfold prcmu_request_ape_opp_100_voltage
  simp only [if_true, ne_eq]
  rw [if_pos (fun h0 => h h0.symm)]

theorem boost_disable_counted (d : Drv) (fw : Mb1Ack) (h0 : d.requests ≠ 0)
    (h1 : d.requests ≠ 1) :
    prcmu_request_ape_opp_100_voltage d false fw =
      ({ d with requests := u32 (d.requests - 1) }, 0) := by
  unfold prcmu_request_ape_opp_100_voltage
  simp only [Bool.false_eq_true, if_false, ne_eq]
  rw [if_neg h0, if_pos (fun h => h1 h.symm)]

theorem boost_disable_rejected (d : Drv) (fw : Mb1Ack) (h : d.requests = 0) :
    prcmu_request_ape_opp_100_voltage d false fw = (d, -EIO_errno) := by
  unfold prcmu_request_ape_opp_100_voltage
  simp only [Bool.false_eq_true, if_false]
  rw [if_pos h]

theorem boost_enable_first (d : Drv) (fw : Mb1Ack) (h : d.requests = 0) :
    (prcmu_request_ape_opp_100_voltage d true fw).1.log =
        d.log ++ [Event.poll_clear 1,
          Event.writeb MB1H_REQUEST_APE_OPP_100_VOLT PRCM_MBOX_HEADER_REQ_MB1,
          Event.set_pending 1, Event.wait 1] ∧
      (prcmu_request_ape_opp_100_voltage d true fw).1.requests = 1 := by
  unfold prcmu_request_ape_opp_100_voltage
  simp only [if_true, ne_eq, h, not_true_eq_false, if_false]
  constructor
  · simp [mb1_wait, read_mailbox_1, mbox_set_pending, tcdm_writeb, mbox_poll_clear]
  · rfl

theorem boost_disable_last (d : Drv) (fw : Mb1Ack) (h : d.requests = 1) :
    (prcmu_request_ape_opp_100_voltage d false fw).1.log =
        d.log ++ [Event.poll_clear 1,
          Event.writeb MB1H_RELEASE_APE_OPP_100_VOLT PRCM_MBOX_HEADER_REQ_MB1,
          Event.set_pending 1, Event.wait 1] ∧
      (prcmu_request_ape_opp_100_voltage d false fw).1.requests = 0 := by
  unfold prcmu_request_ape_opp_100_voltage
  simp only [Bool.false_eq_true, if_false, ne_eq, h, one_ne_zero, not_true_eq_false]
  constructor
  · simp [mb1_wait, read_mailbox_1, mbox_set_pending, tcdm_writeb, mbox_poll_clear]
  · rfl

theorem boost_calls_append (d : Drv) (l1 l2 : List (Bool × Mb1Ack)) :
    boost_calls d (l1 ++ l2) =
      ((boost_calls (boost_calls d l1).1 l2).1,
        (boost_calls d l1).2 ++ (boost_calls (boost_calls d l1).1 l2).2) := by
  induction l1 generalizing d with
  | nil => rfl
  | cons c rest ih =>
    obtain ⟨enable, fw⟩ := c
    rw [List.cons_append]
    simp only [boost_calls]
    rw [ih]
    rfl

/-- Enables on a counter that is not zero only count: no message, result 0. -/
theorem boost_enables (l : List Mb1Ack) :
    ∀ (d : Drv) (c : Nat), d.requests = c → 1 ≤ c → c < 4294967296 →
      c + l.length ≤ 4294967296 →
      boost_calls d (l.map fun a => (true, a)) =
        ({ d with requests := u32 (c + l.length) },
          (List.range l.length).map fun i => ((0 : Int), u32 (c + i + 1))) := by
  induction l with
  | nil =>
    intro d c hc h1 hlt h2
    have : u32 (c + 0) = d.requests := by rw [hc]; exact u32_of_lt hlt
    simp only [List.map_nil, boost_calls, List.length_nil, List.range_zero, this]
  | cons a rest ih =>
    intro d c hc h1 hlt h2
    simp only [List.length_cons] at h2
    simp only [List.map_cons, boost_calls]
    rw [boost_enable_counted d a (by omega)]
    dsimp only
    rw [hc]
    cases rest with
    | nil =>
      simp only [List.map_nil, boost_calls, List.length_nil]
      rfl
    | cons b rest2 =>
      simp only [List.length_cons] at h2
      have hstep : u32 (c + 1) = c + 1 := u32_of_lt (by omega)
      have h3 : c + 1 + (b :: rest2).length ≤ 4294967296 := by
        simp only [List.length_cons]; omega
      rw [hstep, ih { d with requests := c + 1 } (c + 1) rfl (by omega) (by omega) h3]
      simp only [List.length_cons, List.range_succ_eq_map (rest2.length + 1), List.map_cons,
        List.map_map]
      refine Prod.ext ?_ ?_
      · show ({ d with requests := _ } : Drv) = { d with requests := _ }
        congr 2; omega
      · show _ :: _ = _ :: _
        rw [hstep]
        congr 1
        apply List.map_congr_left
        intro i _
        simp only [Function.comp, Prod.mk.injEq, true_and]
        congr 1
        simp only [Nat.succ_eq_add_one]
        omega

/-- Disables on a counter above one only count: no message, result 0. -/
theorem boost_disables (l : List Mb1Ack) :
    ∀ (d : Drv) (c : Nat), d.requests = c → l.length < c → c < 4294967296 →
      boost_calls d (l.map fun a => (false, a)) =
        ({ d with requests := c - l.length },
          (List.range l.length).map fun j => ((0 : Int), c - 1 - j)) := by
  induction l with
  | nil =>
    intro d c hc _ _
    simp only [List.map_nil, boost_calls, List.length_nil, List.range_zero, Nat.sub_zero, ← hc]
  | cons a rest ih =>
    intro d c hc h1 hlt
    simp only [List.length_cons] at h1
    simp only [List.map_cons, boost_calls]
    rw [boost_disable_counted d a (by omega) (by omega)]
    dsimp only
    have hstep : u32 (d.requests - 1) = c - 1 := by rw [hc]; exact u32_of_lt (by omega)
    rw [hstep, ih { d with requests := c - 1 } (c - 1) rfl (by omega) (by omega)]
    simp only [List.length_cons, List.range_succ_eq_map rest.length, List.map_cons, List.map_map]
    refine Prod.ext ?_ ?_
    · show ({ d with requests := _ } : Drv) = { d with requests := _ }
      congr 1
      omega
    · show _ :: _ = _ :: _
      congr 1
      apply List.map_congr_left
      intro i _
      simp only [Function.comp, Prod.mk.injEq, true_and, Nat.succ_eq_add_one]
      omega

/-- Disables on a counter of zero are all rejected and change nothing. -/
theorem boost_disables_at_zero (l : List Mb1Ack) (d : Drv) (h : d.requests = 0) :
    boost_calls d (l.map fun a => (false, a)) = (d, l.map fun _ => (-EIO_errno, 0)) := by
  induction l with
  | nil => rfl
  | cons a rest ih =>
    simp only [List.map_cons, boost_calls]
    rw [boost_disable_rejected d a h]
    dsimp only
    rw [ih, h]

/-- C5 (amended): from a counter of 0, `n` enables followed by `n` disables,
for `1 <= n < 2 ^ 32`, append to the hardware log exactly the request message
(first enable) and the release message (last disable); the calls in between
return 0 and move the counter by one, and the counter ends at 0. -/
theorem boost_reference_counting (d : Drv) (en dis : List Mb1Ack) (h0 : d.requests = 0)
    (hn : 1 ≤ en.length) (hlen : dis.length = en.length) (h32 : en.length < 4294967296) :
    (boost_calls d ((en.map fun a => (true, a)) ++ dis.map fun a => (false, a))).1.log =
        d.log ++ [Event.poll_clear 1,
          Event.writeb MB1H_REQUEST_APE_OPP_100_VOLT PRCM_MBOX_HEADER_REQ_MB1,
          Event.set_pending 1, Event.wait 1,
          Event.poll_clear 1,
          Event.writeb MB1H_RELEASE_APE_OPP_100_VOLT PRCM_MBOX_HEADER_REQ_MB1,
          Event.set_pending 1, Event.wait 1] ∧
      (boost_calls d ((en.map fun a => (true, a)) ++ dis.map fun a => (false, a))).1.requests
        = 0 ∧
      ∃ r1 r2 : Int,
        (boost_calls d ((en.map fun a => (true, a)) ++ dis.map fun a => (false, a))).2 =
          (r1, 1) :: (((List.range (en.length - 1)).map fun i => ((0 : Int), i + 2)) ++
            ((List.range (en.length - 1)).map fun j => ((0 : Int), en.length - 1 - j)) ++
            [(r2, 0)]) := by
  obtain ⟨a, en2, rfl⟩ : ∃ a en2, en = a :: en2 := by
    cases en with
    | nil => simp at hn
    | cons a en2 => exact ⟨a, en2, rfl⟩
  obtain ⟨dis2, b, rfl⟩ : ∃ dis2 b, dis = dis2 ++ [b] := by
    rcases List.eq_nil_or_concat dis with h | ⟨l, b, h⟩
    · rw [h] at hlen; simp at hlen
    · exact ⟨l, b, by rw [h, List.concat_eq_append]⟩
  have hlen2 : dis2.length = en2.length := by simpa using hlen
  simp only [List.length_cons] at h32 ⊢
  obtain ⟨hlog1, hreq1⟩ := boost_enable_first d a h0
  generalize hd1 : (prcmu_request_ape_opp_100_voltage d true a) = p1 at hlog1 hreq1
  have hA := boost_enables en2 p1.1 1 hreq1 (le_refl _) (by decide) (by omega)
  have hu : u32 (1 + en2.length) = en2.length + 1 := by
    rw [u32_of_lt (by omega)]; omega
  rw [hu] at hA
  have hB := boost_disables dis2 { p1.1 with requests := en2.length + 1 } (en2.length + 1) rfl
    (by omega) (by omega)
  have hsub : en2.length + 1 - dis2.length = 1 := by omega
  rw [hsub] at hB
  obtain ⟨hlog4, hreq4⟩ := boost_disable_last
    { p1.1 with requests := 1 } b rfl
  generalize hd4 : (prcmu_request_ape_opp_100_voltage { p1.1 with requests := 1 } false b) = p4
    at hlog4 hreq4
  have hrun : boost_calls d ((List.map (fun a => (true, a)) (a :: en2)) ++
      List.map (fun a => (false, a)) (dis2 ++ [b])) =
      (p4.1, (p1.2, 1) :: (((List.range en2.length).map fun i => ((0 : Int), u32 (1 + i + 1))) ++
        (((List.range dis2.length).map fun j => ((0 : Int), en2.length + 1 - 1 - j)) ++
          [(p4.2, 0)]))) := by
    rw [List.map_cons, List.cons_append]
    simp only [boost_calls]
    rw [hd1, boost_calls_append, hA]
    dsimp only
    rw [List.map_append, boost_calls_append, hB]
    dsimp only
    simp only [List.map_cons, List.map_nil, boost_calls]
    rw [hd4, hreq1, hreq4]
  rw [hrun]
  refine ⟨?_, hreq4, p1.2, p4.2, ?_⟩
  · show p4.1.log = _
    rw [hlog4]
    show p1.1.log ++ _ = _
    rw [hlog1, List.append_assoc]
    rfl
  · simp only [Nat.add_sub_cancel, hlen2, List.cons.injEq, true_and, List.append_assoc]
    congr 1
    apply List.map_congr_left
    intro i hi
    have hi2 : i < en2.length := List.mem_range.mp hi
    simp only [Prod.mk.injEq, true_and]
    rw [u32_of_lt (by omega)]
    omega

/-- C5 (amended) for two enables followed by two disables. -/
theorem boost_reference_counting_witness :
    drv_init.requests = 0 ∧ 1 ≤ [fw_ok MB1H_REQUEST_APE_OPP_100_VOLT, fw_ok MB1H_REQUEST_APE_OPP_100_VOLT].length ∧
      [fw_ok MB1H_RELEASE_APE_OPP_100_VOLT, fw_ok MB1H_RELEASE_APE_OPP_100_VOLT].length = [fw_ok MB1H_REQUEST_APE_OPP_100_VOLT, fw_ok MB1H_REQUEST_APE_OPP_100_VOLT].length ∧
      [fw_ok MB1H_REQUEST_APE_OPP_100_VOLT, fw_ok MB1H_REQUEST_APE_OPP_100_VOLT].length < 4294967296 ∧
      (boost_calls drv_init (([fw_ok MB1H_REQUEST_APE_OPP_100_VOLT, fw_ok MB1H_REQUEST_APE_OPP_100_VOLT].map fun a => (true, a)) ++
          [fw_ok MB1H_RELEASE_APE_OPP_100_VOLT, fw_ok MB1H_RELEASE_APE_OPP_100_VOLT].map fun a => (false, a))).1.log =
        drv_init.log ++ [Event.poll_clear 1,
          Event.writeb MB1H_REQUEST_APE_OPP_100_VOLT PRCM_MBOX_HEADER_REQ_MB1,
          Event.set_pending 1, Event.wait 1,
          Event.poll_clear 1,
          Event.writeb MB1H_RELEASE_APE_OPP_100_VOLT PRCM_MBOX_HEADER_REQ_MB1,
          Event.set_pending 1, Event.wait 1] :=
  ⟨rfl, by decide, rfl, by decide,
    (boost_reference_counting drv_init [fw_ok MB1H_REQUEST_APE_OPP_100_VOLT, fw_ok MB1H_REQUEST_APE_OPP_100_VOLT] [fw_ok MB1H_RELEASE_APE_OPP_100_VOLT, fw_ok MB1H_RELEASE_APE_OPP_100_VOLT] rfl (by decide) rfl
      (by decide)).1⟩

/-- After `2 ^ 32` enables the 32-bit counter is back at 0, so every disable
that follows is rejected and the release message is never sent. -/
theorem boost_calls_wrap (d : Drv) (n : Nat) (hn : n = 4294967296) (a b : Mb1Ack)
    (h0 : d.requests = 0) :
    (boost_calls d (List.replicate n (true, a))).1.requests = 0 ∧
    (boost_calls d (List.replicate n (true, a) ++ List.replicate n (false, b))).1.log =
      d.log ++ [Event.poll_clear 1,
        Event.writeb MB1H_REQUEST_APE_OPP_100_VOLT PRCM_MBOX_HEADER_REQ_MB1,
        Event.set_pending 1, Event.wait 1] ∧
    (boost_calls (boost_calls d (List.replicate n (true, a))).1
      (List.replicate n (false, b))).2 = List.replicate n (-EIO_errno, 0) := by
  obtain ⟨m, rfl⟩ : ∃ m, n = m + 1 := ⟨n - 1, by omega⟩
  obtain ⟨hlog1, hreq1⟩ := boost_enable_first d a h0
  generalize hd1 : (prcmu_request_ape_opp_100_voltage d true a) = p1 at hlog1 hreq1
  have hA := boost_enables (List.replicate m a) p1.1 1 hreq1 (le_refl _) (by decide)
    (by rw [List.length_replicate]; omega)
  rw [List.length_replicate, List.map_replicate] at hA
  have hu : u32 (1 + m) = 0 := by
    have : 1 + m = 4294967296 := by omega
    rw [this]; rfl
  rw [hu] at hA
  have hen : boost_calls d (List.replicate (m + 1) (true, a)) =
      ({ p1.1 with requests := 0 },
        (p1.2, p1.1.requests) :: (List.range m).map fun i => ((0 : Int), u32 (1 + i + 1))) := by
    rw [List.replicate_succ]
    simp only [boost_calls]
    rw [hd1, hA]
  have hB := boost_disables_at_zero (List.replicate (m + 1) b) { p1.1 with requests := 0 } rfl
  rw [List.map_replicate, List.map_replicate] at hB
  refine ⟨?_, ?_, ?_⟩
  · rw [hen]
  · rw [boost_calls_append, hen]
    dsimp only
    rw [hB]
    exact hlog1
  · rw [hen]
    dsimp only
    rw [hB]

/-- C5 (counterexample): for `n = 2 ^ 32` the sequence of `n` enables and `n`
disables from a counter of 0 sends the request message only; the counter is
0 after the enables and every disable returns `-EIO`. -/
theorem boost_counter_wraps_at_two_pow_32 :
    1 ≤ 4294967296 ∧ drv_init.requests = 0 ∧
    (boost_calls drv_init (List.replicate 4294967296 (true, fw_ok MB1H_REQUEST_APE_OPP_100_VOLT))).1.requests = 0 ∧
    (boost_calls drv_init (List.replicate 4294967296 (true, fw_ok MB1H_REQUEST_APE_OPP_100_VOLT) ++
        List.replicate 4294967296 (false, fw_ok MB1H_RELEASE_APE_OPP_100_VOLT))).1.log =
      drv_init.log ++ [Event.poll_clear 1,
        Event.writeb MB1H_REQUEST_APE_OPP_100_VOLT PRCM_MBOX_HEADER_REQ_MB1,
        Event.set_pending 1, Event.wait 1] ∧
    (boost_calls (boost_calls drv_init (List.replicate 4294967296 (true, fw_ok MB1H_REQUEST_APE_OPP_100_VOLT))).1
      (List.replicate 4294967296 (false, fw_ok MB1H_RELEASE_APE_OPP_100_VOLT))).2 =
        List.replicate 4294967296 (-EIO_errno, 0) :=
  ⟨by decide, rfl, boost_calls_wrap drv_init 4294967296 rfl (fw_ok MB1H_REQUEST_APE_OPP_100_VOLT) (fw_ok MB1H_RELEASE_APE_OPP_100_VOLT) rfl⟩

/-- C6: with the counter at 0, a release returns `-EIO` and leaves the whole
driver state as it was: no header written, pending bit not set, no wait, and
the counter still 0. -/
theorem unbalanced_release_rejected (d : Drv) (fw : Mb1Ack) (h : d.requests = 0) :
    prcmu_request_ape_opp_100_voltage d false fw = (d, -EIO_errno) :=
  boost_disable_rejected d fw h

/-- C6 at the start-up state. -/
theorem unbalanced_release_rejected_witness :
    drv_init.requests = 0 ∧
      prcmu_request_ape_opp_100_voltage drv_init false (fw_ok MB1H_RELEASE_APE_OPP_100_VOLT) = (drv_init, -EIO_errno) :=
  ⟨rfl, unbalanced_release_rejected drv_init (fw_ok MB1H_RELEASE_APE_OPP_100_VOLT) rfl⟩

/-- C7 (counterexample): two enables in a row send two `MB1H_PLL_ON_OFF`
messages, and a disable with no enable outstanding sends one and returns 0. -/
theorem request_pll_not_reference_counted :
    mb1_headers_sent (request_pll_calls drv_init
      [(true, fw_ok MB1H_PLL_ON_OFF), (true, fw_ok MB1H_PLL_ON_OFF)]).log =
        [MB1H_PLL_ON_OFF, MB1H_PLL_ON_OFF] ∧
    (request_pll drv_init PRCMU_PLLSOC1 false (fw_ok MB1H_PLL_ON_OFF)).2 = 0 ∧
    mb1_headers_sent (request_pll drv_init PRCMU_PLLSOC1 false (fw_ok MB1H_PLL_ON_OFF)).1.log =
      [MB1H_PLL_ON_OFF] := by
  decide

theorem request_pll_log (d : Drv) (enable : Bool) (fw : Mb1Ack) :
    (request_pll d PRCMU_PLLSOC1 enable fw).1.log =
      d.log ++ [Event.poll_clear 1, Event.writeb MB1H_PLL_ON_OFF PRCM_MBOX_HEADER_REQ_MB1,
        Event.writeb (if enable = true then PLL_SOC1_ON else PLL_SOC1_OFF)
          PRCM_REQ_MB1_PLL_ON_OFF,
        Event.set_pending 1, Event.wait 1] := by
  unfold request_pll
  simp [mb1_wait, read_mailbox_1, mbox_set_pending, tcdm_writeb, mbox_poll_clear]

theorem mb1_headers_sent_append (l1 l2 : List Event) :
    mb1_headers_sent (l1 ++ l2) = mb1_headers_sent l1 ++ mb1_headers_sent l2 := by
  unfold mb1_headers_sent
  rw [List.filterMap_append]

/-- C7 (amended): `request_pll` keeps no counter. Every call for
`PRCMU_PLLSOC1` sends one `MB1H_PLL_ON_OFF` message carrying `PLL_SOC1_ON` or
`PLL_SOC1_OFF` and returns 0 exactly when the acknowledged header is
`MB1H_PLL_ON_OFF`, so a sequence of calls sends as many messages as there are
calls; a call for any other clock returns `-EINVAL` and sends nothing. -/
theorem request_pll_sends_on_every_call (d : Drv) (calls : List (Bool × Mb1Ack)) :
    mb1_headers_sent (request_pll_calls d calls).log =
        mb1_headers_sent d.log ++ List.replicate calls.length MB1H_PLL_ON_OFF ∧
      (∀ enable fw,
        (request_pll d PRCMU_PLLSOC1 enable fw).1.log =
          d.log ++ [Event.poll_clear 1, Event.writeb MB1H_PLL_ON_OFF PRCM_MBOX_HEADER_REQ_MB1,
            Event.writeb (if enable = true then PLL_SOC1_ON else PLL_SOC1_OFF)
              PRCM_REQ_MB1_PLL_ON_OFF,
            Event.set_pending 1, Event.wait 1] ∧
        (request_pll d PRCMU_PLLSOC1 enable fw).2 =
          if fw.header % 256 = MB1H_PLL_ON_OFF then 0 else -EIO_errno) ∧
      ∀ clock enable fw, clock ≠ PRCMU_PLLSOC1 →
        request_pll d clock enable fw = (d, -EINVAL) := by
  refine ⟨?_, ?_, ?_⟩
  · induction calls generalizing d with
    | nil => simp [request_pll_calls]
    | cons c rest ih =>
      obtain ⟨enable, fw⟩ := c
      simp only [request_pll_calls]
      rw [ih, request_pll_log, mb1_headers_sent_append, List.length_cons, List.replicate_succ,
        List.append_assoc]
      congr 1
  · intro enable fw
    refine ⟨request_pll_log d enable fw, ?_⟩
    unfold request_pll
    simp [mb1_wait, read_mailbox_1, tcdm_readb, mbox_set_pending, tcdm_writeb, mbox_poll_clear]
  · intro clock enable fw h
    unfold request_pll
    rw [if_neg h]

/-- C7 (amended) at a clock other than PLL SOC1. -/
theorem request_pll_sends_on_every_call_witness :
    PRCMU_SGACLK ≠ PRCMU_PLLSOC1 ∧
      request_pll drv_init PRCMU_SGACLK true (fw_ok MB1H_PLL_ON_OFF) = (drv_init, -EINVAL) :=
  ⟨by decide,
    (request_pll_sends_on_every_call drv_init []).2.2 PRCMU_SGACLK true (fw_ok MB1H_PLL_ON_OFF)
      (by decide)⟩

theorem temp_set_pending (m2j : Nat → Nat) (c : Comm) (t v : Nat) :
    (prcmu_temp_set_comm_timeout m2j c t v).tout = m2j t ∧
      (prcmu_temp_set_comm_timeout m2j c t v).rst_work = some (m2j v) ∧
      (prcmu_temp_set_comm_timeout m2j c t v).rst_tout =
        if c.rst_work.isSome = true then c.rst_tout else c.tout := by
  unfold prcmu_temp_set_comm_timeout
  cases h : c.rst_work <;> simp

theorem temp_set_calls_concat (m2j : Nat → Nat) (c : Comm) (l : List (Nat × Nat))
    (t v : Nat) :
    temp_set_calls m2j c (l ++ [(t, v)]) =
      prcmu_temp_set_comm_timeout m2j (temp_set_calls m2j c l) t v := by
  induction l generalizing c with
  | nil => rfl
  | cons x rest ih =>
    obtain ⟨t2, v2⟩ := x
    rw [List.cons_append]
    simp only [temp_set_calls]
    rw [ih]

theorem temp_set_calls_restore (m2j : Nat → Nat) (c : Comm) (l : List (Nat × Nat))
    (hl : l ≠ []) (hidle : c.rst_work = none) :
    (temp_set_calls m2j c l).rst_tout = c.tout ∧ (temp_set_calls m2j c l).rst_work.isSome := by
  induction l using List.reverseRecOn with
  | nil => exact absurd rfl hl
  | append_singleton rest x ih =>
    obtain ⟨t, v⟩ := x
    rw [temp_set_calls_concat]
    obtain ⟨_, h2, h3⟩ := temp_set_pending m2j (temp_set_calls m2j c rest) t v
    refine ⟨?_, by rw [h2]; rfl⟩
    rw [h3]
    by_cases hr : rest = []
    · subst hr
      simp [temp_set_calls, hidle]
    · obtain ⟨i1, i2⟩ := ih hr
      simp [i1, i2]

/-- C8: from a state with no restoration pending and timeout `T0`, after
`k >= 1` calls of `prcmu_temp_set_comm_timeout`, each made while the previous
restoration is still pending, the current timeout is that of the last call,
one restoration is pending (with the delay of the last call), and when it
runs the timeout is `T0` again and nothing is pending. -/
theorem nested_temp_timeouts_collapse (msecs_to_jiffies : Nat → Nat) (c : Comm)
    (calls : List (Nat × Nat)) (t v : Nat) (hidle : c.rst_work = none) :
    prcmu_comm_tout (temp_set_calls msecs_to_jiffies c (calls ++ [(t, v)])) =
        msecs_to_jiffies t ∧
      (temp_set_calls msecs_to_jiffies c (calls ++ [(t, v)])).rst_work =
        some (msecs_to_jiffies v) ∧
      ∃ c2, run_rst_work (temp_set_calls msecs_to_jiffies c (calls ++ [(t, v)])) = some c2 ∧
        prcmu_comm_tout c2 = prcmu_comm_tout c ∧ c2.rst_work = none := by
  obtain ⟨h1, _⟩ := temp_set_calls_restore msecs_to_jiffies c (calls ++ [(t, v)]) (by simp) hidle
  have h2 := temp_set_calls_concat msecs_to_jiffies c calls t v
  obtain ⟨p1, p2, _⟩ := temp_set_pending msecs_to_jiffies
    (temp_set_calls msecs_to_jiffies c calls) t v
  refine ⟨by rw [h2]; exact p1, by rw [h2]; exact p2, ?_⟩
  unfold run_rst_work
  rw [h2, p2]
  refine ⟨_, rfl, ?_, rfl⟩
  rw [← h2]
  exact h1

/-- C8 for two nested overrides of a timeout of 200 jiffies. -/
theorem nested_temp_timeouts_collapse_witness :
    (⟨200, 200, none⟩ : Comm).rst_work = none ∧
      prcmu_comm_tout (temp_set_calls (fun ms => ms / 10) ⟨200, 200, none⟩
        ([(5000, 100)] ++ [(9000, 300)])) = 900 ∧
      ∃ c2, run_rst_work (temp_set_calls (fun ms => ms / 10) ⟨200, 200, none⟩
          ([(5000, 100)] ++ [(9000, 300)])) = some c2 ∧
        prcmu_comm_tout c2 = 200 ∧ c2.rst_work = none :=
  ⟨rfl,
    (nested_temp_timeouts_collapse (fun ms => ms / 10) ⟨200, 200, none⟩ [(5000, 100)] 9000 300
      rfl).1,
    (nested_temp_timeouts_collapse (fun ms => ms / 10) ⟨200, 200, none⟩ [(5000, 100)] 9000 300
      rfl).2.2⟩

/-- C9: in every state, `prcmu_set_comm_timeout(T)` leaves no restoration
pending and the timeout at `msecs_to_jiffies(T)`; the delayed work cannot run,
so whatever happens without a call of a set operation leaves
`prcmu_comm_tout()` at `msecs_to_jiffies(T)`. -/
theorem permanent_timeout_stays (msecs_to_jiffies : Nat → Nat) (c : Comm) (t : Nat) :
    (prcmu_set_comm_timeout msecs_to_jiffies c t).rst_work = none ∧
      prcmu_comm_tout (prcmu_set_comm_timeout msecs_to_jiffies c t) = msecs_to_jiffies t ∧
      run_rst_work (prcmu_set_comm_timeout msecs_to_jiffies c t) = none ∧
      ∀ c2, Relation.ReflTransGen comm_async_step
          (prcmu_set_comm_timeout msecs_to_jiffies c t) c2 →
        prcmu_comm_tout c2 = msecs_to_jiffies t := by
  refine ⟨rfl, rfl, rfl, ?_⟩
  intro c2 h
  cases h using Relation.ReflTransGen.head_induction_on with
  | refl => rfl
  | head hstep _ =>
    unfold comm_async_step run_rst_work at hstep
    simp [prcmu_set_comm_timeout] at hstep

/-- C9 at a state with a restoration pending. -/
theorem permanent_timeout_stays_witness :
    Relation.ReflTransGen comm_async_step
        (prcmu_set_comm_timeout (fun ms => ms / 10) ⟨900, 200, some 30⟩ 2000)
        (prcmu_set_comm_timeout (fun ms => ms / 10) ⟨900, 200, some 30⟩ 2000) ∧
      prcmu_comm_tout (prcmu_set_comm_timeout (fun ms => ms / 10) ⟨900, 200, some 30⟩ 2000) =
        200 :=
  ⟨Relation.ReflTransGen.refl,
    (permanent_timeout_stays (fun ms => ms / 10) ⟨900, 200, some 30⟩ 2000).2.2.2 _
      Relation.ReflTransGen.refl⟩

theorem config_wakeups_cached (d : Drv)
    (h1 : (d.dbb_irqs ||| d.dbb_wakeups) ||| (WAKEUP_BIT_AC_WAKE_ACK ||| WAKEUP_BIT_AC_SLEEP_ACK) =
      d.last_dbb_events) (h2 : d.abb_events = d.last_abb_events) :
    config_wakeups d = d := by
  unfold config_wakeups
  simp only [h1, h2, and_self, if_true]

/-- C10: for a valid mask, `prcmu_enable_wakeups` succeeds; its hardware
accesses are none or one pair of mailbox-0 transactions (`EXE`, then `SLEEP`,
each after the pending bit has read clear); and a second call with the same
mask returns the state unchanged: nothing written to the shared memory,
pending bit not set, log not extended. -/
theorem enable_wakeups_idempotent (d : Drv) (wakeups : Nat)
    (hvalid : wakeups = wakeups &&& VALID_WAKEUPS) :
    ∃ d1, prcmu_enable_wakeups d wakeups = some d1 ∧
      prcmu_enable_wakeups d1 wakeups = some d1 ∧
      (d1.log = d.log ∨ d1.log = d.log ++
        [Event.poll_clear 0,
          Event.writel ((d.dbb_irqs ||| wakeup_bits wakeups NUM_PRCMU_WAKEUP_INDICES) |||
            (WAKEUP_BIT_AC_WAKE_ACK ||| WAKEUP_BIT_AC_SLEEP_ACK)) PRCM_REQ_MB0_WAKEUP_8500,
          Event.writel d.abb_events PRCM_REQ_MB0_WAKEUP_4500,
          Event.writeb MB0H_CONFIG_WAKEUPS_EXE PRCM_MBOX_HEADER_REQ_MB0, Event.set_pending 0,
          Event.poll_clear 0,
          Event.writel ((d.dbb_irqs ||| wakeup_bits wakeups NUM_PRCMU_WAKEUP_INDICES) |||
            (WAKEUP_BIT_AC_WAKE_ACK ||| WAKEUP_BIT_AC_SLEEP_ACK)) PRCM_REQ_MB0_WAKEUP_8500,
          Event.writel d.abb_events PRCM_REQ_MB0_WAKEUP_4500,
          Event.writeb MB0H_CONFIG_WAKEUPS_SLEEP PRCM_MBOX_HEADER_REQ_MB0,
          Event.set_pending 0]) := by
  unfold prcmu_enable_wakeups
  rw [if_neg (fun h => h hvalid)]
  refine ⟨_, rfl, ?_, ?_⟩
  · rw [if_neg (fun h => h hvalid)]
    dsimp only
    by_cases hc : ((d.dbb_irqs ||| wakeup_bits wakeups NUM_PRCMU_WAKEUP_INDICES) |||
        (WAKEUP_BIT_AC_WAKE_ACK ||| WAKEUP_BIT_AC_SLEEP_ACK) = d.last_dbb_events ∧
        d.abb_events = d.last_abb_events)
    · have e : config_wakeups
          { d with dbb_wakeups := wakeup_bits wakeups NUM_PRCMU_WAKEUP_INDICES } =
          { d with dbb_wakeups := wakeup_bits wakeups NUM_PRCMU_WAKEUP_INDICES } :=
        config_wakeups_cached _ hc.1 hc.2
      rw [e]
      exact congrArg some e
    · have e : config_wakeups
          { d with dbb_wakeups := wakeup_bits wakeups NUM_PRCMU_WAKEUP_INDICES } =
          { mbox_set_pending (tcdm_writeb (tcdm_writel (tcdm_writel (mbox_poll_clear
              (mbox_set_pending (tcdm_writeb (tcdm_writel (tcdm_writel (mbox_poll_clear
                { d with dbb_wakeups := wakeup_bits wakeups NUM_PRCMU_WAKEUP_INDICES } 0)
                ((d.dbb_irqs ||| wakeup_bits wakeups NUM_PRCMU_WAKEUP_INDICES) |||
                  (WAKEUP_BIT_AC_WAKE_ACK ||| WAKEUP_BIT_AC_SLEEP_ACK))
                PRCM_REQ_MB0_WAKEUP_8500) d.abb_events PRCM_REQ_MB0_WAKEUP_4500)
                MB0H_CONFIG_WAKEUPS_EXE PRCM_MBOX_HEADER_REQ_MB0) 0) 0)
                ((d.dbb_irqs ||| wakeup_bits wakeups NUM_PRCMU_WAKEUP_INDICES) |||
                  (WAKEUP_BIT_AC_WAKE_ACK ||| WAKEUP_BIT_AC_SLEEP_ACK))
                PRCM_REQ_MB0_WAKEUP_8500) d.abb_events PRCM_REQ_MB0_WAKEUP_4500)
                MB0H_CONFIG_WAKEUPS_SLEEP PRCM_MBOX_HEADER_REQ_MB0) 0 with
            last_dbb_events := (d.dbb_irqs ||| wakeup_bits wakeups NUM_PRCMU_WAKEUP_INDICES) |||
              (WAKEUP_BIT_AC_WAKE_ACK ||| WAKEUP_BIT_AC_SLEEP_ACK),
            last_abb_events := d.abb_events } := by
        unfold config_wakeups
        dsimp only
        rw [if_neg hc]
      rw [e]
      exact congrArg some (config_wakeups_cached _ rfl rfl)
  · dsimp only
    unfold config_wakeups
    dsimp only
    split_ifs
    · exact Or.inl rfl
    · refine Or.inr ?_
      simp [mbox_set_pending, tcdm_writeb, tcdm_writel, mbox_poll_clear]

/-- C10 for the mask 5 at the start-up state. -/
theorem enable_wakeups_idempotent_witness :
    (5 : Nat) = 5 &&& VALID_WAKEUPS ∧
      ∃ d1, prcmu_enable_wakeups drv_init 5 = some d1 ∧
        prcmu_enable_wakeups d1 5 = some d1 :=
  ⟨by decide,
    let ⟨d1, h1, h2, _⟩ := enable_wakeups_idempotent drv_init 5 (by decide)
    ⟨d1, h1, h2⟩⟩

/-- C11 (counterexample): from the start-up state, enabling wakeup index 0 and
then wakeup index 1 leaves only the hardware bit of index 1 in the persisted
field: the bit of index 0, enabled by the earlier call, is gone, whereas the
claimed OR would give both bits. -/
theorem enable_wakeups_overwrites :
    (prcmu_enable_wakeups drv_init 1).map (fun d => d.dbb_wakeups) = some (BIT 0) ∧
    ((prcmu_enable_wakeups drv_init 1).bind fun d => prcmu_enable_wakeups d 2).map
        (fun d => d.dbb_wakeups) = some (BIT 1) ∧
    BIT 0 ||| wakeup_bits 2 NUM_PRCMU_WAKEUP_INDICES ≠ BIT 1 := by
  decide

theorem valid_wakeups_lt {wakeups : Nat} (h : wakeups = wakeups &&& VALID_WAKEUPS) :
    wakeups < 512 := by
  rw [h]
  exact Nat.lt_of_le_of_lt Nat.and_le_right (by decide)

set_option maxRecDepth 100000 in
theorem wakeup_bits_eq_union :
    ∀ wakeups < 512, wakeup_bits wakeups NUM_PRCMU_WAKEUP_INDICES = wakeup_union wakeups := by
  decide

/-- C11 (amended): for every valid mask, `prcmu_enable_wakeups` succeeds and
the persisted field `dbb_wakeups` after the call is the union of
`prcmu_wakeup_bit[i]` over the bits `i` set in the mask, whatever the field
held before; the other request data are not touched. -/
theorem enable_wakeups_replaces (d : Drv) (wakeups : Nat)
    (hvalid : wakeups = wakeups &&& VALID_WAKEUPS) :
    ∃ d1, prcmu_enable_wakeups d wakeups = some d1 ∧
      d1.dbb_wakeups = wakeup_union wakeups ∧
      d1.dbb_irqs = d.dbb_irqs ∧ d1.abb_events = d.abb_events := by
  have hlt := valid_wakeups_lt hvalid
  refine ⟨config_wakeups { d with dbb_wakeups := wakeup_bits wakeups NUM_PRCMU_WAKEUP_INDICES },
    ?_, ?_, ?_, ?_⟩
  · unfold prcmu_enable_wakeups
    rw [if_neg (not_not.mpr hvalid)]
  · rw [← wakeup_bits_eq_union wakeups hlt]
    unfold config_wakeups
    dsimp only
    split_ifs <;> rfl
  · unfold config_wakeups
    dsimp only
    split_ifs <;> rfl
  · unfold config_wakeups
    dsimp only
    split_ifs <;> rfl

/-- C11 (amended) at the mask that enables wakeup index 1 in a state where
index 0 was enabled before. -/
theorem enable_wakeups_replaces_witness :
    2 = 2 &&& VALID_WAKEUPS ∧
      ∃ d1, prcmu_enable_wakeups { drv_init with dbb_wakeups := BIT 0 } 2 = some d1 ∧
        d1.dbb_wakeups = wakeup_union 2 ∧
        d1.dbb_irqs = 0 ∧ d1.abb_events = 0 :=
  ⟨by decide, enable_wakeups_replaces { drv_init with dbb_wakeups := BIT 0 } 2 (by decide)⟩

theorem testBit_or_handshake (x : Nat) :
    (x ||| (WAKEUP_BIT_AC_WAKE_ACK ||| WAKEUP_BIT_AC_SLEEP_ACK)).testBit 11 = true ∧
      (x ||| (WAKEUP_BIT_AC_WAKE_ACK ||| WAKEUP_BIT_AC_SLEEP_ACK)).testBit 15 = true := by
  have h11 : (WAKEUP_BIT_AC_WAKE_ACK ||| WAKEUP_BIT_AC_SLEEP_ACK).testBit 11 = true := by decide
  have h15 : (WAKEUP_BIT_AC_WAKE_ACK ||| WAKEUP_BIT_AC_SLEEP_ACK).testBit 15 = true := by decide
  constructor
  · rw [Nat.testBit_or, h11, Bool.or_true]
  · rw [Nat.testBit_or, h15, Bool.or_true]

/-- C12: when the computed pair differs from the cached pair, `config_wakeups`
performs exactly two mailbox-0 transactions: the pending bit reads clear, the
DBB word and the ABB word are written, then the header (`EXE` in the first,
`SLEEP` in the second) and the pending bit is set; both carry the same two
words, the DBB word has bits 11 and 15 set, and afterwards the cache holds
the pushed pair. -/
theorem config_wakeups_two_phase (d : Drv)
    (h : ¬ ((d.dbb_irqs ||| d.dbb_wakeups) ||| (WAKEUP_BIT_AC_WAKE_ACK ||| WAKEUP_BIT_AC_SLEEP_ACK) =
        d.last_dbb_events ∧ d.abb_events = d.last_abb_events)) :
    (config_wakeups d).log = d.log ++
        [Event.poll_clear 0,
          Event.writel ((d.dbb_irqs ||| d.dbb_wakeups) |||
            (WAKEUP_BIT_AC_WAKE_ACK ||| WAKEUP_BIT_AC_SLEEP_ACK)) PRCM_REQ_MB0_WAKEUP_8500,
          Event.writel d.abb_events PRCM_REQ_MB0_WAKEUP_4500,
          Event.writeb MB0H_CONFIG_WAKEUPS_EXE PRCM_MBOX_HEADER_REQ_MB0,
          Event.set_pending 0,
          Event.poll_clear 0,
          Event.writel ((d.dbb_irqs ||| d.dbb_wakeups) |||
            (WAKEUP_BIT_AC_WAKE_ACK ||| WAKEUP_BIT_AC_SLEEP_ACK)) PRCM_REQ_MB0_WAKEUP_8500,
          Event.writel d.abb_events PRCM_REQ_MB0_WAKEUP_4500,
          Event.writeb MB0H_CONFIG_WAKEUPS_SLEEP PRCM_MBOX_HEADER_REQ_MB0,
          Event.set_pending 0] ∧
      ((d.dbb_irqs ||| d.dbb_wakeups) |||
        (WAKEUP_BIT_AC_WAKE_ACK ||| WAKEUP_BIT_AC_SLEEP_ACK)).testBit 11 = true ∧
      ((d.dbb_irqs ||| d.dbb_wakeups) |||
        (WAKEUP_BIT_AC_WAKE_ACK ||| WAKEUP_BIT_AC_SLEEP_ACK)).testBit 15 = true ∧
      (config_wakeups d).last_dbb_events =
        (d.dbb_irqs ||| d.dbb_wakeups) ||| (WAKEUP_BIT_AC_WAKE_ACK ||| WAKEUP_BIT_AC_SLEEP_ACK) ∧
      (config_wakeups d).last_abb_events = d.abb_events := by
  refine ⟨?_, (testBit_or_handshake _).1, (testBit_or_handshake _).2, ?_, ?_⟩
  · unfold config_wakeups
    simp only [h, if_false]
    simp [mbox_set_pending, tcdm_writeb, tcdm_writel, mbox_poll_clear]
  · unfold config_wakeups
    simp only [h, if_false]
  · unfold config_wakeups
    simp only [h, if_false]

/-- C12 at the start-up state, whose cache (0, 0) differs from the computed
pair (bits 11 and 15, 0). -/
theorem config_wakeups_two_phase_witness :
    ¬ ((drv_init.dbb_irqs ||| drv_init.dbb_wakeups) |||
        (WAKEUP_BIT_AC_WAKE_ACK ||| WAKEUP_BIT_AC_SLEEP_ACK) = drv_init.last_dbb_events ∧
        drv_init.abb_events = drv_init.last_abb_events) ∧
      (config_wakeups drv_init).last_dbb_events = 34816 :=
  ⟨by decide, (config_wakeups_two_phase drv_init (by decide)).2.2.2.1.trans (by decide)⟩

/-- C20 (counterexample): with the multiplier field at 255, N = R = 1 and a
source rate of 38.4 MHz the quotient is 9792000000, which does not fit the
`unsigned long` result: `pll_rate` returns 1202065408. -/
theorem pll_rate_truncates :
    pll_div (readl (soc0_state 255 1) Reg.PLLSOC0_FREQ) Reg.PLLSOC0_FREQ PLL_RAW = 1 ∧
      (readl (soc0_state 255 1) Reg.PLLSOC0_FREQ &&& PRCM_PLL_FREQ_D_MASK) >>>
        PRCM_PLL_FREQ_D_SHIFT = 255 ∧
      ROOT_CLOCK_RATE * 255 / 1 = 9792000000 ∧
      pll_rate (soc0_state 255 1) Reg.PLLSOC0_FREQ ROOT_CLOCK_RATE PLL_RAW = 1202065408 := by
  decide

/-- The divisor of the specification: `max(N, 1) x max(R, 1)`, doubled if
`SELDIV2` is set and doubled again for a `PLL_FIX` branch or a `PLL_DIV`
branch with `DIV2EN` set on `PRCM_PLLSOC0_FREQ` or `PRCM_PLLDDR_FREQ`. -/
theorem pll_div_eq (val : Nat) (reg_offset : Reg) (branch : Nat) :
    pll_div val reg_offset branch = pll_div_spec val reg_offset branch ∧
      0 < pll_div val reg_offset branch := by
  have hN : (val &&& PRCM_PLL_FREQ_N_MASK) >>> PRCM_PLL_FREQ_N_SHIFT ≤ 63 := by
    rw [Nat.shiftRight_eq_div_pow]
    have : val &&& PRCM_PLL_FREQ_N_MASK ≤ 0x3f00 := Nat.and_le_right
    have h2 : (2 : Nat) ^ PRCM_PLL_FREQ_N_SHIFT = 256 := by decide
    rw [h2]
    omega
  have hR : (val &&& PRCM_PLL_FREQ_R_MASK) >>> PRCM_PLL_FREQ_R_SHIFT ≤ 7 := by
    rw [Nat.shiftRight_eq_div_pow]
    have : val &&& PRCM_PLL_FREQ_R_MASK ≤ 0x70000 := Nat.and_le_right
    have h2 : (2 : Nat) ^ PRCM_PLL_FREQ_R_SHIFT = 65536 := by decide
    rw [h2]
    omega
  unfold pll_div pll_div_spec
  generalize (val &&& PRCM_PLL_FREQ_N_MASK) >>> PRCM_PLL_FREQ_N_SHIFT = n at hN ⊢
  generalize (val &&& PRCM_PLL_FREQ_R_MASK) >>> PRCM_PLL_FREQ_R_SHIFT = r at hR ⊢
  dsimp only
  have hmn : max n 1 = if n > 1 then n else 1 := by
    split_ifs <;> omega
  have hmr : max r 1 = if r > 1 then r else 1 := by
    split_ifs <;> omega
  have hd1 : (if n > 1 then u32 (1 * n) else 1) = max n 1 := by
    rw [hmn]
    split_ifs
    · rw [Nat.one_mul]; exact u32_of_lt (by omega)
    · rfl
  rw [hd1]
  have hb1 : 1 ≤ max n 1 ∧ max n 1 ≤ 63 := by omega
  generalize max n 1 = a at hb1 ⊢
  have hd2 : (if r > 1 then u32 (a * r) else a) = a * max r 1 := by
    rw [hmr]
    split_ifs with h
    · have : a * r ≤ 63 * 7 := Nat.mul_le_mul hb1.2 hR
      exact u32_of_lt (by omega)
    · rw [Nat.mul_one]
  rw [hd2]
  have hb2 : 1 ≤ a * max r 1 ∧ a * max r 1 ≤ 441 := by
    have h1 : 1 ≤ max r 1 ∧ max r 1 ≤ 7 := by omega
    constructor
    · exact Nat.mul_pos hb1.1 h1.1
    · exact Nat.mul_le_mul hb1.2 h1.2
  generalize a * max r 1 = b at hb2 ⊢
  have hd3 : (if val &&& PRCM_PLL_FREQ_SELDIV2 ≠ 0 then u32 (b * 2) else b) =
      b * (if val &&& PRCM_PLL_FREQ_SELDIV2 ≠ 0 then 2 else 1) := by
    split_ifs
    · exact u32_of_lt (by omega)
    · rw [Nat.mul_one]
  rw [hd3]
  have hb3 : 1 ≤ b * (if val &&& PRCM_PLL_FREQ_SELDIV2 ≠ 0 then 2 else 1) ∧
      b * (if val &&& PRCM_PLL_FREQ_SELDIV2 ≠ 0 then 2 else 1) ≤ 882 := by
    split_ifs <;> omega
  generalize b * (if val &&& PRCM_PLL_FREQ_SELDIV2 ≠ 0 then 2 else 1) = e at hb3 ⊢
  split_ifs
  · rw [u32_of_lt (by omega)]
    omega
  · omega

/-- C20 (amended): for every register state, PLL frequency register, source
rate below `2 ^ 32` and branch kind, `pll_rate` returns the quotient
`s x D / div` reduced modulo `2 ^ 32`, where `D` is the multiplier field and
`div` the divisor of the specification, which is never zero; the result is
the quotient itself whenever the quotient is below `2 ^ 32`. -/
theorem pll_rate_formula (s : ClkState) (reg_offset : Reg) (src_rate branch : Nat)
    (hsrc : src_rate < 4294967296) :
    0 < pll_div_spec (readl s reg_offset) reg_offset branch ∧
      pll_rate s reg_offset src_rate branch =
        (src_rate * ((readl s reg_offset &&& PRCM_PLL_FREQ_D_MASK) >>> PRCM_PLL_FREQ_D_SHIFT) /
          pll_div_spec (readl s reg_offset) reg_offset branch) % 4294967296 ∧
      (src_rate * ((readl s reg_offset &&& PRCM_PLL_FREQ_D_MASK) >>> PRCM_PLL_FREQ_D_SHIFT) /
          pll_div_spec (readl s reg_offset) reg_offset branch < 4294967296 →
        pll_rate s reg_offset src_rate branch =
          src_rate * ((readl s reg_offset &&& PRCM_PLL_FREQ_D_MASK) >>> PRCM_PLL_FREQ_D_SHIFT) /
            pll_div_spec (readl s reg_offset) reg_offset branch) := by
  have hdiv := pll_div_eq (readl s reg_offset) reg_offset branch
  have hD : (readl s reg_offset &&& PRCM_PLL_FREQ_D_MASK) >>> PRCM_PLL_FREQ_D_SHIFT ≤ 255 := by
    have h0 : readl s reg_offset &&& PRCM_PLL_FREQ_D_MASK ≤ 0xff := Nat.and_le_right
    have h1 : (readl s reg_offset &&& PRCM_PLL_FREQ_D_MASK) >>> PRCM_PLL_FREQ_D_SHIFT =
        readl s reg_offset &&& PRCM_PLL_FREQ_D_MASK := by
      unfold PRCM_PLL_FREQ_D_SHIFT
      rfl
    rw [h1]
    exact h0
  have hprod : src_rate * ((readl s reg_offset &&& PRCM_PLL_FREQ_D_MASK) >>>
      PRCM_PLL_FREQ_D_SHIFT) < 18446744073709551616 := by
    have : src_rate * ((readl s reg_offset &&& PRCM_PLL_FREQ_D_MASK) >>>
        PRCM_PLL_FREQ_D_SHIFT) ≤ 4294967295 * 255 :=
      Nat.mul_le_mul (by omega) hD
    omega
  have hrate : pll_rate s reg_offset src_rate branch =
      (src_rate * ((readl s reg_offset &&& PRCM_PLL_FREQ_D_MASK) >>> PRCM_PLL_FREQ_D_SHIFT) /
        pll_div_spec (readl s reg_offset) reg_offset branch) % 4294967296 := by
    unfold pll_rate
    dsimp only
    rw [u64_of_lt hprod, hdiv.1]
    rfl
  refine ⟨hdiv.1 ▸ hdiv.2, hrate, fun hlt => ?_⟩
  rw [hrate, Nat.mod_eq_of_lt hlt]

/-- C20 (amended) at the settings D = 125, N = 6, R = 1 of PLL SOC0 on a
38.4 MHz source: 800 MHz. -/
theorem pll_rate_formula_witness :
    ROOT_CLOCK_RATE < 4294967296 ∧
      pll_rate (soc0_state 125 6) Reg.PLLSOC0_FREQ ROOT_CLOCK_RATE PLL_RAW = 800000000 :=
  ⟨by decide,
    ((pll_rate_formula (soc0_state 125 6) Reg.PLLSOC0_FREQ ROOT_CLOCK_RATE PLL_RAW
      (by decide)).2.2 (by decide)).trans (by decide)⟩

theorem mb1_wait_ack (d : Drv) (fw : Mb1Ack) :
    (mb1_wait d fw).mb1_ack =
        { header := fw.header % 256, arm_opp := fw.arm_opp % 256, ape_opp := fw.ape_opp % 256,
          ape_voltage_status := fw.ape_voltage_status % 256 } ∧
      tcdm_readb (mb1_wait d fw) PRCM_ACK_MB1_CURRENT_ARM_OPP = fw.arm_opp % 256 ∧
      (mb1_wait d fw).log = d.log ++ [Event.wait 1] := by
  have h1 : PRCM_ACK_MB1_CURRENT_ARM_OPP ≠ PRCM_MBOX_HEADER_REQ_MB1 := by decide
  have h2 : PRCM_ACK_MB1_CURRENT_APE_OPP ≠ PRCM_MBOX_HEADER_REQ_MB1 := by decide
  have h3 : PRCM_ACK_MB1_CURRENT_APE_OPP ≠ PRCM_ACK_MB1_CURRENT_ARM_OPP := by decide
  have h4 : PRCM_ACK_MB1_APE_VOLTAGE_STATUS ≠ PRCM_MBOX_HEADER_REQ_MB1 := by decide
  have h5 : PRCM_ACK_MB1_APE_VOLTAGE_STATUS ≠ PRCM_ACK_MB1_CURRENT_ARM_OPP := by decide
  have h6 : PRCM_ACK_MB1_APE_VOLTAGE_STATUS ≠ PRCM_ACK_MB1_CURRENT_APE_OPP := by decide
  simp [mb1_wait, read_mailbox_1, tcdm_readb, h1, h2, h3, h4, h5, h6]

/-- C13: `prcmu_set_arm_opp` with `opp` outside `[ARM_NO_CHANGE, ARM_EXTCLK]`
returns `-EINVAL` and leaves the whole state (shared memory, pending bits,
access log) as it was.  With `opp` in range it sends one mailbox-1 message;
the record copied by `read_mailbox_1` holds the bytes of the firmware reply;
the result is 0 exactly when the record has header `MB1H_ARM_APE_OPP` and
`arm_opp = opp`, and `-EIO` otherwise; `prcmu_get_arm_opp` then reads the
acknowledged `arm_opp`. -/
theorem set_arm_opp_result (d : Drv) (opp : Nat) (fw : Mb1Ack) :
    ((opp < ARM_NO_CHANGE ∨ opp > ARM_EXTCLK) → prcmu_set_arm_opp d opp fw = (d, -EINVAL)) ∧
    ((ARM_NO_CHANGE ≤ opp ∧ opp ≤ ARM_EXTCLK) →
      (prcmu_set_arm_opp d opp fw).1.mb1_ack =
          { header := fw.header % 256, arm_opp := fw.arm_opp % 256, ape_opp := fw.ape_opp % 256,
            ape_voltage_status := fw.ape_voltage_status % 256 } ∧
        (prcmu_set_arm_opp d opp fw).1.log = d.log ++
          [Event.poll_clear 1, Event.writeb MB1H_ARM_APE_OPP PRCM_MBOX_HEADER_REQ_MB1,
            Event.writeb opp PRCM_REQ_MB1_ARM_OPP, Event.writeb APE_NO_CHANGE PRCM_REQ_MB1_APE_OPP,
            Event.set_pending 1, Event.wait 1] ∧
        ((prcmu_set_arm_opp d opp fw).2 = 0 ↔
          ((prcmu_set_arm_opp d opp fw).1.mb1_ack.header = MB1H_ARM_APE_OPP ∧
            (prcmu_set_arm_opp d opp fw).1.mb1_ack.arm_opp = opp)) ∧
        ((prcmu_set_arm_opp d opp fw).2 ≠ 0 → (prcmu_set_arm_opp d opp fw).2 = -EIO_errno) ∧
        prcmu_get_arm_opp (prcmu_set_arm_opp d opp fw).1 = fw.arm_opp % 256) := by
  constructor
  · intro h
    unfold prcmu_set_arm_opp
    rw [if_pos h]
  · intro h
    have hn : ¬ (opp < ARM_NO_CHANGE ∨ opp > ARM_EXTCLK) := by omega
    unfold prcmu_set_arm_opp
    rw [if_neg hn]
    dsimp only
    obtain ⟨hack, hget, hlog⟩ := mb1_wait_ack
      (mbox_set_pending (tcdm_writeb (tcdm_writeb (tcdm_writeb (mbox_poll_clear d 1)
        MB1H_ARM_APE_OPP PRCM_MBOX_HEADER_REQ_MB1) opp PRCM_REQ_MB1_ARM_OPP) APE_NO_CHANGE
        PRCM_REQ_MB1_APE_OPP) 1) fw
    refine ⟨hack, ?_, ?_, ?_, ?_⟩
    · rw [hlog]
      simp [mbox_set_pending, tcdm_writeb, mbox_poll_clear]
    · rw [hack]
      dsimp only
      by_cases hc : fw.header % 256 = MB1H_ARM_APE_OPP ∧ fw.arm_opp % 256 = opp
      · simp [hc.1, hc.2]
      · have hc2 : fw.header % 256 ≠ MB1H_ARM_APE_OPP ∨ fw.arm_opp % 256 ≠ opp := by
          by_cases h1 : fw.header % 256 = MB1H_ARM_APE_OPP
          · exact Or.inr fun h2 => hc ⟨h1, h2⟩
          · exact Or.inl h1
        rw [if_pos hc2]
        simp only [hc, iff_false]
        decide
    · intro hne
      by_cases hc2 : (mb1_wait (mbox_set_pending (tcdm_writeb (tcdm_writeb (tcdm_writeb
          (mbox_poll_clear d 1) MB1H_ARM_APE_OPP PRCM_MBOX_HEADER_REQ_MB1) opp
          PRCM_REQ_MB1_ARM_OPP) APE_NO_CHANGE PRCM_REQ_MB1_APE_OPP) 1) fw).mb1_ack.header ≠
            MB1H_ARM_APE_OPP ∨
          (mb1_wait (mbox_set_pending (tcdm_writeb (tcdm_writeb (tcdm_writeb
          (mbox_poll_clear d 1) MB1H_ARM_APE_OPP PRCM_MBOX_HEADER_REQ_MB1) opp
          PRCM_REQ_MB1_ARM_OPP) APE_NO_CHANGE PRCM_REQ_MB1_APE_OPP) 1) fw).mb1_ack.arm_opp ≠ opp
      · rw [if_pos hc2]
      · rw [if_neg hc2] at hne
        exact absurd rfl hne
    · exact hget

/-- C13 at the scenario of the specification: operating point 2 acknowledged
with `arm_opp = 2` gives 0 and `prcmu_get_arm_opp` reads 2; acknowledged with
`arm_opp = 3` it gives `-EIO`. -/
theorem set_arm_opp_result_witness :
    (ARM_NO_CHANGE ≤ 2 ∧ 2 ≤ ARM_EXTCLK) ∧
      (prcmu_set_arm_opp drv_init 2 ⟨MB1H_ARM_APE_OPP, 2, 0, 0⟩).2 = 0 ∧
      prcmu_get_arm_opp (prcmu_set_arm_opp drv_init 2 ⟨MB1H_ARM_APE_OPP, 2, 0, 0⟩).1 = 2 ∧
      (prcmu_set_arm_opp drv_init 2 ⟨MB1H_ARM_APE_OPP, 3, 0, 0⟩).2 = -EIO_errno :=
  ⟨by decide,
    ((set_arm_opp_result drv_init 2 ⟨MB1H_ARM_APE_OPP, 2, 0, 0⟩).2 (by decide)).2.2.1.mpr
      (by decide),
    ((set_arm_opp_result drv_init 2 ⟨MB1H_ARM_APE_OPP, 2, 0, 0⟩).2 (by decide)).2.2.2.2,
    ((set_arm_opp_result drv_init 2 ⟨MB1H_ARM_APE_OPP, 3, 0, 0⟩).2 (by decide)).2.2.2.1
      (by decide)⟩

/-- C14 (counterexample): called with the domain `NUM_EPOD_ID`, with the state
`EPOD_STATE_ON + 1`, or with `EPOD_STATE_RAMRET` for the SVA pipe, which has
no RAM retention, `prcmu_set_epod` halts the system at its `BUG_ON`; it does
not return a value to its caller. -/
theorem set_epod_invalid_halts :
    prcmu_set_epod ⟨200, 200, none⟩ drv_init NUM_EPOD_ID EPOD_STATE_ON (some HWACC_PWR_ST_OK) =
        Outcome.halted drv_init ∧
      prcmu_set_epod ⟨200, 200, none⟩ drv_init EPOD_ID_SVAMMDSP (EPOD_STATE_ON + 1)
        (some HWACC_PWR_ST_OK) = Outcome.halted drv_init ∧
      prcmu_set_epod ⟨200, 200, none⟩ drv_init EPOD_ID_SVAPIPE EPOD_STATE_RAMRET
        (some HWACC_PWR_ST_OK) = Outcome.halted drv_init ∧
      ∀ r : Drv × Int,
        prcmu_set_epod ⟨200, 200, none⟩ drv_init NUM_EPOD_ID EPOD_STATE_ON (some HWACC_PWR_ST_OK) ≠
          Outcome.returned r :=
  ⟨rfl, rfl, rfl, fun _ h => Outcome.noConfusion h⟩

theorem mb2_wait_some (c : Comm) (d : Drv) (status : Nat) :
    (mb2_wait c d (some status)).2 = true ∧
      (mb2_wait c d (some status)).1.mb2_ack_status = status % 256 ∧
      (mb2_wait c d (some status)).1.log = d.log ++ [Event.wait_timeout 2 (prcmu_comm_tout c)] := by
  simp [mb2_wait, read_mailbox_2, irq_event, tcdm_readb]

theorem mb2_wait_none (c : Comm) (d : Drv) :
    (mb2_wait c d none).2 = false ∧
      (mb2_wait c d none).1.log = d.log ++ [Event.wait_timeout 2 (prcmu_comm_tout c)] := by
  simp [mb2_wait]

/-- C14 (amended): for invalid arguments `prcmu_set_epod` halts at a `BUG_ON`
in the state in which it was called: nothing has been polled, written or
logged, and no value is returned.  For valid arguments it returns when the
firmware answers, with 0 exactly when the status byte is `HWACC_PWR_ST_OK` and
`-EIO` otherwise, and halts when the firmware does not answer in time. -/
theorem set_epod_invalid_args (c : Comm) (d : Drv) (epod_id epod_state : Nat) :
    (epod_args_invalid epod_id epod_state →
      ∀ fw, prcmu_set_epod c d epod_id epod_state fw = Outcome.halted d) ∧
    (¬ epod_args_invalid epod_id epod_state →
      (∀ status, ∃ d1, prcmu_set_epod c d epod_id epod_state (some status) =
        Outcome.returned (d1, if status % 256 = HWACC_PWR_ST_OK then 0 else -EIO_errno)) ∧
      ∃ d1, prcmu_set_epod c d epod_id epod_state none = Outcome.halted d1) := by
  unfold epod_args_invalid
  constructor
  · intro h fw
    unfold prcmu_set_epod
    by_cases h1 : epod_id ≥ NUM_EPOD_ID
    · rw [if_pos h1]
    · rw [if_neg h1]
      dsimp only
      by_cases h2 : epod_state > EPOD_STATE_ON
      · rw [if_pos h2]
      · rw [if_neg h2]
        have h3 := (h.resolve_left h1).resolve_left h2
        rw [if_pos ⟨h3.1, by simpa using h3.2⟩]
  · intro h
    have h1 : ¬ epod_id ≥ NUM_EPOD_ID := fun h1 => h (Or.inl h1)
    have h2 : ¬ epod_state > EPOD_STATE_ON := fun h2 => h (Or.inr (Or.inl h2))
    have h3 : ¬ (epod_state = EPOD_STATE_RAMRET ∧
        decide (epod_id = EPOD_ID_SVAMMDSP ∨ epod_id = EPOD_ID_SIAMMDSP ∨
          epod_id = EPOD_ID_ESRAM12 ∨ epod_id = EPOD_ID_ESRAM34) = false) := by
      intro h3
      exact h (Or.inr (Or.inr ⟨h3.1, by simpa using h3.2⟩))
    constructor
    · intro status
      unfold prcmu_set_epod
      rw [if_neg h1]
      dsimp only
      rw [if_neg h2, if_neg h3]
      rw [if_neg (by rw [(mb2_wait_some c _ status).1]; decide), (mb2_wait_some c _ status).2.1]
      have hif : (if status % 256 ≠ HWACC_PWR_ST_OK then -EIO_errno else (0 : Int)) =
          if status % 256 = HWACC_PWR_ST_OK then 0 else -EIO_errno := by
        by_cases hs : status % 256 = HWACC_PWR_ST_OK
        · rw [if_neg (not_not.mpr hs), if_pos hs]
        · rw [if_pos hs, if_neg hs]
      rw [hif]
      exact ⟨_, rfl⟩
    · unfold prcmu_set_epod
      rw [if_neg h1]
      dsimp only
      rw [if_neg h2, if_neg h3, if_pos (mb2_wait_none c _).1]
      exact ⟨_, rfl⟩

/-- C14 (amended) at a domain number that is out of range. -/
theorem set_epod_invalid_args_witness :
    epod_args_invalid 9 EPOD_STATE_ON ∧
      prcmu_set_epod ⟨200, 200, none⟩ drv_init 9 EPOD_STATE_ON none = Outcome.halted drv_init :=
  ⟨by decide, (set_epod_invalid_args ⟨200, 200, none⟩ drv_init 9 EPOD_STATE_ON).1 (by decide) none⟩

theorem loop_calls_mono (fuel : Nat) :
    ∀ bits n ns, loop_calls fuel bits n = some ns → loop_calls (fuel + 1) bits n = some ns := by
  induction fuel with
  | zero =>
    intro bits n ns h
    unfold loop_calls at h ⊢
    by_cases hb : bits = 0
    · rw [if_pos hb] at h ⊢; exact h
    · rw [if_neg hb] at h; exact absurd h (by simp)
  | succ fuel ih =>
    intro bits n ns h
    unfold loop_calls at h ⊢
    by_cases hb : bits = 0
    · rw [if_pos hb] at h ⊢; exact h
    · rw [if_neg hb] at h ⊢
      by_cases hn : bits &&& MBOX_BIT n ≠ 0
      · rw [if_pos hn] at h ⊢
        cases hrec : loop_calls fuel (u32 (bits - MBOX_BIT n)) ((n + 1) % 256) with
        | none => rw [hrec] at h; exact absurd h (by simp)
        | some l =>
          rw [hrec] at h
          rw [ih _ _ _ hrec]
          exact h
      · rw [if_neg hn] at h ⊢
        exact ih _ _ _ h

theorem loop_calls_mono_le {fuel fuel2 bits n : Nat} {ns : List Nat} (hle : fuel ≤ fuel2)
    (h : loop_calls fuel bits n = some ns) : loop_calls fuel2 bits n = some ns := by
  induction hle with
  | refl => exact h
  | step _ ih => exact loop_calls_mono _ _ _ _ ih

set_option maxRecDepth 100000 in
theorem loop_calls_eight :
    ∀ bits < 256, loop_calls 8 bits 0 = some (set_bits_ascending bits) := by
  decide

theorem irq_loop_eq (table : List (Drv → Drv × Bool)) (fuel : Nat) :
    ∀ bits n r calls d ns, loop_calls fuel bits n = some ns → (∀ m ∈ ns, m < table.length) →
      ∃ d2 rs, call_handlers table ns d = some (d2, rs) ∧
        irq_loop table fuel bits n r calls d =
          some (d2, if rs.any id = true then irqreturn_t.IRQ_WAKE_THREAD else r, calls ++ ns) := by
  induction fuel with
  | zero =>
    intro bits n r calls d ns h _
    unfold loop_calls at h
    unfold irq_loop
    by_cases hb : bits = 0
    · rw [if_pos hb] at h ⊢
      cases Option.some.inj h
      exact ⟨d, [], rfl, by simp⟩
    · rw [if_neg hb] at h; exact absurd h (by simp)
  | succ fuel ih =>
    intro bits n r calls d ns h hlen
    unfold loop_calls at h
    unfold irq_loop
    by_cases hb : bits = 0
    · rw [if_pos hb] at h ⊢
      cases Option.some.inj h
      exact ⟨d, [], rfl, by simp⟩
    · rw [if_neg hb] at h ⊢
      by_cases hn : bits &&& MBOX_BIT n ≠ 0
      · rw [if_pos hn] at h ⊢
        cases hrec : loop_calls fuel (u32 (bits - MBOX_BIT n)) ((n + 1) % 256) with
        | none => rw [hrec] at h; exact absurd h (by simp)
        | some l =>
          rw [hrec] at h
          cases Option.some.inj h
          have hnlen : n < table.length := hlen n (List.mem_cons_self _ _)
          have hget : table[n]? = some table[n] := List.getElem?_eq_getElem hnlen
          obtain ⟨d2, rs, hcall, hloop⟩ := ih (u32 (bits - MBOX_BIT n)) ((n + 1) % 256)
            (if (table[n] d).2 = true then irqreturn_t.IRQ_WAKE_THREAD else r) (calls ++ [n])
            (table[n] d).1 l hrec (fun m hm => hlen m (List.mem_cons_of_mem _ hm))
          refine ⟨d2, (table[n] d).2 :: rs, ?_, ?_⟩
          · unfold call_handlers
            rw [hget]
            dsimp only
            rw [hcall]
          · rw [hget]
            dsimp only
            rw [hloop]
            have h1 : (if List.any rs id = true then irqreturn_t.IRQ_WAKE_THREAD
                else if (table[n] d).2 = true then irqreturn_t.IRQ_WAKE_THREAD else r) =
                if List.any ((table[n] d).2 :: rs) id = true then irqreturn_t.IRQ_WAKE_THREAD
                else r := by
              cases hres : (table[n] d).2 <;> simp
            rw [h1, List.append_assoc, List.singleton_append]
      · rw [if_neg hn] at h ⊢
        exact ih _ _ _ _ _ _ h hlen

theorem irq_bits_eq (x : Nat) : u32 x &&& ALL_MBOX_BITS = x % 256 := by
  have h : ALL_MBOX_BITS = 2 ^ 8 - 1 := by decide
  rw [h, Nat.and_pow_two_sub_one_eq_mod]
  unfold u32
  omega

theorem mem_set_bits_ascending (bits n : Nat) :
    n ∈ set_bits_ascending bits ↔ n < 8 ∧ bits.testBit n = true := by
  unfold set_bits_ascending
  rw [List.mem_filter, List.mem_range]

/-- C17: `prcmu_irq_handler` looks at `PRCM_ARM_IT1_VAL` modulo 256 only.  If
that is zero it returns `IRQ_NONE`, calls no handler and leaves the state as
it was.  Otherwise, given fuel for 8 runs of the loop body, it returns, having
called `read_mailbox[n]` for exactly the set bits `n` in ascending order, each
once and none with `n >= 8`; the value is `IRQ_WAKE_THREAD` exactly when one
of the handlers called returned true, and `IRQ_HANDLED` otherwise. -/
theorem irq_dispatch (prcmu_irq_bit : List Nat) (d : Drv) (fuel : Nat) (hfuel : 8 ≤ fuel) :
    u32 d.arm_it1_val &&& ALL_MBOX_BITS = d.arm_it1_val % 256 ∧
    (d.arm_it1_val % 256 = 0 →
      prcmu_irq_handler (read_mailbox prcmu_irq_bit) fuel d =
        some (d, irqreturn_t.IRQ_NONE, [])) ∧
    (d.arm_it1_val % 256 ≠ 0 →
      ∃ d2 rs, call_handlers (read_mailbox prcmu_irq_bit)
          (set_bits_ascending (d.arm_it1_val % 256)) d = some (d2, rs) ∧
        prcmu_irq_handler (read_mailbox prcmu_irq_bit) fuel d =
          some (d2,
            if rs.any id = true then irqreturn_t.IRQ_WAKE_THREAD else irqreturn_t.IRQ_HANDLED,
            set_bits_ascending (d.arm_it1_val % 256))) ∧
    (set_bits_ascending (d.arm_it1_val % 256)).Pairwise (fun a b => a < b) ∧
    (∀ n, n ∈ set_bits_ascending (d.arm_it1_val % 256) ↔
      n < 8 ∧ (d.arm_it1_val % 256).testBit n = true) ∧
    (set_bits_ascending (d.arm_it1_val % 256)).length ≤ 8 := by
  refine ⟨irq_bits_eq _, ?_, ?_, ?_, mem_set_bits_ascending _, ?_⟩
  · intro h
    unfold prcmu_irq_handler
    dsimp only
    rw [irq_bits_eq, if_pos h]
  · intro h
    have hlt : d.arm_it1_val % 256 < 256 := Nat.mod_lt _ (by decide)
    have hcalls := loop_calls_mono_le hfuel (loop_calls_eight _ hlt)
    obtain ⟨d2, rs, hcall, hloop⟩ := irq_loop_eq (read_mailbox prcmu_irq_bit) fuel
      (d.arm_it1_val % 256) 0 irqreturn_t.IRQ_HANDLED [] d _ hcalls
      (fun m hm => ((mem_set_bits_ascending _ m).mp hm).1)
    refine ⟨d2, rs, hcall, ?_⟩
    unfold prcmu_irq_handler
    dsimp only
    rw [irq_bits_eq, if_neg h, hloop, List.nil_append]
  · unfold set_bits_ascending
    exact List.Pairwise.filter _ (List.pairwise_lt_range 8)
  · unfold set_bits_ascending
    exact Nat.le_trans (List.length_filter_le _ _) (by simp)

/-- C17 with mailboxes 1 and 5 signalled (`PRCM_ARM_IT1_VAL = 0x22`). -/
theorem irq_dispatch_witness :
    8 ≤ 8 ∧
      ∃ d2 rs, call_handlers (read_mailbox [])
          (set_bits_ascending (0x22 % 256)) { drv_init with arm_it1_val := 0x22 } = some (d2, rs) ∧
        prcmu_irq_handler (read_mailbox []) 8 { drv_init with arm_it1_val := 0x22 } =
          some (d2,
            if rs.any id = true then irqreturn_t.IRQ_WAKE_THREAD else irqreturn_t.IRQ_HANDLED,
            set_bits_ascending (0x22 % 256)) :=
  ⟨Nat.le_refl 8,
    (irq_dispatch [] { drv_init with arm_it1_val := 0x22 } 8 (Nat.le_refl 8)).2.2.1 (by decide)⟩

theorem irq_append_nil (d : Drv) : irq_append d [] = d := by
  cases d
  simp [irq_append]

theorem irq_append_append (d : Drv) (a b : List IrqEvent) :
    irq_append (irq_append d a) b = irq_append d (a ++ b) := by
  simp [irq_append]

theorem irq_event_eq (d : Drv) (e : IrqEvent) : irq_event d e = irq_append d [e] := rfl

theorem ite_irq_append (c : Prop) [Decidable c] (d : Drv) (a : List IrqEvent) :
    (if c then irq_append d a else d) = irq_append d (if c then a else []) := by
  by_cases h : c
  · rw [if_pos h, if_pos h]
  · rw [if_neg h, if_neg h, irq_append_nil]

theorem handle_wakeups_eq (ev : Nat) :
    ∀ (entries : List Nat) (n : Nat) (d : Drv),
      handle_wakeups ev entries n d =
        irq_append d (((List.range entries.length).filter
          fun i => ev &&& entries.getD i 0 ≠ 0).map fun i => IrqEvent.handle_irq (n + i)) := by
  intro entries
  induction entries with
  | nil =>
    intro n d
    simp [handle_wakeups, irq_append_nil]
  | cons bit rest ih =>
    intro n d
    unfold handle_wakeups
    rw [ih, irq_event_eq, ite_irq_append, irq_append_append]
    congr 1
    rw [List.length_cons, List.range_succ_eq_map, List.filter_cons, List.filter_map]
    have hcomp : ((fun i => decide (ev &&& (bit :: rest).getD i 0 ≠ 0)) ∘ Nat.succ) =
        fun i => decide (ev &&& rest.getD i 0 ≠ 0) := by
      funext i
      simp
    have hmap : ∀ l : List Nat, List.map (fun i => IrqEvent.handle_irq (n + i)) (List.map Nat.succ l) =
        List.map (fun i => IrqEvent.handle_irq (n + 1 + i)) l := by
      intro l
      rw [List.map_map]
      apply List.map_congr_left
      intro i _
      simp [Nat.add_assoc, Nat.add_comm 1 i]
    rw [hcomp]
    by_cases hb : ev &&& bit ≠ 0
    · have h1 : decide (ev &&& (bit :: rest).getD 0 0 ≠ 0) = true := by simpa using hb
      rw [if_pos hb, if_pos h1, List.map_cons, hmap]
      rfl
    · have h1 : ¬ decide (ev &&& (bit :: rest).getD 0 0 ≠ 0) = true := by simpa using hb
      rw [if_neg hb, if_neg h1, hmap]
      rfl

theorem and_bit_ne_zero (x k : Nat) : x &&& BIT k ≠ 0 ↔ x.testBit k = true := by
  have hb : BIT k = 2 ^ k := by
    unfold BIT
    rw [Nat.shiftLeft_eq, Nat.one_mul]
  rw [hb]
  constructor
  · intro h
    obtain ⟨i, hi⟩ := Nat.ne_zero_implies_bit_true h
    rw [Nat.testBit_and, Nat.testBit_two_pow] at hi
    have h2 : k = i := by
      by_contra hne
      simp [hne] at hi
    rw [h2]
    simpa using (Bool.and_eq_true _ _ ▸ hi).1
  · intro h hz
    have h2 : (x &&& 2 ^ k).testBit k = true := by
      rw [Nat.testBit_and, h, Nat.testBit_two_pow_self]
      rfl
    rw [hz, Nat.zero_testBit] at h2
    exact absurd h2 (by decide)

theorem dbb_event_word_eq (d : Drv) :
    (if tcdm_readb d PRCM_ACK_MB0_READ_POINTER &&& 1 ≠ 0 then
        tcdm_readl d PRCM_ACK_MB0_WAKEUP_1_8500
      else tcdm_readl d PRCM_ACK_MB0_WAKEUP_0_8500) = dbb_event_word d := by
  unfold dbb_event_word
  have h := and_bit_ne_zero (tcdm_readb d PRCM_ACK_MB0_READ_POINTER) 0
  have hb : BIT 0 = 1 := by decide
  rw [hb] at h
  by_cases hc : tcdm_readb d PRCM_ACK_MB0_READ_POINTER &&& 1 ≠ 0
  · rw [if_pos hc, if_pos (h.mp hc)]
  · rw [if_neg hc, if_neg (fun h2 => hc (h.mpr h2))]

/-- What `read_mailbox_0` adds to the log of the interrupt side for a wakeup
header: the two completions, decided on the unmasked event word, the logical
interrupts of the masked word, and the write to `PRCM_ARM_IT1_CLR`. -/
theorem read_mailbox_0_wakeup (prcmu_irq_bit : List Nat) (d : Drv)
    (hw : tcdm_readb d PRCM_MBOX_HEADER_ACK_MB0 = MB0H_WAKEUP_EXE ∨
      tcdm_readb d PRCM_MBOX_HEADER_ACK_MB0 = MB0H_WAKEUP_SLEEP) :
    read_mailbox_0 prcmu_irq_bit d =
      if u32 d.mbox_cpu_val &&& MBOX_BIT 0 = 0 then
        (mbox_set_pending (tcdm_writeb (irq_append d
          ((if dbb_event_word d &&& (WAKEUP_BIT_AC_WAKE_ACK ||| WAKEUP_BIT_AC_SLEEP_ACK) ≠ 0 then
              [IrqEvent.complete_ac_wake] else []) ++
            ((if dbb_event_word d &&& WAKEUP_BIT_SYSCLK_OK ≠ 0 then
              [IrqEvent.complete_sysclk] else []) ++
            ((raised_irqs prcmu_irq_bit (dbb_event_word d) d.dbb_irqs).map
              (fun n => IrqEvent.handle_irq n) ++ [IrqEvent.it1_clr (MBOX_BIT 0)]))))
          MB0H_READ_WAKEUP_ACK PRCM_MBOX_HEADER_REQ_MB0) 0, false)
      else
        (irq_append d
          ((if dbb_event_word d &&& (WAKEUP_BIT_AC_WAKE_ACK ||| WAKEUP_BIT_AC_SLEEP_ACK) ≠ 0 then
              [IrqEvent.complete_ac_wake] else []) ++
            ((if dbb_event_word d &&& WAKEUP_BIT_SYSCLK_OK ≠ 0 then
              [IrqEvent.complete_sysclk] else []) ++
            ((raised_irqs prcmu_irq_bit (dbb_event_word d) d.dbb_irqs).map
              (fun n => IrqEvent.handle_irq n) ++ [IrqEvent.it1_clr (MBOX_BIT 0)]))), true) := by
  have hirqs : ∀ l, (irq_append d l).dbb_irqs = d.dbb_irqs := fun _ => rfl
  have hmbox : ∀ l, (irq_append d l).mbox_cpu_val = d.mbox_cpu_val := fun _ => rfl
  have hraised :
      (List.map (fun i => IrqEvent.handle_irq (0 + i))
        (List.filter (fun i => decide (dbb_event_word d &&& d.dbb_irqs &&&
          prcmu_irq_bit.getD i 0 ≠ 0)) (List.range prcmu_irq_bit.length))) =
      (raised_irqs prcmu_irq_bit (dbb_event_word d) d.dbb_irqs).map
        (fun n => IrqEvent.handle_irq n) := by
    unfold raised_irqs
    simp
  unfold read_mailbox_0
  simp only [if_pos hw, dbb_event_word_eq]
  by_cases hA : dbb_event_word d &&& (WAKEUP_BIT_AC_WAKE_ACK ||| WAKEUP_BIT_AC_SLEEP_ACK) ≠ 0 <;>
  by_cases hS : dbb_event_word d &&& WAKEUP_BIT_SYSCLK_OK ≠ 0 <;>
  by_cases hM : u32 d.mbox_cpu_val &&& MBOX_BIT 0 = 0 <;>
  simp only [hA, hS, hM, ne_eq, not_true_eq_false, not_false_eq_true, if_true, if_false,
    irq_event_eq, handle_wakeups_eq, irq_append_append, hirqs, hmbox, hraised, List.nil_append,
    List.append_assoc, irq_append_nil]

theorem ends_with_last (l a b c : List IrqEvent) (e : IrqEvent) :
    ∃ es, l ++ (a ++ (b ++ (c ++ [e]))) = l ++ (es ++ [e]) :=
  ⟨a ++ (b ++ c), by simp⟩

theorem read_mailbox_0_other (prcmu_irq_bit : List Nat) (d : Drv)
    (hw : ¬ (tcdm_readb d PRCM_MBOX_HEADER_ACK_MB0 = MB0H_WAKEUP_EXE ∨
      tcdm_readb d PRCM_MBOX_HEADER_ACK_MB0 = MB0H_WAKEUP_SLEEP)) :
    read_mailbox_0 prcmu_irq_bit d =
      (irq_append d [IrqEvent.unknown_header 0 (tcdm_readb d PRCM_MBOX_HEADER_ACK_MB0),
        IrqEvent.it1_clr (MBOX_BIT 0)], false) := by
  unfold read_mailbox_0
  simp only [if_neg hw, irq_event_eq, irq_append_append, Bool.false_eq_true, if_false]
  rfl

/-- C18: in `read_mailbox_0`, for a wakeup header (`MB0H_WAKEUP_EXE` or
`MB0H_WAKEUP_SLEEP`) with the pending bit of mailbox 0 reading clear, the only
mailbox accesses are the write of `MB0H_READ_WAKEUP_ACK` to the request header
and the setting of the pending bit, and the result is false; with the pending
bit reading set nothing is written, the pending bits are as before and the
result is true; for any other header nothing is written and the result is
false.  In every case the log of the interrupt side ends with the write of
bit 0 to `PRCM_ARM_IT1_CLR`.  The deferred acknowledgment, `ack_dbb_wakeup`,
first waits for the pending bit to read clear. -/
theorem read_mailbox_0_ack (prcmu_irq_bit : List Nat) (d : Drv) :
    ((tcdm_readb d PRCM_MBOX_HEADER_ACK_MB0 = MB0H_WAKEUP_EXE ∨
        tcdm_readb d PRCM_MBOX_HEADER_ACK_MB0 = MB0H_WAKEUP_SLEEP) ∧
        u32 d.mbox_cpu_val &&& MBOX_BIT 0 = 0 →
      (read_mailbox_0 prcmu_irq_bit d).2 = false ∧
        (read_mailbox_0 prcmu_irq_bit d).1.log = d.log ++
          [Event.writeb MB0H_READ_WAKEUP_ACK PRCM_MBOX_HEADER_REQ_MB0, Event.set_pending 0] ∧
        (read_mailbox_0 prcmu_irq_bit d).1.mbox_cpu_val = d.mbox_cpu_val ||| MBOX_BIT 0 ∧
        (read_mailbox_0 prcmu_irq_bit d).1.tcdm PRCM_MBOX_HEADER_REQ_MB0 = MB0H_READ_WAKEUP_ACK) ∧
    ((tcdm_readb d PRCM_MBOX_HEADER_ACK_MB0 = MB0H_WAKEUP_EXE ∨
        tcdm_readb d PRCM_MBOX_HEADER_ACK_MB0 = MB0H_WAKEUP_SLEEP) ∧
        u32 d.mbox_cpu_val &&& MBOX_BIT 0 ≠ 0 →
      (read_mailbox_0 prcmu_irq_bit d).2 = true ∧
        (read_mailbox_0 prcmu_irq_bit d).1.log = d.log ∧
        (read_mailbox_0 prcmu_irq_bit d).1.tcdm = d.tcdm ∧
        (read_mailbox_0 prcmu_irq_bit d).1.mbox_cpu_val = d.mbox_cpu_val) ∧
    (¬ (tcdm_readb d PRCM_MBOX_HEADER_ACK_MB0 = MB0H_WAKEUP_EXE ∨
        tcdm_readb d PRCM_MBOX_HEADER_ACK_MB0 = MB0H_WAKEUP_SLEEP) →
      (read_mailbox_0 prcmu_irq_bit d).2 = false ∧
        (read_mailbox_0 prcmu_irq_bit d).1.log = d.log ∧
        (read_mailbox_0 prcmu_irq_bit d).1.tcdm = d.tcdm ∧
        (read_mailbox_0 prcmu_irq_bit d).1.mbox_cpu_val = d.mbox_cpu_val) ∧
    (∃ es, (read_mailbox_0 prcmu_irq_bit d).1.irq_log =
      d.irq_log ++ (es ++ [IrqEvent.it1_clr (MBOX_BIT 0)])) ∧
    (ack_dbb_wakeup d).log = d.log ++
      [Event.poll_clear 0, Event.writeb MB0H_READ_WAKEUP_ACK PRCM_MBOX_HEADER_REQ_MB0,
        Event.set_pending 0] := by
  refine ⟨?_, ?_, ?_, ?_, ?_⟩
  · rintro ⟨hw, hm⟩
    rw [read_mailbox_0_wakeup _ _ hw, if_pos hm]
    simp [mbox_set_pending, tcdm_writeb, irq_append]
    decide
  · rintro ⟨hw, hm⟩
    rw [read_mailbox_0_wakeup _ _ hw, if_neg hm]
    exact ⟨rfl, rfl, rfl, rfl⟩
  · intro hw
    rw [read_mailbox_0_other _ _ hw]
    exact ⟨rfl, rfl, rfl, rfl⟩
  · by_cases hw : tcdm_readb d PRCM_MBOX_HEADER_ACK_MB0 = MB0H_WAKEUP_EXE ∨
        tcdm_readb d PRCM_MBOX_HEADER_ACK_MB0 = MB0H_WAKEUP_SLEEP
    · rw [read_mailbox_0_wakeup _ _ hw]
      by_cases hm : u32 d.mbox_cpu_val &&& MBOX_BIT 0 = 0
      · rw [if_pos hm]
        simp only [mbox_set_pending, tcdm_writeb, irq_append]
        exact ends_with_last _ _ _ _ _
      · rw [if_neg hm]
        simp only [irq_append]
        exact ends_with_last _ _ _ _ _
    · rw [read_mailbox_0_other _ _ hw]
      exact ⟨[IrqEvent.unknown_header 0 (tcdm_readb d PRCM_MBOX_HEADER_ACK_MB0)], rfl⟩
  · simp [ack_dbb_wakeup, mbox_set_pending, tcdm_writeb, mbox_poll_clear]

/-- C18 at a posted wakeup message with mailbox 0 free: the acknowledgment
is sent at once. -/
theorem read_mailbox_0_ack_witness :
    ((tcdm_readb wakeup_state PRCM_MBOX_HEADER_ACK_MB0 = MB0H_WAKEUP_EXE ∨
        tcdm_readb wakeup_state PRCM_MBOX_HEADER_ACK_MB0 = MB0H_WAKEUP_SLEEP) ∧
        u32 wakeup_state.mbox_cpu_val &&& MBOX_BIT 0 = 0) ∧
      (read_mailbox_0 [BIT 0, BIT 1] wakeup_state).2 = false ∧
      (read_mailbox_0 [BIT 0, BIT 1] wakeup_state).1.log =
        [Event.writeb MB0H_READ_WAKEUP_ACK PRCM_MBOX_HEADER_REQ_MB0, Event.set_pending 0] :=
  ⟨by decide,
    ((read_mailbox_0_ack [BIT 0, BIT 1] wakeup_state).1 (by decide)).1,
    ((read_mailbox_0_ack [BIT 0, BIT 1] wakeup_state).1 (by decide)).2.1⟩

theorem and_handshake_ne_zero (ev : Nat) :
    ev &&& (WAKEUP_BIT_AC_WAKE_ACK ||| WAKEUP_BIT_AC_SLEEP_ACK) ≠ 0 ↔
      (ev.testBit 11 = true ∨ ev.testBit 15 = true) := by
  unfold WAKEUP_BIT_AC_WAKE_ACK WAKEUP_BIT_AC_SLEEP_ACK
  rw [← and_bit_ne_zero, ← and_bit_ne_zero, Nat.and_or_distrib_left]
  constructor
  · intro h
    by_contra hc
    push_neg at hc
    exact h (by rw [hc.1, hc.2]; rfl)
  · intro h hz
    rw [or_eq_zero_iff] at hz
    cases h with
    | inl h => exact h hz.1
    | inr h => exact h hz.2

theorem mem_raised_irqs (prcmu_irq_bit : List Nat) (ev irqs n : Nat) :
    n ∈ raised_irqs prcmu_irq_bit ev irqs ↔
      n < prcmu_irq_bit.length ∧ ev &&& irqs &&& prcmu_irq_bit.getD n 0 ≠ 0 := by
  unfold raised_irqs
  rw [List.mem_filter, List.mem_range]
  simp

/-- C19: for a wakeup header `read_mailbox_0` works on the event word of
buffer 1 when bit 0 of the read-pointer byte is set and of buffer 0 otherwise.
It completes `ac_wake_work` exactly when bit 11 or bit 15 of that word is set
and `sysclk_work` exactly when bit 9 is set, whatever `dbb_irqs` holds; then
it raises, in ascending order of `n`, the logical interrupt `n` of every
`n < NUM_PRCMU_WAKEUPS` whose entry `prcmu_irq_bit[n]` meets both the event
word and `dbb_irqs`: for an entry that is the single bit `k`, exactly when bit
`k` is set in both. -/
theorem read_mailbox_0_routing (prcmu_irq_bit : List Nat) (d : Drv) :
    ((tcdm_readb d PRCM_MBOX_HEADER_ACK_MB0 = MB0H_WAKEUP_EXE ∨
        tcdm_readb d PRCM_MBOX_HEADER_ACK_MB0 = MB0H_WAKEUP_SLEEP) →
      (read_mailbox_0 prcmu_irq_bit d).1.irq_log = d.irq_log ++
        ((if (dbb_event_word d).testBit 11 = true ∨ (dbb_event_word d).testBit 15 = true then
            [IrqEvent.complete_ac_wake] else []) ++
          ((if (dbb_event_word d).testBit 9 = true then [IrqEvent.complete_sysclk] else []) ++
          ((raised_irqs prcmu_irq_bit (dbb_event_word d) d.dbb_irqs).map
            (fun n => IrqEvent.handle_irq n) ++ [IrqEvent.it1_clr (MBOX_BIT 0)])))) ∧
    ((tcdm_readb d PRCM_ACK_MB0_READ_POINTER).testBit 0 = true →
      dbb_event_word d = tcdm_readl d PRCM_ACK_MB0_WAKEUP_1_8500) ∧
    ((tcdm_readb d PRCM_ACK_MB0_READ_POINTER).testBit 0 = false →
      dbb_event_word d = tcdm_readl d PRCM_ACK_MB0_WAKEUP_0_8500) ∧
    (raised_irqs prcmu_irq_bit (dbb_event_word d) d.dbb_irqs).Pairwise (fun a b => a < b) ∧
    (∀ n, n ∈ raised_irqs prcmu_irq_bit (dbb_event_word d) d.dbb_irqs ↔
      n < prcmu_irq_bit.length ∧
        dbb_event_word d &&& d.dbb_irqs &&& prcmu_irq_bit.getD n 0 ≠ 0) ∧
    (∀ n k, n < prcmu_irq_bit.length → prcmu_irq_bit.getD n 0 = BIT k →
      (n ∈ raised_irqs prcmu_irq_bit (dbb_event_word d) d.dbb_irqs ↔
        (dbb_event_word d).testBit k = true ∧ d.dbb_irqs.testBit k = true)) := by
  refine ⟨?_, ?_, ?_, ?_, mem_raised_irqs _ _ _, ?_⟩
  · intro hw
    rw [read_mailbox_0_wakeup _ _ hw]
    have h9 : (dbb_event_word d &&& WAKEUP_BIT_SYSCLK_OK ≠ 0) ↔
        (dbb_event_word d).testBit 9 = true := and_bit_ne_zero _ 9
    have hsys : (if dbb_event_word d &&& WAKEUP_BIT_SYSCLK_OK ≠ 0 then
        [IrqEvent.complete_sysclk] else []) =
        if (dbb_event_word d).testBit 9 = true then [IrqEvent.complete_sysclk] else [] :=
      if_congr h9 rfl rfl
    have hac : (if dbb_event_word d &&& (WAKEUP_BIT_AC_WAKE_ACK ||| WAKEUP_BIT_AC_SLEEP_ACK) ≠ 0
        then [IrqEvent.complete_ac_wake] else []) =
        if (dbb_event_word d).testBit 11 = true ∨ (dbb_event_word d).testBit 15 = true then
          [IrqEvent.complete_ac_wake] else [] :=
      if_congr (and_handshake_ne_zero _) rfl rfl
    rw [hsys, hac]
    by_cases hm : u32 d.mbox_cpu_val &&& MBOX_BIT 0 = 0
    · rw [if_pos hm]; rfl
    · rw [if_neg hm]; rfl
  · intro h
    unfold dbb_event_word
    rw [if_pos h]
  · intro h
    unfold dbb_event_word
    rw [if_neg (by rw [h]; decide)]
  · unfold raised_irqs
    exact List.Pairwise.filter _ (List.pairwise_lt_range _)
  · intro n k hn hk
    rw [mem_raised_irqs, hk, and_bit_ne_zero, Nat.testBit_and, Bool.and_eq_true]
    exact ⟨fun h => h.2, fun h => ⟨hn, h⟩⟩

/-- C19 at a posted wakeup message whose event word has the RTC bit and the
AC wake acknowledgment: `ac_wake_work` is completed and the logical interrupt
0 is raised. -/
theorem read_mailbox_0_routing_witness :
    (tcdm_readb wakeup_state PRCM_MBOX_HEADER_ACK_MB0 = MB0H_WAKEUP_EXE ∨
        tcdm_readb wakeup_state PRCM_MBOX_HEADER_ACK_MB0 = MB0H_WAKEUP_SLEEP) ∧
      (read_mailbox_0 [BIT 0, BIT 1] wakeup_state).1.irq_log =
        [IrqEvent.complete_ac_wake, IrqEvent.handle_irq 0, IrqEvent.it1_clr (MBOX_BIT 0)] :=
  ⟨by decide, ((read_mailbox_0_routing [BIT 0, BIT 1] wakeup_state).1 (by decide)).trans
    (by decide)⟩

theorem events_since_append (d d2 : Drv) (evs : List Event) (h : d2.log = d.log ++ evs) :
    events_since d d2 = evs := by
  unfold events_since
  rw [h, List.drop_left]

theorem events_since_self (d : Drv) : events_since d d = [] := by
  unfold events_since
  exact List.drop_length _

theorem mb4_wait_log (d : Drv) : (mb4_wait d).log = d.log ++ [Event.wait 4] := by
  unfold mb4_wait read_mailbox_4
  dsimp only
  split_ifs <;> rfl

theorem mb1_wait_log (d : Drv) (fw : Mb1Ack) : (mb1_wait d fw).log = d.log ++ [Event.wait 1] :=
  (mb1_wait_ack d fw).2.2

theorem mb5_wait_log (c : Comm) (d : Drv) (fw : Option (Nat × Nat)) :
    (mb5_wait c d fw).1.log = d.log ++ [Event.wait_timeout 5 (prcmu_comm_tout c)] := by
  cases fw <;> rfl

theorem mb2_wait_log (c : Comm) (d : Drv) (fw : Option Nat) :
    (mb2_wait c d fw).1.log = d.log ++ [Event.wait_timeout 2 (prcmu_comm_tout c)] := by
  cases fw <;> rfl

theorem writes_into_free (n pending : Nat) (e : Event) (hclear : pending.testBit n = false)
    (h : writes_into n e = true) : writes_free pending e = true := by
  unfold writes_into at h
  unfold writes_free
  rw [Bool.and_eq_true, List.all_eq_true] at h
  rw [List.all_eq_true]
  intro addr haddr
  have h2 := h.2 addr haddr
  rw [beq_iff_eq] at h2
  rw [h2]
  simp [hclear]

theorem testBit_and_not32 (pending n : Nat) (hn : n < 32) :
    (pending &&& not32 (BIT n)).testBit n = false := by
  rw [Nat.testBit_and]
  have h : (not32 (BIT n)).testBit n = false := by
    unfold not32 BIT
    rw [Nat.testBit_xor, Nat.shiftLeft_eq, Nat.one_mul, Nat.testBit_two_pow_self]
    have h32 : (4294967295 : Nat) = 2 ^ 32 - 1 := by decide
    rw [h32, Nat.testBit_two_pow_sub_one]
    simp [hn]
  rw [h, Bool.and_false]

theorem request_of_lt (addr n : Nat) (h : request_of addr = some n) : n < 6 := by
  unfold request_of at h
  split_ifs at h with h0 <;> cases Option.some.inj h <;> omega

theorem writes_into_lt (n : Nat) (e : Event) (h : writes_into n e = true) : n < 6 := by
  unfold writes_into at h
  rw [Bool.and_eq_true, List.all_eq_true] at h
  cases e <;> simp [is_tcdm_write] at h
  all_goals
    simp only [written_bytes, List.mem_cons, List.mem_singleton, forall_eq_or_imp] at h
    exact request_of_lt _ _ (by simpa using h.1)

theorem shape_no_busy (evs : List Event) :
    ∀ (cur : Option Nat) (pending : Nat), request_shape cur evs = true →
      (∀ n, cur = some n → n < 32 → pending.testBit n = false) →
      no_busy_write pending evs = true := by
  induction evs with
  | nil => intro cur pending _ _; rfl
  | cons e rest ih =>
    intro cur pending h hinv
    cases cur with
    | none =>
      cases e <;> simp only [request_shape, Bool.false_eq_true] at h
      case poll_clear n =>
        simp only [no_busy_write]
        exact ih (some n) _ h (fun m hm hlt => by
          cases Option.some.inj hm
          exact testBit_and_not32 _ _ hlt)
      all_goals
        simp only [no_busy_write, writes_free, written_bytes, List.all_nil, Bool.true_and]
        exact ih none _ h (fun _ hm => by cases hm)
    | some n =>
      cases e
      case set_pending m =>
        simp only [request_shape, Bool.and_eq_true] at h
        simp only [no_busy_write]
        exact ih none _ h.2 (fun _ hm => by cases hm)
      all_goals
        simp only [request_shape, Bool.and_eq_true] at h
        have hn := writes_into_lt _ _ h.1
        have hfree := writes_into_free n pending _ (hinv n rfl (by omega)) h.1
        first
          | (simp only [no_busy_write, Bool.and_eq_true]
             exact ⟨hfree, ih (some n) _ h.2 hinv⟩)
          | (simp [writes_into, is_tcdm_write] at h)
theorem poll_clear_log (d : Drv) (n : Nat) :
    (mbox_poll_clear d n).log = d.log ++ [Event.poll_clear n] := rfl

theorem set_pending_log (d : Drv) (n : Nat) :
    (mbox_set_pending d n).log = d.log ++ [Event.set_pending n] := rfl

theorem writeb_log (d : Drv) (v a : Nat) :
    (tcdm_writeb d v a).log = d.log ++ [Event.writeb v a] := rfl

theorem writew_log (d : Drv) (v a : Nat) :
    (tcdm_writew d v a).log = d.log ++ [Event.writew v a] := rfl

theorem writel_log (d : Drv) (v a : Nat) :
    (tcdm_writel d v a).log = d.log ++ [Event.writel v a] := rfl

theorem epod_fill_log (d : Drv) :
    (epod_fill d NUM_EPOD_ID).log = d.log ++
      [Event.writeb EPOD_STATE_NO_CHANGE (PRCM_REQ_MB2 + 0),
        Event.writeb EPOD_STATE_NO_CHANGE (PRCM_REQ_MB2 + 1),
        Event.writeb EPOD_STATE_NO_CHANGE (PRCM_REQ_MB2 + 2),
        Event.writeb EPOD_STATE_NO_CHANGE (PRCM_REQ_MB2 + 3),
        Event.writeb EPOD_STATE_NO_CHANGE (PRCM_REQ_MB2 + 4),
        Event.writeb EPOD_STATE_NO_CHANGE (PRCM_REQ_MB2 + 5),
        Event.writeb EPOD_STATE_NO_CHANGE (PRCM_REQ_MB2 + 6),
        Event.writeb EPOD_STATE_NO_CHANGE (PRCM_REQ_MB2 + 7)] := by
  simp [NUM_EPOD_ID, epod_fill, writeb_log]

theorem request_of_epod (epod_id : Nat) (h : ¬ epod_id ≥ NUM_EPOD_ID) :
    request_of (PRCM_REQ_MB2 + epod_id) = some 2 := by
  have h8 : epod_id < 8 := Nat.lt_of_not_ge h
  interval_cases epod_id <;> rfl

theorem write_hostaccess_log (d : Drv) (v : Nat) :
    (write_hostaccess d v).log = d.log ++ [Event.writel_hostaccess v] := rfl

theorem config_wakeups_log (d : Drv) :
    (config_wakeups d).log = d.log ∨
      (config_wakeups d).log = d.log ++
        [Event.poll_clear 0,
          Event.writel ((d.dbb_irqs ||| d.dbb_wakeups) |||
            (WAKEUP_BIT_AC_WAKE_ACK ||| WAKEUP_BIT_AC_SLEEP_ACK)) PRCM_REQ_MB0_WAKEUP_8500,
          Event.writel d.abb_events PRCM_REQ_MB0_WAKEUP_4500,
          Event.writeb MB0H_CONFIG_WAKEUPS_EXE PRCM_MBOX_HEADER_REQ_MB0,
          Event.set_pending 0,
          Event.poll_clear 0,
          Event.writel ((d.dbb_irqs ||| d.dbb_wakeups) |||
            (WAKEUP_BIT_AC_WAKE_ACK ||| WAKEUP_BIT_AC_SLEEP_ACK)) PRCM_REQ_MB0_WAKEUP_8500,
          Event.writel d.abb_events PRCM_REQ_MB0_WAKEUP_4500,
          Event.writeb MB0H_CONFIG_WAKEUPS_SLEEP PRCM_MBOX_HEADER_REQ_MB0,
          Event.set_pending 0] := by
  unfold config_wakeups
  dsimp only
  split_ifs
  · exact Or.inl rfl
  · right
    simp [set_pending_log, writeb_log, writel_log, poll_clear_log]

theorem set_ape_opp_log (d : Drv) (s : ClkState) (opp : Nat) (fw : Mb1Ack) :
    (prcmu_set_ape_opp d s opp fw).1.1.log = d.log ∨
      (prcmu_set_ape_opp d s opp fw).1.1.log = d.log ++
        [Event.poll_clear 1, Event.writeb MB1H_ARM_APE_OPP PRCM_MBOX_HEADER_REQ_MB1,
          Event.writeb ARM_NO_CHANGE PRCM_REQ_MB1_ARM_OPP,
          Event.writeb (if opp = APE_50_PARTLY_25_OPP then APE_50_OPP else opp)
            PRCM_REQ_MB1_APE_OPP,
          Event.set_pending 1, Event.wait 1] := by
  unfold prcmu_set_ape_opp
  by_cases h1 : opp = d.ape_opp
  · rw [if_pos h1]
    exact Or.inl rfl
  · rw [if_neg h1]
    dsimp only
    by_cases h2 : opp ≠ APE_100_OPP ∧ d.ape_opp ≠ APE_100_OPP
    · rw [if_pos h2]
      left
      dsimp only
      split_ifs <;> rfl
    · rw [if_neg h2]
      right
      dsimp only
      have hlog : ∀ (x : Drv) (o : Nat) (b : Prop) [Decidable b],
          (if b then { x with ape_opp := o } else x).log = x.log := by
        intro x o b _
        split_ifs <;> rfl
      rw [hlog, mb1_wait_log]
      simp [set_pending_log, writeb_log, poll_clear_log]

theorem op_ok_set_power_state (m2j : Nat → Nat) (c : Comm) (d : Drv) :
    ∀ state keep_ulp_clk keep_ap_pll, op_events_ok m2j c d (Op.set_power_state state keep_ulp_clk keep_ap_pll) := by
  intro state keep_ulp_clk keep_ap_pll
  unfold op_events_ok
  simp only [run_op, prcmu_set_power_state]
  split_ifs <;>
  simp +decide [events_since, Outcome.final, poll_clear_log, set_pending_log, writeb_log,
    request_shape, writes_into, is_tcdm_write, written_bytes, is_wait, expected_wait]

theorem op_ok_enable_wakeups (m2j : Nat → Nat) (c : Comm) (d : Drv) :
    ∀ wakeups, op_events_ok m2j c d (Op.enable_wakeups wakeups) := by
  intro wakeups
  unfold op_events_ok
  simp only [run_op, prcmu_enable_wakeups]
  split_ifs
  · simp +decide [events_since, request_shape]
  · rcases config_wakeups_log
      { d with dbb_wakeups := wakeup_bits wakeups NUM_PRCMU_WAKEUP_INDICES } with h | h <;>
    simp +decide [events_since, h, request_shape, writes_into, is_tcdm_write, written_bytes,
      is_wait, expected_wait]

theorem op_ok_config_abb_event_readout (m2j : Nat → Nat) (c : Comm) (d : Drv) :
    ∀ abb_events, op_events_ok m2j c d (Op.config_abb_event_readout abb_events) := by
  intro abb_events
  unfold op_events_ok
  simp only [run_op, prcmu_config_abb_event_readout]
  rcases config_wakeups_log { d with abb_events := abb_events } with h | h <;>
  simp +decide [events_since, h, request_shape, writes_into, is_tcdm_write, written_bytes,
    is_wait, expected_wait]

theorem op_ok_mask_work (m2j : Nat → Nat) (c : Comm) (d : Drv) :
    op_events_ok m2j c d Op.mask_work := by
  unfold op_events_ok
  simp only [run_op, prcmu_mask_work]
  rcases config_wakeups_log d with h | h <;>
  simp +decide [events_since, h, request_shape, writes_into, is_tcdm_write, written_bytes,
    is_wait, expected_wait]

theorem op_ok_irq_thread_fn (m2j : Nat → Nat) (c : Comm) (d : Drv) :
    op_events_ok m2j c d Op.irq_thread_fn := by
  unfold op_events_ok
  simp +decide [run_op, prcmu_irq_thread_fn, ack_dbb_wakeup, events_since, poll_clear_log,
    set_pending_log, writeb_log, request_shape, writes_into, is_tcdm_write, written_bytes,
    is_wait, expected_wait]

theorem op_ok_set_arm_opp (m2j : Nat → Nat) (c : Comm) (d : Drv) :
    ∀ opp fw, op_events_ok m2j c d (Op.set_arm_opp opp fw) := by
  intro opp fw
  unfold op_events_ok
  simp only [run_op, prcmu_set_arm_opp]
  split_ifs <;>
  simp +decide [events_since, mb1_wait_log, poll_clear_log, set_pending_log, writeb_log,
    request_shape, writes_into, is_tcdm_write, written_bytes, is_wait, expected_wait]

theorem op_ok_set_ape_opp (m2j : Nat → Nat) (c : Comm) (d : Drv) :
    ∀ s opp fw, op_events_ok m2j c d (Op.set_ape_opp s opp fw) := by
  intro s opp fw
  unfold op_events_ok
  simp only [run_op]
  rcases set_ape_opp_log d s opp fw with h | h <;>
  simp +decide [events_since, h, request_shape, writes_into, is_tcdm_write, written_bytes,
    is_wait, expected_wait]

theorem op_ok_request_ape_opp_100_voltage (m2j : Nat → Nat) (c : Comm) (d : Drv) :
    ∀ enable fw, op_events_ok m2j c d (Op.request_ape_opp_100_voltage enable fw) := by
  intro enable fw
  unfold op_events_ok
  simp only [run_op, prcmu_request_ape_opp_100_voltage]
  split_ifs <;>
  simp +decide [events_since, mb1_wait_log, poll_clear_log, set_pending_log, writeb_log,
    request_shape, writes_into, is_tcdm_write, written_bytes, is_wait, expected_wait]

theorem op_ok_release_usb_wakeup_state (m2j : Nat → Nat) (c : Comm) (d : Drv) :
    ∀ fw, op_events_ok m2j c d (Op.release_usb_wakeup_state fw) := by
  intro fw
  unfold op_events_ok
  simp +decide [run_op, prcmu_release_usb_wakeup_state, events_since, mb1_wait_log,
    poll_clear_log, set_pending_log, writeb_log, request_shape, writes_into, is_tcdm_write,
    written_bytes, is_wait, expected_wait]

theorem op_ok_request_pll (m2j : Nat → Nat) (c : Comm) (d : Drv) :
    ∀ clock enable fw, op_events_ok m2j c d (Op.request_pll clock enable fw) := by
  intro clock enable fw
  unfold op_events_ok
  simp only [run_op, request_pll]
  split_ifs <;>
  simp +decide [events_since, mb1_wait_log, poll_clear_log, set_pending_log, writeb_log,
    request_shape, writes_into, is_tcdm_write, written_bytes, is_wait, expected_wait]

theorem op_ok_modem_reset (m2j : Nat → Nat) (c : Comm) (d : Drv) :
    ∀ fw, op_events_ok m2j c d (Op.modem_reset fw) := by
  intro fw
  unfold op_events_ok
  simp +decide [run_op, prcmu_modem_reset, events_since, mb1_wait_log,
    poll_clear_log, set_pending_log, writeb_log, request_shape, writes_into, is_tcdm_write,
    written_bytes, is_wait, expected_wait]

theorem op_ok_set_epod (m2j : Nat → Nat) (c : Comm) (d : Drv) :
    ∀ epod_id epod_state fw, op_events_ok m2j c d (Op.set_epod epod_id epod_state fw) := by
  intro epod_id epod_state fw
  unfold op_events_ok
  by_cases h1 : epod_id ≥ NUM_EPOD_ID
  · simp +decide [run_op, prcmu_set_epod, h1, events_since, Outcome.final, request_shape]
  · have hreq := request_of_epod _ h1
    simp only [run_op, prcmu_set_epod, if_neg h1]
    split_ifs <;>
    simp +decide [events_since, Outcome.final, mb2_wait_log, epod_fill_log, poll_clear_log,
      set_pending_log, writeb_log, request_shape, writes_into, is_tcdm_write, written_bytes,
      is_wait, expected_wait, hreq]

theorem op_ok_configure_auto_pm (m2j : Nat → Nat) (c : Comm) (d : Drv) :
    ∀ sleep idle, op_events_ok m2j c d (Op.configure_auto_pm sleep idle) := by
  intro sleep idle
  unfold op_events_ok
  simp only [run_op, prcmu_configure_auto_pm]
  cases sleep <;> cases idle <;>
  simp +decide [events_since, Outcome.final, writel_log, is_wait]

theorem op_ok_request_sysclk (m2j : Nat → Nat) (c : Comm) (d : Drv) :
    ∀ enable fw, op_events_ok m2j c d (Op.request_sysclk enable fw) := by
  intro enable fw
  unfold op_events_ok
  simp only [run_op, request_sysclk]
  split_ifs <;>
  simp +decide [events_since, Outcome.final, poll_clear_log, set_pending_log, writeb_log,
    request_shape, writes_into, is_tcdm_write, written_bytes, is_wait, expected_wait]

theorem op_ok_config_esram0_deep_sleep (m2j : Nat → Nat) (c : Comm) (d : Drv) :
    ∀ state, op_events_ok m2j c d (Op.config_esram0_deep_sleep state) := by
  intro state
  unfold op_events_ok
  simp only [run_op, prcmu_config_esram0_deep_sleep]
  split_ifs <;>
  simp +decide [events_since, mb4_wait_log, poll_clear_log, set_pending_log, writeb_log,
    request_shape, writes_into, is_tcdm_write, written_bytes, is_wait, expected_wait]

theorem op_ok_config_hotdog (m2j : Nat → Nat) (c : Comm) (d : Drv) :
    ∀ threshold, op_events_ok m2j c d (Op.config_hotdog threshold) := by
  intro threshold
  unfold op_events_ok
  simp +decide [run_op, prcmu_config_hotdog, events_since, mb4_wait_log,
    poll_clear_log, set_pending_log, writeb_log, request_shape, writes_into, is_tcdm_write,
    written_bytes, is_wait, expected_wait]

theorem op_ok_config_hotmon (m2j : Nat → Nat) (c : Comm) (d : Drv) :
    ∀ low high, op_events_ok m2j c d (Op.config_hotmon low high) := by
  intro low high
  unfold op_events_ok
  simp +decide [run_op, prcmu_config_hotmon, events_since, mb4_wait_log,
    poll_clear_log, set_pending_log, writeb_log, request_shape, writes_into, is_tcdm_write,
    written_bytes, is_wait, expected_wait]

theorem op_ok_start_temp_sense (m2j : Nat → Nat) (c : Comm) (d : Drv) :
    ∀ cycles32k, op_events_ok m2j c d (Op.start_temp_sense cycles32k) := by
  intro cycles32k
  unfold op_events_ok
  simp only [run_op, prcmu_start_temp_sense, config_hot_period]
  split_ifs <;>
  simp +decide [events_since, mb4_wait_log, poll_clear_log, set_pending_log, writeb_log,
    writew_log, request_shape, writes_into, is_tcdm_write, written_bytes, is_wait,
    expected_wait]

theorem op_ok_stop_temp_sense (m2j : Nat → Nat) (c : Comm) (d : Drv) :
    op_events_ok m2j c d Op.stop_temp_sense := by
  unfold op_events_ok
  simp +decide [run_op, prcmu_stop_temp_sense, config_hot_period, events_since, mb4_wait_log,
    poll_clear_log, set_pending_log, writeb_log, writew_log, request_shape, writes_into,
    is_tcdm_write, written_bytes, is_wait, expected_wait]

theorem op_ok_config_a9wdog (m2j : Nat → Nat) (c : Comm) (d : Drv) :
    ∀ num sleep_auto_off, op_events_ok m2j c d (Op.config_a9wdog num sleep_auto_off) := by
  intro num sleep_auto_off
  unfold op_events_ok
  simp only [run_op, prcmu_config_a9wdog, prcmu_a9wdog]
  split_ifs <;>
  simp +decide [events_since, Outcome.final, mb4_wait_log, poll_clear_log, set_pending_log,
    writeb_log, request_shape, writes_into, is_tcdm_write, written_bytes, is_wait,
    expected_wait]

theorem op_ok_enable_a9wdog (m2j : Nat → Nat) (c : Comm) (d : Drv) :
    ∀ id, op_events_ok m2j c d (Op.enable_a9wdog id) := by
  intro id
  unfold op_events_ok
  simp +decide [run_op, prcmu_enable_a9wdog, prcmu_a9wdog, events_since, mb4_wait_log,
    poll_clear_log, set_pending_log, writeb_log, request_shape, writes_into, is_tcdm_write,
    written_bytes, is_wait, expected_wait]

theorem op_ok_disable_a9wdog (m2j : Nat → Nat) (c : Comm) (d : Drv) :
    ∀ id, op_events_ok m2j c d (Op.disable_a9wdog id) := by
  intro id
  unfold op_events_ok
  simp +decide [run_op, prcmu_disable_a9wdog, prcmu_a9wdog, events_since, mb4_wait_log,
    poll_clear_log, set_pending_log, writeb_log, request_shape, writes_into, is_tcdm_write,
    written_bytes, is_wait, expected_wait]

theorem op_ok_kick_a9wdog (m2j : Nat → Nat) (c : Comm) (d : Drv) :
    ∀ id, op_events_ok m2j c d (Op.kick_a9wdog id) := by
  intro id
  unfold op_events_ok
  simp +decide [run_op, prcmu_kick_a9wdog, prcmu_a9wdog, events_since, mb4_wait_log,
    poll_clear_log, set_pending_log, writeb_log, request_shape, writes_into, is_tcdm_write,
    written_bytes, is_wait, expected_wait]

theorem op_ok_load_a9wdog (m2j : Nat → Nat) (c : Comm) (d : Drv) :
    ∀ id timeout, op_events_ok m2j c d (Op.load_a9wdog id timeout) := by
  intro id timeout
  unfold op_events_ok
  simp +decide [run_op, prcmu_load_a9wdog, prcmu_a9wdog, events_since, mb4_wait_log,
    poll_clear_log, set_pending_log, writeb_log, request_shape, writes_into, is_tcdm_write,
    written_bytes, is_wait, expected_wait]

theorem op_ok_abb_read (m2j : Nat → Nat) (c : Comm) (d : Drv) :
    ∀ slave reg size fw, op_events_ok m2j c d (Op.abb_read slave reg size fw) := by
  intro slave reg size fw
  unfold op_events_ok
  simp only [run_op, prcmu_abb_read]
  split_ifs <;>
  simp +decide [events_since, Outcome.final, mb5_wait_log, poll_clear_log, set_pending_log,
    writeb_log, request_shape, writes_into, is_tcdm_write, written_bytes, is_wait,
    expected_wait]

theorem op_ok_abb_write (m2j : Nat → Nat) (c : Comm) (d : Drv) :
    ∀ slave reg value size fw, op_events_ok m2j c d (Op.abb_write slave reg value size fw) := by
  intro slave reg value size fw
  unfold op_events_ok
  simp only [run_op, prcmu_abb_write]
  split_ifs <;>
  simp +decide [events_since, Outcome.final, mb5_wait_log, poll_clear_log, set_pending_log,
    writeb_log, request_shape, writes_into, is_tcdm_write, written_bytes, is_wait,
    expected_wait]

theorem op_ok_ac_wake_req (m2j : Nat → Nat) (c : Comm) (d : Drv) :
    ∀ fw, op_events_ok m2j c d (Op.ac_wake_req fw) := by
  intro fw
  unfold op_events_ok
  simp only [run_op, prcmu_ac_wake_req]
  split_ifs <;>
  simp +decide [events_since, Outcome.final, write_hostaccess_log, request_shape, is_wait,
    expected_wait]

theorem op_ok_ac_sleep_req (m2j : Nat → Nat) (c : Comm) (d : Drv) :
    ∀ fw, op_events_ok m2j c d (Op.ac_sleep_req fw) := by
  intro fw
  unfold op_events_ok
  simp only [run_op, prcmu_ac_sleep_req]
  split_ifs <;>
  simp +decide [events_since, Outcome.final, write_hostaccess_log, request_shape, is_wait,
    expected_wait]

theorem run_op_events (m2j : Nat → Nat) (c : Comm) (d : Drv) (op : Op) :
    op_events_ok m2j c d op := by
  cases op
  case set_power_state state keep_ulp_clk keep_ap_pll => exact op_ok_set_power_state m2j c d state keep_ulp_clk keep_ap_pll
  case enable_wakeups wakeups => exact op_ok_enable_wakeups m2j c d wakeups
  case config_abb_event_readout abb_events => exact op_ok_config_abb_event_readout m2j c d abb_events
  case mask_work => exact op_ok_mask_work m2j c d
  case irq_thread_fn => exact op_ok_irq_thread_fn m2j c d
  case set_arm_opp opp fw => exact op_ok_set_arm_opp m2j c d opp fw
  case set_ape_opp s opp fw => exact op_ok_set_ape_opp m2j c d s opp fw
  case request_ape_opp_100_voltage enable fw => exact op_ok_request_ape_opp_100_voltage m2j c d enable fw
  case release_usb_wakeup_state fw => exact op_ok_release_usb_wakeup_state m2j c d fw
  case request_pll clock enable fw => exact op_ok_request_pll m2j c d clock enable fw
  case modem_reset fw => exact op_ok_modem_reset m2j c d fw
  case set_epod epod_id epod_state fw => exact op_ok_set_epod m2j c d epod_id epod_state fw
  case configure_auto_pm sleep idle => exact op_ok_configure_auto_pm m2j c d sleep idle
  case request_sysclk enable fw => exact op_ok_request_sysclk m2j c d enable fw
  case config_esram0_deep_sleep state => exact op_ok_config_esram0_deep_sleep m2j c d state
  case config_hotdog threshold => exact op_ok_config_hotdog m2j c d threshold
  case config_hotmon low high => exact op_ok_config_hotmon m2j c d low high
  case start_temp_sense cycles32k => exact op_ok_start_temp_sense m2j c d cycles32k
  case stop_temp_sense => exact op_ok_stop_temp_sense m2j c d
  case config_a9wdog num sleep_auto_off => exact op_ok_config_a9wdog m2j c d num sleep_auto_off
  case enable_a9wdog id => exact op_ok_enable_a9wdog m2j c d id
  case disable_a9wdog id => exact op_ok_disable_a9wdog m2j c d id
  case kick_a9wdog id => exact op_ok_kick_a9wdog m2j c d id
  case load_a9wdog id timeout => exact op_ok_load_a9wdog m2j c d id timeout
  case abb_read slave reg size fw => exact op_ok_abb_read m2j c d slave reg size fw
  case abb_write slave reg value size fw => exact op_ok_abb_write m2j c d slave reg value size fw
  case ac_wake_req fw => exact op_ok_ac_wake_req m2j c d fw
  case ac_sleep_req fw => exact op_ok_ac_sleep_req m2j c d fw

/-- C15 (counterexample): with the pending bit of mailbox 2 reading set,
`prcmu_configure_auto_pm` writes its two configuration words into the request
region of mailbox 2 at once: it does not look at the pending bit, the first
logged access is a write to `PRCM_REQ_MB2 + 8`, and the pending bit is not
set afterwards either. -/
theorem auto_pm_writes_while_pending :
    busy2_state.mbox_cpu_val.testBit 2 = true ∧
      (run_op jiffies_hz100 comm_200 busy2_state
          (Op.configure_auto_pm (some auto_pm_on) (some auto_pm_on))).log =
        [Event.writel (auto_pm_cfg auto_pm_on) PRCM_REQ_MB2_AUTO_PM_SLEEP,
          Event.writel (auto_pm_cfg auto_pm_on) PRCM_REQ_MB2_AUTO_PM_IDLE] ∧
      request_of PRCM_REQ_MB2_AUTO_PM_SLEEP = some 2 ∧
      request_of PRCM_REQ_MB2_AUTO_PM_IDLE = some 2 ∧
      no_busy_write busy2_state.mbox_cpu_val
        (events_since busy2_state (run_op jiffies_hz100 comm_200 busy2_state
          (Op.configure_auto_pm (some auto_pm_on) (some auto_pm_on)))) = false ∧
      request_shape none
        (events_since busy2_state (run_op jiffies_hz100 comm_200 busy2_state
          (Op.configure_auto_pm (some auto_pm_on) (some auto_pm_on)))) = false := by
  decide

theorem testBit_zero_of_and (x : Nat) (h : u32 x &&& MBOX_BIT 0 = 0) : x.testBit 0 = false := by
  have h1 : ¬ (u32 x).testBit 0 = true := fun ht => (and_bit_ne_zero (u32 x) 0).mpr ht h
  have h2 : (u32 x).testBit 0 = x.testBit 0 := by
    unfold u32
    have h32 : (4294967296 : Nat) = 2 ^ 32 := by decide
    rw [h32, Nat.testBit_mod_two_pow]
    simp
  rw [h2] at h1
  simpa using h1

theorem read_mailbox_0_no_busy (prcmu_irq_bit : List Nat) (d : Drv) :
    no_busy_write d.mbox_cpu_val (events_since d (read_mailbox_0 prcmu_irq_bit d).1) = true := by
  by_cases hw : tcdm_readb d PRCM_MBOX_HEADER_ACK_MB0 = MB0H_WAKEUP_EXE ∨
      tcdm_readb d PRCM_MBOX_HEADER_ACK_MB0 = MB0H_WAKEUP_SLEEP
  · rw [read_mailbox_0_wakeup _ _ hw]
    by_cases hm : u32 d.mbox_cpu_val &&& MBOX_BIT 0 = 0
    · rw [if_pos hm]
      have hbit := testBit_zero_of_and _ hm
      rw [events_since_append _ _
        [Event.writeb MB0H_READ_WAKEUP_ACK PRCM_MBOX_HEADER_REQ_MB0, Event.set_pending 0]
        (by simp [set_pending_log, writeb_log, irq_append])]
      have hreq : request_of PRCM_MBOX_HEADER_REQ_MB0 = some 0 := by decide
      simp [no_busy_write, writes_free, written_bytes, hreq, hbit]
    · rw [if_neg hm]
      rw [events_since_append _ _ [] (by simp [irq_append])]
      rfl
  · rw [read_mailbox_0_other _ _ hw]
    rw [events_since_append _ _ [] (by simp [irq_append])]
    rfl

/-- C15 (amended): every operation of the driver other than
`prcmu_configure_auto_pm` only extends the access log, and what it adds is a
sequence of requests, each of which sees the pending bit of its channel read
clear, then writes payload and header bytes of that channel only, and then
sets the pending bit of that channel as its last write; so, whatever the
pending bits were before, no byte of a request mailbox is written while the
bit of its channel reads set.  `read_mailbox_0` writes its acknowledgment
only if it has read the pending bit of mailbox 0 clear.
`prcmu_configure_auto_pm` is the exception: its accesses are the two writes
into the request region of mailbox 2, with no look at the pending bit. -/
theorem requests_respect_pending (m2j : Nat → Nat) (c : Comm) (d : Drv) (op : Op) :
    ((∀ sleep idle, op ≠ Op.configure_auto_pm sleep idle) →
      (run_op m2j c d op).log = d.log ++ events_since d (run_op m2j c d op) ∧
        request_shape none (events_since d (run_op m2j c d op)) = true ∧
        ∀ pending, no_busy_write pending (events_since d (run_op m2j c d op)) = true) ∧
    (∀ prcmu_irq_bit,
      no_busy_write d.mbox_cpu_val (events_since d (read_mailbox_0 prcmu_irq_bit d).1) = true) ∧
    (∀ sleep idle,
      events_since d (run_op m2j c d (Op.configure_auto_pm (some sleep) (some idle))) =
        [Event.writel (auto_pm_cfg sleep) PRCM_REQ_MB2_AUTO_PM_SLEEP,
          Event.writel (auto_pm_cfg idle) PRCM_REQ_MB2_AUTO_PM_IDLE]) := by
  refine ⟨fun hop => ?_, fun t => read_mailbox_0_no_busy t d, fun sleep idle => ?_⟩
  · obtain ⟨h1, h2, _⟩ := run_op_events m2j c d op
    exact ⟨h1, h2 hop, fun pending =>
      shape_no_busy _ none pending (h2 hop) (fun _ hn => by cases hn)⟩
  · exact events_since_append _ _ _ (by simp [run_op, prcmu_configure_auto_pm, Outcome.final,
      writel_log])

/-- C15 (amended) at a power domain request on the start-up state. -/
theorem requests_respect_pending_witness :
    (∀ sleep idle, Op.set_epod 4 EPOD_STATE_ON (some HWACC_PWR_ST_OK) ≠
        Op.configure_auto_pm sleep idle) ∧
      ∀ pending, no_busy_write pending (events_since drv_init
        (run_op jiffies_hz100 comm_200 drv_init
          (Op.set_epod 4 EPOD_STATE_ON (some HWACC_PWR_ST_OK)))) = true :=
  ⟨fun _ _ h => Op.noConfusion h,
    ((requests_respect_pending jiffies_hz100 comm_200 drv_init
      (Op.set_epod 4 EPOD_STATE_ON (some HWACC_PWR_ST_OK))).1
        (fun _ _ h => Op.noConfusion h)).2.2⟩

/-- C16 (counterexample): `prcmu_set_arm_opp` (mailbox 1) and
`prcmu_kick_a9wdog` (mailbox 4, through `prcmu_a9wdog`) wait with
`wait_for_completion`, which has no timeout: the wait they log is not a wait
with the timeout of `prcmu_comm_tout()`, whatever that timeout is. -/
theorem mailbox_1_and_4_waits_unbounded :
    (prcmu_set_arm_opp drv_init 2 ⟨MB1H_ARM_APE_OPP, 2, 0, 0⟩).1.log =
        [Event.poll_clear 1, Event.writeb MB1H_ARM_APE_OPP PRCM_MBOX_HEADER_REQ_MB1,
          Event.writeb 2 PRCM_REQ_MB1_ARM_OPP, Event.writeb APE_NO_CHANGE PRCM_REQ_MB1_APE_OPP,
          Event.set_pending 1, Event.wait 1] ∧
      (prcmu_kick_a9wdog drv_init 1).1.log =
        [Event.poll_clear 4, Event.writeb 1 PRCM_REQ_MB4_A9WDOG_0,
          Event.writeb 0 PRCM_REQ_MB4_A9WDOG_1, Event.writeb 0 PRCM_REQ_MB4_A9WDOG_2,
          Event.writeb 0 PRCM_REQ_MB4_A9WDOG_3,
          Event.writeb MB4H_A9WDOG_KICK PRCM_MBOX_HEADER_REQ_MB4,
          Event.set_pending 4, Event.wait 4] ∧
      ∀ c : Comm, Event.wait 1 ≠ Event.wait_timeout 1 (prcmu_comm_tout c) ∧
        Event.wait 4 ≠ Event.wait_timeout 4 (prcmu_comm_tout c) :=
  ⟨by decide, by decide, fun _ => ⟨fun h => Event.noConfusion h, fun h => Event.noConfusion h⟩⟩

/-- C16 (amended): every wait of an operation is the one listed for it: the
operations of mailbox 1 and of mailbox 4 wait with `wait_for_completion`,
without a bound; `prcmu_set_epod` (mailbox 2), `request_sysclk` (mailbox 3)
and `prcmu_abb_read` / `prcmu_abb_write` (mailbox 5) wait with the timeout
that `prcmu_comm_tout()` returns at the time of the call; the two AC wake
handshakes wait with `msecs_to_jiffies(5000)`; the operations of mailbox 0
and `prcmu_configure_auto_pm` do not wait.  The waits do occur: the listed
wait is logged by `prcmu_modem_reset`, by `prcmu_kick_a9wdog`, by
`prcmu_set_epod` with valid arguments, by `request_sysclk(true)`, by
`prcmu_abb_read` of one byte and by `prcmu_ac_wake_req` when no host access
is requested yet. -/
theorem waits_by_mailbox (m2j : Nat → Nat) (c : Comm) (d : Drv) :
    (∀ op, ∀ e ∈ events_since d (run_op m2j c d op), is_wait e = true →
      expected_wait m2j c op = some e) ∧
    (∀ fw, Event.wait 1 ∈ events_since d (run_op m2j c d (Op.modem_reset fw))) ∧
    (∀ id, Event.wait 4 ∈ events_since d (run_op m2j c d (Op.kick_a9wdog id))) ∧
    (∀ epod_id epod_state fw, ¬ epod_args_invalid epod_id epod_state →
      Event.wait_timeout 2 (prcmu_comm_tout c) ∈
        events_since d (run_op m2j c d (Op.set_epod epod_id epod_state fw))) ∧
    (∀ fw, Event.wait_timeout 3 (prcmu_comm_tout c) ∈
      events_since d (run_op m2j c d (Op.request_sysclk true fw))) ∧
    (∀ slave reg fw, Event.wait_timeout 5 (prcmu_comm_tout c) ∈
      events_since d (run_op m2j c d (Op.abb_read slave reg 1 fw))) ∧
    (∀ fw, u32 d.hostaccess_req &&& PRCM_HOSTACCESS_REQ_HOSTACCESS_REQ = 0 →
      Event.wait_ac_wake (m2j 5000) ∈ events_since d (run_op m2j c d (Op.ac_wake_req fw))) := by
  refine ⟨fun op => (run_op_events m2j c d op).2.2, ?_, ?_, ?_, ?_, ?_, ?_⟩
  · intro fw
    simp [run_op, prcmu_modem_reset, events_since, mb1_wait_log, poll_clear_log,
      set_pending_log, writeb_log]
  · intro id
    simp [run_op, prcmu_kick_a9wdog, prcmu_a9wdog, events_since, mb4_wait_log, poll_clear_log,
      set_pending_log, writeb_log]
  · intro epod_id epod_state fw h
    unfold epod_args_invalid at h
    have h1 : ¬ epod_id ≥ NUM_EPOD_ID := fun h1 => h (Or.inl h1)
    have h2 : ¬ epod_state > EPOD_STATE_ON := fun h2 => h (Or.inr (Or.inl h2))
    have h3 : ¬ (epod_state = EPOD_STATE_RAMRET ∧
        decide (epod_id = EPOD_ID_SVAMMDSP ∨ epod_id = EPOD_ID_SIAMMDSP ∨
          epod_id = EPOD_ID_ESRAM12 ∨ epod_id = EPOD_ID_ESRAM34) = false) := by
      intro h3
      exact h (Or.inr (Or.inr ⟨h3.1, by simpa using h3.2⟩))
    simp only [run_op, prcmu_set_epod, if_neg h1, if_neg h2, if_neg h3]
    split_ifs <;>
    simp [events_since, Outcome.final, mb2_wait_log, epod_fill_log, poll_clear_log,
      set_pending_log, writeb_log]
  · intro fw
    simp only [run_op, request_sysclk, if_true]
    split_ifs <;>
    simp [events_since, Outcome.final, poll_clear_log, set_pending_log, writeb_log]
  · intro slave reg fw
    simp only [run_op, prcmu_abb_read, ne_eq, not_true_eq_false, if_false]
    split_ifs <;>
    simp [events_since, Outcome.final, mb5_wait_log, poll_clear_log, set_pending_log, writeb_log]
  · intro fw h
    simp only [run_op, prcmu_ac_wake_req, h, ne_eq, not_true_eq_false, if_false]
    split_ifs <;>
    simp [events_since, Outcome.final, write_hostaccess_log]

/-- C16 (amended) at a watchdog kick on the start-up state: the wait is the
unbounded wait on mailbox 4. -/
theorem waits_by_mailbox_witness :
    Event.wait 4 ∈ events_since drv_init (run_op jiffies_hz100 comm_200 drv_init (Op.kick_a9wdog 1)) ∧
      expected_wait jiffies_hz100 comm_200 (Op.kick_a9wdog 1) = some (Event.wait 4) :=
  ⟨(waits_by_mailbox jiffies_hz100 comm_200 drv_init).2.2.1 1,
    (waits_by_mailbox jiffies_hz100 comm_200 drv_init).1 (Op.kick_a9wdog 1) (Event.wait 4)
      ((waits_by_mailbox jiffies_hz100 comm_200 drv_init).2.2.1 1) rfl⟩

/-- C21 (failing input): `PRCM_SGACLK_MGT` selects PLL SOC0 with the
divide-by-2.5 bit set and the PLL branch runs at P = 800 MHz, a value of
`unsigned long`.  The product `P * 10` wraps in `unsigned long` before it is
widened to `u64`: `prcmu_clock_rate` returns 148201308 Hz, whereas
`floor(P * 10 / 25)` is 320 MHz; the candidate rate of `round_clock_rate` and
`set_clock_rate` is the same wrapped value. -/
theorem divide_by_2_5_wraps :
    pll_rate sga_2_5_state Reg.PLLSOC0_FREQ ROOT_CLOCK_RATE (clk_mgt_branch PRCMU_SGACLK) =
      800000000 ∧
    prcmu_clock_rate sga_2_5_state PRCMU_SGACLK = 148201308 ∧
    div_by_2_5 800000000 = 148201308 ∧
    div_by_2_5_spec 800000000 = 320000000 := by
  decide

theorem keep_or (x c m : Nat) (hc : c &&& m = 0) : (x ||| c) &&& m = x &&& m := by
  rw [Nat.and_distrib_right, hc, Nat.or_zero]

theorem keep_and (v n m : Nat) (h : n &&& m = m) : (v &&& n) &&& m = v &&& m := by
  rw [Nat.and_assoc, h]

theorem or_lt_u32 (x c : Nat) (hx : x < 4294967296) (hc : c < 4294967296) :
    x ||| c < 4294967296 := by
  have h1 : x < 2 ^ 32 := hx
  have h2 : c < 2 ^ 32 := hc
  exact Nat.or_lt_two_pow h1 h2

theorem and_lt_u32 (x m : Nat) (hx : x < 4294967296) : x &&& m < 4294967296 :=
  Nat.lt_of_le_of_lt Nat.and_le_left hx

/-- The bits that `set_clock_rate` may change in the management register of
`clock`: the divider field, the CLK38DIV bit and, for SGACLK, the
divide-by-2.5 enable bit. -/
theorem set_clock_rate_value (v div clock : Nat) (P : Prop) [Decidable P]
    (hv : v < 4294967296) (hd1 : 1 ≤ div) (w : Nat)
    (hw : w =
      if v &&& PRCM_CLK_MGT_CLK38 ≠ 0 then
        if clk_mgt_clk38div clock = true then
          if div > 1 then v ||| PRCM_CLK_MGT_CLK38DIV
          else v &&& not32 PRCM_CLK_MGT_CLK38DIV
        else v
      else if clock = PRCMU_SGACLK then
        if div = 3 ∧ P then
          ((v &&& not32 (PRCM_CLK_MGT_CLKPLLDIV_MASK ||| PRCM_SGACLK_MGT_SGACLKDIV_BY_2_5_EN)) |||
            PRCM_SGACLK_MGT_SGACLKDIV_BY_2_5_EN) ||| min 0 31
        else
          (v &&& not32 (PRCM_CLK_MGT_CLKPLLDIV_MASK ||| PRCM_SGACLK_MGT_SGACLKDIV_BY_2_5_EN)) |||
            min div 31
      else (v &&& not32 PRCM_CLK_MGT_CLKPLLDIV_MASK) ||| min div 31) :
    w < 4294967296 ∧
      w &&& not32 (PRCM_CLK_MGT_CLKPLLDIV_MASK ||| PRCM_CLK_MGT_CLK38DIV |||
          (if clock = PRCMU_SGACLK then PRCM_SGACLK_MGT_SGACLKDIV_BY_2_5_EN else 0)) =
        v &&& not32 (PRCM_CLK_MGT_CLKPLLDIV_MASK ||| PRCM_CLK_MGT_CLK38DIV |||
          (if clock = PRCMU_SGACLK then PRCM_SGACLK_MGT_SGACLKDIV_BY_2_5_EN else 0)) ∧
      (v &&& PRCM_CLK_MGT_CLK38 = 0 →
        (1 ≤ w &&& PRCM_CLK_MGT_CLKPLLDIV_MASK ∧ w &&& PRCM_CLK_MGT_CLKPLLDIV_MASK ≤ 31 ∧
            (clock = PRCMU_SGACLK → w &&& PRCM_SGACLK_MGT_SGACLKDIV_BY_2_5_EN = 0)) ∨
          (clock = PRCMU_SGACLK ∧ w &&& PRCM_CLK_MGT_CLKPLLDIV_MASK = 0 ∧
            w &&& PRCM_SGACLK_MGT_SGACLKDIV_BY_2_5_EN ≠ 0)) := by
  have hm1 : 1 ≤ min div 31 := by omega
  have hm31 : min div 31 ≤ 31 := by omega
  have hmlt : min div 31 < 4294967296 := by omega
  have hmd : min div 31 &&& PRCM_CLK_MGT_CLKPLLDIV_MASK = min div 31 := small_and_31 _ hm31
  by_cases h38 : v &&& PRCM_CLK_MGT_CLK38 ≠ 0
  · have hn : ¬ (v &&& PRCM_CLK_MGT_CLK38 = 0) := h38
    rw [if_pos h38] at hw
    refine ⟨?_, ?_, fun h => absurd h hn⟩
    · rw [hw]
      split_ifs
      · exact or_lt_u32 _ _ hv (by decide)
      · exact and_lt_u32 _ _ hv
      · exact hv
    · rw [hw]
      by_cases hs : clock = PRCMU_SGACLK
      · simp only [hs, if_true]
        split_ifs
        · exact keep_or _ _ _ (by decide)
        · exact keep_and _ _ _ (by decide)
        · rfl
      · simp only [hs, if_false]
        split_ifs
        · exact keep_or _ _ _ (by decide)
        · exact keep_and _ _ _ (by decide)
        · rfl
  · rw [if_neg h38] at hw
    by_cases hs : clock = PRCMU_SGACLK
    · rw [if_pos hs] at hw
      simp only [hs, if_true]
      by_cases h3 : div = 3 ∧ P
      · rw [if_pos h3] at hw
        have h0 : min 0 31 = 0 := by decide
        rw [h0, Nat.or_zero] at hw
        refine ⟨?_, ?_, fun _ => Or.inr ⟨trivial, ?_, ?_⟩⟩
        · rw [hw]
          exact or_lt_u32 _ _ (and_lt_u32 _ _ hv) (by decide)
        · rw [hw, keep_or _ _ _ (by decide), keep_and _ _ _ (by decide)]
        · rw [hw, keep_or _ _ _ (by decide), Nat.and_assoc]
          have : not32 (PRCM_CLK_MGT_CLKPLLDIV_MASK ||| PRCM_SGACLK_MGT_SGACLKDIV_BY_2_5_EN) &&&
              PRCM_CLK_MGT_CLKPLLDIV_MASK = 0 := by decide
          rw [this, Nat.and_zero]
        · rw [hw, Nat.and_distrib_right, Nat.and_assoc]
          have h1 : not32 (PRCM_CLK_MGT_CLKPLLDIV_MASK ||| PRCM_SGACLK_MGT_SGACLKDIV_BY_2_5_EN) &&&
              PRCM_SGACLK_MGT_SGACLKDIV_BY_2_5_EN = 0 := by decide
          rw [h1, Nat.and_zero, Nat.zero_or]
          decide
      · rw [if_neg h3] at hw
        refine ⟨?_, ?_, fun _ => Or.inl ⟨?_, ?_, fun _ => ?_⟩⟩
        · rw [hw]
          exact or_lt_u32 _ _ (and_lt_u32 _ _ hv) hmlt
        · rw [hw, keep_or _ _ _ (small_and_const _ _ hm31 (by decide)),
            keep_and _ _ _ (by decide)]
        · rw [hw, Nat.and_distrib_right, Nat.and_assoc, hmd]
          have : not32 (PRCM_CLK_MGT_CLKPLLDIV_MASK ||| PRCM_SGACLK_MGT_SGACLKDIV_BY_2_5_EN) &&&
              PRCM_CLK_MGT_CLKPLLDIV_MASK = 0 := by decide
          rw [this, Nat.and_zero, Nat.zero_or]
          exact hm1
        · exact Nat.and_le_right
        · rw [hw, keep_or _ _ _ (small_and_const _ _ hm31 (by decide)), Nat.and_assoc]
          have h1 : not32 (PRCM_CLK_MGT_CLKPLLDIV_MASK ||| PRCM_SGACLK_MGT_SGACLKDIV_BY_2_5_EN) &&&
              PRCM_SGACLK_MGT_SGACLKDIV_BY_2_5_EN = 0 := by decide
          rw [h1, Nat.and_zero]
    · rw [if_neg hs] at hw
      simp only [hs, if_false]
      refine ⟨?_, ?_, fun _ => Or.inl ⟨?_, ?_, fun h => False.elim h⟩⟩
      · rw [hw]
        exact or_lt_u32 _ _ (and_lt_u32 _ _ hv) hmlt
      · rw [hw, keep_or _ _ _ (small_and_const _ _ hm31 (by decide)),
          keep_and _ _ _ (by decide)]
      · rw [hw, Nat.and_distrib_right, Nat.and_assoc, hmd]
        have : not32 PRCM_CLK_MGT_CLKPLLDIV_MASK &&& PRCM_CLK_MGT_CLKPLLDIV_MASK = 0 := by decide
        rw [this, Nat.and_zero, Nat.zero_or]
        exact hm1
      · exact Nat.and_le_right

/-- The selector bits, the enable bit and the CLK38 bit lie outside the bits
that `set_clock_rate` may change. -/
theorem kept_bits_of_frame (v w F : Nat)
    (hF : not32 F &&& (PRCM_CLK_MGT_CLKPLLSW_MASK ||| PRCM_CLK_MGT_CLKEN ||| PRCM_CLK_MGT_CLK38) =
      PRCM_CLK_MGT_CLKPLLSW_MASK ||| PRCM_CLK_MGT_CLKEN ||| PRCM_CLK_MGT_CLK38)
    (h : w &&& not32 F = v &&& not32 F) :
    w &&& (PRCM_CLK_MGT_CLKPLLSW_MASK ||| PRCM_CLK_MGT_CLKEN ||| PRCM_CLK_MGT_CLK38) =
      v &&& (PRCM_CLK_MGT_CLKPLLSW_MASK ||| PRCM_CLK_MGT_CLKEN ||| PRCM_CLK_MGT_CLK38) := by
  rw [← hF, ← Nat.and_assoc, ← Nat.and_assoc, h]

/-- C22: for a target rate above zero `set_clock_rate` succeeds.  In the
management register of the clock it changes at most the divider field, the
CLK38DIV bit and, for SGACLK, the divide-by-2.5 enable bit: all other bits,
among them the selector bits, the enable bit and the CLK38 bit, keep their
values.  The remembered selectors `clk_mgt[].pllsw` and every register other
than this one and `PRCM_SEM` (left at 0) are unchanged.  For a clock that
runs from a PLL (CLK38 clear) the divider written lies in `[1,31]`, with the
divide-by-2.5 bit clear for SGACLK, or it is 0 with the divide-by-2.5 bit set
for SGACLK. -/
theorem set_clock_rate_frame (s : ClkState) (clock rate : Nat) (hrate : 0 < rate) :
    ∃ t, set_clock_rate s clock rate = some t ∧
      readl t (Reg.CLK_MGT clock) &&&
          not32 (PRCM_CLK_MGT_CLKPLLDIV_MASK ||| PRCM_CLK_MGT_CLK38DIV |||
            (if clock = PRCMU_SGACLK then PRCM_SGACLK_MGT_SGACLKDIV_BY_2_5_EN else 0)) =
        readl s (Reg.CLK_MGT clock) &&&
          not32 (PRCM_CLK_MGT_CLKPLLDIV_MASK ||| PRCM_CLK_MGT_CLK38DIV |||
            (if clock = PRCMU_SGACLK then PRCM_SGACLK_MGT_SGACLKDIV_BY_2_5_EN else 0)) ∧
      readl t (Reg.CLK_MGT clock) &&&
          (PRCM_CLK_MGT_CLKPLLSW_MASK ||| PRCM_CLK_MGT_CLKEN ||| PRCM_CLK_MGT_CLK38) =
        readl s (Reg.CLK_MGT clock) &&&
          (PRCM_CLK_MGT_CLKPLLSW_MASK ||| PRCM_CLK_MGT_CLKEN ||| PRCM_CLK_MGT_CLK38) ∧
      t.pllsw = s.pllsw ∧
      (∀ r, r ≠ Reg.CLK_MGT clock → r ≠ Reg.SEM → readl t r = readl s r) ∧
      readl t Reg.SEM = 0 ∧
      (readl s (Reg.CLK_MGT clock) &&& PRCM_CLK_MGT_CLK38 = 0 →
        (1 ≤ readl t (Reg.CLK_MGT clock) &&& PRCM_CLK_MGT_CLKPLLDIV_MASK ∧
            readl t (Reg.CLK_MGT clock) &&& PRCM_CLK_MGT_CLKPLLDIV_MASK ≤ 31 ∧
            (clock = PRCMU_SGACLK →
              readl t (Reg.CLK_MGT clock) &&& PRCM_SGACLK_MGT_SGACLKDIV_BY_2_5_EN = 0)) ∨
          (clock = PRCMU_SGACLK ∧
            readl t (Reg.CLK_MGT clock) &&& PRCM_CLK_MGT_CLKPLLDIV_MASK = 0 ∧
            readl t (Reg.CLK_MGT clock) &&& PRCM_SGACLK_MGT_SGACLKDIV_BY_2_5_EN ≠ 0)) := by
  have hgv : readl (grab_hw_semaphore s) (Reg.CLK_MGT clock) = readl s (Reg.CLK_MGT clock) := by
    unfold grab_hw_semaphore; rw [readl_writel, if_neg (by simp)]
  have hv := readl_lt s (Reg.CLK_MGT clock)
  obtain ⟨div, hdiv, hd1⟩ := clock_divider_some
    (clock_source_rate (grab_hw_semaphore s)
      (readl (grab_hw_semaphore s) (Reg.CLK_MGT clock) ||| (grab_hw_semaphore s).pllsw clock)
      (clk_mgt_branch clock)) rate (clock_source_rate_lt _ _ _) hrate
  unfold set_clock_rate
  simp only [hdiv, Option.some_bind]
  rw [hgv] at hdiv ⊢
  obtain ⟨hw1, hw2, hw3⟩ := set_clock_rate_value (readl s (Reg.CLK_MGT clock)) div clock
    (div_by_2_5 (clock_source_rate (grab_hw_semaphore s)
      (readl s (Reg.CLK_MGT clock) ||| (grab_hw_semaphore s).pllsw clock)
      (clk_mgt_branch clock)) ≤ rate) hv hd1 _ rfl
  refine ⟨_, rfl, ?_, ?_, rfl, ?_, ?_, ?_⟩
  · rw [readl_writel, if_neg (by simp), readl_writel, if_pos rfl, u32_of_lt hw1]
    exact hw2
  · rw [readl_writel, if_neg (by simp), readl_writel, if_pos rfl, u32_of_lt hw1]
    refine kept_bits_of_frame _ _ _ ?_ hw2
    by_cases hs : clock = PRCMU_SGACLK
    · simp only [hs, if_true]
      decide
    · simp only [hs, if_false]
      decide
  · intro r h1 h2
    rw [readl_writel, if_neg h2, readl_writel, if_neg h1]
    unfold grab_hw_semaphore
    rw [readl_writel, if_neg h2]
  · rw [readl_writel, if_pos rfl]
    rfl
  · rw [readl_writel, if_neg (by simp), readl_writel, if_pos rfl, u32_of_lt hw1]
    exact hw3

/-- C22 for SGACLK on PLL SOC0 at 800 MHz with the target 320 MHz. -/
theorem set_clock_rate_frame_witness :
    0 < 320000000 ∧
    ∃ t, set_clock_rate (soc0_state 125 6) PRCMU_SGACLK 320000000 = some t ∧
      readl t (Reg.CLK_MGT PRCMU_SGACLK) &&&
          not32 (PRCM_CLK_MGT_CLKPLLDIV_MASK ||| PRCM_CLK_MGT_CLK38DIV |||
            (if PRCMU_SGACLK = PRCMU_SGACLK then PRCM_SGACLK_MGT_SGACLKDIV_BY_2_5_EN else 0)) =
        readl (soc0_state 125 6) (Reg.CLK_MGT PRCMU_SGACLK) &&&
          not32 (PRCM_CLK_MGT_CLKPLLDIV_MASK ||| PRCM_CLK_MGT_CLK38DIV |||
            (if PRCMU_SGACLK = PRCMU_SGACLK then PRCM_SGACLK_MGT_SGACLKDIV_BY_2_5_EN else 0)) ∧
      readl t (Reg.CLK_MGT PRCMU_SGACLK) &&&
          (PRCM_CLK_MGT_CLKPLLSW_MASK ||| PRCM_CLK_MGT_CLKEN ||| PRCM_CLK_MGT_CLK38) =
        readl (soc0_state 125 6) (Reg.CLK_MGT PRCMU_SGACLK) &&&
          (PRCM_CLK_MGT_CLKPLLSW_MASK ||| PRCM_CLK_MGT_CLKEN ||| PRCM_CLK_MGT_CLK38) ∧
      t.pllsw = (soc0_state 125 6).pllsw ∧
      (∀ r, r ≠ Reg.CLK_MGT PRCMU_SGACLK → r ≠ Reg.SEM →
        readl t r = readl (soc0_state 125 6) r) ∧
      readl t Reg.SEM = 0 ∧
      (readl (soc0_state 125 6) (Reg.CLK_MGT PRCMU_SGACLK) &&& PRCM_CLK_MGT_CLK38 = 0 →
        (1 ≤ readl t (Reg.CLK_MGT PRCMU_SGACLK) &&& PRCM_CLK_MGT_CLKPLLDIV_MASK ∧
            readl t (Reg.CLK_MGT PRCMU_SGACLK) &&& PRCM_CLK_MGT_CLKPLLDIV_MASK ≤ 31 ∧
            (PRCMU_SGACLK = PRCMU_SGACLK →
              readl t (Reg.CLK_MGT PRCMU_SGACLK) &&& PRCM_SGACLK_MGT_SGACLKDIV_BY_2_5_EN = 0)) ∨
          (PRCMU_SGACLK = PRCMU_SGACLK ∧
            readl t (Reg.CLK_MGT PRCMU_SGACLK) &&& PRCM_CLK_MGT_CLKPLLDIV_MASK = 0 ∧
            readl t (Reg.CLK_MGT PRCMU_SGACLK) &&& PRCM_SGACLK_MGT_SGACLKDIV_BY_2_5_EN ≠ 0)) :=
  ⟨by decide, set_clock_rate_frame (soc0_state 125 6) PRCMU_SGACLK 320000000 (by decide)⟩

theorem and_le_u32 (v m : Nat) (hv : v < 4294967296) : u32 (v &&& m) = v &&& m :=
  u32_of_lt (Nat.lt_of_le_of_lt Nat.and_le_left hv)

theorem and_u32_max (v : Nat) (hv : v < 4294967296) : v &&& 4294967295 = v := by
  have h : (4294967295 : Nat) = 2 ^ 32 - 1 := by decide
  rw [h, Nat.and_pow_two_sub_one_eq_mod]
  exact Nat.mod_eq_of_lt hv

theorem and_single_bit (v k : Nat) (h : v &&& 2 ^ k ≠ 0) : v &&& 2 ^ k = 2 ^ k := by
  rw [Nat.and_two_pow] at h ⊢
  cases hb : v.testBit k
  · rw [hb] at h
    simp at h
  · simp

theorem request_clock_reg (s : ClkState) (clock : Nat) (enable : Bool) :
    readl (request_clock s clock enable).1 (Reg.CLK_MGT clock) =
      if enable then
        u32 (readl s (Reg.CLK_MGT clock) ||| (PRCM_CLK_MGT_CLKEN ||| s.pllsw clock))
      else
        readl s (Reg.CLK_MGT clock) &&&
          not32 (PRCM_CLK_MGT_CLKEN ||| PRCM_CLK_MGT_CLKPLLSW_MASK) := by
  have hgv : readl (grab_hw_semaphore s) (Reg.CLK_MGT clock) = readl s (Reg.CLK_MGT clock) := by
    unfold grab_hw_semaphore; rw [readl_writel, if_neg (by simp)]
  unfold request_clock
  cases enable
  · simp only [Bool.false_eq_true, if_false]
    rw [readl_writel, if_neg (by simp), readl_writel, if_pos rfl, hgv,
      and_le_u32 _ _ (readl_lt _ _)]
  · simp only [if_true]
    rw [readl_writel, if_neg (by simp), readl_writel, if_pos rfl, hgv]
    rfl

theorem request_clock_pllsw (s : ClkState) (clock : Nat) (enable : Bool) :
    (request_clock s clock enable).1.pllsw clock =
      if enable then s.pllsw clock
      else readl s (Reg.CLK_MGT clock) &&& PRCM_CLK_MGT_CLKPLLSW_MASK := by
  have hgv : readl (grab_hw_semaphore s) (Reg.CLK_MGT clock) = readl s (Reg.CLK_MGT clock) := by
    unfold grab_hw_semaphore; rw [readl_writel, if_neg (by simp)]
  unfold request_clock
  cases enable
  · simp only [Bool.false_eq_true, if_false, writel, if_true]
    exact congrArg (fun x => x &&& PRCM_CLK_MGT_CLKPLLSW_MASK) hgv
  · rfl

theorem request_clock_sem (s : ClkState) (clock : Nat) (enable : Bool) :
    readl (request_clock s clock enable).1 Reg.SEM = 0 := by
  unfold request_clock
  simp only [readl_writel, if_true]
  rfl

theorem request_clock_other (s : ClkState) (clock : Nat) (enable : Bool) (r : Reg)
    (h1 : r ≠ Reg.CLK_MGT clock) (h2 : r ≠ Reg.SEM) :
    readl (request_clock s clock enable).1 r = readl s r := by
  unfold request_clock
  simp only [readl_writel, if_neg h1, if_neg h2]
  unfold grab_hw_semaphore
  cases enable
  · simp only [Bool.false_eq_true, if_false]
    unfold readl writel
    simp only [if_neg h2]
  · simp only [if_true]
    rw [readl_writel, if_neg h2]

/-- C24: for a clock whose management register has the enable bit set,
`request_clock(clock, false)` clears the enable bit and the selector bits,
keeps the other bits and stores the selector in `clk_mgt[clock].pllsw`; a
following `request_clock(clock, true)` returns the register to exactly the
value it had before the disable; after each of the two calls `PRCM_SEM` holds
the 0 written to release the hardware semaphore. -/
theorem disable_enable_restores (s : ClkState) (clock : Nat)
    (hen : readl s (Reg.CLK_MGT clock) &&& PRCM_CLK_MGT_CLKEN ≠ 0) :
    readl (request_clock s clock false).1 (Reg.CLK_MGT clock) &&&
        (PRCM_CLK_MGT_CLKEN ||| PRCM_CLK_MGT_CLKPLLSW_MASK) = 0 ∧
      readl (request_clock s clock false).1 (Reg.CLK_MGT clock) &&&
          not32 (PRCM_CLK_MGT_CLKEN ||| PRCM_CLK_MGT_CLKPLLSW_MASK) =
        readl s (Reg.CLK_MGT clock) &&&
          not32 (PRCM_CLK_MGT_CLKEN ||| PRCM_CLK_MGT_CLKPLLSW_MASK) ∧
      (request_clock s clock false).1.pllsw clock =
        readl s (Reg.CLK_MGT clock) &&& PRCM_CLK_MGT_CLKPLLSW_MASK ∧
      readl (request_clock (request_clock s clock false).1 clock true).1 (Reg.CLK_MGT clock) =
        readl s (Reg.CLK_MGT clock) ∧
      readl (request_clock s clock false).1 Reg.SEM = 0 ∧
      readl (request_clock (request_clock s clock false).1 clock true).1 Reg.SEM = 0 := by
  have hv := readl_lt s (Reg.CLK_MGT clock)
  generalize hvv : readl s (Reg.CLK_MGT clock) = v at hen hv
  have hn0 : not32 (PRCM_CLK_MGT_CLKEN ||| PRCM_CLK_MGT_CLKPLLSW_MASK) &&&
      (PRCM_CLK_MGT_CLKEN ||| PRCM_CLK_MGT_CLKPLLSW_MASK) = 0 := by decide
  have hnn : not32 (PRCM_CLK_MGT_CLKEN ||| PRCM_CLK_MGT_CLKPLLSW_MASK) |||
      (PRCM_CLK_MGT_CLKEN ||| PRCM_CLK_MGT_CLKPLLSW_MASK) = 4294967295 := by decide
  have hbit : v &&& PRCM_CLK_MGT_CLKEN = PRCM_CLK_MGT_CLKEN := by
    have h8 : PRCM_CLK_MGT_CLKEN = 2 ^ 8 := by decide
    rw [h8] at hen ⊢
    exact and_single_bit v 8 hen
  refine ⟨?_, ?_, ?_, ?_, request_clock_sem _ _ _, request_clock_sem _ _ _⟩
  · rw [request_clock_reg]
    simp only [Bool.false_eq_true, if_false]
    rw [Nat.and_assoc, hn0, Nat.and_zero]
  · rw [request_clock_reg]
    simp only [Bool.false_eq_true, if_false, hvv]
    rw [Nat.and_assoc, Nat.and_self]
  · rw [request_clock_pllsw]
    simp only [Bool.false_eq_true, if_false, hvv]
  · rw [request_clock_reg, request_clock_reg, request_clock_pllsw]
    simp only [Bool.false_eq_true, if_false, if_true, hvv]
    have h1 : PRCM_CLK_MGT_CLKEN ||| v &&& PRCM_CLK_MGT_CLKPLLSW_MASK =
        v &&& (PRCM_CLK_MGT_CLKEN ||| PRCM_CLK_MGT_CLKPLLSW_MASK) := by
      rw [Nat.and_or_distrib_left, hbit]
    rw [h1, ← Nat.and_or_distrib_left, hnn, and_u32_max v hv, u32_of_lt hv]

/-- C24 at `PRCM_SGACLK_MGT = 0x120`: enabled, PLL SOC0 selected. -/
theorem disable_enable_restores_witness :
    readl (soc0_state 125 6) (Reg.CLK_MGT PRCMU_SGACLK) &&& PRCM_CLK_MGT_CLKEN ≠ 0 ∧
    (readl (request_clock (soc0_state 125 6) PRCMU_SGACLK false).1 (Reg.CLK_MGT PRCMU_SGACLK) &&&
        (PRCM_CLK_MGT_CLKEN ||| PRCM_CLK_MGT_CLKPLLSW_MASK) = 0 ∧
      readl (request_clock (soc0_state 125 6) PRCMU_SGACLK false).1 (Reg.CLK_MGT PRCMU_SGACLK) &&&
          not32 (PRCM_CLK_MGT_CLKEN ||| PRCM_CLK_MGT_CLKPLLSW_MASK) =
        readl (soc0_state 125 6) (Reg.CLK_MGT PRCMU_SGACLK) &&&
          not32 (PRCM_CLK_MGT_CLKEN ||| PRCM_CLK_MGT_CLKPLLSW_MASK) ∧
      (request_clock (soc0_state 125 6) PRCMU_SGACLK false).1.pllsw PRCMU_SGACLK =
        readl (soc0_state 125 6) (Reg.CLK_MGT PRCMU_SGACLK) &&& PRCM_CLK_MGT_CLKPLLSW_MASK ∧
      readl (request_clock (request_clock (soc0_state 125 6) PRCMU_SGACLK false).1
          PRCMU_SGACLK true).1 (Reg.CLK_MGT PRCMU_SGACLK) =
        readl (soc0_state 125 6) (Reg.CLK_MGT PRCMU_SGACLK) ∧
      readl (request_clock (soc0_state 125 6) PRCMU_SGACLK false).1 Reg.SEM = 0 ∧
      readl (request_clock (request_clock (soc0_state 125 6) PRCMU_SGACLK false).1
        PRCMU_SGACLK true).1 Reg.SEM = 0) :=
  ⟨by decide, disable_enable_restores (soc0_state 125 6) PRCMU_SGACLK (by decide)⟩

/-- C27 (counterexample): `PRCM_SGACLK_MGT` holds `0x120` (enabled, PLL
SOC0).  The first `request_clock(clock, false)` leaves `0` in the register and
the selector `0x20` in `clk_mgt[clock].pllsw`; the second one overwrites the
remembered selector with 0, and the next `request_clock(clock, true)` writes
`0x100`: the clock is enabled with no PLL selected. -/
theorem second_disable_forgets_selector :
    readl (request_clock (soc0_state 125 6) PRCMU_SGACLK false).1 (Reg.CLK_MGT PRCMU_SGACLK) = 0 ∧
    (request_clock (soc0_state 125 6) PRCMU_SGACLK false).1.pllsw PRCMU_SGACLK = 0x20 ∧
    (request_clock (request_clock (soc0_state 125 6) PRCMU_SGACLK false).1
      PRCMU_SGACLK false).1.pllsw PRCMU_SGACLK = 0 ∧
    readl (request_clock (request_clock (request_clock (soc0_state 125 6) PRCMU_SGACLK false).1
      PRCMU_SGACLK false).1 PRCMU_SGACLK true).1 (Reg.CLK_MGT PRCMU_SGACLK) = 0x100 := by
  decide

/-- C27 (amended): in every state, a second `request_clock(clock, false)`
leaves the management register as the first one left it, but overwrites
`clk_mgt[clock].pllsw` with the selector bits of the disabled register, which
are zero; the `request_clock(clock, true)` that follows sets the enable bit
on the bits the first disable left and selects no PLL. -/
theorem second_disable_clears_pllsw (s : ClkState) (clock : Nat) :
    readl (request_clock (request_clock s clock false).1 clock false).1 (Reg.CLK_MGT clock) =
        readl (request_clock s clock false).1 (Reg.CLK_MGT clock) ∧
      (request_clock (request_clock s clock false).1 clock false).1.pllsw clock = 0 ∧
      readl (request_clock (request_clock (request_clock s clock false).1 clock false).1
          clock true).1 (Reg.CLK_MGT clock) =
        (readl s (Reg.CLK_MGT clock) &&&
          not32 (PRCM_CLK_MGT_CLKEN ||| PRCM_CLK_MGT_CLKPLLSW_MASK)) ||| PRCM_CLK_MGT_CLKEN ∧
      readl (request_clock (request_clock (request_clock s clock false).1 clock false).1
          clock true).1 (Reg.CLK_MGT clock) &&& PRCM_CLK_MGT_CLKPLLSW_MASK = 0 := by
  have hv := readl_lt s (Reg.CLK_MGT clock)
  have hn0 : not32 (PRCM_CLK_MGT_CLKEN ||| PRCM_CLK_MGT_CLKPLLSW_MASK) &&&
      PRCM_CLK_MGT_CLKPLLSW_MASK = 0 := by decide
  have h1 : readl (request_clock (request_clock s clock false).1 clock false).1
      (Reg.CLK_MGT clock) = readl (request_clock s clock false).1 (Reg.CLK_MGT clock) := by
    rw [request_clock_reg, request_clock_reg]
    simp only [Bool.false_eq_true, if_false]
    rw [Nat.and_assoc, Nat.and_self]
  have h2 : (request_clock (request_clock s clock false).1 clock false).1.pllsw clock = 0 := by
    rw [request_clock_pllsw, request_clock_reg]
    simp only [Bool.false_eq_true, if_false]
    rw [Nat.and_assoc, hn0, Nat.and_zero]
  have h3 : readl (request_clock (request_clock (request_clock s clock false).1 clock false).1
      clock true).1 (Reg.CLK_MGT clock) =
      (readl s (Reg.CLK_MGT clock) &&&
        not32 (PRCM_CLK_MGT_CLKEN ||| PRCM_CLK_MGT_CLKPLLSW_MASK)) ||| PRCM_CLK_MGT_CLKEN := by
    rw [request_clock_reg, h1, h2, request_clock_reg]
    simp only [Bool.false_eq_true, if_false, if_true, Nat.or_zero]
    apply u32_of_lt
    have hlt : readl s (Reg.CLK_MGT clock) &&&
        not32 (PRCM_CLK_MGT_CLKEN ||| PRCM_CLK_MGT_CLKPLLSW_MASK) < 2 ^ 32 :=
      Nat.lt_of_le_of_lt Nat.and_le_left hv
    exact Nat.or_lt_two_pow hlt (by decide)
  refine ⟨h1, h2, h3, ?_⟩
  rw [h3, Nat.and_distrib_right, Nat.and_assoc, hn0, Nat.and_zero]
  decide

/-- C28 (counterexample): `PRCM_ACLK_MGT` holds the divider 2 and
`PRCM_DMACLK_MGT` the divider 0.  `request_even_slower_clocks(true)` rejects
the divider of DMACLK, yet the divider of ACLK has been doubled to 4 by
then. -/
theorem slower_clocks_partial_update :
    divider_rejected true (readl (slow_clock_state 0x102 0x100) (Reg.CLK_MGT PRCMU_DMACLK)) ∧
    readl (request_even_slower_clocks (slow_clock_state 0x102 0x100) true) Reg.ACLK_MGT = 0x104 ∧
    readl (request_even_slower_clocks (slow_clock_state 0x102 0x100) true)
      (Reg.CLK_MGT PRCMU_DMACLK) = 0x100 := by
  decide

theorem and_31_le (v : Nat) : v &&& PRCM_CLK_MGT_CLKPLLDIV_MASK ≤ 31 := Nat.and_le_right

theorem with_divider_lt (v m : Nat) (hv : v < 4294967296) (hm : m ≤ 31) :
    with_divider v m < 4294967296 := by
  unfold with_divider
  have hlt : v &&& not32 PRCM_CLK_MGT_CLKPLLDIV_MASK < 2 ^ 32 :=
    Nat.lt_of_le_of_lt Nat.and_le_left hv
  have hm2 : m < 2 ^ 32 := Nat.lt_of_le_of_lt hm (by decide)
  exact Nat.or_lt_two_pow hlt hm2

theorem with_divider_field (v m : Nat) (hm : m ≤ 31) :
    with_divider v m &&& PRCM_CLK_MGT_CLKPLLDIV_MASK = m := by
  unfold with_divider
  have h0 : not32 PRCM_CLK_MGT_CLKPLLDIV_MASK &&& PRCM_CLK_MGT_CLKPLLDIV_MASK = 0 := by decide
  rw [Nat.and_distrib_right, Nat.and_assoc, h0, Nat.and_zero, Nat.zero_or]
  exact small_and_31 m hm

theorem with_divider_rest (v m : Nat) (hm : m ≤ 31) :
    with_divider v m &&& not32 PRCM_CLK_MGT_CLKPLLDIV_MASK =
      v &&& not32 PRCM_CLK_MGT_CLKPLLDIV_MASK := by
  unfold with_divider
  rw [Nat.and_distrib_right, Nat.and_assoc, Nat.and_self,
    small_and_const m _ hm (by decide), Nat.or_zero]

theorem with_divider_self (v : Nat) (hv : v < 4294967296) :
    with_divider v (v &&& PRCM_CLK_MGT_CLKPLLDIV_MASK) = v := by
  unfold with_divider
  have hnn : not32 PRCM_CLK_MGT_CLKPLLDIV_MASK ||| PRCM_CLK_MGT_CLKPLLDIV_MASK = 4294967295 := by
    decide
  rw [← Nat.and_or_distrib_left, hnn, and_u32_max v hv]

theorem scaled_divider_le (enable : Bool) (v : Nat) (h : ¬ divider_rejected enable v) :
    (if enable then 2 * (v &&& PRCM_CLK_MGT_CLKPLLDIV_MASK)
      else (v &&& PRCM_CLK_MGT_CLKPLLDIV_MASK) / 2) ≤ 31 := by
  have h31 := and_31_le v
  unfold divider_rejected at h
  cases enable
  · simp only [Bool.false_eq_true, if_false]
    omega
  · simp only [if_true] at h ⊢
    omega

theorem slower_clock_step_eq (s : ClkState) (enable : Bool) (reg : Reg) :
    slower_clock_step s enable reg =
      if divider_rejected enable (readl s reg) then none
      else some (writel s (divider_scaled enable (readl s reg)) reg) := by
  have h31 := and_31_le (readl s reg)
  unfold slower_clock_step divider_rejected divider_scaled with_divider
  cases enable
  · simp only [Bool.false_eq_true, if_false]
    by_cases h : readl s reg &&& PRCM_CLK_MGT_CLKPLLDIV_MASK ≤ 2
    · rw [if_pos h, if_pos h]
    · rw [if_neg h, if_neg h, Nat.shiftRight_eq_div_pow]
      have h2 : (readl s reg &&& PRCM_CLK_MGT_CLKPLLDIV_MASK) / 2 ^ 1 ≤ 31 := by omega
      have h3 := small_and_31 _ h2
      have hm : PRCM_CLK_MGT_CLKPLLDIV_MASK = 31 := rfl
      rw [hm] at h3 ⊢
      rw [h3]
      rfl
  · simp only [if_true]
    by_cases h : readl s reg &&& PRCM_CLK_MGT_CLKPLLDIV_MASK ≤ 1 ∨
        readl s reg &&& PRCM_CLK_MGT_CLKPLLDIV_MASK > 15
    · rw [if_pos h, if_pos h]
    · rw [if_neg h, if_neg h, Nat.shiftLeft_eq]
      have h2 : (readl s reg &&& PRCM_CLK_MGT_CLKPLLDIV_MASK) * 2 ^ 1 ≤ 31 := by omega
      have h4 : u32 ((readl s reg &&& PRCM_CLK_MGT_CLKPLLDIV_MASK) * 2 ^ 1) =
          (readl s reg &&& PRCM_CLK_MGT_CLKPLLDIV_MASK) * 2 ^ 1 := u32_of_lt (by omega)
      have h3 := small_and_31 _ h2
      have hm : PRCM_CLK_MGT_CLKPLLDIV_MASK = 31 := rfl
      rw [h4]
      rw [hm] at h3 ⊢
      rw [h3, Nat.mul_comm]
      rfl

theorem divider_scaled_lt (enable : Bool) (v : Nat) (hv : v < 4294967296)
    (h : ¬ divider_rejected enable v) : divider_scaled enable v < 4294967296 :=
  with_divider_lt v _ hv (scaled_divider_le enable v h)

/-- The registers after `request_even_slower_clocks`, from the values `a` of
`PRCM_ACLK_MGT` and `b` of `PRCM_DMACLK_MGT` before the call. -/
theorem slower_clocks_regs (s : ClkState) (enable : Bool) :
    readl (request_even_slower_clocks s enable) Reg.ACLK_MGT =
        (if divider_rejected enable (readl s Reg.ACLK_MGT) then readl s Reg.ACLK_MGT
          else divider_scaled enable (readl s Reg.ACLK_MGT)) ∧
      readl (request_even_slower_clocks s enable) (Reg.CLK_MGT PRCMU_DMACLK) =
        (if divider_rejected enable (readl s Reg.ACLK_MGT) ∨
            divider_rejected enable (readl s (Reg.CLK_MGT PRCMU_DMACLK)) then
          readl s (Reg.CLK_MGT PRCMU_DMACLK)
          else divider_scaled enable (readl s (Reg.CLK_MGT PRCMU_DMACLK))) ∧
      readl (request_even_slower_clocks s enable) Reg.SEM = 0 := by
  have hga : readl (grab_hw_semaphore s) Reg.ACLK_MGT = readl s Reg.ACLK_MGT := by
    unfold grab_hw_semaphore; rw [readl_writel, if_neg (by simp)]
  have hgb : readl (grab_hw_semaphore s) (Reg.CLK_MGT PRCMU_DMACLK) =
      readl s (Reg.CLK_MGT PRCMU_DMACLK) := by
    unfold grab_hw_semaphore; rw [readl_writel, if_neg (by simp)]
  have hva := readl_lt s Reg.ACLK_MGT
  have hvb := readl_lt s (Reg.CLK_MGT PRCMU_DMACLK)
  unfold request_even_slower_clocks
  simp only [slower_clocks_loop, slower_clock_step_eq, hga]
  by_cases ha : divider_rejected enable (readl s Reg.ACLK_MGT)
  · simp only [ha, if_true, true_or, readl_writel, reduceCtorEq, if_false, hga, hgb]
    exact ⟨trivial, trivial, rfl⟩
  · have hsa := divider_scaled_lt enable _ hva ha
    simp only [ha, if_false, false_or, readl_writel, reduceCtorEq, if_true, hgb]
    by_cases hb : divider_rejected enable (readl s (Reg.CLK_MGT PRCMU_DMACLK))
    · simp only [hb, if_true, readl_writel, reduceCtorEq, if_false, hgb, u32_of_lt hsa]
      exact ⟨trivial, trivial, rfl⟩
    · have hsb := divider_scaled_lt enable _ hvb hb
      simp only [hb, if_false, readl_writel, reduceCtorEq, if_true, u32_of_lt hsa,
        u32_of_lt hsb]
      exact ⟨trivial, trivial, rfl⟩

/-- C28 (amended): `request_even_slower_clocks` handles `PRCM_ACLK_MGT` first
and `PRCM_DMACLK_MGT` second and stops at the first divider it rejects.  The
divider of ACLK is doubled (enable) or halved, rounding down (disable), unless
it is rejected itself; the divider of DMACLK is changed only if neither
divider is rejected.  So a rejected divider of DMACLK leaves ACLK changed.
The bits outside the divider field of both registers keep their values, and
`PRCM_SEM` holds 0 afterwards. -/
theorem slower_clocks_in_order (s : ClkState) (enable : Bool) :
    readl (request_even_slower_clocks s enable) Reg.ACLK_MGT &&& PRCM_CLK_MGT_CLKPLLDIV_MASK =
        (if divider_rejected enable (readl s Reg.ACLK_MGT) then
          readl s Reg.ACLK_MGT &&& PRCM_CLK_MGT_CLKPLLDIV_MASK
        else if enable then 2 * (readl s Reg.ACLK_MGT &&& PRCM_CLK_MGT_CLKPLLDIV_MASK)
        else (readl s Reg.ACLK_MGT &&& PRCM_CLK_MGT_CLKPLLDIV_MASK) / 2) ∧
      readl (request_even_slower_clocks s enable) (Reg.CLK_MGT PRCMU_DMACLK) &&&
          PRCM_CLK_MGT_CLKPLLDIV_MASK =
        (if divider_rejected enable (readl s Reg.ACLK_MGT) ∨
            divider_rejected enable (readl s (Reg.CLK_MGT PRCMU_DMACLK)) then
          readl s (Reg.CLK_MGT PRCMU_DMACLK) &&& PRCM_CLK_MGT_CLKPLLDIV_MASK
        else if enable then
          2 * (readl s (Reg.CLK_MGT PRCMU_DMACLK) &&& PRCM_CLK_MGT_CLKPLLDIV_MASK)
        else (readl s (Reg.CLK_MGT PRCMU_DMACLK) &&& PRCM_CLK_MGT_CLKPLLDIV_MASK) / 2) ∧
      readl (request_even_slower_clocks s enable) Reg.ACLK_MGT &&&
          not32 PRCM_CLK_MGT_CLKPLLDIV_MASK =
        readl s Reg.ACLK_MGT &&& not32 PRCM_CLK_MGT_CLKPLLDIV_MASK ∧
      readl (request_even_slower_clocks s enable) (Reg.CLK_MGT PRCMU_DMACLK) &&&
          not32 PRCM_CLK_MGT_CLKPLLDIV_MASK =
        readl s (Reg.CLK_MGT PRCMU_DMACLK) &&& not32 PRCM_CLK_MGT_CLKPLLDIV_MASK ∧
      readl (request_even_slower_clocks s enable) Reg.SEM = 0 := by
  obtain ⟨h1, h2, h3⟩ := slower_clocks_regs s enable
  rw [h1, h2]
  refine ⟨?_, ?_, ?_, ?_, h3⟩
  · by_cases ha : divider_rejected enable (readl s Reg.ACLK_MGT)
    · rw [if_pos ha, if_pos ha]
    · rw [if_neg ha, if_neg ha]
      exact with_divider_field _ _ (scaled_divider_le enable _ ha)
  · by_cases hb : divider_rejected enable (readl s Reg.ACLK_MGT) ∨
        divider_rejected enable (readl s (Reg.CLK_MGT PRCMU_DMACLK))
    · rw [if_pos hb, if_pos hb]
    · rw [if_neg hb, if_neg hb]
      exact with_divider_field _ _ (scaled_divider_le enable _ (fun h => hb (Or.inr h)))
  · by_cases ha : divider_rejected enable (readl s Reg.ACLK_MGT)
    · rw [if_pos ha]
    · rw [if_neg ha]
      exact with_divider_rest _ _ (scaled_divider_le enable _ ha)
  · by_cases hb : divider_rejected enable (readl s Reg.ACLK_MGT) ∨
        divider_rejected enable (readl s (Reg.CLK_MGT PRCMU_DMACLK))
    · rw [if_pos hb]
    · rw [if_neg hb]
      exact with_divider_rest _ _ (scaled_divider_le enable _ (fun h => hb (Or.inr h)))

theorem doubled_divider (v : Nat) (hv : v < 4294967296)
    (h2 : 2 ≤ v &&& PRCM_CLK_MGT_CLKPLLDIV_MASK) (h15 : v &&& PRCM_CLK_MGT_CLKPLLDIV_MASK ≤ 15) :
    ¬ divider_rejected true v ∧
      ¬ divider_rejected false (divider_scaled true v) ∧
      divider_scaled false (divider_scaled true v) = v ∧
      divider_scaled true v &&& PRCM_CLK_MGT_CLKPLLDIV_MASK =
        2 * (v &&& PRCM_CLK_MGT_CLKPLLDIV_MASK) ∧
      divider_scaled true v &&& not32 PRCM_CLK_MGT_CLKPLLDIV_MASK =
        v &&& not32 PRCM_CLK_MGT_CLKPLLDIV_MASK := by
  have hle : 2 * (v &&& PRCM_CLK_MGT_CLKPLLDIV_MASK) ≤ 31 := by omega
  have hf : divider_scaled true v &&& PRCM_CLK_MGT_CLKPLLDIV_MASK =
      2 * (v &&& PRCM_CLK_MGT_CLKPLLDIV_MASK) := by
    unfold divider_scaled
    simp only [if_true]
    exact with_divider_field _ _ hle
  have hr : divider_scaled true v &&& not32 PRCM_CLK_MGT_CLKPLLDIV_MASK =
      v &&& not32 PRCM_CLK_MGT_CLKPLLDIV_MASK := by
    unfold divider_scaled
    simp only [if_true]
    exact with_divider_rest _ _ hle
  refine ⟨?_, ?_, ?_, hf, hr⟩
  · unfold divider_rejected
    simp only [if_true]
    omega
  · unfold divider_rejected
    simp only [Bool.false_eq_true, if_false]
    rw [hf]
    omega
  · have h1 : divider_scaled false (divider_scaled true v) =
        with_divider (divider_scaled true v)
          ((divider_scaled true v &&& PRCM_CLK_MGT_CLKPLLDIV_MASK) / 2) := by
      unfold divider_scaled
      simp only [Bool.false_eq_true, if_false, if_true]
    rw [h1, hf]
    have h3 : 2 * (v &&& PRCM_CLK_MGT_CLKPLLDIV_MASK) / 2 = v &&& PRCM_CLK_MGT_CLKPLLDIV_MASK := by
      omega
    rw [h3]
    have h4 : with_divider (divider_scaled true v) (v &&& PRCM_CLK_MGT_CLKPLLDIV_MASK) =
        with_divider v (v &&& PRCM_CLK_MGT_CLKPLLDIV_MASK) := by
      unfold with_divider
      rw [hr]
    rw [h4]
    exact with_divider_self v hv

/-- The values of `PRCM_ACLK_MGT` and `PRCM_DMACLK_MGT` that go with the
recorded operating point `opp`, from their initial values `a` and `b`. -/
theorem slower_enable_from (s : ClkState) (a b : Nat) (ha : a < 4294967296)
    (hb : b < 4294967296)
    (ha2 : 2 ≤ a &&& PRCM_CLK_MGT_CLKPLLDIV_MASK) (ha15 : a &&& PRCM_CLK_MGT_CLKPLLDIV_MASK ≤ 15)
    (hb2 : 2 ≤ b &&& PRCM_CLK_MGT_CLKPLLDIV_MASK) (hb15 : b &&& PRCM_CLK_MGT_CLKPLLDIV_MASK ≤ 15)
    (h1 : readl s Reg.ACLK_MGT = a) (h2 : readl s (Reg.CLK_MGT PRCMU_DMACLK) = b) :
    readl (request_even_slower_clocks s true) Reg.ACLK_MGT = divider_scaled true a ∧
      readl (request_even_slower_clocks s true) (Reg.CLK_MGT PRCMU_DMACLK) =
        divider_scaled true b := by
  obtain ⟨r1, r2, -⟩ := slower_clocks_regs s true
  have da := (doubled_divider a ha ha2 ha15).1
  have db := (doubled_divider b hb hb2 hb15).1
  rw [h1] at r1 r2
  rw [h2] at r2
  rw [r1, r2, if_neg da, if_neg (fun h => h.elim da db)]
  exact ⟨rfl, rfl⟩

theorem slower_disable_from (s : ClkState) (a b : Nat) (ha : a < 4294967296)
    (hb : b < 4294967296)
    (ha2 : 2 ≤ a &&& PRCM_CLK_MGT_CLKPLLDIV_MASK) (ha15 : a &&& PRCM_CLK_MGT_CLKPLLDIV_MASK ≤ 15)
    (hb2 : 2 ≤ b &&& PRCM_CLK_MGT_CLKPLLDIV_MASK) (hb15 : b &&& PRCM_CLK_MGT_CLKPLLDIV_MASK ≤ 15)
    (h1 : readl s Reg.ACLK_MGT = divider_scaled true a)
    (h2 : readl s (Reg.CLK_MGT PRCMU_DMACLK) = divider_scaled true b) :
    readl (request_even_slower_clocks s false) Reg.ACLK_MGT = a ∧
      readl (request_even_slower_clocks s false) (Reg.CLK_MGT PRCMU_DMACLK) = b := by
  obtain ⟨r1, r2, -⟩ := slower_clocks_regs s false
  obtain ⟨-, da, ea, -, -⟩ := doubled_divider a ha ha2 ha15
  obtain ⟨-, db, eb, -, -⟩ := doubled_divider b hb hb2 hb15
  rw [h1] at r1 r2
  rw [h2] at r2
  rw [r1, r2, if_neg da, if_neg (fun h => h.elim da db), ea, eb]
  exact ⟨rfl, rfl⟩

theorem mb1_wait_ape_opp (d : Drv) (fw : Mb1Ack) : (mb1_wait d fw).ape_opp = d.ape_opp := rfl

/-- One call of `prcmu_set_ape_opp`: the clock state is the result of the
calls listed by `even_slower_requests`, and the operating point recorded
afterwards is `opp` if the call returned 0 and the former one otherwise. -/
theorem set_ape_opp_effect (d : Drv) (s : ClkState) (opp : Nat) (fw : Mb1Ack) :
    (prcmu_set_ape_opp d s opp fw).1.2 =
        (even_slower_requests d.ape_opp opp (prcmu_set_ape_opp d s opp fw).2).foldl
          request_even_slower_clocks s ∧
      (prcmu_set_ape_opp d s opp fw).1.1.ape_opp =
        (if (prcmu_set_ape_opp d s opp fw).2 = 0 then opp else d.ape_opp) := by
  unfold prcmu_set_ape_opp even_slower_requests
  by_cases h : opp = d.ape_opp
  · simp only [h, if_true, List.foldl_nil, and_self]
  · simp only [h, if_false]
    have hape : (if opp ≠ APE_100_OPP ∧ d.ape_opp ≠ APE_100_OPP then ((d, 0) : Drv × Int)
        else
          ((mb1_wait (mbox_set_pending (tcdm_writeb (tcdm_writeb (tcdm_writeb (mbox_poll_clear d 1)
              MB1H_ARM_APE_OPP PRCM_MBOX_HEADER_REQ_MB1) ARM_NO_CHANGE PRCM_REQ_MB1_ARM_OPP)
              (if opp = APE_50_PARTLY_25_OPP then APE_50_OPP else opp) PRCM_REQ_MB1_APE_OPP) 1)
              fw),
            if (mb1_wait (mbox_set_pending (tcdm_writeb (tcdm_writeb (tcdm_writeb
                (mbox_poll_clear d 1)
                MB1H_ARM_APE_OPP PRCM_MBOX_HEADER_REQ_MB1) ARM_NO_CHANGE PRCM_REQ_MB1_ARM_OPP)
                (if opp = APE_50_PARTLY_25_OPP then APE_50_OPP else opp) PRCM_REQ_MB1_APE_OPP) 1)
                fw).mb1_ack.header ≠ MB1H_ARM_APE_OPP ∨
              (mb1_wait (mbox_set_pending (tcdm_writeb (tcdm_writeb (tcdm_writeb
                (mbox_poll_clear d 1)
                MB1H_ARM_APE_OPP PRCM_MBOX_HEADER_REQ_MB1) ARM_NO_CHANGE PRCM_REQ_MB1_ARM_OPP)
                (if opp = APE_50_PARTLY_25_OPP then APE_50_OPP else opp) PRCM_REQ_MB1_APE_OPP) 1)
                fw).mb1_ack.ape_opp ≠ (if opp = APE_50_PARTLY_25_OPP then APE_50_OPP else opp)
            then -EIO_errno else 0)).1.ape_opp = d.ape_opp := by
      split_ifs <;> rfl
    generalize (if opp ≠ APE_100_OPP ∧ d.ape_opp ≠ APE_100_OPP then ((d, 0) : Drv × Int)
        else _) = dr at hape ⊢
    rw [hape]
    by_cases hr : dr.2 = 0
    · by_cases hc : d.ape_opp = APE_50_PARTLY_25_OPP
      · by_cases ho : opp = APE_50_PARTLY_25_OPP
        · exact absurd (ho.trans hc.symm) h
        · simp [hr, hc, ho]
      · by_cases ho : opp = APE_50_PARTLY_25_OPP
        · simp [hr, hc, ho]
        · simp [hr, hc, ho]
    · by_cases hc : d.ape_opp = APE_50_PARTLY_25_OPP
      · simp [hr, hc, hape]
      · simp [hr, hc, hape]

theorem alternates_step (cur opp : Nat) (r : Int) (rest : List Bool) :
    alternates (decide (cur = APE_50_PARTLY_25_OPP)) (even_slower_requests cur opp r ++ rest) =
      alternates (decide ((if r = 0 then opp else cur) = APE_50_PARTLY_25_OPP)) rest := by
  unfold even_slower_requests
  by_cases h : opp = cur
  · simp [h]
  · rw [if_neg h]
    by_cases hr : r = 0
    · by_cases hc : cur = APE_50_PARTLY_25_OPP
      · have ho : opp ≠ APE_50_PARTLY_25_OPP := fun ho => h (ho.trans hc.symm)
        simp [hr, hc, ho, alternates]
      · by_cases ho : opp = APE_50_PARTLY_25_OPP
        · simp [hr, hc, ho, alternates]
        · simp [hr, hc, ho, alternates]
    · by_cases hc : cur = APE_50_PARTLY_25_OPP
      · simp [hr, hc, alternates]
      · simp [hr, hc, alternates]

/-- The relation kept by `prcmu_set_ape_opp` between the recorded operating
point and the two registers, whose initial values are `a` and `b`. -/
theorem set_ape_opp_keeps (d : Drv) (s : ClkState) (opp : Nat) (fw : Mb1Ack) (a b : Nat)
    (ha : a < 4294967296) (hb : b < 4294967296)
    (ha2 : 2 ≤ a &&& PRCM_CLK_MGT_CLKPLLDIV_MASK) (ha15 : a &&& PRCM_CLK_MGT_CLKPLLDIV_MASK ≤ 15)
    (hb2 : 2 ≤ b &&& PRCM_CLK_MGT_CLKPLLDIV_MASK) (hb15 : b &&& PRCM_CLK_MGT_CLKPLLDIV_MASK ≤ 15)
    (h1 : readl s Reg.ACLK_MGT =
      if d.ape_opp = APE_50_PARTLY_25_OPP then divider_scaled true a else a)
    (h2 : readl s (Reg.CLK_MGT PRCMU_DMACLK) =
      if d.ape_opp = APE_50_PARTLY_25_OPP then divider_scaled true b else b) :
    readl (prcmu_set_ape_opp d s opp fw).1.2 Reg.ACLK_MGT =
        (if (prcmu_set_ape_opp d s opp fw).1.1.ape_opp = APE_50_PARTLY_25_OPP then
          divider_scaled true a else a) ∧
      readl (prcmu_set_ape_opp d s opp fw).1.2 (Reg.CLK_MGT PRCMU_DMACLK) =
        (if (prcmu_set_ape_opp d s opp fw).1.1.ape_opp = APE_50_PARTLY_25_OPP then
          divider_scaled true b else b) := by
  obtain ⟨e1, e2⟩ := set_ape_opp_effect d s opp fw
  rw [e1, e2]
  generalize (prcmu_set_ape_opp d s opp fw).2 = r
  unfold even_slower_requests
  by_cases h : opp = d.ape_opp
  · simp only [h, if_true, List.foldl_nil, ite_self]
    exact ⟨h1, h2⟩
  · rw [if_neg h]
    by_cases hc : d.ape_opp = APE_50_PARTLY_25_OPP
    · have ho : opp ≠ APE_50_PARTLY_25_OPP := fun ho => h (ho.trans hc.symm)
      rw [if_pos hc] at h1 h2
      have hd := slower_disable_from s a b ha hb ha2 ha15 hb2 hb15 h1 h2
      by_cases hr : r = 0
      · simp only [hr, hc, ho, if_true, if_false, and_false, not_true_eq_false, false_and,
          or_self, List.append_nil, List.foldl_cons, List.foldl_nil]
        exact hd
      · simp only [hr, hc, ne_eq, if_true, if_false, false_and, not_false_eq_true, true_and,
          and_true, false_or, and_self, List.singleton_append, List.cons_append,
          List.nil_append, List.foldl_cons, List.foldl_nil]
        exact slower_enable_from _ a b ha hb ha2 ha15 hb2 hb15 hd.1 hd.2
    · rw [if_neg hc] at h1 h2
      by_cases hr : r = 0
      · by_cases ho : opp = APE_50_PARTLY_25_OPP
        · simp only [hr, hc, ho, if_true, if_false, and_self, and_false, or_false,
            true_or, not_true_eq_false, false_and, List.nil_append, List.foldl_cons,
            List.foldl_nil]
          exact slower_enable_from _ a b ha hb ha2 ha15 hb2 hb15 h1 h2
        · simp only [hr, hc, ho, if_true, if_false, and_self, and_false, or_false,
            not_true_eq_false, false_and, List.nil_append, List.foldl_nil, List.append_nil]
          exact ⟨h1, h2⟩
      · simp only [hr, hc, if_false, false_and, and_false, or_self, List.nil_append,
          List.foldl_nil, List.append_nil]
        exact ⟨h1, h2⟩

theorem ape_opp_calls_invariant (calls : List (Nat × Mb1Ack)) (a b : Nat)
    (ha : a < 4294967296) (hb : b < 4294967296)
    (ha2 : 2 ≤ a &&& PRCM_CLK_MGT_CLKPLLDIV_MASK) (ha15 : a &&& PRCM_CLK_MGT_CLKPLLDIV_MASK ≤ 15)
    (hb2 : 2 ≤ b &&& PRCM_CLK_MGT_CLKPLLDIV_MASK) (hb15 : b &&& PRCM_CLK_MGT_CLKPLLDIV_MASK ≤ 15) :
    ∀ (d : Drv) (s : ClkState),
      readl s Reg.ACLK_MGT =
        (if d.ape_opp = APE_50_PARTLY_25_OPP then divider_scaled true a else a) →
      readl s (Reg.CLK_MGT PRCMU_DMACLK) =
        (if d.ape_opp = APE_50_PARTLY_25_OPP then divider_scaled true b else b) →
      readl (ape_opp_calls (d, s) calls).1.2 Reg.ACLK_MGT =
          (if (ape_opp_calls (d, s) calls).1.1.ape_opp = APE_50_PARTLY_25_OPP then
            divider_scaled true a else a) ∧
        readl (ape_opp_calls (d, s) calls).1.2 (Reg.CLK_MGT PRCMU_DMACLK) =
          (if (ape_opp_calls (d, s) calls).1.1.ape_opp = APE_50_PARTLY_25_OPP then
            divider_scaled true b else b) ∧
        (ape_opp_calls (d, s) calls).1.2 =
          (ape_opp_calls (d, s) calls).2.foldl request_even_slower_clocks s ∧
        alternates (decide (d.ape_opp = APE_50_PARTLY_25_OPP)) (ape_opp_calls (d, s) calls).2 =
          true := by
  induction calls with
  | nil =>
    intro d s h1 h2
    exact ⟨h1, h2, rfl, rfl⟩
  | cons c rest ih =>
    intro d s h1 h2
    obtain ⟨opp, fw⟩ := c
    obtain ⟨k1, k2⟩ := set_ape_opp_keeps d s opp fw a b ha hb ha2 ha15 hb2 hb15 h1 h2
    obtain ⟨e1, e2⟩ := set_ape_opp_effect d s opp fw
    obtain ⟨i1, i2, i3, i4⟩ := ih (prcmu_set_ape_opp d s opp fw).1.1
      (prcmu_set_ape_opp d s opp fw).1.2 k1 k2
    have hunf : ape_opp_calls (d, s) ((opp, fw) :: rest) =
        ((ape_opp_calls (prcmu_set_ape_opp d s opp fw).1 rest).1,
          even_slower_requests d.ape_opp opp (prcmu_set_ape_opp d s opp fw).2 ++
            (ape_opp_calls (prcmu_set_ape_opp d s opp fw).1 rest).2) := rfl
    rw [hunf]
    refine ⟨i1, i2, ?_, ?_⟩
    · show (ape_opp_calls (prcmu_set_ape_opp d s opp fw).1 rest).1.2 = _
      rw [List.foldl_append, ← e1]
      exact i3
    · show alternates _ (even_slower_requests d.ape_opp opp (prcmu_set_ape_opp d s opp fw).2 ++
        (ape_opp_calls (prcmu_set_ape_opp d s opp fw).1 rest).2) = true
      rw [alternates_step, ← e2]
      exact i4

/-- C23: from a state whose recorded operating point is `APE_NO_CHANGE` and
whose ACLK and DMACLK dividers lie in `[2,15]`, after any sequence of
`prcmu_set_ape_opp` calls with arbitrary acknowledgments the two dividers are
twice their initial values exactly when the recorded operating point is
`APE_50_PARTLY_25_OPP` and equal to them otherwise, and the other bits of the
two registers are as at the start.  The clock state is the result of the
calls of `request_even_slower_clocks` made on the way, and these alternate,
starting with `true`: `true` is never applied twice without a `false` in
between. -/
theorem ape_opp_guards_slower_clocks (d : Drv) (s : ClkState) (calls : List (Nat × Mb1Ack))
    (hopp : d.ape_opp = APE_NO_CHANGE)
    (ha : 2 ≤ readl s Reg.ACLK_MGT &&& PRCM_CLK_MGT_CLKPLLDIV_MASK ∧
      readl s Reg.ACLK_MGT &&& PRCM_CLK_MGT_CLKPLLDIV_MASK ≤ 15)
    (hb : 2 ≤ readl s (Reg.CLK_MGT PRCMU_DMACLK) &&& PRCM_CLK_MGT_CLKPLLDIV_MASK ∧
      readl s (Reg.CLK_MGT PRCMU_DMACLK) &&& PRCM_CLK_MGT_CLKPLLDIV_MASK ≤ 15) :
    readl (ape_opp_calls (d, s) calls).1.2 Reg.ACLK_MGT &&& PRCM_CLK_MGT_CLKPLLDIV_MASK =
        (if (ape_opp_calls (d, s) calls).1.1.ape_opp = APE_50_PARTLY_25_OPP then
          2 * (readl s Reg.ACLK_MGT &&& PRCM_CLK_MGT_CLKPLLDIV_MASK)
        else readl s Reg.ACLK_MGT &&& PRCM_CLK_MGT_CLKPLLDIV_MASK) ∧
      readl (ape_opp_calls (d, s) calls).1.2 (Reg.CLK_MGT PRCMU_DMACLK) &&&
          PRCM_CLK_MGT_CLKPLLDIV_MASK =
        (if (ape_opp_calls (d, s) calls).1.1.ape_opp = APE_50_PARTLY_25_OPP then
          2 * (readl s (Reg.CLK_MGT PRCMU_DMACLK) &&& PRCM_CLK_MGT_CLKPLLDIV_MASK)
        else readl s (Reg.CLK_MGT PRCMU_DMACLK) &&& PRCM_CLK_MGT_CLKPLLDIV_MASK) ∧
      readl (ape_opp_calls (d, s) calls).1.2 Reg.ACLK_MGT &&&
          not32 PRCM_CLK_MGT_CLKPLLDIV_MASK =
        readl s Reg.ACLK_MGT &&& not32 PRCM_CLK_MGT_CLKPLLDIV_MASK ∧
      readl (ape_opp_calls (d, s) calls).1.2 (Reg.CLK_MGT PRCMU_DMACLK) &&&
          not32 PRCM_CLK_MGT_CLKPLLDIV_MASK =
        readl s (Reg.CLK_MGT PRCMU_DMACLK) &&& not32 PRCM_CLK_MGT_CLKPLLDIV_MASK ∧
      (ape_opp_calls (d, s) calls).1.2 =
        (ape_opp_calls (d, s) calls).2.foldl request_even_slower_clocks s ∧
      alternates false (ape_opp_calls (d, s) calls).2 = true := by
  have hva := readl_lt s Reg.ACLK_MGT
  have hvb := readl_lt s (Reg.CLK_MGT PRCMU_DMACLK)
  have hne : ¬ d.ape_opp = APE_50_PARTLY_25_OPP := by
    rw [hopp]
    decide
  obtain ⟨i1, i2, i3, i4⟩ := ape_opp_calls_invariant calls _ _ hva hvb ha.1 ha.2 hb.1 hb.2 d s
    (by rw [if_neg hne]) (by rw [if_neg hne])
  obtain ⟨-, -, -, fa, ra⟩ := doubled_divider _ hva ha.1 ha.2
  obtain ⟨-, -, -, fb, rb⟩ := doubled_divider _ hvb hb.1 hb.2
  have hdec : decide (d.ape_opp = APE_50_PARTLY_25_OPP) = false := by simp [hne]
  rw [hdec] at i4
  refine ⟨?_, ?_, ?_, ?_, i3, i4⟩
  · rw [i1]
    split_ifs
    · exact fa
    · rfl
  · rw [i2]
    split_ifs
    · exact fb
    · rfl
  · rw [i1]
    split_ifs
    · exact ra
    · rfl
  · rw [i2]
    split_ifs
    · exact rb
    · rfl

/-- C23 for ACLK at divider 4 and DMACLK at divider 2: a request for
`APE_50_PARTLY_25_OPP`, which needs no message, then a request for
`APE_100_OPP` whose acknowledgment carries another header, so that the extra
division is taken back and applied again. -/
theorem ape_opp_guards_slower_clocks_witness :
    (drv_init.ape_opp = APE_NO_CHANGE ∧
      (2 ≤ readl (slow_clock_state 0x104 0x102) Reg.ACLK_MGT &&& PRCM_CLK_MGT_CLKPLLDIV_MASK ∧
        readl (slow_clock_state 0x104 0x102) Reg.ACLK_MGT &&& PRCM_CLK_MGT_CLKPLLDIV_MASK ≤ 15) ∧
      (2 ≤ readl (slow_clock_state 0x104 0x102) (Reg.CLK_MGT PRCMU_DMACLK) &&&
          PRCM_CLK_MGT_CLKPLLDIV_MASK ∧
        readl (slow_clock_state 0x104 0x102) (Reg.CLK_MGT PRCMU_DMACLK) &&&
          PRCM_CLK_MGT_CLKPLLDIV_MASK ≤ 15)) ∧
    (readl (ape_opp_calls (drv_init, slow_clock_state 0x104 0x102)
          [(APE_50_PARTLY_25_OPP, fw_bad),
            (APE_100_OPP, fw_bad)]).1.2 Reg.ACLK_MGT &&& PRCM_CLK_MGT_CLKPLLDIV_MASK =
        (if (ape_opp_calls (drv_init, slow_clock_state 0x104 0x102)
            [(APE_50_PARTLY_25_OPP, fw_bad),
              (APE_100_OPP, fw_bad)]).1.1.ape_opp = APE_50_PARTLY_25_OPP then
          2 * (readl (slow_clock_state 0x104 0x102) Reg.ACLK_MGT &&& PRCM_CLK_MGT_CLKPLLDIV_MASK)
        else readl (slow_clock_state 0x104 0x102) Reg.ACLK_MGT &&& PRCM_CLK_MGT_CLKPLLDIV_MASK) ∧
      readl (ape_opp_calls (drv_init, slow_clock_state 0x104 0x102)
          [(APE_50_PARTLY_25_OPP, fw_bad),
            (APE_100_OPP, fw_bad)]).1.2 (Reg.CLK_MGT PRCMU_DMACLK) &&&
          PRCM_CLK_MGT_CLKPLLDIV_MASK =
        (if (ape_opp_calls (drv_init, slow_clock_state 0x104 0x102)
            [(APE_50_PARTLY_25_OPP, fw_bad),
              (APE_100_OPP, fw_bad)]).1.1.ape_opp = APE_50_PARTLY_25_OPP then
          2 * (readl (slow_clock_state 0x104 0x102) (Reg.CLK_MGT PRCMU_DMACLK) &&&
            PRCM_CLK_MGT_CLKPLLDIV_MASK)
        else readl (slow_clock_state 0x104 0x102) (Reg.CLK_MGT PRCMU_DMACLK) &&&
          PRCM_CLK_MGT_CLKPLLDIV_MASK) ∧
      readl (ape_opp_calls (drv_init, slow_clock_state 0x104 0x102)
          [(APE_50_PARTLY_25_OPP, fw_bad),
            (APE_100_OPP, fw_bad)]).1.2 Reg.ACLK_MGT &&&
          not32 PRCM_CLK_MGT_CLKPLLDIV_MASK =
        readl (slow_clock_state 0x104 0x102) Reg.ACLK_MGT &&&
          not32 PRCM_CLK_MGT_CLKPLLDIV_MASK ∧
      readl (ape_opp_calls (drv_init, slow_clock_state 0x104 0x102)
          [(APE_50_PARTLY_25_OPP, fw_bad),
            (APE_100_OPP, fw_bad)]).1.2 (Reg.CLK_MGT PRCMU_DMACLK) &&&
          not32 PRCM_CLK_MGT_CLKPLLDIV_MASK =
        readl (slow_clock_state 0x104 0x102) (Reg.CLK_MGT PRCMU_DMACLK) &&&
          not32 PRCM_CLK_MGT_CLKPLLDIV_MASK ∧
      (ape_opp_calls (drv_init, slow_clock_state 0x104 0x102)
          [(APE_50_PARTLY_25_OPP, fw_bad),
            (APE_100_OPP, fw_bad)]).1.2 =
        (ape_opp_calls (drv_init, slow_clock_state 0x104 0x102)
          [(APE_50_PARTLY_25_OPP, fw_bad),
            (APE_100_OPP, fw_bad)]).2.foldl request_even_slower_clocks
          (slow_clock_state 0x104 0x102) ∧
      alternates false (ape_opp_calls (drv_init, slow_clock_state 0x104 0x102)
        [(APE_50_PARTLY_25_OPP, fw_bad),
          (APE_100_OPP, fw_bad)]).2 = true) :=
  ⟨⟨by decide, by decide, by decide⟩,
    ape_opp_guards_slower_clocks drv_init (slow_clock_state 0x104 0x102)
      [(APE_50_PARTLY_25_OPP, fw_bad),
        (APE_100_OPP, fw_bad)] (by decide) (by decide) (by decide)⟩

/-- The calls of `request_even_slower_clocks` in the sequence above. -/
theorem ape_opp_calls_example :
    (ape_opp_calls (drv_init, slow_clock_state 0x104 0x102)
        [(APE_50_PARTLY_25_OPP, fw_bad), (APE_100_OPP, fw_bad)]).2 = [true, false, true] ∧
      (ape_opp_calls (drv_init, slow_clock_state 0x104 0x102)
        [(APE_50_PARTLY_25_OPP, fw_bad), (APE_100_OPP, fw_bad)]).1.1.ape_opp =
        APE_50_PARTLY_25_OPP ∧
      readl (ape_opp_calls (drv_init, slow_clock_state 0x104 0x102)
        [(APE_50_PARTLY_25_OPP, fw_bad), (APE_100_OPP, fw_bad)]).1.2 Reg.ACLK_MGT = 0x108 := by
  decide

/-- A mask that selects the `n` bits from bit `k` on cuts out that field. -/
theorem and_field (x k n : Nat) : x &&& 2 ^ k * (2 ^ n - 1) = 2 ^ k * (x / 2 ^ k % 2 ^ n) := by
  apply Nat.eq_of_testBit_eq
  intro i
  rw [Nat.testBit_and, Nat.testBit_mul_pow_two, Nat.testBit_mul_pow_two,
    Nat.testBit_two_pow_sub_one, Nat.testBit_mod_two_pow, ← Nat.shiftRight_eq_div_pow,
    Nat.testBit_shiftRight]
  by_cases h : k ≤ i
  · have : k + (i - k) = i := by omega
    rw [this]
    cases x.testBit i <;> simp [h]
  · simp [h]

theorem mb4_wait_tcdm (d : Drv) : (mb4_wait d).tcdm = d.tcdm := by
  unfold mb4_wait read_mailbox_4 irq_event
  dsimp only
  split_ifs <;> rfl

theorem a9wdog_log (d : Drv) (cmd d0 d1 d2 d3 : Nat) :
    (prcmu_a9wdog d cmd d0 d1 d2 d3).1.log =
      d.log ++ [Event.poll_clear 4, Event.writeb d0 PRCM_REQ_MB4_A9WDOG_0,
        Event.writeb d1 PRCM_REQ_MB4_A9WDOG_1, Event.writeb d2 PRCM_REQ_MB4_A9WDOG_2,
        Event.writeb d3 PRCM_REQ_MB4_A9WDOG_3, Event.writeb cmd PRCM_MBOX_HEADER_REQ_MB4,
        Event.set_pending 4, Event.wait 4] := by
  unfold prcmu_a9wdog
  simp [mb4_wait_log, mbox_set_pending, tcdm_writeb, mbox_poll_clear]

theorem a9wdog_bytes (d : Drv) (cmd d0 d1 d2 d3 : Nat) :
    tcdm_readb (prcmu_a9wdog d cmd d0 d1 d2 d3).1 PRCM_MBOX_HEADER_REQ_MB4 = cmd % 256 ∧
      tcdm_readl (prcmu_a9wdog d cmd d0 d1 d2 d3).1 PRCM_REQ_MB4 =
        d0 % 256 + 256 * (d1 % 256) + 65536 * (d2 % 256) + 16777216 * (d3 % 256) := by
  unfold tcdm_readl tcdm_readb prcmu_a9wdog
  simp only [mb4_wait_tcdm]
  simp +decide [mbox_set_pending, tcdm_writeb, mbox_poll_clear, PRCM_REQ_MB4_A9WDOG_0,
    PRCM_REQ_MB4_A9WDOG_1, PRCM_REQ_MB4_A9WDOG_2, PRCM_REQ_MB4_A9WDOG_3,
    PRCM_MBOX_HEADER_REQ_MB4, PRCM_REQ_MB4, PRCM_MBOX_HEADER]

/-- The four payload bytes of `prcmu_load_a9wdog`, as numbers. -/
theorem load_a9wdog_args (id timeout : Nat) :
    (id &&& A9WDOG_ID_MASK) ||| ((u32 (timeout <<< 4) &&& 0xf0) % 256) =
        id % 16 + 16 * (timeout % 16) ∧
      ((timeout >>> 4) &&& 0xff) % 256 = timeout / 16 % 256 ∧
      ((timeout >>> 12) &&& 0xff) % 256 = timeout / 4096 % 256 ∧
      ((timeout >>> 20) &&& 0xff) % 256 = timeout / 1048576 % 256 := by
  have hff : (0xff : Nat) = 2 ^ 8 - 1 := by decide
  have hf : A9WDOG_ID_MASK = 2 ^ 4 - 1 := by decide
  have hf0 : (0xf0 : Nat) = 2 ^ 4 * (2 ^ 4 - 1) := by decide
  refine ⟨?_, ?_, ?_, ?_⟩
  · rw [hf, Nat.and_pow_two_sub_one_eq_mod, hf0, and_field, Nat.shiftLeft_eq]
    have h1 : u32 (timeout * 2 ^ 4) / 2 ^ 4 % 2 ^ 4 = timeout % 16 := by
      unfold u32
      omega
    rw [h1]
    have h2 : 2 ^ 4 * (timeout % 16) % 256 = 2 ^ 4 * (timeout % 16) := by omega
    rw [h2, Nat.or_comm, ← Nat.mul_add_lt_is_or (Nat.mod_lt _ (by decide))]
    omega
  · rw [hff, Nat.and_pow_two_sub_one_eq_mod, Nat.shiftRight_eq_div_pow]
    omega
  · rw [hff, Nat.and_pow_two_sub_one_eq_mod, Nat.shiftRight_eq_div_pow]
    omega
  · rw [hff, Nat.and_pow_two_sub_one_eq_mod, Nat.shiftRight_eq_div_pow]
    omega

theorem load_a9wdog_word (id timeout : Nat) :
    (id &&& 0xF) ||| ((timeout % 2 ^ 28) <<< 4) = 16 * (timeout % 268435456) + id % 16 := by
  have hf : (0xF : Nat) = 2 ^ 4 - 1 := by decide
  rw [hf, Nat.and_pow_two_sub_one_eq_mod, Nat.shiftLeft_eq, Nat.or_comm, Nat.mul_comm,
    ← Nat.mul_add_lt_is_or (Nat.mod_lt _ (by decide))]
  omega

/-- C25: `prcmu_load_a9wdog(id, timeout)` sends the header
`MB4H_A9WDOG_LOAD` with four payload bytes at `PRCM_REQ_MB4 + 0..3` whose
little-endian value is `(id AND 0xF) OR ((timeout mod 2^28) << 4)`; the low 4
bits of `id` and the low 28 bits of `timeout` are read back from that value;
a call with arguments `id2`, `timeout2` that agree with `id` in the low 4
bits and with `timeout` modulo 2^28 performs the same accesses and leaves
the same payload. -/
theorem load_a9wdog_encoding (d : Drv) (id timeout id2 timeout2 : Nat)
    (hid : id2 &&& 0xF = id &&& 0xF) (ht : timeout2 % 2 ^ 28 = timeout % 2 ^ 28) :
    tcdm_readb (prcmu_load_a9wdog d id timeout).1 PRCM_MBOX_HEADER_REQ_MB4 = MB4H_A9WDOG_LOAD ∧
      tcdm_readl (prcmu_load_a9wdog d id timeout).1 PRCM_REQ_MB4 =
        (id &&& 0xF) ||| ((timeout % 2 ^ 28) <<< 4) ∧
      tcdm_readl (prcmu_load_a9wdog d id timeout).1 PRCM_REQ_MB4 &&& 0xF = id &&& 0xF ∧
      tcdm_readl (prcmu_load_a9wdog d id timeout).1 PRCM_REQ_MB4 >>> 4 = timeout % 2 ^ 28 ∧
      (∃ d0 d1 d2 d3, (prcmu_load_a9wdog d id timeout).1.log =
        d.log ++ [Event.poll_clear 4, Event.writeb d0 PRCM_REQ_MB4_A9WDOG_0,
          Event.writeb d1 PRCM_REQ_MB4_A9WDOG_1, Event.writeb d2 PRCM_REQ_MB4_A9WDOG_2,
          Event.writeb d3 PRCM_REQ_MB4_A9WDOG_3,
          Event.writeb MB4H_A9WDOG_LOAD PRCM_MBOX_HEADER_REQ_MB4,
          Event.set_pending 4, Event.wait 4]) ∧
      (prcmu_load_a9wdog d id2 timeout2).1.log = (prcmu_load_a9wdog d id timeout).1.log ∧
      tcdm_readl (prcmu_load_a9wdog d id2 timeout2).1 PRCM_REQ_MB4 =
        tcdm_readl (prcmu_load_a9wdog d id timeout).1 PRCM_REQ_MB4 := by
  have hf : (0xF : Nat) = 2 ^ 4 - 1 := by decide
  have hid16 : id2 % 16 = id % 16 := by
    rw [hf, Nat.and_pow_two_sub_one_eq_mod, Nat.and_pow_two_sub_one_eq_mod] at hid
    exact hid
  have ht28 : timeout2 % 268435456 = timeout % 268435456 := ht
  have hword : ∀ i t, tcdm_readl (prcmu_load_a9wdog d i t).1 PRCM_REQ_MB4 =
      (i &&& 0xF) ||| ((t % 2 ^ 28) <<< 4) := by
    intro i t
    obtain ⟨a0, a1, a2, a3⟩ := load_a9wdog_args i t
    unfold prcmu_load_a9wdog
    rw [(a9wdog_bytes _ _ _ _ _ _).2, a0, a1, a2, a3, load_a9wdog_word]
    omega
  have hargs : ∀ i t, prcmu_load_a9wdog d i t =
      prcmu_a9wdog d MB4H_A9WDOG_LOAD (i % 16 + 16 * (t % 16)) (t / 16 % 256)
        (t / 4096 % 256) (t / 1048576 % 256) := by
    intro i t
    obtain ⟨a0, a1, a2, a3⟩ := load_a9wdog_args i t
    unfold prcmu_load_a9wdog
    rw [a0, a1, a2, a3]
  have e0 : timeout2 % 16 = timeout % 16 := by omega
  have e1 : timeout2 / 16 % 256 = timeout / 16 % 256 := by omega
  have e2 : timeout2 / 4096 % 256 = timeout / 4096 % 256 := by omega
  have e3 : timeout2 / 1048576 % 256 = timeout / 1048576 % 256 := by omega
  refine ⟨?_, hword id timeout, ?_, ?_, ?_, ?_, ?_⟩
  · unfold prcmu_load_a9wdog
    rw [(a9wdog_bytes _ _ _ _ _ _).1]
    rfl
  · rw [hword, load_a9wdog_word, hf, Nat.and_pow_two_sub_one_eq_mod,
      Nat.and_pow_two_sub_one_eq_mod]
    omega
  · rw [hword, load_a9wdog_word, Nat.shiftRight_eq_div_pow]
    omega
  · rw [hargs]
    exact ⟨_, _, _, _, a9wdog_log _ _ _ _ _ _⟩
  · rw [hargs id2 timeout2, hargs id timeout, hid16, e0, e1, e2, e3]
  · rw [hword, hword, hid, ht]

/-- C25 for the identifier 0x13 and the timeout 0x12345678, against the
identifier 3 and the timeout 0x2345678. -/
theorem load_a9wdog_encoding_witness :
    (0x03 &&& 0xF = 0x13 &&& 0xF ∧ 0x2345678 % 2 ^ 28 = 0x12345678 % 2 ^ 28) ∧
    (tcdm_readb (prcmu_load_a9wdog drv_init 0x13 0x12345678).1 PRCM_MBOX_HEADER_REQ_MB4 =
        MB4H_A9WDOG_LOAD ∧
      tcdm_readl (prcmu_load_a9wdog drv_init 0x13 0x12345678).1 PRCM_REQ_MB4 =
        (0x13 &&& 0xF) ||| ((0x12345678 % 2 ^ 28) <<< 4) ∧
      tcdm_readl (prcmu_load_a9wdog drv_init 0x13 0x12345678).1 PRCM_REQ_MB4 &&& 0xF =
        0x13 &&& 0xF ∧
      tcdm_readl (prcmu_load_a9wdog drv_init 0x13 0x12345678).1 PRCM_REQ_MB4 >>> 4 =
        0x12345678 % 2 ^ 28 ∧
      (∃ d0 d1 d2 d3, (prcmu_load_a9wdog drv_init 0x13 0x12345678).1.log =
        drv_init.log ++ [Event.poll_clear 4, Event.writeb d0 PRCM_REQ_MB4_A9WDOG_0,
          Event.writeb d1 PRCM_REQ_MB4_A9WDOG_1, Event.writeb d2 PRCM_REQ_MB4_A9WDOG_2,
          Event.writeb d3 PRCM_REQ_MB4_A9WDOG_3,
          Event.writeb MB4H_A9WDOG_LOAD PRCM_MBOX_HEADER_REQ_MB4,
          Event.set_pending 4, Event.wait 4]) ∧
      (prcmu_load_a9wdog drv_init 0x03 0x2345678).1.log =
        (prcmu_load_a9wdog drv_init 0x13 0x12345678).1.log ∧
      tcdm_readl (prcmu_load_a9wdog drv_init 0x03 0x2345678).1 PRCM_REQ_MB4 =
        tcdm_readl (prcmu_load_a9wdog drv_init 0x13 0x12345678).1 PRCM_REQ_MB4) :=
  ⟨⟨by decide, by decide⟩,
    load_a9wdog_encoding drv_init 0x13 0x12345678 0x03 0x2345678 (by decide) (by decide)⟩

/-- C26 (failing input): with the target rate 0, `clock_divider` divides by
zero: in every register state `prcmu_round_clock_rate` and
`prcmu_set_clock_rate` have no result for every regulated clock, for the DSI
clocks and for the DSI escape clocks.  With an HDMI clock rate of 0 (divider
field 0 on a PLL) the DSI PLL search divides by zero for the target rate 1. -/
theorem rate_zero_divides_by_zero (s : ClkState) (clock : Fin PRCMU_NUM_REG_CLOCKS) :
    prcmu_round_clock_rate s clock.val 0 = none ∧
    prcmu_set_clock_rate s clock.val 0 = none ∧
    prcmu_round_clock_rate s PRCMU_DSI0CLK 0 = none ∧
    prcmu_set_clock_rate s PRCMU_DSI0CLK 0 = none ∧
    prcmu_round_clock_rate s PRCMU_DSI0ESCCLK 0 = none ∧
    prcmu_set_clock_rate s PRCMU_DSI0ESCCLK 0 = none ∧
    clock_rate (soc0_state 125 6) PRCMU_HDMICLK = 0 ∧
    prcmu_round_clock_rate (soc0_state 125 6) PRCMU_PLLDSI 1 = none ∧
    (prcmu_set_clock_rate (soc0_state 125 6) PRCMU_PLLDSI 1).isNone = true := by
  have hc : clock.val < PRCMU_NUM_REG_CLOCKS := clock.isLt
  have hz : ∀ src, clock_divider src 0 = none := fun src => rfl
  refine ⟨?_, ?_, ?_, ?_, ?_, ?_, by decide, by decide, by decide⟩
  · unfold prcmu_round_clock_rate round_clock_rate
    rw [if_pos hc]
    simp only [hz, Option.none_bind]
  · unfold prcmu_set_clock_rate set_clock_rate
    rw [if_pos hc]
    simp only [hz, Option.none_bind, Option.map_none']
  · unfold prcmu_round_clock_rate round_dsiclk_rate
    simp +decide only [hz, Option.none_bind, if_true, if_false, true_or]
  · unfold prcmu_set_clock_rate set_dsiclk_rate
    simp +decide only [hz, Option.none_bind, if_true, if_false, true_or, Option.map_none']
  · unfold prcmu_round_clock_rate round_dsiescclk_rate
    simp +decide only [hz, Option.none_bind, if_true, if_false, true_or]
  · unfold prcmu_set_clock_rate set_dsiescclk_rate
    simp +decide only [hz, Option.none_bind, if_true, if_false, true_or, Option.map_none']

/-- C29 (counterexample): at the start-up state the counter is 0; an enable
request whose acknowledgment carries another header returns `-EIO`, and the
counter is 1 afterwards. -/
theorem failed_boost_keeps_count :
    drv_init.requests = 0 ∧
    (prcmu_request_ape_opp_100_voltage drv_init true fw_bad).2 = -EIO_errno ∧
    (prcmu_request_ape_opp_100_voltage drv_init true fw_bad).1.requests = 1 ∧
    mb1_headers_sent (prcmu_request_ape_opp_100_voltage drv_init true fw_bad).1.log =
      [MB1H_REQUEST_APE_OPP_100_VOLT] := by
  decide

/-- C29 (amended): the counter is changed before the message is sent and is
not restored when the transaction fails.  An enable at counter 0 sends the
request header and leaves the counter at 1, a release at counter 1 sends the
release header and leaves the counter at 0, whatever the acknowledgment; the
call returns `-EIO` when the header read back differs from the one sent or
bit 0 of `ape_voltage_status` is set, and 0 otherwise. -/
theorem boost_counter_ignores_ack (d : Drv) (enable : Bool) (fw : Mb1Ack)
    (hsend : d.requests = if enable then 0 else 1) :
    (prcmu_request_ape_opp_100_voltage d enable fw).1.requests = (if enable then 1 else 0) ∧
      (prcmu_request_ape_opp_100_voltage d enable fw).1.log =
        d.log ++ [Event.poll_clear 1,
          Event.writeb (if enable then MB1H_REQUEST_APE_OPP_100_VOLT
            else MB1H_RELEASE_APE_OPP_100_VOLT) PRCM_MBOX_HEADER_REQ_MB1,
          Event.set_pending 1, Event.wait 1] ∧
      (prcmu_request_ape_opp_100_voltage d enable fw).2 =
        (if (prcmu_request_ape_opp_100_voltage d enable fw).1.mb1_ack.header ≠
              (if enable then MB1H_REQUEST_APE_OPP_100_VOLT else MB1H_RELEASE_APE_OPP_100_VOLT) ∨
            (prcmu_request_ape_opp_100_voltage d enable fw).1.mb1_ack.ape_voltage_status &&&
              BIT 0 ≠ 0
          then -EIO_errno else 0) := by
  cases enable
  · simp only [Bool.false_eq_true, if_false] at hsend ⊢
    refine ⟨(boost_disable_last d fw hsend).2, (boost_disable_last d fw hsend).1, ?_⟩
    unfold prcmu_request_ape_opp_100_voltage
    simp only [Bool.false_eq_true, if_false, ne_eq, hsend, one_ne_zero, not_true_eq_false]
  · simp only [if_true] at hsend ⊢
    refine ⟨(boost_enable_first d fw hsend).2, (boost_enable_first d fw hsend).1, ?_⟩
    unfold prcmu_request_ape_opp_100_voltage
    simp only [if_true, ne_eq, hsend, not_true_eq_false, if_false]

/-- C29 (amended) at the start-up state, for an enable whose acknowledgment
carries another header. -/
theorem boost_counter_ignores_ack_witness :
    drv_init.requests = (if true then 0 else 1) ∧
    ((prcmu_request_ape_opp_100_voltage drv_init true fw_bad).1.requests =
        (if true then 1 else 0) ∧
      (prcmu_request_ape_opp_100_voltage drv_init true fw_bad).1.log =
        drv_init.log ++ [Event.poll_clear 1,
          Event.writeb (if true then MB1H_REQUEST_APE_OPP_100_VOLT
            else MB1H_RELEASE_APE_OPP_100_VOLT) PRCM_MBOX_HEADER_REQ_MB1,
          Event.set_pending 1, Event.wait 1] ∧
      (prcmu_request_ape_opp_100_voltage drv_init true fw_bad).2 =
        (if (prcmu_request_ape_opp_100_voltage drv_init true fw_bad).1.mb1_ack.header ≠
              (if true then MB1H_REQUEST_APE_OPP_100_VOLT else MB1H_RELEASE_APE_OPP_100_VOLT) ∨
            (prcmu_request_ape_opp_100_voltage drv_init true fw_bad).1.mb1_ack.ape_voltage_status
              &&& BIT 0 ≠ 0
          then -EIO_errno else 0)) :=
  ⟨by decide, boost_counter_ignores_ack drv_init true fw_bad (by decide)⟩

/-- C30 (failing input): on CLKOUT0, from the unconfigured output.  A request
for source 0 with divider 1 followed by a request for source 3 with divider 2
returns 0 and then `-EBUSY`, and `PRCM_CLKOCR` keeps the value 1: a configured
output is protected against the second requester.  Two requests for source 0
with divider 1 followed by one release all return 0; the request count is then
1, yet the divider field of the output is 0 and `PRCM_CLKOCR` is 0.  The
request for source 3 with divider 2 made next returns 0 and leaves `0xC2` in
`PRCM_CLKOCR` with a count of 2: the configuration of the requester that has
not released is gone. -/
theorem clkout_release_zeroes_divider :
    (clkout_calls 0 clkout_init [(0, 1), (3, 2)]).map
        (fun r => (r.1.requests 0, r.1.clkocr, r.2)) = some (1, 1, [0, -EBUSY]) ∧
      (clkout_calls 0 clkout_init [(0, 1), (0, 1), (0, 0)]).map
        (fun r => (r.1.requests 0, clkout_div_field 0 r.1.clkocr, r.1.clkocr, r.2)) =
        some (1, 0, 0, [0, 0, 0]) ∧
      (clkout_calls 0 clkout_init [(0, 1), (0, 1), (0, 0), (3, 2)]).map
        (fun r => (r.1.requests 0, r.1.clkocr, r.2)) = some (2, 0xC2, [0, 0, 0, 0]) := by
  decide

theorem clkout_written (val B mask dm : Nat) (hval : val < 4294967296) (hB : B < 4294967296)
    (hdm : not32 mask &&& dm = 0) (hmm : mask ||| not32 mask = 4294967295) :
    u32 (u32 (B ||| (val &&& not32 mask))) &&& dm = B &&& dm ∧
      (val &&& mask = B → u32 (B ||| (val &&& not32 mask)) = val) := by
  have hlt : B ||| (val &&& not32 mask) < 4294967296 :=
    or_lt_u32 _ _ hB (and_lt_u32 _ _ hval)
  rw [u32_of_lt hlt, u32_of_lt hlt]
  constructor
  · rw [Nat.and_distrib_right, Nat.and_assoc, hdm, Nat.and_zero, Nat.or_zero]
  · intro h
    rw [← h, ← Nat.and_or_distrib_left, hmm, and_u32_max val hval]

theorem clkout_bits_field0 (source div : Nat) (hdiv : div ≤ 63) :
    (u32 ((source <<< PRCM_CLKOCR_CLKOSEL0_SHIFT) ||| (div <<< PRCM_CLKOCR_CLKODIV0_SHIFT)) &&&
        (PRCM_CLKOCR_CLKODIV0_MASK ||| PRCM_CLKOCR_CLKOSEL0_MASK)) &&&
      PRCM_CLKOCR_CLKODIV0_MASK = div <<< PRCM_CLKOCR_CLKODIV0_SHIFT := by
  have hm : (PRCM_CLKOCR_CLKODIV0_MASK ||| PRCM_CLKOCR_CLKOSEL0_MASK) &&&
      PRCM_CLKOCR_CLKODIV0_MASK = 2 ^ 6 - 1 := by decide
  have hs : PRCM_CLKOCR_CLKOSEL0_SHIFT = 6 := rfl
  have hd : PRCM_CLKOCR_CLKODIV0_SHIFT = 0 := rfl
  rw [Nat.and_assoc, hm, Nat.and_pow_two_sub_one_eq_mod, hs, hd, Nat.shiftLeft_eq,
    Nat.shiftLeft_eq, Nat.mul_comm source, ← Nat.mul_add_lt_is_or (by omega)]
  unfold u32
  omega

theorem clkout_bits_field1 (source div : Nat) (hdiv : div ≤ 63) :
    (u32 ((source <<< PRCM_CLKOCR_CLKOSEL1_SHIFT) ||| (div <<< PRCM_CLKOCR_CLKODIV1_SHIFT)) &&&
        (PRCM_CLKOCR_CLKODIV1_MASK ||| PRCM_CLKOCR_CLKOSEL1_MASK ||| PRCM_CLKOCR_CLK1TYPE)) &&&
      PRCM_CLKOCR_CLKODIV1_MASK = div <<< PRCM_CLKOCR_CLKODIV1_SHIFT := by
  have hm : (PRCM_CLKOCR_CLKODIV1_MASK ||| PRCM_CLKOCR_CLKOSEL1_MASK ||| PRCM_CLKOCR_CLK1TYPE) &&&
      PRCM_CLKOCR_CLKODIV1_MASK = 2 ^ 16 * (2 ^ 6 - 1) := by decide
  have hs : PRCM_CLKOCR_CLKOSEL1_SHIFT = 22 := rfl
  have hd : PRCM_CLKOCR_CLKODIV1_SHIFT = 16 := rfl
  rw [Nat.and_assoc, hm, and_field, hs, hd, Nat.shiftLeft_eq, Nat.shiftLeft_eq,
    Nat.mul_comm source, ← Nat.mul_add_lt_is_or (by omega)]
  unfold u32
  omega

theorem errno_facts : (0 : Int) ≠ -EINVAL ∧ (0 : Int) ≠ -EBUSY ∧ -EINVAL ≠ -EBUSY := by
  unfold EINVAL EBUSY
  omega

/-- The part of `prcmu_config_clkout` under the lock, for an output with the
divider mask `dm`, the field mask `mask` and the requested bits `B`: which
value is returned in which case, and what a successful call leaves. -/
theorem clkout_tail (s : ClkoutState) (k div dm mask B : Nat) (hB : B < 4294967296)
    (hdm : not32 mask &&& dm = 0) (hmm : mask ||| not32 mask = 4294967295) :
    ∃ t r,
      (if u32 s.clkocr &&& dm ≠ 0 then
          if div ≠ 0 then
            if u32 s.clkocr &&& mask ≠ B then some (s, -EBUSY)
            else some (ClkoutState.mk (u32 (B ||| (u32 s.clkocr &&& not32 mask)))
              (fun j => if j = k then s32 (s.requests j + (if div ≠ 0 then 1 else -1))
                else s.requests j), (0 : Int))
          else
            if (u32 s.clkocr &&& mask) &&& not32 dm ≠ B then some (s, -EINVAL)
            else some (ClkoutState.mk (u32 (B ||| (u32 s.clkocr &&& not32 mask)))
              (fun j => if j = k then s32 (s.requests j + (if div ≠ 0 then 1 else -1))
                else s.requests j), (0 : Int))
        else some (ClkoutState.mk (u32 (B ||| (u32 s.clkocr &&& not32 mask)))
              (fun j => if j = k then s32 (s.requests j + (if div ≠ 0 then 1 else -1))
                else s.requests j), (0 : Int))) = some (t, r) ∧
        (r = 0 ∨ r = -EINVAL ∨ r = -EBUSY) ∧
        (r ≠ 0 → t = s) ∧
        (r = 0 → t.clkocr = B ||| (u32 s.clkocr &&& not32 mask) ∧
          u32 t.clkocr &&& dm = B &&& dm ∧
          t.requests k = s32 (s.requests k + (if div ≠ 0 then 1 else -1))) ∧
        (r = -EBUSY ↔ div ≠ 0 ∧ u32 s.clkocr &&& dm ≠ 0 ∧ u32 s.clkocr &&& mask ≠ B) ∧
        (r = -EINVAL ↔
          div = 0 ∧ u32 s.clkocr &&& dm ≠ 0 ∧ (u32 s.clkocr &&& mask) &&& not32 dm ≠ B) ∧
        (r = 0 → div ≠ 0 → u32 s.clkocr &&& dm ≠ 0 → t.clkocr = u32 s.clkocr) := by
  obtain ⟨e1, e2, e3⟩ := errno_facts
  obtain ⟨w1, w2⟩ := clkout_written (u32 s.clkocr) B mask dm (u32_lt _) hB hdm hmm
  have hlt : B ||| (u32 s.clkocr &&& not32 mask) < 4294967296 :=
    or_lt_u32 _ _ hB (and_lt_u32 _ _ (u32_lt _))
  by_cases hf : u32 s.clkocr &&& dm ≠ 0
  · rw [if_pos hf]
    by_cases hd : div ≠ 0
    · rw [if_pos hd]
      by_cases hc : u32 s.clkocr &&& mask ≠ B
      · rw [if_pos hc]
        refine ⟨s, -EBUSY, rfl, Or.inr (Or.inr rfl), fun _ => rfl, fun h => absurd h.symm e2,
          ⟨fun _ => ⟨hd, hf, hc⟩, fun _ => rfl⟩,
          ⟨fun h => absurd h.symm e3, fun h => absurd h.1 hd⟩, fun h => absurd h.symm e2⟩
      · rw [if_neg hc]
        refine ⟨_, 0, rfl, Or.inl rfl, fun h => absurd rfl h,
          fun _ => ⟨u32_of_lt hlt, w1, ?_⟩,
          ⟨fun h => absurd h e2, fun h => absurd h.2.2 hc⟩,
          ⟨fun h => absurd h e1, fun h => absurd h.1 hd⟩,
          fun _ _ _ => w2 (not_not.mp hc)⟩
        simp only [if_true]
    · rw [if_neg hd]
      by_cases hc : (u32 s.clkocr &&& mask) &&& not32 dm ≠ B
      · rw [if_pos hc]
        refine ⟨s, -EINVAL, rfl, Or.inr (Or.inl rfl), fun _ => rfl, fun h => absurd h.symm e1,
          ⟨fun h => absurd h e3, fun h => absurd h.1 hd⟩,
          ⟨fun _ => ⟨not_not.mp hd, hf, hc⟩, fun _ => rfl⟩, fun h => absurd h.symm e1⟩
      · rw [if_neg hc]
        refine ⟨_, 0, rfl, Or.inl rfl, fun h => absurd rfl h,
          fun _ => ⟨u32_of_lt hlt, w1, ?_⟩,
          ⟨fun h => absurd h e2, fun h => absurd h.1 hd⟩,
          ⟨fun h => absurd h e1, fun h => absurd h.2.2 hc⟩,
          fun _ h _ => absurd h hd⟩
        simp only [if_true]
  · rw [if_neg hf]
    refine ⟨_, 0, rfl, Or.inl rfl, fun h => absurd rfl h,
      fun _ => ⟨u32_of_lt hlt, w1, ?_⟩,
      ⟨fun h => absurd h e2, fun h => absurd h.2.1 hf⟩,
      ⟨fun h => absurd h e1, fun h => absurd h.2.1 hf⟩,
      fun _ _ h => absurd h hf⟩
    simp only [if_true]

/-- One call of `prcmu_config_clkout` with arguments that pass the `BUG_ON`
tests: the value returned in each case and the state left.  `-EBUSY` is
returned exactly to a request (`div` not 0) on an output whose divider field
is not zero and whose source, type and divider bits differ from the requested
ones; `-EINVAL` exactly to a release at count 0 or a release that names
another source than the configured one; every other call returns 0, writes
the requested bits over the fields of the output and moves the count by
one. -/
theorem config_clkout_call (s : ClkoutState) (clkout source div : Nat) (hk : clkout ≤ 1)
    (hdiv : div ≤ 63) (hsrc : clkout = 0 → source ≤ PRCMU_CLKSRC_CLK009) :
    ∃ t r, prcmu_config_clkout s clkout source div = some (t, r) ∧
      (r = 0 ∨ r = -EINVAL ∨ r = -EBUSY) ∧
      (r ≠ 0 → t = s) ∧
      (r = 0 →
        t.clkocr =
            clkout_bits clkout source div ||| (u32 s.clkocr &&& not32 (clkout_mask clkout)) ∧
          clkout_div_field clkout t.clkocr =
            div <<< (if clkout = 0 then PRCM_CLKOCR_CLKODIV0_SHIFT
              else PRCM_CLKOCR_CLKODIV1_SHIFT) ∧
          t.requests clkout = s32 (s.requests clkout + (if div ≠ 0 then 1 else -1)) ∧
          (div = 0 → s.requests clkout ≠ 0)) ∧
      (r = -EBUSY ↔
        div ≠ 0 ∧ clkout_div_field clkout s.clkocr ≠ 0 ∧
          u32 s.clkocr &&& clkout_mask clkout ≠ clkout_bits clkout source div) ∧
      (r = -EINVAL ↔
        div = 0 ∧ (s.requests clkout = 0 ∨
          (clkout_div_field clkout s.clkocr ≠ 0 ∧
            (u32 s.clkocr &&& clkout_mask clkout) &&& not32 (clkout_div_mask clkout) ≠
              clkout_bits clkout source div))) ∧
      (r = 0 → div ≠ 0 → clkout_div_field clkout s.clkocr ≠ 0 → t.clkocr = u32 s.clkocr) := by
  obtain ⟨e1, e2, e3⟩ := errno_facts
  have hbug : ¬ (clkout > 1 ∨ div > 63 ∨ (clkout = 0 ∧ source > PRCMU_CLKSRC_CLK009)) := by
    rintro (h | h | ⟨h1, h2⟩)
    · omega
    · omega
    · have := hsrc h1
      omega
  unfold prcmu_config_clkout
  rw [if_neg hbug]
  by_cases h0 : div = 0 ∧ s.requests clkout = 0
  · rw [if_pos h0]
    exact ⟨s, -EINVAL, rfl, Or.inr (Or.inl rfl), fun _ => rfl, fun h => absurd h.symm e1,
      ⟨fun h => absurd h e3, fun h => absurd h0.1 h.1⟩,
      ⟨fun _ => ⟨h0.1, Or.inl h0.2⟩, fun _ => rfl⟩, fun h => absurd h.symm e1⟩
  · rw [if_neg h0]
    have hk01 : clkout = 0 ∨ clkout = 1 := by omega
    rcases hk01 with hk0 | hk1
    · subst hk0
      simp only [if_true]
      obtain ⟨t, r, h1, h2, h3, h4, h5, h6, h7⟩ := clkout_tail s 0 div PRCM_CLKOCR_CLKODIV0_MASK
        (PRCM_CLKOCR_CLKODIV0_MASK ||| PRCM_CLKOCR_CLKOSEL0_MASK)
        (u32 ((source <<< PRCM_CLKOCR_CLKOSEL0_SHIFT) ||| (div <<< PRCM_CLKOCR_CLKODIV0_SHIFT)) &&&
          (PRCM_CLKOCR_CLKODIV0_MASK ||| PRCM_CLKOCR_CLKOSEL0_MASK))
        (and_lt_u32 _ _ (u32_lt _)) (by decide) (by decide)
      refine ⟨t, r, h1, h2, h3, ?_, h5, ?_, h7⟩
      · intro hr
        obtain ⟨a, b, c⟩ := h4 hr
        refine ⟨a, ?_, c, fun hd hc => h0 ⟨hd, hc⟩⟩
        unfold clkout_div_field
        simp only [if_true]
        rw [b]
        exact clkout_bits_field0 source div hdiv
      · constructor
        · intro hr
          obtain ⟨a, b, c⟩ := h6.mp hr
          exact ⟨a, Or.inr ⟨b, c⟩⟩
        · rintro ⟨a, b | ⟨b, c⟩⟩
          · exact absurd ⟨a, b⟩ h0
          · exact h6.mpr ⟨a, b, c⟩
    · subst hk1
      simp only [one_ne_zero, if_false]
      obtain ⟨t, r, h1, h2, h3, h4, h5, h6, h7⟩ := clkout_tail s 1 div PRCM_CLKOCR_CLKODIV1_MASK
        (PRCM_CLKOCR_CLKODIV1_MASK ||| PRCM_CLKOCR_CLKOSEL1_MASK ||| PRCM_CLKOCR_CLK1TYPE)
        (u32 ((source <<< PRCM_CLKOCR_CLKOSEL1_SHIFT) ||| (div <<< PRCM_CLKOCR_CLKODIV1_SHIFT)) &&&
          (PRCM_CLKOCR_CLKODIV1_MASK ||| PRCM_CLKOCR_CLKOSEL1_MASK ||| PRCM_CLKOCR_CLK1TYPE))
        (and_lt_u32 _ _ (u32_lt _)) (by decide) (by decide)
      refine ⟨t, r, h1, h2, h3, ?_, h5, ?_, h7⟩
      · intro hr
        obtain ⟨a, b, c⟩ := h4 hr
        refine ⟨a, ?_, c, fun hd hc => h0 ⟨hd, hc⟩⟩
        unfold clkout_div_field
        simp only [one_ne_zero, if_false]
        rw [b]
        exact clkout_bits_field1 source div hdiv
      · constructor
        · intro hr
          obtain ⟨a, b, c⟩ := h6.mp hr
          exact ⟨a, Or.inr ⟨b, c⟩⟩
        · rintro ⟨a, b | ⟨b, c⟩⟩
          · exact absurd ⟨a, b⟩ h0
          · exact h6.mpr ⟨a, b, c⟩

theorem s32_of_range (x : Int) (h1 : -2147483648 ≤ x) (h2 : x < 2147483648) : s32 x = x := by
  unfold s32
  omega

theorem clkout_calls_count (clkout : Nat) (hk : clkout ≤ 1) (calls : List (Nat × Nat)) :
    ∀ (s : ClkoutState), 0 ≤ s.requests clkout →
      s.requests clkout + calls.length < 2147483648 →
      (∀ c ∈ calls, c.2 ≤ 63 ∧ (clkout = 0 → c.1 ≤ PRCMU_CLKSRC_CLK009)) →
      ∃ t rs, clkout_calls clkout s calls = some (t, rs) ∧ 0 ≤ t.requests clkout ∧
        t.requests clkout ≤ s.requests clkout + calls.length := by
  induction calls with
  | nil =>
    intro s h0 _ _
    exact ⟨s, [], rfl, h0, by simp⟩
  | cons c rest ih =>
    intro s h0 hlen hvalid
    obtain ⟨source, div⟩ := c
    have hv := hvalid (source, div) (List.mem_cons_self _ _)
    obtain ⟨t, r, h1, -, h3, h5, -, -, -⟩ := config_clkout_call s clkout source div hk hv.1 hv.2
    have hl : ((rest.length + 1 : Nat) : Int) = (rest.length : Int) + 1 := by omega
    rw [List.length_cons, hl] at hlen
    have ht : 0 ≤ t.requests clkout ∧ t.requests clkout ≤ s.requests clkout + 1 := by
      by_cases hr : r = 0
      · obtain ⟨-, -, b, c⟩ := h5 hr
        rw [b]
        by_cases hd : div = 0
        · have hc := c hd
          simp only [hd, ne_eq, not_true_eq_false, if_false]
          rw [s32_of_range _ (by omega) (by omega)]
          omega
        · simp only [hd, ne_eq, not_false_eq_true, if_true]
          rw [s32_of_range _ (by omega) (by omega)]
          omega
      · rw [h3 hr]
        omega
    obtain ⟨u, rs, i1, i2, i3⟩ := ih t ht.1 (by omega)
      (fun c hc => hvalid c (List.mem_cons_of_mem _ hc))
    refine ⟨u, r :: rs, ?_, i2, ?_⟩
    · show (prcmu_config_clkout s clkout source div).bind _ = _
      rw [h1]
      show (clkout_calls clkout t rest).map _ = _
      rw [i1]
      rfl
    · rw [List.length_cons, hl]
      omega

/-- What `prcmu_config_clkout` does keep: on one output, from a request count
of 0, any sequence of fewer than 2^31 - 1 calls whose arguments pass the
`BUG_ON` tests returns, and the count stays between 0 and the number of calls.
For every further call: it returns 0, `-EINVAL` or `-EBUSY`; a call that fails
changes neither `PRCM_CLKOCR` nor the counts; `-EBUSY` is returned exactly to
a request on an output whose divider field is not zero and whose source, type
and divider bits differ from the requested ones; `-EINVAL` exactly to a
release at count 0 or a release that names another source than the configured
one; a successful call writes the requested source and divider over the
fields of the output, keeps the other bits and moves the count by one, and a
successful request on a configured output leaves the register as it is. -/
theorem clkout_counting (clkout : Nat) (hk : clkout ≤ 1) (s0 : ClkoutState)
    (h0 : s0.requests clkout = 0) (calls : List (Nat × Nat))
    (hvalid : ∀ c ∈ calls, c.2 ≤ 63 ∧ (clkout = 0 → c.1 ≤ PRCMU_CLKSRC_CLK009))
    (hlen : calls.length < 2147483647) (source div : Nat) (hdiv : div ≤ 63)
    (hsrc : clkout = 0 → source ≤ PRCMU_CLKSRC_CLK009) :
    ∃ s rs, clkout_calls clkout s0 calls = some (s, rs) ∧
      0 ≤ s.requests clkout ∧ s.requests clkout ≤ calls.length ∧
      ∃ t r, prcmu_config_clkout s clkout source div = some (t, r) ∧
        (r = 0 ∨ r = -EINVAL ∨ r = -EBUSY) ∧
        (r ≠ 0 → t = s) ∧
        (r = 0 →
          t.clkocr =
              clkout_bits clkout source div ||| (u32 s.clkocr &&& not32 (clkout_mask clkout)) ∧
            clkout_div_field clkout t.clkocr =
              div <<< (if clkout = 0 then PRCM_CLKOCR_CLKODIV0_SHIFT
                else PRCM_CLKOCR_CLKODIV1_SHIFT) ∧
            t.requests clkout = s.requests clkout + (if div ≠ 0 then 1 else -1) ∧
            0 ≤ t.requests clkout) ∧
        (r = -EBUSY ↔
          div ≠ 0 ∧ clkout_div_field clkout s.clkocr ≠ 0 ∧
            u32 s.clkocr &&& clkout_mask clkout ≠ clkout_bits clkout source div) ∧
        (r = -EINVAL ↔
          div = 0 ∧ (s.requests clkout = 0 ∨
            (clkout_div_field clkout s.clkocr ≠ 0 ∧
              (u32 s.clkocr &&& clkout_mask clkout) &&& not32 (clkout_div_mask clkout) ≠
                clkout_bits clkout source div))) ∧
        (r = 0 → div ≠ 0 → clkout_div_field clkout s.clkocr ≠ 0 →
          t.clkocr = u32 s.clkocr) := by
  obtain ⟨s, rs, i1, i2, i3⟩ := clkout_calls_count clkout hk calls s0 (by rw [h0])
    (by rw [h0]; omega) hvalid
  rw [h0, Int.zero_add] at i3
  obtain ⟨t, r, h1, h2, h3, h4, h5, h6, h7⟩ := config_clkout_call s clkout source div hk hdiv hsrc
  refine ⟨s, rs, i1, i2, i3, t, r, h1, h2, h3, ?_, h5, h6, h7⟩
  intro hr
  obtain ⟨a0, a, b, c⟩ := h4 hr
  have hb : t.requests clkout = s.requests clkout + (if div ≠ 0 then 1 else -1) := by
    rw [b]
    by_cases hd : div = 0
    · have hc := c hd
      simp only [hd, ne_eq, not_true_eq_false, if_false]
      exact s32_of_range _ (by omega) (by omega)
    · simp only [hd, ne_eq, not_false_eq_true, if_true]
      exact s32_of_range _ (by omega) (by omega)
  refine ⟨a0, a, hb, ?_⟩
  rw [hb]
  by_cases hd : div = 0
  · have hc := c hd
    simp only [hd, ne_eq, not_true_eq_false, if_false]
    omega
  · simp only [hd, ne_eq, not_false_eq_true, if_true]
    omega

/-- The statement above on CLKOUT0 after one request for source 0 with
divider 1, for a further request that names source 3 and divider 2. -/
theorem clkout_counting_witness :
    (0 ≤ 1 ∧ clkout_init.requests 0 = 0 ∧
      (∀ c ∈ [((0 : Nat), (1 : Nat))], c.2 ≤ 63 ∧ (0 = 0 → c.1 ≤ PRCMU_CLKSRC_CLK009)) ∧
      [((0 : Nat), (1 : Nat))].length < 2147483647 ∧ 2 ≤ 63 ∧
      (0 = 0 → 3 ≤ PRCMU_CLKSRC_CLK009)) ∧
    ∃ s rs, clkout_calls 0 clkout_init [(0, 1)] = some (s, rs) ∧
      0 ≤ s.requests 0 ∧ s.requests 0 ≤ [((0 : Nat), (1 : Nat))].length ∧
      ∃ t r, prcmu_config_clkout s 0 3 2 = some (t, r) ∧
        (r = 0 ∨ r = -EINVAL ∨ r = -EBUSY) ∧
        (r ≠ 0 → t = s) ∧
        (r = 0 →
          t.clkocr = clkout_bits 0 3 2 ||| (u32 s.clkocr &&& not32 (clkout_mask 0)) ∧
            clkout_div_field 0 t.clkocr =
              2 <<< (if 0 = 0 then PRCM_CLKOCR_CLKODIV0_SHIFT
                else PRCM_CLKOCR_CLKODIV1_SHIFT) ∧
            t.requests 0 = s.requests 0 + (if 2 ≠ 0 then 1 else -1) ∧
            0 ≤ t.requests 0) ∧
        (r = -EBUSY ↔
          2 ≠ 0 ∧ clkout_div_field 0 s.clkocr ≠ 0 ∧
            u32 s.clkocr &&& clkout_mask 0 ≠ clkout_bits 0 3 2) ∧
        (r = -EINVAL ↔
          2 = 0 ∧ (s.requests 0 = 0 ∨
            (clkout_div_field 0 s.clkocr ≠ 0 ∧
              (u32 s.clkocr &&& clkout_mask 0) &&& not32 (clkout_div_mask 0) ≠
                clkout_bits 0 3 2))) ∧
        (r = 0 → 2 ≠ 0 → clkout_div_field 0 s.clkocr ≠ 0 → t.clkocr = u32 s.clkocr) :=
  ⟨⟨by decide, by decide, by decide, by decide, by decide, by decide⟩,
    clkout_counting 0 (by decide) clkout_init (by decide) [(0, 1)] (by decide)
      (by decide) 3 2 (by decide) (by decide)⟩

end Prcmu
